import Mathlib

/-!
# Connection lifecycle and reliability layer of `cross-platform-websocket`

A shallow embedding of `src/core/datalink/datalink.cpp` (the Link) and of
`src/business/websocket_manager.cpp` (the Manager), followed by theorems about
the connection state machine, the reconnect loop, the outbound priority queue, the
send operations of both layers and the heartbeat.

Modelling conventions.

* A `std::string` is a Lean `String`, one Lean character per C++ `char`; `length()`
  is `String.length`.  A `std::vector<uint8_t>` is a `List Nat` whose entries are
  read modulo 256.
* `uint64_t` counters are natural numbers reduced modulo `2^64` at every update;
  the `int` fields are integers (every increment in the source is guarded by
  `current < max`, so it cannot overflow).
* The platform (`PlatformInterface`) is an oracle: the outcome of the n-th call of
  `websocketConnect`, `websocketSend` and `getCurrentTimestamp` is given by a function
  of n.  Every platform call and every user callback invocation is appended to a
  trace.  Logging has no effect on control flow and is not recorded.
* The `std::function` slots of the Link cannot be stored inside the state they act
  on; they are passed to the Link operations as a `LinkCallbacks` argument.
* The reconnect thread and the heartbeat thread are program counters stored in the
  world; one step of a thread is one block of its code between two points at which
  the other thread may run.  `joinThread` runs the joined thread to its end.
-/

namespace cross_platform_websocket

/-! ## Data model -/

/-- Connection states: `enum class ConnectionState`, datalink.h 15-21. -/
inductive ConnectionState
  | DISCONNECTED
  | CONNECTING
  | CONNECTED
  | RECONNECTING
  | ERROR
  deriving DecidableEq

/-- Message kinds: `enum class MessageType`, datalink.h 26-32. -/
inductive MessageType
  | TEXT
  | BINARY
  | PING
  | PONG
  | CLOSE
  deriving DecidableEq

/-- The received-message record `struct WebSocketMessage`, datalink.h 37-44. -/
structure WebSocketMessage where
  type : MessageType
  data : String
  timestamp : Nat
  deriving DecidableEq

/-- Message priorities: `enum class MessagePriority`, websocket_manager.h 18-23. -/
inductive MessagePriority
  | LOW
  | NORMAL
  | HIGH
  | URGENT
  deriving DecidableEq

/-- The cast `static_cast<int>(priority)`. -/
def MessagePriority.toInt : MessagePriority → Int
  | MessagePriority.LOW => 0
  | MessagePriority.NORMAL => 1
  | MessagePriority.HIGH => 2
  | MessagePriority.URGENT => 3

/-- A queue entry: `struct QueuedMessage`, websocket_manager.h 28-41. -/
structure QueuedMessage where
  data : String
  type : MessageType
  priority : MessagePriority
  timestamp : Nat
  deriving DecidableEq

/-- The constructor `QueuedMessage(d, t, p)`: the timestamp starts at 0. -/
def QueuedMessage.new (d : String) (t : MessageType) (p : MessagePriority) : QueuedMessage :=
  { data := d, type := t, priority := p, timestamp := 0 }

/-- The comparison `QueuedMessage::operator<`, websocket_manager.h 38-40. -/
def QueuedMessage.lt (a b : QueuedMessage) : Bool :=
  decide (a.priority.toInt < b.priority.toInt)

/-- The modulus of `uint64_t` arithmetic. -/
def UINT64_MOD : Nat := 18446744073709551616

/-- The conversion `std::string(data.begin(), data.end())` of a byte vector. -/
def stringOfBytes (data : List Nat) : String :=
  String.mk (data.map fun b => Char.ofNat (b % 256))

/-- The conversion `std::vector<uint8_t>(s.begin(), s.end())` of a string. -/
def bytesOfString (s : String) : List Nat :=
  s.data.map fun ch => ch.toNat % 256

/-! ## The platform oracle and the observable trace -/

/-- The two thread entry points handed to `createThread`. -/
inductive ThreadFn
  | reconnectThread
  | heartbeatThread
  deriving DecidableEq

/-- Observable events: calls into `PlatformInterface` and invocations of callbacks
registered by the user. -/
inductive Event
  | websocketConnect (url : String)
  | websocketSend (message : String)
  | websocketClose
  | getCurrentTimestamp
  | sleep (milliseconds : Int)
  | createThread (fn : ThreadFn)
  | joinThread (fn : ThreadFn)
  | linkStateCallback (state : ConnectionState)
  | linkErrorCallback (error : String)
  | linkMessageCallback (message : WebSocketMessage)
  | connectionCallback (state : ConnectionState)
  | errorCallback (error : String)
  | messageCallback (message : WebSocketMessage)
  | sendSuccessCallback (message : String)
  | sendFailureCallback (message : String) (reason : String)
  deriving DecidableEq

/-- Where the reconnect thread stands inside `DataLink::attemptReconnect`:
`entry` before line 256, `slept` after the `sleep` of line 261, `checked` after the
second test of the running flag (line 263). -/
inductive ReconnectPc
  | entry
  | slept
  | checked
  deriving DecidableEq

/-- Where the heartbeat thread stands inside `WebSocketManager::performHeartbeat`:
`loopHead` at the `while` test (line 367), `slept` after the `sleep` of line 368,
`tick` after the test of line 370. -/
inductive HeartbeatPc
  | loopHead
  | slept
  | tick
  deriving DecidableEq

/-- The environment of the program: the platform oracle, the number of calls made so
far, the threads the platform is running and the trace of observable events. -/
structure World where
  connectResult : Nat → Bool
  sendResult : Nat → Bool
  timestamp : Nat → Nat
  connectCalls : Nat
  sendCalls : Nat
  clockCalls : Nat
  reconnectPc : Option ReconnectPc
  heartbeatPc : Option HeartbeatPc
  trace : List Event

/-- Append one event to the trace. -/
def World.emit (e : Event) (w : World) : World :=
  { w with trace := w.trace ++ [e] }

/-- The value the next `websocketConnect` call returns. -/
def World.websocketConnectResult (w : World) : Bool :=
  w.connectResult w.connectCalls

/-- The effect of one `websocketConnect(url)` call. -/
def World.websocketConnect (url : String) (w : World) : World :=
  { w with connectCalls := w.connectCalls + 1, trace := w.trace ++ [Event.websocketConnect url] }

/-- The value the next `websocketSend` call returns. -/
def World.websocketSendResult (w : World) : Bool :=
  w.sendResult w.sendCalls

/-- The effect of one `websocketSend(message)` call. -/
def World.websocketSend (message : String) (w : World) : World :=
  { w with sendCalls := w.sendCalls + 1, trace := w.trace ++ [Event.websocketSend message] }

/-- The effect of `websocketClose()`. -/
def World.websocketClose (w : World) : World :=
  w.emit Event.websocketClose

/-- The value the next `getCurrentTimestamp` call returns. -/
def World.currentTimestamp (w : World) : Nat :=
  w.timestamp w.clockCalls

/-- The effect of one `getCurrentTimestamp()` call. -/
def World.getCurrentTimestamp (w : World) : World :=
  { w with clockCalls := w.clockCalls + 1, trace := w.trace ++ [Event.getCurrentTimestamp] }

/-- The effect of `sleep(milliseconds)`. -/
def World.sleep (milliseconds : Int) (w : World) : World :=
  w.emit (Event.sleep milliseconds)

/-- A world in which nothing has happened yet. -/
def World.start (connectResult sendResult : Nat → Bool) (timestamp : Nat → Nat) : World :=
  { connectResult := connectResult, sendResult := sendResult, timestamp := timestamp,
    connectCalls := 0, sendCalls := 0, clockCalls := 0,
    reconnectPc := none, heartbeatPc := none, trace := [] }

/-! ## The Link: `class DataLink` -/

/-- The data members of `DataLink` (datalink.h 158-198).  The thread handle is kept as
the flag "not null". -/
structure DataLink where
  server_url_ : String
  connection_state_ : ConnectionState
  auto_reconnect_enabled_ : Bool
  max_reconnect_attempts_ : Int
  reconnect_interval_ms_ : Int
  current_reconnect_attempts_ : Int
  messages_sent_ : Nat
  messages_received_ : Nat
  bytes_sent_ : Nat
  bytes_received_ : Nat
  connection_start_time_ : Nat
  reconnect_thread_ : Bool
  reconnect_thread_running_ : Bool
  deriving DecidableEq

/-- The constructor `DataLink::DataLink`, datalink.cpp 7-25. -/
def DataLink.new : DataLink :=
  { server_url_ := "",
    connection_state_ := ConnectionState.DISCONNECTED,
    auto_reconnect_enabled_ := false,
    max_reconnect_attempts_ := 5,
    reconnect_interval_ms_ := 1000,
    current_reconnect_attempts_ := 0,
    messages_sent_ := 0,
    messages_received_ := 0,
    bytes_sent_ := 0,
    bytes_received_ := 0,
    connection_start_time_ := 0,
    reconnect_thread_ := false,
    reconnect_thread_running_ := false }

/-- A Link together with its environment and with the state of the object that owns
it (`Unit` for a Link used alone, the Manager fields for a Link inside a Manager). -/
structure Ctx (M : Type) where
  link : DataLink
  world : World
  owner : M

/-- The contents of the three `std::function` slots of a Link; `none` is an empty
slot. -/
structure LinkCallbacks (M : Type) where
  connection_callback_ : Option (ConnectionState → Ctx M → Ctx M)
  message_callback_ : Option (WebSocketMessage → Ctx M → Ctx M)
  error_callback_ : Option (String → Ctx M → Ctx M)

/-- User callbacks registered directly on a Link: each invocation is recorded in the
trace and changes nothing else. -/
def LinkCallbacks.observer (M : Type) : LinkCallbacks M :=
  { connection_callback_ := some fun state c => { c with world := c.world.emit (Event.linkStateCallback state) },
    message_callback_ := some fun m c => { c with world := c.world.emit (Event.linkMessageCallback m) },
    error_callback_ := some fun e c => { c with world := c.world.emit (Event.linkErrorCallback e) } }

/-- A Link with no callback registered. -/
def LinkCallbacks.unset (M : Type) : LinkCallbacks M :=
  { connection_callback_ := none, message_callback_ := none, error_callback_ := none }

namespace DataLink

variable {M : Type}

/-- The query `DataLink::isConnected`, datalink.cpp 131-133. -/
def isConnected (c : Ctx M) : Bool :=
  decide (c.link.connection_state_ = ConnectionState.CONNECTED)

/-- The query `DataLink::getConnectionState`, datalink.cpp 127-129. -/
def getConnectionState (c : Ctx M) : ConnectionState :=
  c.link.connection_state_

/-- The method `DataLink::updateConnectionState`, datalink.cpp 189-198. -/
def updateConnectionState (cb : LinkCallbacks M) (new_state : ConnectionState) (c : Ctx M) : Ctx M :=
  if c.link.connection_state_ ≠ new_state then
    let c1 : Ctx M := { c with link := { c.link with connection_state_ := new_state } }
    match cb.connection_callback_ with
    | some f => f new_state c1
    | none => c1
  else c

/-- The method `DataLink::handleConnectionSuccess`, datalink.cpp 200-205. -/
def handleConnectionSuccess (cb : LinkCallbacks M) (c : Ctx M) : Ctx M :=
  let c1 : Ctx M :=
    { c with
      world := c.world.getCurrentTimestamp,
      link := { c.link with
        connection_start_time_ := c.world.currentTimestamp,
        current_reconnect_attempts_ := 0 } }
  updateConnectionState cb ConnectionState.CONNECTED c1

/-- The method `DataLink::handleMessageReceived`, datalink.cpp 221-230. -/
def handleMessageReceived (cb : LinkCallbacks M) (message : WebSocketMessage) (c : Ctx M) : Ctx M :=
  let c1 : Ctx M :=
    { c with link := { c.link with
        messages_received_ := (c.link.messages_received_ + 1) % UINT64_MOD,
        bytes_received_ := (c.link.bytes_received_ + message.data.length) % UINT64_MOD } }
  match cb.message_callback_ with
  | some f => f message c1
  | none => c1

/-- One step of the reconnect thread, which runs `DataLink::attemptReconnect`
(datalink.cpp 255-283, started by `reconnectThread`, 285-288).  The recursive call of
line 280 is the jump back to `entry`; returning from the outermost call ends the
thread. -/
def attemptReconnectStep (cb : LinkCallbacks M) (c : Ctx M) : Ctx M :=
  match c.world.reconnectPc with
  | none => c
  | some ReconnectPc.entry =>
    if c.link.reconnect_thread_running_ = false then
      { c with world := { c.world with reconnectPc := none } }
    else
      { c with world := { c.world.sleep c.link.reconnect_interval_ms_ with
                          reconnectPc := some ReconnectPc.slept } }
  | some ReconnectPc.slept =>
    if c.link.reconnect_thread_running_ = false then
      { c with world := { c.world with reconnectPc := none } }
    else
      { c with world := { c.world with reconnectPc := some ReconnectPc.checked } }
  | some ReconnectPc.checked =>
    let c1 : Ctx M := { c with world := c.world.websocketConnect c.link.server_url_ }
    if c.world.websocketConnectResult then
      let c2 := handleConnectionSuccess cb c1
      { c2 with
        link := { c2.link with reconnect_thread_running_ := false },
        world := { c2.world with reconnectPc := none } }
    else if c1.link.current_reconnect_attempts_ ≥ c1.link.max_reconnect_attempts_ then
      let c2 : Ctx M := { c1 with link := { c1.link with reconnect_thread_running_ := false } }
      let c3 := updateConnectionState cb ConnectionState.ERROR c2
      { c3 with world := { c3.world with reconnectPc := none } }
    else
      { c1 with
        link := { c1.link with
          current_reconnect_attempts_ := c1.link.current_reconnect_attempts_ + 1 },
        world := { c1.world with reconnectPc := some ReconnectPc.entry } }

/-- The reconnect thread run for `fuel` steps; a thread that has ended stays ended. -/
def attemptReconnect (cb : LinkCallbacks M) : Nat → Ctx M → Ctx M
  | 0, c => c
  | fuel + 1, c => attemptReconnect cb fuel (attemptReconnectStep cb c)

/-- The method `DataLink::startReconnectTimer`, datalink.cpp 232-245.  `createThread`
starts a thread at the entry of `attemptReconnect` and returns its handle. -/
def startReconnectTimer (cb : LinkCallbacks M) (c : Ctx M) : Ctx M :=
  if c.link.reconnect_thread_running_ then c
  else
    let c1 : Ctx M :=
      { c with link := { c.link with
          current_reconnect_attempts_ := c.link.current_reconnect_attempts_ + 1 } }
    let c2 := updateConnectionState cb ConnectionState.RECONNECTING c1
    { c2 with
      link := { c2.link with reconnect_thread_running_ := true, reconnect_thread_ := true },
      world := { c2.world.emit (Event.createThread ThreadFn.reconnectThread) with
                 reconnectPc := some ReconnectPc.entry } }

/-- The method `DataLink::stopReconnectTimer`, datalink.cpp 247-253.  `joinThread`
returns when the thread function has returned: with the running flag cleared the
thread ends within two of its steps (`stopReconnectTimer_reconnectPc`). -/
def stopReconnectTimer (cb : LinkCallbacks M) (c : Ctx M) : Ctx M :=
  let c1 : Ctx M := { c with link := { c.link with reconnect_thread_running_ := false } }
  if c1.link.reconnect_thread_ then
    let c2 : Ctx M := { c1 with world := c1.world.emit (Event.joinThread ThreadFn.reconnectThread) }
    let c3 := attemptReconnect cb 2 c2
    { c3 with link := { c3.link with reconnect_thread_ := false } }
  else c1

/-- The method `DataLink::handleConnectionError`, datalink.cpp 207-219. -/
def handleConnectionError (cb : LinkCallbacks M) (error : String) (c : Ctx M) : Ctx M :=
  let c1 := updateConnectionState cb ConnectionState.ERROR c
  let c2 :=
    match cb.error_callback_ with
    | some f => f error c1
    | none => c1
  if c2.link.auto_reconnect_enabled_ ∧
      c2.link.current_reconnect_attempts_ < c2.link.max_reconnect_attempts_ then
    startReconnectTimer cb c2
  else c2

/-- The method `DataLink::connect`, datalink.cpp 32-56. -/
def connect (cb : LinkCallbacks M) (url : String) (c : Ctx M) : Bool × Ctx M :=
  if c.link.connection_state_ = ConnectionState.CONNECTED then (true, c)
  else if c.link.connection_state_ = ConnectionState.CONNECTING then (false, c)
  else
    let c1 : Ctx M := { c with link := { c.link with server_url_ := url } }
    let c2 := updateConnectionState cb ConnectionState.CONNECTING c1
    let c3 : Ctx M := { c2 with world := c2.world.websocketConnect url }
    if c2.world.websocketConnectResult then
      (true, handleConnectionSuccess cb c3)
    else
      (false, handleConnectionError cb "连接失败" c3)

/-- The method `DataLink::disconnect`, datalink.cpp 58-72. -/
def disconnect (cb : LinkCallbacks M) (c : Ctx M) : Ctx M :=
  if c.link.connection_state_ = ConnectionState.DISCONNECTED then c
  else
    let c1 := stopReconnectTimer cb c
    let c2 : Ctx M := { c1 with world := c1.world.websocketClose }
    updateConnectionState cb ConnectionState.DISCONNECTED c2

/-- The method `DataLink::sendText`, datalink.cpp 74-89. -/
def sendText (message : String) (c : Ctx M) : Bool × Ctx M :=
  if isConnected c = false then (false, c)
  else if c.world.websocketSendResult then
    (true, { c with
      world := c.world.websocketSend message,
      link := { c.link with
        messages_sent_ := (c.link.messages_sent_ + 1) % UINT64_MOD,
        bytes_sent_ := (c.link.bytes_sent_ + message.length) % UINT64_MOD } })
  else (false, { c with world := c.world.websocketSend message })

/-- The method `DataLink::sendBinary`, datalink.cpp 91-109. -/
def sendBinary (data : List Nat) (c : Ctx M) : Bool × Ctx M :=
  if isConnected c = false then (false, c)
  else if c.world.websocketSendResult then
    (true, { c with
      world := c.world.websocketSend (stringOfBytes data),
      link := { c.link with
        messages_sent_ := (c.link.messages_sent_ + 1) % UINT64_MOD,
        bytes_sent_ := (c.link.bytes_sent_ + data.length) % UINT64_MOD } })
  else (false, { c with world := c.world.websocketSend (stringOfBytes data) })

/-- The method `DataLink::sendPing`, datalink.cpp 111-125. -/
def sendPing (c : Ctx M) : Bool × Ctx M :=
  if isConnected c = false then (false, c)
  else (c.world.websocketSendResult, { c with world := c.world.websocketSend "PING" })

/-- The method `DataLink::setAutoReconnect`, datalink.cpp 147-159. -/
def setAutoReconnect (cb : LinkCallbacks M) (enabled : Bool) (max_attempts interval_ms : Int)
    (c : Ctx M) : Ctx M :=
  let c1 : Ctx M :=
    { c with link := { c.link with
        auto_reconnect_enabled_ := enabled,
        max_reconnect_attempts_ := max_attempts,
        reconnect_interval_ms_ := interval_ms } }
  if enabled then c1 else stopReconnectTimer cb c1

end DataLink

/-! ## The outbound queue: `std::priority_queue<QueuedMessage>` -/

/-- The contract of `std::priority_queue<QueuedMessage>` with the comparison
`QueuedMessage::operator<`, which is all the Manager relies on: `push` adds one entry,
`top` is an entry that is not less than any other, `pop` removes the entry `top`
returns.  Which of several entries of equal priority is on top is left open, as in the
library.  `top` is `none` exactly when `empty()` holds; the source calls `top` and
`pop` only after testing `empty()`. -/
structure PriorityQueue where
  Q : Type
  empty : Q
  push : QueuedMessage → Q → Q
  top : Q → Option QueuedMessage
  pop : Q → Q
  items : Q → Multiset QueuedMessage
  items_empty : items empty = 0
  items_push : ∀ m q, items (push m q) = m ::ₘ items q
  top_eq_none : ∀ q, top q = none ↔ items q = 0
  top_mem : ∀ q m, top q = some m → m ∈ items q
  top_max : ∀ q m, top q = some m → ∀ x ∈ items q, QueuedMessage.lt m x = false
  items_pop : ∀ q m, top q = some m → items (pop q) = (items q).erase m

/-- The member `size()` of the queue. -/
def PriorityQueue.size (P : PriorityQueue) (q : P.Q) : Nat :=
  Multiset.card (P.items q)

/-- The entries of a queue in the order in which repeated `top`/`pop` deliver them;
`fuel` bounds the number of entries taken. -/
def PriorityQueue.drainOrder (P : PriorityQueue) : Nat → P.Q → List QueuedMessage
  | 0, _ => []
  | fuel + 1, q =>
    match P.top q with
    | none => []
    | some m => m :: PriorityQueue.drainOrder P fuel (P.pop q)

/-- The queue after `n` calls of `pop`. -/
def PriorityQueue.popN (P : PriorityQueue) : Nat → P.Q → P.Q
  | 0, q => q
  | n + 1, q => PriorityQueue.popN P n (P.pop q)

/-- The first entry of a list that no other entry exceeds in priority. -/
def listTop : List QueuedMessage → Option QueuedMessage
  | [] => none
  | m :: rest =>
    match listTop rest with
    | none => some m
    | some t => if QueuedMessage.lt m t then some t else some m

/-- Removal of the entry `listTop` returns. -/
def listPop (q : List QueuedMessage) : List QueuedMessage :=
  match listTop q with
  | none => q
  | some t => q.erase t

/-- A priority queue that satisfies the contract: the entries are kept in a list, the
newest first, and `top` is the first entry of greatest priority.  It serves to run the
model on concrete inputs. -/
def listQueue : PriorityQueue :=
  { Q := List QueuedMessage,
    empty := [],
    push := fun m q => m :: q,
    top := listTop,
    pop := listPop,
    items := fun q => (q : Multiset QueuedMessage),
    items_empty := rfl,
    items_push := fun _ _ => rfl,
    top_eq_none := by
      intro q
      cases q with
      | nil => simp [listTop]
      | cons a l =>
        simp only [listTop]
        cases listTop l with
        | none => simp
        | some t => by_cases h : QueuedMessage.lt a t = true <;> simp [h]
    top_mem := by
      intro q
      induction q with
      | nil => intro m h; simp [listTop] at h
      | cons a l ih =>
        intro m h
        simp only [listTop] at h
        cases hl : listTop l with
        | none => simp [hl] at h; simp [h]
        | some t =>
          rw [hl] at h
          have ht : t ∈ l := by simpa using ih t hl
          by_cases hlt : QueuedMessage.lt a t = true
          · simp [hlt] at h; subst h; simp [ht]
          · simp [hlt] at h; simp [h]
    top_max := by
      intro q
      induction q with
      | nil => intro m _ x hx; simp at hx
      | cons a l ih =>
        intro m h x hx
        simp only [listTop] at h
        have hx2 : x = a ∨ x ∈ l := by simpa using hx
        cases hl : listTop l with
        | none =>
          rw [hl] at h
          have hnil : l = [] := by
            cases l with
            | nil => rfl
            | cons b l2 =>
              simp only [listTop] at hl
              cases h2 : listTop l2 with
              | none => simp [h2] at hl
              | some t2 => by_cases h3 : QueuedMessage.lt b t2 = true <;> simp [h2, h3] at hl
          subst hnil
          simp at h hx2
          subst h
          subst hx2
          simp [QueuedMessage.lt]
        | some t =>
          rw [hl] at h
          have iht : ∀ y ∈ l, QueuedMessage.lt t y = false := fun y hy => ih t hl y (by simpa using hy)
          by_cases hlt : QueuedMessage.lt a t = true
          · simp [hlt] at h; subst h
            rcases hx2 with rfl | hx3
            · simp [QueuedMessage.lt] at hlt ⊢; omega
            · exact iht x hx3
          · simp [hlt] at h; subst h
            rcases hx2 with rfl | hx3
            · simp [QueuedMessage.lt]
            · have := iht x hx3
              simp [QueuedMessage.lt] at hlt this ⊢
              omega
    items_pop := by
      intro q m h
      simp [listPop, h] }

/-! ## The Manager: `class WebSocketManager` -/

/-- The data members of `WebSocketManager` (websocket_manager.h 202-228).  `datalink_`
is the flag "the pointer is not null", the pointee being the `link` of the context;
the thread handle and the callback slots are likewise kept as flags, a registered
user callback being an observer whose invocations are recorded in the trace. -/
structure WebSocketManager (P : PriorityQueue) where
  datalink_ : Bool
  message_queue_ : P.Q
  queue_enabled_ : Bool
  max_queue_size_ : Nat
  heartbeat_enabled_ : Bool
  heartbeat_interval_ms_ : Int
  heartbeat_thread_ : Bool
  heartbeat_thread_running_ : Bool
  connection_callback_ : Bool
  message_callback_ : Bool
  error_callback_ : Bool
  send_success_callback_ : Bool
  send_failure_callback_ : Bool
  messages_sent_success_ : Nat
  messages_sent_failed_ : Nat
  messages_received_ : Nat

/-- A Manager with its Link and its environment. -/
abbrev MCtx (P : PriorityQueue) : Type := Ctx (WebSocketManager P)

namespace WebSocketManager

variable {P : PriorityQueue}

/-- The constructor `WebSocketManager::WebSocketManager`, websocket_manager.cpp 9-24. -/
def new (P : PriorityQueue) : WebSocketManager P :=
  { datalink_ := false,
    message_queue_ := P.empty,
    queue_enabled_ := false,
    max_queue_size_ := 1000,
    heartbeat_enabled_ := false,
    heartbeat_interval_ms_ := 30000,
    heartbeat_thread_ := false,
    heartbeat_thread_running_ := false,
    connection_callback_ := false,
    message_callback_ := false,
    error_callback_ := false,
    send_success_callback_ := false,
    send_failure_callback_ := false,
    messages_sent_success_ := 0,
    messages_sent_failed_ := 0,
    messages_received_ := 0 }

/-- The query `WebSocketManager::isConnected`, websocket_manager.cpp 180-182. -/
def isConnected (c : MCtx P) : Bool :=
  c.owner.datalink_ && DataLink.isConnected c

/-- The query `WebSocketManager::getConnectionState`, websocket_manager.cpp 176-178. -/
def getConnectionState (c : MCtx P) : ConnectionState :=
  if c.owner.datalink_ then DataLink.getConnectionState c else ConnectionState.DISCONNECTED

/-- The query `WebSocketManager::getQueuedMessageCount`, websocket_manager.cpp 247-250. -/
def getQueuedMessageCount (c : MCtx P) : Nat :=
  P.size c.owner.message_queue_

/-- The loop of `processMessageQueue`, websocket_manager.cpp 223-244; `fuel` bounds the
number of iterations and is the queue size at the call. -/
def drainLoop : Nat → MCtx P → MCtx P
  | 0, c => c
  | fuel + 1, c =>
    match P.top c.owner.message_queue_ with
    | none => c
    | some queued_msg =>
      let r : Bool × MCtx P :=
        if queued_msg.type = MessageType.TEXT then DataLink.sendText queued_msg.data c
        else if queued_msg.type = MessageType.BINARY then
          DataLink.sendBinary (bytesOfString queued_msg.data) c
        else (false, c)
      if r.1 then
        drainLoop fuel { r.2 with owner := { r.2.owner with
          messages_sent_success_ := (r.2.owner.messages_sent_success_ + 1) % UINT64_MOD,
          message_queue_ := P.pop r.2.owner.message_queue_ } }
      else
        { r.2 with owner := { r.2.owner with
          messages_sent_failed_ := (r.2.owner.messages_sent_failed_ + 1) % UINT64_MOD } }

/-- The method `WebSocketManager::processMessageQueue`, websocket_manager.cpp 216-245. -/
def processMessageQueue (c : MCtx P) : MCtx P :=
  if c.owner.queue_enabled_ = false ∨ isConnected c = false then c
  else drainLoop (P.size c.owner.message_queue_) c

/-- The method `WebSocketManager::clearMessageQueue`, websocket_manager.cpp 252-258:
`pop` until `empty()`. -/
def clearMessageQueue (c : MCtx P) : MCtx P :=
  { c with owner := { c.owner with
      message_queue_ := P.popN (P.size c.owner.message_queue_) c.owner.message_queue_ } }

/-- The method `WebSocketManager::enableMessageQueue`, websocket_manager.cpp 204-214. -/
def enableMessageQueue (enabled : Bool) (max_queue_size : Nat) (c : MCtx P) : MCtx P :=
  let c1 : MCtx P :=
    { c with owner := { c.owner with queue_enabled_ := enabled, max_queue_size_ := max_queue_size } }
  if enabled then c1 else clearMessageQueue c1

/-- The method `WebSocketManager::onConnectionStateChanged`, websocket_manager.cpp
314-325. -/
def onConnectionStateChanged (state : ConnectionState) (c : MCtx P) : MCtx P :=
  let c1 := if state = ConnectionState.CONNECTED then processMessageQueue c else c
  if c1.owner.connection_callback_ then
    { c1 with world := c1.world.emit (Event.connectionCallback state) }
  else c1

/-- The method `WebSocketManager::onMessageReceived`, websocket_manager.cpp 327-334. -/
def onMessageReceived (message : WebSocketMessage) (c : MCtx P) : MCtx P :=
  let c1 : MCtx P := { c with owner := { c.owner with
    messages_received_ := (c.owner.messages_received_ + 1) % UINT64_MOD } }
  if c1.owner.message_callback_ then
    { c1 with world := c1.world.emit (Event.messageCallback message) }
  else c1

/-- The method `WebSocketManager::onError`, websocket_manager.cpp 336-342. -/
def onError (error : String) (c : MCtx P) : MCtx P :=
  if c.owner.error_callback_ then
    { c with world := c.world.emit (Event.errorCallback error) }
  else c

/-- The three lambdas `initialize` stores in the Link (websocket_manager.cpp 38-43). -/
def linkCallbacks (P : PriorityQueue) : LinkCallbacks (WebSocketManager P) :=
  { connection_callback_ := some onConnectionStateChanged,
    message_callback_ := some onMessageReceived,
    error_callback_ := some onError }

/-- The method `WebSocketManager::initialize`, websocket_manager.cpp 32-51, for the
first call on a Manager: a new Link is created and its callbacks are the three
lambdas.  A repeated call, which would in addition destroy the previous Link, is
outside the model. -/
def initializeManager (c : MCtx P) : Bool × MCtx P :=
  (true, { c with link := DataLink.new, owner := { c.owner with datalink_ := true } })

/-- The method `WebSocketManager::sendPing`, websocket_manager.cpp 167-174. -/
def sendPing (c : MCtx P) : Bool × MCtx P :=
  if c.owner.datalink_ = false then (false, c) else DataLink.sendPing c

/-- One step of the heartbeat thread, which runs `WebSocketManager::performHeartbeat`
(websocket_manager.cpp 366-379, started by `heartbeatThread`, 361-364). -/
def performHeartbeatStep (c : MCtx P) : MCtx P :=
  match c.world.heartbeatPc with
  | none => c
  | some HeartbeatPc.loopHead =>
    if c.owner.heartbeat_thread_running_ = false then
      { c with world := { c.world with heartbeatPc := none } }
    else
      { c with world := { c.world.sleep c.owner.heartbeat_interval_ms_ with
                          heartbeatPc := some HeartbeatPc.slept } }
  | some HeartbeatPc.slept =>
    if c.owner.heartbeat_thread_running_ = false then
      { c with world := { c.world with heartbeatPc := none } }
    else
      { c with world := { c.world with heartbeatPc := some HeartbeatPc.tick } }
  | some HeartbeatPc.tick =>
    let c1 := if isConnected c then (sendPing c).2 else c
    { c1 with world := { c1.world with heartbeatPc := some HeartbeatPc.loopHead } }

/-- The heartbeat thread run for `fuel` steps. -/
def performHeartbeat : Nat → MCtx P → MCtx P
  | 0, c => c
  | fuel + 1, c => performHeartbeat fuel (performHeartbeatStep c)

/-- The method `WebSocketManager::startHeartbeat`, websocket_manager.cpp 344-351. -/
def startHeartbeat (c : MCtx P) : MCtx P :=
  if c.owner.heartbeat_thread_running_ then c
  else
    { c with
      owner := { c.owner with heartbeat_thread_running_ := true, heartbeat_thread_ := true },
      world := { c.world.emit (Event.createThread ThreadFn.heartbeatThread) with
                 heartbeatPc := some HeartbeatPc.loopHead } }

/-- The method `WebSocketManager::stopHeartbeat`, websocket_manager.cpp 353-359.  With
the running flag cleared the joined thread ends within two of its steps. -/
def stopHeartbeat (c : MCtx P) : MCtx P :=
  let c1 : MCtx P := { c with owner := { c.owner with heartbeat_thread_running_ := false } }
  if c1.owner.heartbeat_thread_ then
    let c2 : MCtx P := { c1 with world := c1.world.emit (Event.joinThread ThreadFn.heartbeatThread) }
    let c3 := performHeartbeat 2 c2
    { c3 with owner := { c3.owner with heartbeat_thread_ := false } }
  else c1

/-- The method `WebSocketManager::setHeartbeatInterval`, websocket_manager.cpp 260-263. -/
def setHeartbeatInterval (interval_ms : Int) (c : MCtx P) : MCtx P :=
  { c with owner := { c.owner with heartbeat_interval_ms_ := interval_ms } }

/-- The method `WebSocketManager::enableHeartbeat`, websocket_manager.cpp 265-275. -/
def enableHeartbeat (enabled : Bool) (c : MCtx P) : MCtx P :=
  let c1 : MCtx P := { c with owner := { c.owner with heartbeat_enabled_ := enabled } }
  if enabled then startHeartbeat c1 else stopHeartbeat c1

/-- The method `WebSocketManager::connect`, websocket_manager.cpp 53-64;
`setAutoReconnect(auto_reconnect)` takes the default arguments 5 and 1000 of
datalink.h 149. -/
def connect (url : String) (auto_reconnect : Bool) (c : MCtx P) : Bool × MCtx P :=
  if c.owner.datalink_ = false then (false, c)
  else
    DataLink.connect (linkCallbacks P) url
      (DataLink.setAutoReconnect (linkCallbacks P) auto_reconnect 5 1000 c)

/-- The method `WebSocketManager::disconnect`, websocket_manager.cpp 66-72. -/
def disconnect (c : MCtx P) : MCtx P :=
  let c1 := if c.owner.datalink_ then DataLink.disconnect (linkCallbacks P) c else c
  stopHeartbeat c1

/-- The method `WebSocketManager::sendText`, websocket_manager.cpp 74-124. -/
def sendText (message : String) (priority : MessagePriority) (c : MCtx P) : Bool × MCtx P :=
  if c.owner.datalink_ = false then (false, c)
  else if isConnected c = false then
    if c.owner.queue_enabled_ then
      if P.size c.owner.message_queue_ < c.owner.max_queue_size_ then
        let queued_msg : QueuedMessage :=
          { QueuedMessage.new message MessageType.TEXT priority with
            timestamp := c.world.currentTimestamp }
        (true, { c with
          world := c.world.getCurrentTimestamp,
          owner := { c.owner with message_queue_ := P.push queued_msg c.owner.message_queue_ } })
      else
        let c1 : MCtx P := { c with owner := { c.owner with
          messages_sent_failed_ := (c.owner.messages_sent_failed_ + 1) % UINT64_MOD } }
        (false,
          if c1.owner.send_failure_callback_ then
            { c1 with world := c1.world.emit (Event.sendFailureCallback message "队列已满") }
          else c1)
    else
      let c1 : MCtx P := { c with owner := { c.owner with
        messages_sent_failed_ := (c.owner.messages_sent_failed_ + 1) % UINT64_MOD } }
      (false,
        if c1.owner.send_failure_callback_ then
          { c1 with world := c1.world.emit (Event.sendFailureCallback message "未连接") }
        else c1)
  else
    let r := DataLink.sendText message c
    if r.1 then
      let c1 : MCtx P := { r.2 with owner := { r.2.owner with
        messages_sent_success_ := (r.2.owner.messages_sent_success_ + 1) % UINT64_MOD } }
      (true,
        if c1.owner.send_success_callback_ then
          { c1 with world := c1.world.emit (Event.sendSuccessCallback message) }
        else c1)
    else
      let c1 : MCtx P := { r.2 with owner := { r.2.owner with
        messages_sent_failed_ := (r.2.owner.messages_sent_failed_ + 1) % UINT64_MOD } }
      (false,
        if c1.owner.send_failure_callback_ then
          { c1 with world := c1.world.emit (Event.sendFailureCallback message "发送失败") }
        else c1)

/-- The method `WebSocketManager::sendBinary`, websocket_manager.cpp 126-165. -/
def sendBinary (data : List Nat) (priority : MessagePriority) (c : MCtx P) : Bool × MCtx P :=
  if c.owner.datalink_ = false then (false, c)
  else if isConnected c = false then
    if c.owner.queue_enabled_ then
      let binary_str := stringOfBytes data
      if P.size c.owner.message_queue_ < c.owner.max_queue_size_ then
        let queued_msg : QueuedMessage :=
          { QueuedMessage.new binary_str MessageType.BINARY priority with
            timestamp := c.world.currentTimestamp }
        (true, { c with
          world := c.world.getCurrentTimestamp,
          owner := { c.owner with message_queue_ := P.push queued_msg c.owner.message_queue_ } })
      else
        (false, { c with owner := { c.owner with
          messages_sent_failed_ := (c.owner.messages_sent_failed_ + 1) % UINT64_MOD } })
    else
      (false, { c with owner := { c.owner with
        messages_sent_failed_ := (c.owner.messages_sent_failed_ + 1) % UINT64_MOD } })
  else
    let r := DataLink.sendBinary data c
    if r.1 then
      (true, { r.2 with owner := { r.2.owner with
        messages_sent_success_ := (r.2.owner.messages_sent_success_ + 1) % UINT64_MOD } })
    else
      (false, { r.2 with owner := { r.2.owner with
        messages_sent_failed_ := (r.2.owner.messages_sent_failed_ + 1) % UINT64_MOD } })

/-- The method `WebSocketManager::setSendSuccessCallback`, websocket_manager.cpp
196-198, called with a non-empty function: the slot holds an observer. -/
def setSendSuccessCallback (c : MCtx P) : MCtx P :=
  { c with owner := { c.owner with send_success_callback_ := true } }

/-- The method `WebSocketManager::setSendFailureCallback`, websocket_manager.cpp
200-202, called with a non-empty function: the slot holds an observer. -/
def setSendFailureCallback (c : MCtx P) : MCtx P :=
  { c with owner := { c.owner with send_failure_callback_ := true } }

end WebSocketManager

/-! ## Observations on traces and runs of operations -/

section Observations

variable {M : Type}

/-- The states delivered to the state callback registered on the Link, in order. -/
def linkStates (tr : List Event) : List ConnectionState :=
  tr.filterMap fun e =>
    match e with
    | Event.linkStateCallback s => some s
    | _ => none

/-- The reasons delivered to the error callback registered on the Link, in order. -/
def linkErrors (tr : List Event) : List String :=
  tr.filterMap fun e =>
    match e with
    | Event.linkErrorCallback s => some s
    | _ => none

/-- The payloads handed to the transport by `websocketSend`, in order. -/
def sentMessages (tr : List Event) : List String :=
  tr.filterMap fun e =>
    match e with
    | Event.websocketSend m => some m
    | _ => none

/-- The number of `websocketClose` calls in a trace. -/
def closeCount (tr : List Event) : Nat :=
  tr.count Event.websocketClose

/-- The number of `websocketConnect` calls in a trace. -/
def connectCount (tr : List Event) : Nat :=
  tr.countP fun e =>
    match e with
    | Event.websocketConnect _ => true
    | _ => false

/-- The events of `n` rounds of the reconnect loop in which the transport refuses:
a wait of one interval followed by one connection attempt, `n` times. -/
def retryEvents (interval_ms : Int) (url : String) (n : Nat) : List Event :=
  (List.replicate n [Event.sleep interval_ms, Event.websocketConnect url]).flatten

/-- The operations on a Link: its public methods and one step of its reconnect
thread. -/
inductive LinkOp
  | connect (url : String)
  | disconnect
  | sendText (message : String)
  | sendBinary (data : List Nat)
  | sendPing
  | setAutoReconnect (enabled : Bool) (max_attempts interval_ms : Int)
  | reconnectThreadStep

/-- The effect of one Link operation. -/
def LinkOp.run (cb : LinkCallbacks M) : LinkOp → Ctx M → Ctx M
  | LinkOp.connect url, c => (DataLink.connect cb url c).2
  | LinkOp.disconnect, c => DataLink.disconnect cb c
  | LinkOp.sendText message, c => (DataLink.sendText message c).2
  | LinkOp.sendBinary data, c => (DataLink.sendBinary data c).2
  | LinkOp.sendPing, c => (DataLink.sendPing c).2
  | LinkOp.setAutoReconnect enabled max_attempts interval_ms, c =>
    DataLink.setAutoReconnect cb enabled max_attempts interval_ms c
  | LinkOp.reconnectThreadStep, c => DataLink.attemptReconnectStep cb c

/-- The effect of a sequence of Link operations, the thread steps interleaved where
the sequence puts them. -/
def runLinkOps (cb : LinkCallbacks M) (ops : List LinkOp) (c : Ctx M) : Ctx M :=
  ops.foldl (fun c op => op.run cb c) c

/-- A newly constructed Link used alone. -/
def freshLink (w : World) : Ctx Unit :=
  { link := DataLink.new, world := w, owner := () }

/-- The changes of state the Link makes: the state changes, and out of `DISCONNECTED`
it changes to `CONNECTING` only. -/
def Transition (a b : ConnectionState) : Prop :=
  a ≠ b ∧ (a = ConnectionState.DISCONNECTED → b = ConnectionState.CONNECTING)

/-- The invariant of a Link with observer callbacks: the states delivered to the state
callback, after the initial `DISCONNECTED`, form a chain of transitions that ends in the
current state; and while the reconnect thread is alive its handle is stored and the
Link is not `DISCONNECTED`. -/
structure Good (c : Ctx M) : Prop where
  chain : List.Chain' Transition (ConnectionState.DISCONNECTED :: linkStates c.world.trace)
  last : (ConnectionState.DISCONNECTED :: linkStates c.world.trace).getLast? =
    some c.link.connection_state_
  live : c.world.reconnectPc ≠ none →
    c.link.reconnect_thread_ = true ∧ c.link.connection_state_ ≠ ConnectionState.DISCONNECTED

/-- The number of `sleep` calls in a trace. -/
def sleepCount (tr : List Event) : Nat :=
  tr.countP fun e =>
    match e with
    | Event.sleep _ => true
    | _ => false

/-- Whether an operation is a call of `connect`. -/
def LinkOp.isConnect : LinkOp → Bool
  | LinkOp.connect _ => true
  | _ => false

/-- The facts that say that the reconnect loop is idle and has stayed idle since the
state `c`: the thread has ended and no wait and no connection attempt has been added
to the trace. -/
def IdleSince (c c2 : Ctx M) : Prop :=
  c2.world.reconnectPc = none ∧
  connectCount c2.world.trace = connectCount c.world.trace ∧
  sleepCount c2.world.trace = sleepCount c.world.trace

/-- Example: a new Link connected to a transport that accepts every connection and
every send. -/
def exampleConnectedLink : Ctx Unit :=
  (DataLink.connect (LinkCallbacks.observer Unit) "ws://host"
    (freshLink (World.start (fun _ => true) (fun _ => true) (fun _ => 0)))).2

/-- Example: a connected Link whose transport refuses every send. -/
def exampleRefusingLink : Ctx Unit :=
  (DataLink.connect (LinkCallbacks.observer Unit) "ws://host"
    (freshLink (World.start (fun _ => true) (fun _ => false) (fun _ => 0)))).2

/-- Example: a Link observed in the middle of `connect`, in state `CONNECTING`. -/
def exampleConnectingLink : Ctx Unit :=
  { link := { DataLink.new with
      server_url_ := "ws://host", connection_state_ := ConnectionState.CONNECTING },
    world := World.start (fun _ => true) (fun _ => true) (fun _ => 0),
    owner := () }

/-- Example: a Link with the policy (enabled, 3 attempts, 10 ms) at the entry of its
reconnect loop, after a refused `connect`; the transport refuses the first automatic
attempt and accepts the second. -/
def exampleLoopEntry : Ctx Unit :=
  runLinkOps (LinkCallbacks.observer Unit)
    [LinkOp.setAutoReconnect true 3 10, LinkOp.connect "ws://host"]
    (freshLink (World.start (fun n => decide (n = 2)) (fun _ => true) (fun _ => 0)))

/-- Example: a Link with the policy (enabled, 3 attempts, 10 ms) whose first connection
was refused and whose reconnect thread has waited and passed its second test of the
running flag; the transport accepts the next connection. -/
def exampleAttemptUnderWay : Ctx Unit :=
  runLinkOps (LinkCallbacks.observer Unit)
    [LinkOp.setAutoReconnect true 3 10, LinkOp.connect "ws://host",
     LinkOp.reconnectThreadStep, LinkOp.reconnectThreadStep]
    (freshLink (World.start (fun n => decide (n ≠ 0)) (fun _ => true) (fun _ => 0)))

/-- Example: a Link with the policy (enabled, 3 attempts, 10 ms) whose first connection
was refused and whose reconnect thread is waiting. -/
def exampleWaiting : Ctx Unit :=
  runLinkOps (LinkCallbacks.observer Unit)
    [LinkOp.setAutoReconnect true 3 10, LinkOp.connect "ws://host", LinkOp.reconnectThreadStep]
    (freshLink (World.start (fun _ => false) (fun _ => true) (fun _ => 0)))

/-- Example: a Link with the policy (enabled, 2 attempts, 10 ms) against a transport that
refuses every connection, after a refused `connect`, the whole reconnect loop and a
`disconnect`. -/
def exampleExhaustedDisconnected : Ctx Unit :=
  runLinkOps (LinkCallbacks.observer Unit)
    [LinkOp.setAutoReconnect true 2 10, LinkOp.connect "ws://host",
     LinkOp.reconnectThreadStep, LinkOp.reconnectThreadStep, LinkOp.reconnectThreadStep,
     LinkOp.reconnectThreadStep, LinkOp.reconnectThreadStep, LinkOp.reconnectThreadStep,
     LinkOp.disconnect]
    (freshLink (World.start (fun _ => false) (fun _ => true) (fun _ => 0)))

/-- The changes a Link operation makes outside its callbacks: the owner, the retry
policy, the four traffic counters, the transport oracle, the number of sends and the
heartbeat thread are in `c2` as they are in `c`. -/
structure LinkStep {M : Type} (c c2 : Ctx M) : Prop where
  owner : c2.owner = c.owner
  auto_reconnect_enabled_ : c2.link.auto_reconnect_enabled_ = c.link.auto_reconnect_enabled_
  max_reconnect_attempts_ : c2.link.max_reconnect_attempts_ = c.link.max_reconnect_attempts_
  reconnect_interval_ms_ : c2.link.reconnect_interval_ms_ = c.link.reconnect_interval_ms_
  messages_sent_ : c2.link.messages_sent_ = c.link.messages_sent_
  messages_received_ : c2.link.messages_received_ = c.link.messages_received_
  bytes_sent_ : c2.link.bytes_sent_ = c.link.bytes_sent_
  bytes_received_ : c2.link.bytes_received_ = c.link.bytes_received_
  sendCalls : c2.world.sendCalls = c.world.sendCalls
  heartbeatPc : c2.world.heartbeatPc = c.world.heartbeatPc

/-- A relation between states that holds across the Link's own changes and across the
state and error callbacks registered on the Link, and is reflexive and transitive. -/
structure LinkClosed {M : Type} (cb : LinkCallbacks M) (R : Ctx M → Ctx M → Prop) : Prop where
  refl : ∀ c, R c c
  trans : ∀ a b c, R a b → R b c → R a c
  step : ∀ c c2, LinkStep c c2 → R c c2
  connection : ∀ f, cb.connection_callback_ = some f → ∀ s c, R c (f s c)
  error : ∀ f, cb.error_callback_ = some f → ∀ e c, R c (f e c)

end Observations

/-! ## Observations on the Manager -/

section ManagerObservations

variable {P : PriorityQueue}

/-- The payload `processMessageQueue` hands to the Link for a queue entry: the data of
a text entry; for a binary entry the data converted to bytes (websocket_manager.cpp
230) and back to a string by `DataLink::sendBinary` (datalink.cpp 98). -/
def wirePayload (m : QueuedMessage) : String :=
  if m.type = MessageType.TEXT then m.data else stringOfBytes (bytesOfString m.data)

/-- The arguments of one call of `sendText` or `sendBinary` on the Manager. -/
inductive Outgoing
  | text (message : String) (priority : MessagePriority)
  | binary (data : List Nat) (priority : MessagePriority)
  deriving DecidableEq

/-- The priority given with a message. -/
def Outgoing.priority : Outgoing → MessagePriority
  | Outgoing.text _ p => p
  | Outgoing.binary _ p => p

/-- The payload of a message as the transport receives it: the text itself, or the
bytes as a string. -/
def Outgoing.payload : Outgoing → String
  | Outgoing.text message _ => message
  | Outgoing.binary data _ => stringOfBytes data

/-- The call of the Manager that sends a message. -/
def Outgoing.send (o : Outgoing) (c : MCtx P) : Bool × MCtx P :=
  match o with
  | Outgoing.text message p => WebSocketManager.sendText message p c
  | Outgoing.binary data p => WebSocketManager.sendBinary data p c

/-- The calls for a list of messages, one after the other: the values returned and the
final state. -/
def sendAll : List Outgoing → MCtx P → List Bool × MCtx P
  | [], c => ([], c)
  | o :: os, c => ((o.send c).1 :: (sendAll os (o.send c).2).1, (sendAll os (o.send c).2).2)

/-- The operations on a Manager: its public methods and one step of each of the two
background threads. -/
inductive ManagerOp
  | connect (url : String) (auto_reconnect : Bool)
  | disconnect
  | sendText (message : String) (priority : MessagePriority)
  | sendBinary (data : List Nat) (priority : MessagePriority)
  | sendPing
  | enableMessageQueue (enabled : Bool) (max_queue_size : Nat)
  | processMessageQueue
  | clearMessageQueue
  | setHeartbeatInterval (interval_ms : Int)
  | enableHeartbeat (enabled : Bool)
  | reconnectThreadStep
  | heartbeatThreadStep

/-- The effect of one Manager operation. -/
def ManagerOp.run : ManagerOp → MCtx P → MCtx P
  | ManagerOp.connect url auto_reconnect, c => (WebSocketManager.connect url auto_reconnect c).2
  | ManagerOp.disconnect, c => WebSocketManager.disconnect c
  | ManagerOp.sendText message priority, c => (WebSocketManager.sendText message priority c).2
  | ManagerOp.sendBinary data priority, c => (WebSocketManager.sendBinary data priority c).2
  | ManagerOp.sendPing, c => (WebSocketManager.sendPing c).2
  | ManagerOp.enableMessageQueue enabled max_queue_size, c =>
    WebSocketManager.enableMessageQueue enabled max_queue_size c
  | ManagerOp.processMessageQueue, c => WebSocketManager.processMessageQueue c
  | ManagerOp.clearMessageQueue, c => WebSocketManager.clearMessageQueue c
  | ManagerOp.setHeartbeatInterval interval_ms, c =>
    WebSocketManager.setHeartbeatInterval interval_ms c
  | ManagerOp.enableHeartbeat enabled, c => WebSocketManager.enableHeartbeat enabled c
  | ManagerOp.reconnectThreadStep, c =>
    DataLink.attemptReconnectStep (WebSocketManager.linkCallbacks P) c
  | ManagerOp.heartbeatThreadStep, c => WebSocketManager.performHeartbeatStep c

/-- The effect of a sequence of Manager operations. -/
def runManagerOps (ops : List ManagerOp) (c : MCtx P) : MCtx P :=
  ops.foldl (fun c op => op.run c) c

/-- A Manager right after construction and `initialize()`. -/
def freshManager (P : PriorityQueue) (w : World) : MCtx P :=
  (WebSocketManager.initializeManager
    { link := DataLink.new, world := w, owner := WebSocketManager.new P }).2

/-- No call `enableMessageQueue(true, n)` of the sequence is made while more than `n`
messages are queued. -/
def capacityRespected : List ManagerOp → MCtx P → Bool
  | [], _ => true
  | ManagerOp.enableMessageQueue true n :: ops, c =>
    decide (WebSocketManager.getQueuedMessageCount c ≤ n) &&
      capacityRespected ops ((ManagerOp.enableMessageQueue true n).run c)
  | op :: ops, c => capacityRespected ops (op.run c)

/-- The queue of `c2` holds no entry that the queue of `c` does not hold, and the queue
configuration and the Link pointer are the same. -/
def Shrinks (c c2 : MCtx P) : Prop :=
  P.items c2.owner.message_queue_ ≤ P.items c.owner.message_queue_ ∧
  c2.owner.max_queue_size_ = c.owner.max_queue_size_ ∧
  c2.owner.queue_enabled_ = c.owner.queue_enabled_ ∧
  c2.owner.datalink_ = c.owner.datalink_

/-- The queue entry `sendText` or `sendBinary` creates for a message when the platform
clock shows `timestamp`. -/
def Outgoing.queued (o : Outgoing) (timestamp : Nat) : QueuedMessage :=
  match o with
  | Outgoing.text message p =>
    { QueuedMessage.new message MessageType.TEXT p with timestamp := timestamp }
  | Outgoing.binary data p =>
    { QueuedMessage.new (stringOfBytes data) MessageType.BINARY p with timestamp := timestamp }

/-- Every entry of the queue is a text or a binary message: what `sendText` and
`sendBinary` enqueue (`runManagerOps_typed`). -/
def QueueTyped (c : MCtx P) : Prop :=
  ∀ m ∈ P.items c.owner.message_queue_, m.type = MessageType.TEXT ∨ m.type = MessageType.BINARY

/-- Example: a Manager on the list queue, queueing enabled with capacity 100, its Link
disconnected, its transport accepting every connection and every send. -/
def exampleManager : MCtx listQueue :=
  WebSocketManager.enableMessageQueue true 100
    (freshManager listQueue (World.start (fun _ => true) (fun _ => true) (fun _ => 7)))

/-- Example: three text messages of priorities Low, Urgent and Normal. -/
def exampleMessages : List Outgoing :=
  [Outgoing.text "low" MessagePriority.LOW, Outgoing.text "urgent" MessagePriority.URGENT,
   Outgoing.text "normal" MessagePriority.NORMAL]

/-- Example: a connected Manager with three queued messages.  They were accepted while
the Link was disconnected and stayed queued because the transport refused the first
send of the drain run by `connect`; the transport accepts the next send and refuses
the one after it. -/
def exampleFlapping : MCtx listQueue :=
  runManagerOps
    [ManagerOp.enableMessageQueue true 10,
     ManagerOp.sendText "low" MessagePriority.LOW,
     ManagerOp.sendText "urgent" MessagePriority.URGENT,
     ManagerOp.sendText "normal" MessagePriority.NORMAL,
     ManagerOp.connect "ws://host" false]
    (freshManager listQueue (World.start (fun _ => true) (fun n => decide (n = 1)) (fun _ => 0)))

/-- Example: a disconnected Manager whose queue of capacity 2 is full. -/
def exampleFull : MCtx listQueue :=
  runManagerOps
    [ManagerOp.enableMessageQueue true 2,
     ManagerOp.sendText "a" MessagePriority.NORMAL,
     ManagerOp.sendText "b" MessagePriority.HIGH]
    (freshManager listQueue (World.start (fun _ => true) (fun _ => true) (fun _ => 0)))

/-- The invocations of the two send-outcome callbacks of the Manager in a trace, in
order. -/
def sendOutcomeCallbacks (tr : List Event) : List Event :=
  tr.filter fun e =>
    match e with
    | Event.sendSuccessCallback _ => true
    | Event.sendFailureCallback _ _ => true
    | _ => false

/-- Example: a Manager with both send-outcome callbacks registered, queueing disabled,
its Link disconnected. -/
def exampleObserved : MCtx listQueue :=
  WebSocketManager.setSendFailureCallback (WebSocketManager.setSendSuccessCallback
    (freshManager listQueue (World.start (fun _ => true) (fun _ => true) (fun _ => 0))))

/-- Example: the Manager `exampleObserved` after a successful `connect`. -/
def exampleObservedConnected : MCtx listQueue :=
  (WebSocketManager.connect "ws://host" false exampleObserved).2

/-- Example: a connected Manager whose heartbeat was enabled with an interval of 50 ms;
the transport accepts every send. -/
def exampleHeartbeat : MCtx listQueue :=
  runManagerOps
    [ManagerOp.connect "ws://host" false, ManagerOp.setHeartbeatInterval 50,
     ManagerOp.enableHeartbeat true]
    (freshManager listQueue (World.start (fun _ => true) (fun _ => true) (fun _ => 0)))

/-- Example: a Manager that was never connected, its heartbeat enabled with an interval
of 50 ms. -/
def exampleHeartbeatIdle : MCtx listQueue :=
  runManagerOps
    [ManagerOp.setHeartbeatInterval 50, ManagerOp.enableHeartbeat true]
    (freshManager listQueue (World.start (fun _ => true) (fun _ => true) (fun _ => 0)))

/-- Whether an operation is the call `enableHeartbeat(true)`. -/
def ManagerOp.isEnableHeartbeat : ManagerOp → Bool
  | ManagerOp.enableHeartbeat true => true
  | _ => false

/-- The heartbeat thread and the heartbeat fields of the Manager are in `c2` as they are
in `c`. -/
def HeartbeatKept (c c2 : MCtx P) : Prop :=
  c2.world.heartbeatPc = c.world.heartbeatPc ∧
  c2.owner.heartbeat_thread_ = c.owner.heartbeat_thread_ ∧
  c2.owner.heartbeat_thread_running_ = c.owner.heartbeat_thread_running_ ∧
  c2.owner.heartbeat_enabled_ = c.owner.heartbeat_enabled_

/-- The invariant of the heartbeat: while the heartbeat thread is alive its handle is
stored in the Manager. -/
def HeartbeatGood (c : MCtx P) : Prop :=
  c.world.heartbeatPc ≠ none → c.owner.heartbeat_thread_ = true

/-- The heartbeat loop is stopped: the thread has ended and the running flag is false. -/
def HeartbeatStopped (c : MCtx P) : Prop :=
  c.world.heartbeatPc = none ∧ c.owner.heartbeat_thread_running_ = false

/-- The number of payloads handed to the transport by the steps of the heartbeat
thread in a run of operations. -/
def heartbeatSends : List ManagerOp → MCtx P → Nat
  | [], _ => 0
  | ManagerOp.heartbeatThreadStep :: ops, c =>
    ((sentMessages (WebSocketManager.performHeartbeatStep c).world.trace).length -
        (sentMessages c.world.trace).length) +
      heartbeatSends ops (WebSocketManager.performHeartbeatStep c)
  | op :: ops, c => heartbeatSends ops (op.run c)

/-- The number of steps of the heartbeat thread in a run of operations that stand at
the tick of the loop while the Manager is connected. -/
def connectedTicks : List ManagerOp → MCtx P → Nat
  | [], _ => 0
  | ManagerOp.heartbeatThreadStep :: ops, c =>
    (if c.world.heartbeatPc = some HeartbeatPc.tick ∧ WebSocketManager.isConnected c = true
      then 1 else 0) +
      connectedTicks ops (WebSocketManager.performHeartbeatStep c)
  | op :: ops, c => connectedTicks ops (op.run c)

/-- Example: the Manager `exampleHeartbeat` after `disconnect`, a second successful
`connect` and six steps of the heartbeat thread. -/
def exampleHeartbeatReconnected : MCtx listQueue :=
  runManagerOps
    [ManagerOp.disconnect, ManagerOp.connect "ws://host" false,
     ManagerOp.heartbeatThreadStep, ManagerOp.heartbeatThreadStep, ManagerOp.heartbeatThreadStep,
     ManagerOp.heartbeatThreadStep, ManagerOp.heartbeatThreadStep, ManagerOp.heartbeatThreadStep]
    exampleHeartbeat

/-- Example: a Manager on which `initialize()` has not been called, with queueing
enabled. -/
def exampleUninitialised : MCtx listQueue :=
  WebSocketManager.enableMessageQueue true 10
    { link := DataLink.new,
      world := World.start (fun _ => true) (fun _ => true) (fun _ => 0),
      owner := WebSocketManager.new listQueue }

/-- Example: a freshly initialised Manager after a successful `connect`; its transport
accepts the first send only. -/
def exampleOneSend : MCtx listQueue :=
  (WebSocketManager.connect "ws://host" false
    (freshManager listQueue
      (World.start (fun _ => true) (fun n => decide (n = 0)) (fun _ => 0)))).2

/-- Example: the Manager `exampleOneSend` after one `sendText`. -/
def exampleOneSendDone : MCtx listQueue :=
  (WebSocketManager.sendText "a" MessagePriority.NORMAL exampleOneSend).2

/-- Example: a connected Manager whose queue holds one binary message with the bytes
0, 255, 72 and 105, accepted while the Link was disconnected and kept because the
transport refused the send of the drain run by `connect`. -/
def exampleBinaryQueued : MCtx listQueue :=
  runManagerOps
    [ManagerOp.enableMessageQueue true 10,
     ManagerOp.sendBinary [0, 255, 72, 105] MessagePriority.NORMAL,
     ManagerOp.connect "ws://host" false]
    (freshManager listQueue (World.start (fun _ => true) (fun n => decide (n ≠ 0)) (fun _ => 0)))

/-- The retry policy of the Link is in `c2` as it is in `c`. -/
def PolicyKept {M : Type} (c c2 : Ctx M) : Prop :=
  c2.link.auto_reconnect_enabled_ = c.link.auto_reconnect_enabled_ ∧
  c2.link.max_reconnect_attempts_ = c.link.max_reconnect_attempts_ ∧
  c2.link.reconnect_interval_ms_ = c.link.reconnect_interval_ms_

end ManagerObservations

/-! ## Counters: advancing and zeroing them -/

section CounterObservations

/-- A Link whose four traffic counters have been advanced by the given amounts, in
`uint64_t` arithmetic. -/
def DataLink.advance (ds dr bs br : Nat) (l : DataLink) : DataLink :=
  { l with
    messages_sent_ := (l.messages_sent_ + ds) % UINT64_MOD,
    messages_received_ := (l.messages_received_ + dr) % UINT64_MOD,
    bytes_sent_ := (l.bytes_sent_ + bs) % UINT64_MOD,
    bytes_received_ := (l.bytes_received_ + br) % UINT64_MOD }

/-- A state whose Link counters have been advanced and whose owner has been changed by
`g`. -/
def Ctx.advance {M : Type} (ds dr bs br : Nat) (g : M → M) (c : Ctx M) : Ctx M :=
  { c with link := c.link.advance ds dr bs br, owner := g c.owner }

/-- The callbacks registered on the Link give the same result, advanced, when they are
invoked on an advanced state. -/
structure CallbacksCommute {M : Type} (cb : LinkCallbacks M) (T : Ctx M → Ctx M) : Prop where
  connection : ∀ f, cb.connection_callback_ = some f → ∀ s c, f s (T c) = T (f s c)
  message : ∀ f, cb.message_callback_ = some f → ∀ m c, f m (T c) = T (f m c)
  error : ∀ f, cb.error_callback_ = some f → ∀ e c, f e (T c) = T (f e c)

/-- A Manager whose three message counters have been advanced by the given amounts, in
`uint64_t` arithmetic. -/
def WebSocketManager.advance {P : PriorityQueue} (ks kf kr : Nat) (m : WebSocketManager P) :
    WebSocketManager P :=
  { m with
    messages_sent_success_ := (m.messages_sent_success_ + ks) % UINT64_MOD,
    messages_sent_failed_ := (m.messages_sent_failed_ + kf) % UINT64_MOD,
    messages_received_ := (m.messages_received_ + kr) % UINT64_MOD }

/-- Amounts by which the seven counters of a Link and its Manager are advanced. -/
structure CounterShift where
  messages_sent : Nat
  messages_received : Nat
  bytes_sent : Nat
  bytes_received : Nat
  sent_success : Nat
  sent_failed : Nat
  received : Nat

/-- A Manager and its Link with all seven counters advanced. -/
def CounterShift.apply {P : PriorityQueue} (k : CounterShift) (c : MCtx P) : MCtx P :=
  Ctx.advance k.messages_sent k.messages_received k.bytes_sent k.bytes_received
    (WebSocketManager.advance k.sent_success k.sent_failed k.received) c

/-- The four traffic counters of a Link: messages sent, messages received, bytes sent,
bytes received. -/
def linkCounters {M : Type} (c : Ctx M) : List Nat :=
  [c.link.messages_sent_, c.link.messages_received_, c.link.bytes_sent_, c.link.bytes_received_]

/-- The counters of a Manager and its Link: the four of the Link, then sent-success,
sent-failure and received. -/
def managerCounters {P : PriorityQueue} (c : MCtx P) : List Nat :=
  linkCounters c ++
    [c.owner.messages_sent_success_, c.owner.messages_sent_failed_, c.owner.messages_received_]

/-- The state with the Link counters at zero, as after construction. -/
def zeroLinkCounters {M : Type} (c : Ctx M) : Ctx M :=
  { c with link := { c.link with
      messages_sent_ := 0, messages_received_ := 0, bytes_sent_ := 0, bytes_received_ := 0 } }

/-- The state with the Link and Manager counters at zero, as after construction. -/
def zeroManagerCounters {P : PriorityQueue} (c : MCtx P) : MCtx P :=
  { zeroLinkCounters c with owner := { c.owner with
      messages_sent_success_ := 0, messages_sent_failed_ := 0, messages_received_ := 0 } }

/-- Every counter of the list is a `uint64_t` value. -/
def CountersValid (xs : List Nat) : Prop :=
  ∀ x ∈ xs, x < UINT64_MOD

/-- The amounts by which a state lies above its zeroed state. -/
def CounterShift.of {P : PriorityQueue} (c : MCtx P) : CounterShift :=
  { messages_sent := c.link.messages_sent_,
    messages_received := c.link.messages_received_,
    bytes_sent := c.link.bytes_sent_,
    bytes_received := c.link.bytes_received_,
    sent_success := c.owner.messages_sent_success_,
    sent_failed := c.owner.messages_sent_failed_,
    received := c.owner.messages_received_ }

/-- Example: the Link `exampleConnectedLink` after a text message of two bytes and a
binary message of three bytes. -/
def exampleTraffic : Ctx Unit :=
  runLinkOps (LinkCallbacks.observer Unit) [LinkOp.sendText "ab", LinkOp.sendBinary [1, 2, 3]]
    exampleConnectedLink

/-- Counter by counter: the value `y` after is the value `x` before plus the amount `d`
the operation adds, kept in 64 bits; `d` is at most the bound `b`, which counts what the
operation hands to the transport or receives; so where `x + b` does not pass the largest
`uint64_t` the counter is exactly `x + d` and not below `x`. -/
def NotDecreased : List Nat → List Nat → List Nat → List Nat → Prop
  | x :: before, d :: added, b :: bound, y :: after =>
    d ≤ b ∧ y = (x + d) % UINT64_MOD ∧ (x + b < UINT64_MOD → y = x + d ∧ x ≤ y) ∧
      NotDecreased before added bound after
  | [], [], [], [] => True
  | _, _, _, _ => False

/-- The number of text or binary messages a Link operation hands to the transport
itself. -/
def LinkOp.sends : LinkOp → Nat
  | LinkOp.sendText _ => 1
  | LinkOp.sendBinary _ => 1
  | _ => 0

/-- The number of bytes of the message a Link operation is called with. -/
def LinkOp.payload : LinkOp → Nat
  | LinkOp.sendText message => message.length
  | LinkOp.sendBinary data => data.length
  | _ => 0

/-- The most a Link operation can add to the four Link counters (sent messages,
received messages, sent bytes, received bytes). -/
def linkBound (op : LinkOp) : List Nat :=
  [op.sends, 0, op.payload, 0]

/-- The most the receipt of a message can add to the four Link counters. -/
def receiptBound (message : WebSocketMessage) : List Nat :=
  [0, 1, 0, message.data.length]

/-- The number of bytes of the message a Manager operation is called with. -/
def ManagerOp.payload : ManagerOp → Nat
  | ManagerOp.sendText message _ => message.length
  | ManagerOp.sendBinary data _ => data.length
  | _ => 0

/-- The number of bytes of the messages in the queue. -/
def queuedBytes {P : PriorityQueue} (c : MCtx P) : Nat :=
  ((P.items c.owner.message_queue_).map fun m => m.data.length).sum

/-- The most a Manager operation can add to the seven counters: with `sends` the number
of `websocketSend` calls it makes, `sends` to the sent messages of the Link and to the
successes, `sends + 1` to the failures, the bytes queued before plus the bytes of its
own message to the sent bytes, nothing to the three counters of received traffic. -/
def managerBound {P : PriorityQueue} (op : ManagerOp) (c : MCtx P) : List Nat :=
  [(op.run c).world.sendCalls - c.world.sendCalls, 0, queuedBytes c + op.payload, 0,
    (op.run c).world.sendCalls - c.world.sendCalls,
    (op.run c).world.sendCalls - c.world.sendCalls + 1, 0]

/-- The most the receipt of a message can add to the seven counters. -/
def managerReceiptBound (message : WebSocketMessage) : List Nat :=
  receiptBound message ++ [0, 0, 1]

/-- The four Link counters of `c2` are not above those of `c`. -/
structure NotAbove {M : Type} (c c2 : Ctx M) : Prop where
  messages_sent_ : c2.link.messages_sent_ ≤ c.link.messages_sent_
  messages_received_ : c2.link.messages_received_ ≤ c.link.messages_received_
  bytes_sent_ : c2.link.bytes_sent_ ≤ c.link.bytes_sent_
  bytes_received_ : c2.link.bytes_received_ ≤ c.link.bytes_received_

/-- From `c` to `c2` the counters of sent messages, of successes and (the queue holding
text and binary entries only) of failures have grown by no more than the number of
`websocketSend` calls made, the counter of sent bytes by no more than the bytes that
left the queue, and the counters of received traffic not at all. -/
structure CountersBounded {P : PriorityQueue} (c c2 : MCtx P) : Prop where
  messages_sent_ :
    c2.link.messages_sent_ + c.world.sendCalls ≤ c.link.messages_sent_ + c2.world.sendCalls
  bytes_sent_ : c2.link.bytes_sent_ + queuedBytes c2 ≤ c.link.bytes_sent_ + queuedBytes c
  messages_received_ : c2.link.messages_received_ ≤ c.link.messages_received_
  bytes_received_ : c2.link.bytes_received_ ≤ c.link.bytes_received_
  sent_success :
    c2.owner.messages_sent_success_ + c.world.sendCalls ≤
      c.owner.messages_sent_success_ + c2.world.sendCalls
  sent_failed : QueueTyped c →
    c2.owner.messages_sent_failed_ + c.world.sendCalls ≤
      c.owner.messages_sent_failed_ + c2.world.sendCalls
  typed : QueueTyped c → QueueTyped c2
  received : c2.owner.messages_received_ ≤ c.owner.messages_received_
  sendCalls : c.world.sendCalls ≤ c2.world.sendCalls

end CounterObservations

/-! ## The C interface: the functions that return a string -/

section CApi

/-- The bytes of a string literal of the source, which is encoded in UTF-8. -/
def utf8 (s : String) : List Nat :=
  (s.data.flatMap String.utf8EncodeChar).map UInt8.toNat

/-- The characters `operator<<` writes for an unsigned integer: its decimal digits. -/
def decimal (n : Nat) : List Nat :=
  (Nat.toDigits 10 n).map Char.toNat

/-- The text written for a connection state by the `switch` of both `getStatistics`
methods (datalink.cpp 166-172, websocket_manager.cpp 282-288). -/
def stateText : ConnectionState → List Nat
  | ConnectionState.DISCONNECTED => utf8 "已断开"
  | ConnectionState.CONNECTING => utf8 "连接中"
  | ConnectionState.CONNECTED => utf8 "已连接"
  | ConnectionState.RECONNECTING => utf8 "重连中"
  | ConnectionState.ERROR => utf8 "错误"

/-- The method `DataLink::getStatistics`, datalink.cpp 161-187: the text, and the state
after the call of `getCurrentTimestamp` it makes once a connection has been up. -/
def DataLink.getStatistics {M : Type} (c : Ctx M) : List Nat × Ctx M :=
  let oss :=
    utf8 "连接统计信息:\n" ++ utf8 "  连接状态: " ++ stateText c.link.connection_state_ ++
    utf8 "\n" ++
    utf8 "  发送消息数: " ++ decimal c.link.messages_sent_ ++ utf8 "\n" ++
    utf8 "  接收消息数: " ++ decimal c.link.messages_received_ ++ utf8 "\n" ++
    utf8 "  发送字节数: " ++ decimal c.link.bytes_sent_ ++ utf8 "\n" ++
    utf8 "  接收字节数: " ++ decimal c.link.bytes_received_ ++ utf8 "\n"
  if 0 < c.link.connection_start_time_ then
    let current_time := c.world.currentTimestamp
    let duration := (current_time + UINT64_MOD - c.link.connection_start_time_) % UINT64_MOD
    (oss ++ utf8 "  连接时长: " ++ decimal duration ++ utf8 "ms\n",
      { c with world := c.world.getCurrentTimestamp })
  else (oss, c)

/-- The method `WebSocketManager::getStatistics`, websocket_manager.cpp 277-302. -/
def WebSocketManager.getStatistics {P : PriorityQueue} (c : MCtx P) : List Nat × MCtx P :=
  let oss :=
    utf8 "WebSocket 管理器统计信息:\n" ++ utf8 "  连接状态: " ++
    stateText (WebSocketManager.getConnectionState c) ++ utf8 "\n" ++
    utf8 "  发送成功消息数: " ++ decimal c.owner.messages_sent_success_ ++ utf8 "\n" ++
    utf8 "  发送失败消息数: " ++ decimal c.owner.messages_sent_failed_ ++ utf8 "\n" ++
    utf8 "  接收消息数: " ++ decimal c.owner.messages_received_ ++ utf8 "\n" ++
    utf8 "  队列消息数: " ++ decimal (WebSocketManager.getQueuedMessageCount c) ++ utf8 "\n" ++
    utf8 "  心跳状态: " ++ (if c.owner.heartbeat_enabled_ then utf8 "启用" else utf8 "禁用") ++
    utf8 "\n"
  if c.owner.datalink_ then
    (oss ++ utf8 "\n" ++ (DataLink.getStatistics c).1, (DataLink.getStatistics c).2)
  else (oss, c)

/-- The map `NativePlatform::config_map_` (native_platform.h 70), as the list of its
entries. -/
abbrev ConfigMap : Type := List (List Nat × List Nat)

/-- The method `NativePlatform::getConfig`, native_platform.cpp 142-146. -/
def NativePlatform.getConfig (key : List Nat) (config_map_ : ConfigMap) : List Nat :=
  match config_map_.lookup key with
  | some value => value
  | none => []

/-- The method `NativePlatform::setConfig`, native_platform.cpp 148-151:
`config_map_[key] = value`. -/
def NativePlatform.setConfig (key value : List Nat) (config_map_ : ConfigMap) : ConfigMap :=
  (key, value) :: config_map_.filter fun entry => entry.1 ≠ key

/-- The members of `WebSocketAPI` the C functions below read (websocket_api.h):
`manager_` is null until `initialize()`. -/
structure WebSocketAPI (P : PriorityQueue) where
  manager_ : Option (MCtx P)

/-- The object `struct websocket_handle`, websocket_c_api.cpp 9-24: the configuration
map of its `NativePlatform`, and its `api` pointer. -/
structure websocket_handle (P : PriorityQueue) where
  config_map_ : ConfigMap
  api : Option (WebSocketAPI P)

/-- The method `WebSocketAPI::getStatistics`, websocket_api.cpp 129-134. -/
def WebSocketAPI.getStatistics {P : PriorityQueue} (api : WebSocketAPI P) :
    List Nat × WebSocketAPI P :=
  match api.manager_ with
  | some manager => ((WebSocketManager.getStatistics manager).1,
      { api with manager_ := some (WebSocketManager.getStatistics manager).2 })
  | none => (utf8 "WebSocket API 未初始化", api)

/-- The method `WebSocketAPI::getConfig`, websocket_api.cpp 148-150, with
`WebSocketManager::getConfig`, websocket_manager.cpp 310-312, whose platform is the
one of the handle. -/
def WebSocketAPI.getConfig {P : PriorityQueue} (api : WebSocketAPI P) (key : List Nat)
    (config_map_ : ConfigMap) : List Nat :=
  match api.manager_ with
  | some _ => NativePlatform.getConfig key config_map_
  | none => []

/-- The method `WebSocketAPI::setConfig`, websocket_api.cpp 142-146, with
`WebSocketManager::setConfig`, websocket_manager.cpp 304-308. -/
def WebSocketAPI.setConfig {P : PriorityQueue} (api : WebSocketAPI P) (key value : List Nat)
    (config_map_ : ConfigMap) : ConfigMap :=
  match api.manager_ with
  | some _ => NativePlatform.setConfig key value config_map_
  | none => config_map_

/-- The conversion of a `const char*` to `std::string`: the bytes before the first
NUL of the memory the pointer refers to. -/
def stdString (p : List Nat) : List Nat :=
  p.takeWhile fun b => b ≠ 0

/-- The array `std::string::c_str()` points to: the bytes and a terminating NUL. -/
def c_str (s : List Nat) : List Nat :=
  s ++ [0]

/-- The bytes `std::strncpy` writes for `count` and the source array `src`: the bytes
of `src` up to its first NUL, then NUL bytes, `count` bytes in all. -/
def strncpyBytes : Nat → List Nat → List Nat
  | 0, _ => []
  | count + 1, [] => List.replicate (count + 1) 0
  | count + 1, b :: src =>
    if b = 0 then List.replicate (count + 1) 0 else b :: strncpyBytes count src

/-- The call `std::strncpy(dest, src, count)` on the memory `dest` points to. -/
def strncpy (dest src : List Nat) (count : Nat) : List Nat :=
  strncpyBytes count src ++ dest.drop count

/-- What a call of a C function leaves: its return value, the memory the buffer
pointer refers to, and the handle. -/
structure CallResult (P : PriorityQueue) where
  ret : Nat
  buffer : Option (List Nat)
  handle : Option (websocket_handle P)

/-- The function `ws_create`, websocket_c_api.cpp 67-84. -/
def ws_create (P : PriorityQueue) : websocket_handle P :=
  { config_map_ := [], api := some { manager_ := none } }

/-- The function `ws_get_statistics`, websocket_c_api.cpp 261-275.  A null pointer is
`none`; `buffer` is the memory from the address the pointer holds onwards.  The
`catch (...)` branch, reached only when `getStatistics` throws before anything is
written, is outside the model. -/
def ws_get_statistics {P : PriorityQueue} (handle : Option (websocket_handle P))
    (buffer : Option (List Nat)) (buffer_size : Nat) : CallResult P :=
  match handle, buffer with
  | some h, some mem =>
    match h.api with
    | some api =>
      if buffer_size = 0 then { ret := 0, buffer := buffer, handle := handle }
      else
        let stats := api.getStatistics.1
        let copy_size := min stats.length (buffer_size - 1)
        let mem1 := strncpy mem (c_str stats) copy_size
        { ret := copy_size,
          buffer := some (mem1.set copy_size 0),
          handle := some { h with api := some api.getStatistics.2 } }
    | none => { ret := 0, buffer := buffer, handle := handle }
  | _, _ => { ret := 0, buffer := buffer, handle := handle }

/-- The function `ws_set_config`, websocket_c_api.cpp 277-285. -/
def ws_set_config {P : PriorityQueue} (handle : Option (websocket_handle P))
    (key value : Option (List Nat)) : Option (websocket_handle P) :=
  match handle, key, value with
  | some h, some key, some value =>
    match h.api with
    | some api =>
      some { h with config_map_ := api.setConfig (stdString key) (stdString value) h.config_map_ }
    | none => handle
  | _, _, _ => handle

/-- The function `ws_get_config`, websocket_c_api.cpp 287-301, with the same
conventions as `ws_get_statistics`. -/
def ws_get_config {P : PriorityQueue} (handle : Option (websocket_handle P))
    (key : Option (List Nat)) (buffer : Option (List Nat)) (buffer_size : Nat) : CallResult P :=
  match handle, key, buffer with
  | some h, some key, some mem =>
    match h.api with
    | some api =>
      if buffer_size = 0 then { ret := 0, buffer := buffer, handle := handle }
      else
        let value := api.getConfig (stdString key) h.config_map_
        let copy_size := min value.length (buffer_size - 1)
        let mem1 := strncpy mem (c_str value) copy_size
        { ret := copy_size, buffer := some (mem1.set copy_size 0), handle := handle }
    | none => { ret := 0, buffer := buffer, handle := handle }
  | _, _, _ => { ret := 0, buffer := buffer, handle := handle }

/-- No byte of the string is NUL. -/
def NulFree (s : List Nat) : Prop :=
  ∀ b ∈ s, b ≠ 0

/-- Every value of the configuration map is free of NUL bytes, as the values
`ws_set_config` stores are. -/
def ConfigClean {P : PriorityQueue} (handle : Option (websocket_handle P)) : Prop :=
  ∀ h, handle = some h → ∀ entry ∈ h.config_map_, NulFree entry.2

/-- The call returned `min |s| (n - 1)` and left in the memory of the buffer that many
first bytes of `s`, one NUL byte, and behind them what `mem` held before: the length of
the memory is as before and nothing at index `n` or beyond has changed. -/
def WroteString {P : PriorityQueue} (r : CallResult P) (s mem : List Nat) (n : Nat) : Prop :=
  r.ret = min s.length (n - 1) ∧
  r.buffer = some (s.take r.ret ++ 0 :: mem.drop (r.ret + 1)) ∧
  r.ret + 1 ≤ n ∧
  ∀ out, r.buffer = some out → out.length = mem.length ∧ out.drop n = mem.drop n

/-- The call returned 0 and left the memory of the buffer as it was. -/
def WroteNothing {P : PriorityQueue} (r : CallResult P) (buffer : Option (List Nat)) : Prop :=
  r.ret = 0 ∧ r.buffer = buffer

/-- Example: an initialised handle whose configuration holds the value `fast` under
the key `mode`. -/
def exampleHandle : websocket_handle listQueue :=
  { config_map_ := [(utf8 "mode", utf8 "fast")],
    api := some { manager_ := some exampleOneSendDone } }

end CApi

/-! ## The Link: lemmas -/

section LinkTheorems

variable {M : Type}

/-- With an observer registered, `updateConnectionState` either does nothing or stores the
new state and appends one callback invocation to the trace. -/
theorem updateConnectionState_observer (new_state : ConnectionState) (c : Ctx M) :
    DataLink.updateConnectionState (LinkCallbacks.observer M) new_state c =
      if c.link.connection_state_ = new_state then c
      else { c with
        link := { c.link with connection_state_ := new_state },
        world := c.world.emit (Event.linkStateCallback new_state) } := by
  unfold DataLink.updateConnectionState LinkCallbacks.observer
  by_cases h : c.link.connection_state_ = new_state <;> simp [h]

/-- The error callback of the observer. -/
theorem observer_error_callback :
    (LinkCallbacks.observer M).error_callback_ =
      some fun e c => { c with world := c.world.emit (Event.linkErrorCallback e) } := rfl

/-- The delivered states of a concatenated trace. -/
theorem linkStates_append (a b : List Event) :
    linkStates (a ++ b) = linkStates a ++ linkStates b := by
  simp [linkStates, List.filterMap_append]

/-- The invariant carries over to a context with the same state and the same delivered
states, once its condition on a live thread is shown. -/
theorem good_of_same {c c2 : Ctx M} (h : Good c)
    (hs : c2.link.connection_state_ = c.link.connection_state_)
    (ht : linkStates c2.world.trace = linkStates c.world.trace)
    (hl : c2.world.reconnectPc ≠ none →
      c2.link.reconnect_thread_ = true ∧ c2.link.connection_state_ ≠ ConnectionState.DISCONNECTED) :
    Good c2 :=
  { chain := by rw [ht]; exact h.chain
    last := by rw [ht, hs]; exact h.last
    live := hl }

/-- After `updateConnectionState` the state is the new state. -/
theorem updateConnectionState_state (new_state : ConnectionState) (c : Ctx M) :
    (DataLink.updateConnectionState (LinkCallbacks.observer M) new_state c).link.connection_state_ =
      new_state := by
  rw [updateConnectionState_observer]
  by_cases h : c.link.connection_state_ = new_state <;> simp [h]

/-- With an observer, `updateConnectionState` leaves the reconnect thread, its handle and
the running flag as they are. -/
theorem updateConnectionState_frame (new_state : ConnectionState) (c : Ctx M) :
    (DataLink.updateConnectionState (LinkCallbacks.observer M) new_state c).world.reconnectPc =
        c.world.reconnectPc ∧
    (DataLink.updateConnectionState (LinkCallbacks.observer M) new_state c).link.reconnect_thread_ =
        c.link.reconnect_thread_ ∧
    (DataLink.updateConnectionState (LinkCallbacks.observer M) new_state c).link.reconnect_thread_running_ =
        c.link.reconnect_thread_running_ := by
  rw [updateConnectionState_observer]
  by_cases h : c.link.connection_state_ = new_state <;> simp [h, World.emit]

/-- The invariant is kept by `updateConnectionState` when the change of state is a
transition: out of `DISCONNECTED` only to `CONNECTING`, and into `DISCONNECTED` only
with the reconnect thread ended. -/
theorem good_update {c : Ctx M} (h : Good c) (new_state : ConnectionState)
    (hd : c.link.connection_state_ = ConnectionState.DISCONNECTED →
      new_state = ConnectionState.CONNECTING ∨ new_state = ConnectionState.DISCONNECTED)
    (hp : new_state = ConnectionState.DISCONNECTED → c.world.reconnectPc = none) :
    Good (DataLink.updateConnectionState (LinkCallbacks.observer M) new_state c) := by
  rw [updateConnectionState_observer]
  by_cases hs : c.link.connection_state_ = new_state
  · simp only [hs, if_true]; exact h
  · simp only [hs, if_false]
    have hst : linkStates (c.world.emit (Event.linkStateCallback new_state)).trace =
        linkStates c.world.trace ++ [new_state] := by
      simp [World.emit, linkStates_append, linkStates]
    refine ⟨?_, ?_, ?_⟩
    · show List.Chain' Transition (ConnectionState.DISCONNECTED ::
        linkStates (c.world.emit (Event.linkStateCallback new_state)).trace)
      rw [hst, ← List.cons_append]
      refine List.Chain'.append h.chain (List.chain'_singleton _) ?_
      intro x hx y hy
      rw [h.last] at hx
      simp at hx hy
      subst hx; subst hy
      refine ⟨hs, fun hdis => ?_⟩
      rcases hd hdis with h1 | h1
      · exact h1
      · exact absurd (hdis.trans h1.symm) hs
    · show (ConnectionState.DISCONNECTED ::
        linkStates (c.world.emit (Event.linkStateCallback new_state)).trace).getLast? = some new_state
      rw [hst, ← List.cons_append, List.getLast?_append]
      rfl
    · intro hpc
      have hpc2 : c.world.reconnectPc ≠ none := by simpa [World.emit] using hpc
      refine ⟨(h.live hpc2).1, ?_⟩
      show new_state ≠ ConnectionState.DISCONNECTED
      intro hn
      exact hpc2 (hp hn)

/-- Solve the three side goals of `good_of_same` for a context that differs from a good
one in fields that the invariant does not read. -/
theorem good_frame {c c2 : Ctx M} (h : Good c)
    (hs : c2.link.connection_state_ = c.link.connection_state_)
    (ht : linkStates c2.world.trace = linkStates c.world.trace)
    (hp : c2.world.reconnectPc = c.world.reconnectPc)
    (hh : c2.link.reconnect_thread_ = c.link.reconnect_thread_) : Good c2 := by
  refine good_of_same h hs ht ?_
  intro hpc
  rw [hp] at hpc
  rw [hh, hs]
  exact h.live hpc

/-- An event other than a state callback adds nothing to the delivered states. -/
theorem linkStates_emit_other (w : World) (e : Event)
    (he : ∀ s, e ≠ Event.linkStateCallback s) :
    linkStates (w.trace ++ [e]) = linkStates w.trace := by
  rw [linkStates_append]
  cases e <;> simp [linkStates] at he ⊢

/-- The invariant is kept by `handleConnectionSuccess` in a state other than
`DISCONNECTED`. -/
theorem good_handleConnectionSuccess {c : Ctx M} (h : Good c)
    (hs : c.link.connection_state_ ≠ ConnectionState.DISCONNECTED) :
    Good (DataLink.handleConnectionSuccess (LinkCallbacks.observer M) c) := by
  unfold DataLink.handleConnectionSuccess
  dsimp only
  refine good_update ?_ _ ?_ ?_
  · refine good_frame h rfl ?_ rfl rfl
    exact linkStates_emit_other _ _ (by simp)
  · intro hd; exact absurd hd hs
  · intro hd; cases hd

/-- The invariant is kept by every step of the reconnect thread. -/
theorem good_attemptReconnectStep {c : Ctx M} (h : Good c) :
    Good (DataLink.attemptReconnectStep (LinkCallbacks.observer M) c) := by
  unfold DataLink.attemptReconnectStep
  dsimp only
  split
  · exact h
  · next hpc =>
    have hl := h.live (by simp [hpc])
    split_ifs
    · refine good_of_same h rfl rfl ?_
      intro hne; exact absurd rfl hne
    · refine good_of_same h rfl ?_ (fun _ => hl)
      exact linkStates_emit_other _ _ (by simp)
  · next hpc =>
    have hl := h.live (by simp [hpc])
    split_ifs
    · refine good_of_same h rfl rfl ?_
      intro hne; exact absurd rfl hne
    · exact good_of_same h rfl rfl (fun _ => hl)
  · next hpc =>
    have hl := h.live (by simp [hpc])
    have h1 : Good ({ c with world := c.world.websocketConnect c.link.server_url_ } : Ctx M) := by
      refine good_of_same h rfl ?_ (fun _ => hl)
      exact linkStates_emit_other _ _ (by simp)
    split_ifs
    · refine good_of_same (good_handleConnectionSuccess h1 hl.2) rfl rfl ?_
      intro hne; exact absurd rfl hne
    · have h2 : Good ({ c with
          world := c.world.websocketConnect c.link.server_url_,
          link := { c.link with reconnect_thread_running_ := false } } : Ctx M) :=
        good_frame h1 rfl rfl rfl rfl
      have h3 := good_update h2 ConnectionState.ERROR (fun hd => absurd hd hl.2)
        (fun hd => by cases hd)
      refine good_of_same h3 rfl rfl ?_
      intro hne; exact absurd rfl hne
    · exact good_of_same h1 rfl rfl (fun _ => hl)

/-- A step of a reconnect thread that has ended does nothing. -/
theorem attemptReconnectStep_ended (cb : LinkCallbacks M) (c : Ctx M)
    (h : c.world.reconnectPc = none) : DataLink.attemptReconnectStep cb c = c := by
  simp [DataLink.attemptReconnectStep, h]

/-- Any number of steps of a reconnect thread that has ended does nothing. -/
theorem attemptReconnect_ended (cb : LinkCallbacks M) (n : Nat) (c : Ctx M)
    (h : c.world.reconnectPc = none) : DataLink.attemptReconnect cb n c = c := by
  induction n with
  | zero => rfl
  | succ n ih => simp only [DataLink.attemptReconnect, attemptReconnectStep_ended cb c h, ih]

/-- The invariant is kept by any number of steps of the reconnect thread. -/
theorem good_attemptReconnect {c : Ctx M} (h : Good c) (n : Nat) :
    Good (DataLink.attemptReconnect (LinkCallbacks.observer M) n c) := by
  induction n generalizing c with
  | zero => exact h
  | succ n ih => exact ih (good_attemptReconnectStep h)

/-- With the running flag false the reconnect thread ends within two steps, wherever it
stands: the number of steps `stopReconnectTimer` runs for `joinThread` is enough. -/
theorem join_reconnectPc (c : Ctx M) (hrun : c.link.reconnect_thread_running_ = false) :
    (DataLink.attemptReconnect (LinkCallbacks.observer M) 2 c).world.reconnectPc = none := by
  simp only [DataLink.attemptReconnect]
  rcases hpc : c.world.reconnectPc with _ | pc
  · simp [DataLink.attemptReconnectStep, hpc]
  · cases pc
    · simp [DataLink.attemptReconnectStep, hpc, hrun]
    · simp [DataLink.attemptReconnectStep, hpc, hrun]
    · by_cases hr : c.world.websocketConnectResult = true
      · simp [DataLink.attemptReconnectStep, hpc, hr]
      · by_cases hm : c.link.max_reconnect_attempts_ ≤ c.link.current_reconnect_attempts_
        · simp [DataLink.attemptReconnectStep, hpc, hr, hm]
        · simp [DataLink.attemptReconnectStep, hpc, hr, hm, hrun]

/-- A step of the reconnect thread does not set the running flag. -/
theorem attemptReconnectStep_running (c : Ctx M)
    (hrun : c.link.reconnect_thread_running_ = false) :
    (DataLink.attemptReconnectStep (LinkCallbacks.observer M) c).link.reconnect_thread_running_ =
      false := by
  unfold DataLink.attemptReconnectStep
  dsimp only
  split
  · exact hrun
  · simp [hrun]
  · simp [hrun]
  · split_ifs
    · rfl
    · simp [(updateConnectionState_frame _ _).2.2]
    · exact hrun

/-- No number of steps of the reconnect thread sets the running flag. -/
theorem attemptReconnect_running (n : Nat) (c : Ctx M)
    (hrun : c.link.reconnect_thread_running_ = false) :
    (DataLink.attemptReconnect (LinkCallbacks.observer M) n c).link.reconnect_thread_running_ =
      false := by
  induction n generalizing c with
  | zero => exact hrun
  | succ n ih => exact ih _ (attemptReconnectStep_running c hrun)

/-- In a state that satisfies the invariant, `stopReconnectTimer` keeps the invariant and
leaves the thread ended, the handle cleared and the running flag false. -/
theorem stopReconnectTimer_frame (c : Ctx M) (h : Good c) :
    Good (DataLink.stopReconnectTimer (LinkCallbacks.observer M) c) ∧
    (DataLink.stopReconnectTimer (LinkCallbacks.observer M) c).world.reconnectPc = none ∧
    (DataLink.stopReconnectTimer (LinkCallbacks.observer M) c).link.reconnect_thread_ = false ∧
    (DataLink.stopReconnectTimer (LinkCallbacks.observer M) c).link.reconnect_thread_running_ = false := by
  unfold DataLink.stopReconnectTimer
  dsimp only
  by_cases hh : c.link.reconnect_thread_ = true
  · rw [if_pos hh]
    have h1 : Good ({ c with
        link := { c.link with reconnect_thread_running_ := false },
        world := c.world.emit (Event.joinThread ThreadFn.reconnectThread) } : Ctx M) := by
      refine good_frame h rfl ?_ rfl rfl
      exact linkStates_emit_other _ _ (by simp)
    have h2 := good_attemptReconnect h1 2
    have h3 := join_reconnectPc ({ c with
        link := { c.link with reconnect_thread_running_ := false },
        world := c.world.emit (Event.joinThread ThreadFn.reconnectThread) } : Ctx M) rfl
    refine ⟨?_, h3, rfl, ?_⟩
    · refine good_of_same h2 rfl rfl ?_
      intro hpc
      exact absurd h3 hpc
    · exact attemptReconnect_running 2 _ rfl
  · have hpc : c.world.reconnectPc = none := by
      by_contra hne
      exact hh (h.live hne).1
    rw [if_neg hh]
    refine ⟨?_, hpc, ?_, rfl⟩
    · refine good_of_same h rfl rfl ?_
      intro hne; exact absurd hpc hne
    · simpa using hh

/-- The invariant is kept by `disconnect`. -/
theorem good_disconnect {c : Ctx M} (h : Good c) :
    Good (DataLink.disconnect (LinkCallbacks.observer M) c) := by
  unfold DataLink.disconnect
  dsimp only
  split_ifs
  · exact h
  · obtain ⟨h1, h2, _⟩ := stopReconnectTimer_frame c h
    refine good_update ?_ _ ?_ ?_
    · refine good_frame h1 rfl ?_ rfl rfl
      exact linkStates_emit_other _ _ (by simp)
    · intro _; exact Or.inr rfl
    · intro _; exact h2

/-- The invariant is kept by `startReconnectTimer` in a state other than `DISCONNECTED`. -/
theorem good_startReconnectTimer {c : Ctx M} (h : Good c)
    (hs : c.link.connection_state_ ≠ ConnectionState.DISCONNECTED) :
    Good (DataLink.startReconnectTimer (LinkCallbacks.observer M) c) := by
  unfold DataLink.startReconnectTimer
  dsimp only
  split_ifs
  · exact h
  · have h0 : Good ({ c with link := { c.link with
          current_reconnect_attempts_ := c.link.current_reconnect_attempts_ + 1 } } : Ctx M) :=
      good_frame h rfl rfl rfl rfl
    have h1 := good_update h0 ConnectionState.RECONNECTING (fun hd => absurd hd hs)
      (fun hd => by cases hd)
    refine good_of_same h1 rfl ?_ ?_
    · exact linkStates_emit_other _ _ (by simp)
    · intro _
      refine ⟨rfl, ?_⟩
      show (DataLink.updateConnectionState _ _ _).link.connection_state_ ≠ _
      rw [updateConnectionState_state]
      decide

/-- The invariant is kept by `handleConnectionError` in a state other than
`DISCONNECTED`. -/
theorem good_handleConnectionError {c : Ctx M} (h : Good c) (error : String)
    (hs : c.link.connection_state_ ≠ ConnectionState.DISCONNECTED) :
    Good (DataLink.handleConnectionError (LinkCallbacks.observer M) error c) := by
  unfold DataLink.handleConnectionError
  dsimp only
  have h1 : Good (DataLink.updateConnectionState (LinkCallbacks.observer M)
      ConnectionState.ERROR c) :=
    good_update h _ (fun hd => absurd hd hs) (fun hd => by cases hd)
  have hs1 := updateConnectionState_state ConnectionState.ERROR c
  simp only [observer_error_callback]
  have h2 : Good ({ DataLink.updateConnectionState (LinkCallbacks.observer M)
      ConnectionState.ERROR c with
      world := (DataLink.updateConnectionState (LinkCallbacks.observer M)
        ConnectionState.ERROR c).world.emit (Event.linkErrorCallback error) } : Ctx M) := by
    refine good_frame h1 rfl ?_ rfl rfl
    exact linkStates_emit_other _ _ (by simp)
  split_ifs
  · refine good_startReconnectTimer h2 ?_
    show (DataLink.updateConnectionState _ _ _).link.connection_state_ ≠ _
    rw [hs1]; decide
  · exact h2

/-- The invariant is kept by `connect`. -/
theorem good_connect {c : Ctx M} (h : Good c) (url : String) :
    Good (DataLink.connect (LinkCallbacks.observer M) url c).2 := by
  unfold DataLink.connect
  dsimp only
  have h0 : Good ({ c with link := { c.link with server_url_ := url } } : Ctx M) :=
    good_frame h rfl rfl rfl rfl
  have h1 := good_update h0 ConnectionState.CONNECTING (fun _ => Or.inl rfl)
    (fun hd => by cases hd)
  have hs1 := updateConnectionState_state ConnectionState.CONNECTING
    ({ c with link := { c.link with server_url_ := url } } : Ctx M)
  have h2 : Good ({ DataLink.updateConnectionState (LinkCallbacks.observer M)
      ConnectionState.CONNECTING ({ c with link := { c.link with server_url_ := url } } : Ctx M) with
      world := (DataLink.updateConnectionState (LinkCallbacks.observer M)
        ConnectionState.CONNECTING
          ({ c with link := { c.link with server_url_ := url } } : Ctx M)).world.websocketConnect url } : Ctx M) := by
    refine good_frame h1 rfl ?_ rfl rfl
    exact linkStates_emit_other _ _ (by simp)
  split_ifs
  · exact h
  · exact h
  · refine good_handleConnectionSuccess h2 ?_
    show (DataLink.updateConnectionState _ _ _).link.connection_state_ ≠ _
    rw [hs1]; decide
  · refine good_handleConnectionError h2 _ ?_
    show (DataLink.updateConnectionState _ _ _).link.connection_state_ ≠ _
    rw [hs1]; decide

/-- The invariant is kept by `setAutoReconnect`. -/
theorem good_setAutoReconnect {c : Ctx M} (h : Good c) (enabled : Bool) (m i : Int) :
    Good (DataLink.setAutoReconnect (LinkCallbacks.observer M) enabled m i c) := by
  unfold DataLink.setAutoReconnect
  dsimp only
  have h1 : Good ({ c with link := { c.link with
        auto_reconnect_enabled_ := enabled,
        max_reconnect_attempts_ := m,
        reconnect_interval_ms_ := i } } : Ctx M) := good_frame h rfl rfl rfl rfl
  split_ifs
  · exact h1
  · exact (stopReconnectTimer_frame _ h1).1

/-- The invariant is kept by `sendText`. -/
theorem good_sendText {c : Ctx M} (h : Good c) (message : String) :
    Good (DataLink.sendText message c).2 := by
  unfold DataLink.sendText
  split_ifs
  · exact h
  · refine good_frame h rfl ?_ rfl rfl
    exact linkStates_emit_other _ _ (by simp)
  · refine good_frame h rfl ?_ rfl rfl
    exact linkStates_emit_other _ _ (by simp)

/-- The invariant is kept by `sendBinary`. -/
theorem good_sendBinary {c : Ctx M} (h : Good c) (data : List Nat) :
    Good (DataLink.sendBinary data c).2 := by
  unfold DataLink.sendBinary
  split_ifs
  · exact h
  · refine good_frame h rfl ?_ rfl rfl
    exact linkStates_emit_other _ _ (by simp)
  · refine good_frame h rfl ?_ rfl rfl
    exact linkStates_emit_other _ _ (by simp)

/-- The invariant is kept by `sendPing`. -/
theorem good_sendPing {c : Ctx M} (h : Good c) :
    Good (DataLink.sendPing c).2 := by
  unfold DataLink.sendPing
  split_ifs
  · exact h
  · refine good_frame h rfl ?_ rfl rfl
    exact linkStates_emit_other _ _ (by simp)

/-- The invariant is kept by every Link operation. -/
theorem good_run {c : Ctx M} (h : Good c) (op : LinkOp) :
    Good (op.run (LinkCallbacks.observer M) c) := by
  cases op with
  | connect url => exact good_connect h url
  | disconnect => exact good_disconnect h
  | sendText m => exact good_sendText h m
  | sendBinary d => exact good_sendBinary h d
  | sendPing => exact good_sendPing h
  | setAutoReconnect e m i => exact good_setAutoReconnect h e m i
  | reconnectThreadStep => exact good_attemptReconnectStep h

/-- The invariant is kept by every sequence of Link operations. -/
theorem good_runLinkOps {c : Ctx M} (h : Good c) (ops : List LinkOp) :
    Good (runLinkOps (LinkCallbacks.observer M) ops c) := by
  induction ops generalizing c with
  | nil => exact h
  | cons op ops ih => exact ih (good_run h op)

/-- A new Link in a world in which nothing has happened satisfies the invariant. -/
theorem good_fresh (cr sr : Nat → Bool) (ts : Nat → Nat) :
    Good (freshLink (World.start cr sr ts)) :=
  { chain := by simp [freshLink, World.start, linkStates]
    last := by simp [freshLink, World.start, linkStates, DataLink.new]
    live := by simp [freshLink, World.start] }


/-- With an observer, `updateConnectionState` makes no `websocketClose` call. -/
theorem closeCount_updateConnectionState (new_state : ConnectionState) (c : Ctx M) :
    closeCount (DataLink.updateConnectionState (LinkCallbacks.observer M) new_state c).world.trace =
      closeCount c.world.trace := by
  rw [updateConnectionState_observer]
  by_cases h : c.link.connection_state_ = new_state <;> simp [h, World.emit, closeCount]

/-- A step of the reconnect thread makes no `websocketClose` call. -/
theorem closeCount_attemptReconnectStep (c : Ctx M) :
    closeCount (DataLink.attemptReconnectStep (LinkCallbacks.observer M) c).world.trace =
      closeCount c.world.trace := by
  unfold DataLink.attemptReconnectStep
  dsimp only
  split
  · rfl
  · split_ifs <;> simp [World.sleep, World.emit, closeCount]
  · split_ifs <;> rfl
  · split_ifs
    · simp only [DataLink.handleConnectionSuccess, closeCount_updateConnectionState]
      simp [World.getCurrentTimestamp, World.websocketConnect, closeCount]
    · simp only [closeCount_updateConnectionState]
      simp [World.websocketConnect, closeCount]
    · simp [World.websocketConnect, closeCount]

/-- No number of steps of the reconnect thread makes a `websocketClose` call. -/
theorem closeCount_attemptReconnect (n : Nat) (c : Ctx M) :
    closeCount (DataLink.attemptReconnect (LinkCallbacks.observer M) n c).world.trace =
      closeCount c.world.trace := by
  induction n generalizing c with
  | zero => rfl
  | succ n ih => simp only [DataLink.attemptReconnect, ih, closeCount_attemptReconnectStep]

/-- The method `stopReconnectTimer` makes no `websocketClose` call. -/
theorem closeCount_stopReconnectTimer (c : Ctx M) :
    closeCount (DataLink.stopReconnectTimer (LinkCallbacks.observer M) c).world.trace =
      closeCount c.world.trace := by
  unfold DataLink.stopReconnectTimer
  dsimp only
  split_ifs
  · simp only [closeCount_attemptReconnect]
    simp [World.emit, closeCount]
  · rfl


/-- Running the reconnect thread for `a + b` steps is running it for `a` and then for `b`
steps. -/
theorem attemptReconnect_add (cb : LinkCallbacks M) (a b : Nat) (c : Ctx M) :
    DataLink.attemptReconnect cb (a + b) c =
      DataLink.attemptReconnect cb b (DataLink.attemptReconnect cb a c) := by
  induction a generalizing c with
  | zero => simp [DataLink.attemptReconnect]
  | succ n ih =>
    rw [Nat.succ_add]
    simp only [DataLink.attemptReconnect]
    exact ih _


/-- The reconnect loop against a transport that refuses every connection: started in
`RECONNECTING` with the counter `d` below the maximum, the thread ends after `d + 1`
rounds (three steps each) in `ERROR`, with the counter at the maximum. -/
theorem attemptReconnect_all_fail (d : Nat) (c : Ctx M)
    (hpc : c.world.reconnectPc = some ReconnectPc.entry)
    (hrun : c.link.reconnect_thread_running_ = true)
    (hst : c.link.connection_state_ = ConnectionState.RECONNECTING)
    (hmax : c.link.max_reconnect_attempts_ = c.link.current_reconnect_attempts_ + d)
    (hfail : ∀ n, c.world.connectResult n = false) :
    DataLink.attemptReconnect (LinkCallbacks.observer M) (3 * (d + 1)) c =
      { c with
        link := { c.link with
          current_reconnect_attempts_ := c.link.max_reconnect_attempts_,
          reconnect_thread_running_ := false,
          connection_state_ := ConnectionState.ERROR },
        world := { c.world with
          connectCalls := c.world.connectCalls + (d + 1),
          reconnectPc := none,
          trace := c.world.trace ++
            retryEvents c.link.reconnect_interval_ms_ c.link.server_url_ (d + 1) ++
            [Event.linkStateCallback ConnectionState.ERROR] } } := by
  induction d generalizing c with
  | zero =>
    simp at hmax
    simp [DataLink.attemptReconnect, DataLink.attemptReconnectStep, hpc, hrun, hst, hmax, hfail,
      updateConnectionState_observer, World.sleep, World.emit, World.websocketConnectResult,
      World.websocketConnect, retryEvents]
  | succ d ih =>
    have h3 : 3 * (d + 1 + 1) = 3 + 3 * (d + 1) := by ring
    rw [h3, attemptReconnect_add]
    have hlt : ¬ (c.link.max_reconnect_attempts_ ≤ c.link.current_reconnect_attempts_) := by
      rw [hmax]; omega
    have hstep : DataLink.attemptReconnect (LinkCallbacks.observer M) 3 c =
        { c with
          link := { c.link with
            current_reconnect_attempts_ := c.link.current_reconnect_attempts_ + 1 },
          world := { c.world with
            connectCalls := c.world.connectCalls + 1,
            reconnectPc := some ReconnectPc.entry,
            trace := c.world.trace ++
              [Event.sleep c.link.reconnect_interval_ms_, Event.websocketConnect c.link.server_url_] } } := by
      simp [DataLink.attemptReconnect, DataLink.attemptReconnectStep, hpc, hrun, hfail, hlt,
        World.sleep, World.emit, World.websocketConnectResult, World.websocketConnect]
    rw [hstep, ih]
    · simp [retryEvents, List.replicate_succ, hmax]
      omega
    · rfl
    · exact hrun
    · exact hst
    · simp [hmax]; ring
    · exact hfail


/-- The events of `n` rounds of the reconnect loop hold `n` connection attempts. -/
theorem connectCount_retryEvents (i : Int) (url : String) (n : Nat) :
    connectCount (retryEvents i url n) = n := by
  induction n with
  | zero => rfl
  | succ n ih =>
    simp only [retryEvents, connectCount, List.replicate_succ, List.flatten_cons,
      List.countP_append] at ih ⊢
    rw [ih]
    simp [List.countP_cons]
    omega


/-- The reconnect loop is still idle in a context with the same thread state and the
same numbers of waits and connection attempts. -/
theorem idleSince_of (c c2 c3 : Ctx M) (h : IdleSince c c2)
    (hp : c3.world.reconnectPc = c2.world.reconnectPc)
    (hc : connectCount c3.world.trace = connectCount c2.world.trace)
    (hs : sleepCount c3.world.trace = sleepCount c2.world.trace) : IdleSince c c3 :=
  ⟨hp.trans h.1, hc.trans h.2.1, hs.trans h.2.2⟩

/-- With an observer, `updateConnectionState` leaves the reconnect loop idle. -/
theorem idleSince_updateConnectionState (c c2 : Ctx M) (h : IdleSince c c2)
    (new_state : ConnectionState) :
    IdleSince c (DataLink.updateConnectionState (LinkCallbacks.observer M) new_state c2) := by
  rw [updateConnectionState_observer]
  split_ifs
  · exact h
  · refine idleSince_of c c2 _ h rfl ?_ ?_
    · simp [World.emit, connectCount, List.countP_append]
    · simp [World.emit, sleepCount, List.countP_append]

/-- The method `stopReconnectTimer` leaves the reconnect loop idle. -/
theorem idleSince_stopReconnectTimer (c c2 : Ctx M) (h : IdleSince c c2) :
    IdleSince c (DataLink.stopReconnectTimer (LinkCallbacks.observer M) c2) := by
  unfold DataLink.stopReconnectTimer
  dsimp only
  split_ifs
  · rw [attemptReconnect_ended _ _ _ (by simpa [World.emit] using h.1)]
    refine idleSince_of c c2 _ h rfl ?_ ?_
    · simp [World.emit, connectCount, List.countP_append]
    · simp [World.emit, sleepCount, List.countP_append]
  · exact h

/-- Every Link operation other than `connect` leaves the reconnect loop idle. -/
theorem idleSince_run (c c2 : Ctx M) (h : IdleSince c c2) (op : LinkOp)
    (hop : op.isConnect = false) :
    IdleSince c (op.run (LinkCallbacks.observer M) c2) := by
  cases op with
  | connect url => simp [LinkOp.isConnect] at hop
  | disconnect =>
    show IdleSince c (DataLink.disconnect _ c2)
    unfold DataLink.disconnect
    dsimp only
    split_ifs
    · exact h
    · refine idleSince_updateConnectionState c _ ?_ _
      refine idleSince_of c _ _ (idleSince_stopReconnectTimer c c2 h) rfl ?_ ?_
      · simp [World.websocketClose, World.emit, connectCount, List.countP_append]
      · simp [World.websocketClose, World.emit, sleepCount, List.countP_append]
  | sendText m =>
    show IdleSince c (DataLink.sendText m c2).2
    unfold DataLink.sendText
    split_ifs
    · exact h
    all_goals
      refine idleSince_of c c2 _ h rfl ?_ ?_
      · simp [World.websocketSend, connectCount, List.countP_append]
      · simp [World.websocketSend, sleepCount, List.countP_append]
  | sendBinary d =>
    show IdleSince c (DataLink.sendBinary d c2).2
    unfold DataLink.sendBinary
    split_ifs
    · exact h
    all_goals
      refine idleSince_of c c2 _ h rfl ?_ ?_
      · simp [World.websocketSend, connectCount, List.countP_append]
      · simp [World.websocketSend, sleepCount, List.countP_append]
  | sendPing =>
    show IdleSince c (DataLink.sendPing c2).2
    unfold DataLink.sendPing
    split_ifs
    · exact h
    all_goals
      refine idleSince_of c c2 _ h rfl ?_ ?_
      · simp [World.websocketSend, connectCount, List.countP_append]
      · simp [World.websocketSend, sleepCount, List.countP_append]
  | setAutoReconnect e m i =>
    show IdleSince c (DataLink.setAutoReconnect _ e m i c2)
    unfold DataLink.setAutoReconnect
    dsimp only
    split_ifs
    · exact h
    · exact idleSince_stopReconnectTimer c _ h
  | reconnectThreadStep =>
    show IdleSince c (DataLink.attemptReconnectStep _ c2)
    rw [attemptReconnectStep_ended _ _ h.1]
    exact h

/-- Every sequence of Link operations other than `connect` leaves the reconnect loop idle. -/
theorem idleSince_runLinkOps (c c2 : Ctx M) (h : IdleSince c c2) (ops : List LinkOp)
    (hops : ∀ op ∈ ops, op.isConnect = false) :
    IdleSince c (runLinkOps (LinkCallbacks.observer M) ops c2) := by
  induction ops generalizing c2 with
  | nil => exact h
  | cons op ops ih =>
    exact ih _ (idleSince_run c c2 h op (hops op (List.mem_cons_self _ _)))
      (fun o ho => hops o (List.mem_cons_of_mem _ ho))

/-! ## The Link: the claims -/

/-- Claim C5 (reconnect exhaustion).  Auto-reconnect is enabled with a maximum of
`m ≥ 1` attempts, the attempt counter is 0, no reconnect loop is active and the
transport refuses every connection.  Then `connect` returns false and starts the
reconnect thread, and once the thread has run to its end (any number `fuel ≥ 3 * m` of
its steps, three per attempt) the Link is in `ERROR`, the running flag is false, the
thread has ended, the counter is `m`, and after the caller's own attempt the trace
holds exactly `m` rounds "wait one interval, call `websocketConnect`": `m` automatic
attempts, and no further one however long the thread is scheduled. -/
theorem reconnect_exhaustion (url : String) (c : Ctx M) (m fuel : Nat)
    (hm : 1 ≤ m)
    (h1 : c.link.connection_state_ ≠ ConnectionState.CONNECTED)
    (h2 : c.link.connection_state_ ≠ ConnectionState.CONNECTING)
    (hauto : c.link.auto_reconnect_enabled_ = true)
    (hmax : c.link.max_reconnect_attempts_ = m)
    (hcur : c.link.current_reconnect_attempts_ = 0)
    (hrun : c.link.reconnect_thread_running_ = false)
    (hfail : ∀ n, c.world.connectResult n = false)
    (hfuel : 3 * m ≤ fuel) :
    ∃ c1 c2, DataLink.connect (LinkCallbacks.observer M) url c = (false, c1) ∧
      DataLink.attemptReconnect (LinkCallbacks.observer M) fuel c1 = c2 ∧
      c2.link.connection_state_ = ConnectionState.ERROR ∧
      c2.link.reconnect_thread_running_ = false ∧
      c2.world.reconnectPc = none ∧
      c2.link.current_reconnect_attempts_ = m ∧
      c2.world.trace = c.world.trace ++
        [Event.linkStateCallback ConnectionState.CONNECTING, Event.websocketConnect url,
         Event.linkStateCallback ConnectionState.ERROR, Event.linkErrorCallback "连接失败",
         Event.linkStateCallback ConnectionState.RECONNECTING,
         Event.createThread ThreadFn.reconnectThread] ++
        retryEvents c.link.reconnect_interval_ms_ url m ++
        [Event.linkStateCallback ConnectionState.ERROR] ∧
      connectCount c2.world.trace = connectCount c.world.trace + 1 + m := by
  obtain ⟨d, rfl⟩ : ∃ d, m = d + 1 := ⟨m - 1, by omega⟩
  obtain ⟨e, rfl⟩ : ∃ e, fuel = 3 * (d + 1) + e := ⟨fuel - 3 * (d + 1), by omega⟩
  have hlt : c.link.current_reconnect_attempts_ < c.link.max_reconnect_attempts_ := by
    rw [hmax, hcur]; omega
  have hpos : 0 < c.link.max_reconnect_attempts_ := hcur ▸ hlt
  let c1 : Ctx M :=
    { c with
      link := { c.link with
        server_url_ := url,
        connection_state_ := ConnectionState.RECONNECTING,
        current_reconnect_attempts_ := 1,
        reconnect_thread_running_ := true,
        reconnect_thread_ := true },
      world := { c.world with
        connectCalls := c.world.connectCalls + 1,
        reconnectPc := some ReconnectPc.entry,
        trace := c.world.trace ++
          [Event.linkStateCallback ConnectionState.CONNECTING, Event.websocketConnect url,
           Event.linkStateCallback ConnectionState.ERROR, Event.linkErrorCallback "连接失败",
           Event.linkStateCallback ConnectionState.RECONNECTING,
           Event.createThread ThreadFn.reconnectThread] } }
  have hc : DataLink.connect (LinkCallbacks.observer M) url c = (false, c1) := by
    simp [c1, DataLink.connect, DataLink.handleConnectionError, DataLink.startReconnectTimer,
      updateConnectionState_observer, observer_error_callback, h1, h2, hrun, hauto,
      World.websocketConnectResult, World.websocketConnect, World.emit, hfail, hcur, hpos]
  have hloop := attemptReconnect_all_fail d c1 rfl rfl rfl
    (by simp only [c1, hmax]; push_cast; ring) hfail
  refine ⟨c1, _, hc, rfl, ?_⟩
  rw [attemptReconnect_add, hloop, attemptReconnect_ended _ _ _ rfl]
  simp [c1, hmax, connectCount, List.countP_append, List.countP_cons]
  have := connectCount_retryEvents c.link.reconnect_interval_ms_ url (d + 1)
  simp only [connectCount] at this
  rw [this]
  omega

/-- Witness for C5: a new Link with the policy (enabled, 3 attempts, 10 ms) against a
transport that always refuses makes 1 + 3 connection attempts and ends in `ERROR`. -/
theorem reconnect_exhaustion_witness :
    ∃ c1 c2,
      DataLink.connect (LinkCallbacks.observer Unit) "ws://host"
        (DataLink.setAutoReconnect (LinkCallbacks.observer Unit) true 3 10
          (freshLink (World.start (fun _ => false) (fun _ => true) (fun _ => 0)))) = (false, c1) ∧
      DataLink.attemptReconnect (LinkCallbacks.observer Unit) 9 c1 = c2 ∧
      c2.link.connection_state_ = ConnectionState.ERROR ∧
      c2.world.reconnectPc = none ∧
      connectCount c2.world.trace = 4 := by
  obtain ⟨c1, c2, h1, h2, h3, _, h5, _, _, h8⟩ :=
    reconnect_exhaustion "ws://host"
      (DataLink.setAutoReconnect (LinkCallbacks.observer Unit) true 3 10
        (freshLink (World.start (fun _ => false) (fun _ => true) (fun _ => 0))))
      3 9 (by decide) (by decide) (by decide) rfl rfl rfl rfl (fun _ => rfl) (by decide)
  exact ⟨c1, c2, h1, h2, h3, h5, h8⟩

/-- Claim C6 (successful connect).  In every state other than `CONNECTED` and
`CONNECTING`, when the transport accepts the connection, `connect` returns true, stores
the address, ends in `CONNECTED`, resets the attempt counter to 0, stores the value of
the platform clock as connection start time, and the state callback receives exactly
`CONNECTING` and then `CONNECTED`. -/
theorem connect_success (url : String) (c : Ctx M)
    (h1 : c.link.connection_state_ ≠ ConnectionState.CONNECTED)
    (h2 : c.link.connection_state_ ≠ ConnectionState.CONNECTING)
    (hok : c.world.websocketConnectResult = true) :
    ∃ c2, DataLink.connect (LinkCallbacks.observer M) url c = (true, c2) ∧
      c2.link.server_url_ = url ∧
      c2.link.connection_state_ = ConnectionState.CONNECTED ∧
      c2.link.current_reconnect_attempts_ = 0 ∧
      c2.link.connection_start_time_ = c.world.currentTimestamp ∧
      linkStates c2.world.trace = linkStates c.world.trace ++
        [ConnectionState.CONNECTING, ConnectionState.CONNECTED] ∧
      c2.world.trace = c.world.trace ++
        [Event.linkStateCallback ConnectionState.CONNECTING, Event.websocketConnect url,
         Event.getCurrentTimestamp, Event.linkStateCallback ConnectionState.CONNECTED] := by
  simp only [World.websocketConnectResult] at hok
  simp [DataLink.connect, DataLink.handleConnectionSuccess, updateConnectionState_observer, h1, h2,
    World.websocketConnectResult, World.websocketConnect, World.emit, World.getCurrentTimestamp,
    World.currentTimestamp, hok, linkStates, List.filterMap_append]

/-- Witness for C6: a new Link and a transport that accepts. -/
theorem connect_success_witness :
    ∃ c2,
      DataLink.connect (LinkCallbacks.observer Unit) "ws://host"
        (freshLink (World.start (fun _ => true) (fun _ => true) (fun _ => 42))) = (true, c2) ∧
      c2.link.connection_state_ = ConnectionState.CONNECTED ∧
      c2.link.connection_start_time_ = 42 ∧
      linkStates c2.world.trace = [ConnectionState.CONNECTING, ConnectionState.CONNECTED] := by
  obtain ⟨c2, h1, _, h3, _, h5, h6, _⟩ :=
    connect_success "ws://host"
      (freshLink (World.start (fun _ => true) (fun _ => true) (fun _ => 42)))
      (by decide) (by decide) rfl
  exact ⟨c2, h1, h3, h5, h6⟩

/-- Claim C7 (failed connect).  In every state other than `CONNECTED` and `CONNECTING`
with the running flag of the reconnect loop false, when the transport refuses the
connection, `connect` returns false, the state callback receives `CONNECTING` and then
`ERROR`, and the error callback is invoked once, with the non-empty reason given in the
source.  If auto-reconnect is enabled and the attempt counter is below the maximum, the
reconnect protocol begins: the counter grows by 1, the state becomes `RECONNECTING`
(a third state callback), the running flag is set and the thread is created.  Otherwise
the state stays `ERROR`, the counter, the flag and the threads are as before. -/
theorem connect_failure (url : String) (c : Ctx M)
    (h1 : c.link.connection_state_ ≠ ConnectionState.CONNECTED)
    (h2 : c.link.connection_state_ ≠ ConnectionState.CONNECTING)
    (hrun : c.link.reconnect_thread_running_ = false)
    (hfail : c.world.websocketConnectResult = false) :
    ∃ c2, DataLink.connect (LinkCallbacks.observer M) url c = (false, c2) ∧
      linkErrors c2.world.trace = linkErrors c.world.trace ++ ["连接失败"] ∧
      ("连接失败" : String) ≠ "" ∧
      (c.link.auto_reconnect_enabled_ = true ∧
          c.link.current_reconnect_attempts_ < c.link.max_reconnect_attempts_ →
        c2.link.connection_state_ = ConnectionState.RECONNECTING ∧
        c2.link.current_reconnect_attempts_ = c.link.current_reconnect_attempts_ + 1 ∧
        c2.link.reconnect_thread_running_ = true ∧
        c2.link.reconnect_thread_ = true ∧
        c2.world.reconnectPc = some ReconnectPc.entry ∧
        c2.world.trace = c.world.trace ++
          [Event.linkStateCallback ConnectionState.CONNECTING, Event.websocketConnect url,
           Event.linkStateCallback ConnectionState.ERROR, Event.linkErrorCallback "连接失败",
           Event.linkStateCallback ConnectionState.RECONNECTING,
           Event.createThread ThreadFn.reconnectThread]) ∧
      (¬ (c.link.auto_reconnect_enabled_ = true ∧
          c.link.current_reconnect_attempts_ < c.link.max_reconnect_attempts_) →
        c2.link.connection_state_ = ConnectionState.ERROR ∧
        c2.link.current_reconnect_attempts_ = c.link.current_reconnect_attempts_ ∧
        c2.link.reconnect_thread_running_ = false ∧
        c2.link.reconnect_thread_ = c.link.reconnect_thread_ ∧
        c2.world.reconnectPc = c.world.reconnectPc ∧
        c2.world.trace = c.world.trace ++
          [Event.linkStateCallback ConnectionState.CONNECTING, Event.websocketConnect url,
           Event.linkStateCallback ConnectionState.ERROR, Event.linkErrorCallback "连接失败"]) := by
  simp only [World.websocketConnectResult] at hfail
  by_cases hre : c.link.auto_reconnect_enabled_ = true ∧
      c.link.current_reconnect_attempts_ < c.link.max_reconnect_attempts_
  · simp [DataLink.connect, DataLink.handleConnectionError, DataLink.startReconnectTimer,
      updateConnectionState_observer, observer_error_callback, h1, h2, hrun, hre, linkErrors,
      World.websocketConnectResult, World.websocketConnect, World.emit, hfail, List.filterMap_append]
  · simp [DataLink.connect, DataLink.handleConnectionError, DataLink.startReconnectTimer,
      updateConnectionState_observer, observer_error_callback, h1, h2, hrun, hre, linkErrors,
      World.websocketConnectResult, World.websocketConnect, World.emit, hfail, List.filterMap_append]

/-- Witness for C7: on a new Link (auto-reconnect disabled) a refused connection ends in
`ERROR` with one error callback; with the policy (enabled, 3, 10) it ends in
`RECONNECTING` with counter 1. -/
theorem connect_failure_witness :
    (∃ c2,
      DataLink.connect (LinkCallbacks.observer Unit) "ws://host"
        (freshLink (World.start (fun _ => false) (fun _ => true) (fun _ => 0))) = (false, c2) ∧
      c2.link.connection_state_ = ConnectionState.ERROR ∧
      linkErrors c2.world.trace = ["连接失败"]) ∧
    (∃ c2,
      DataLink.connect (LinkCallbacks.observer Unit) "ws://host"
        (DataLink.setAutoReconnect (LinkCallbacks.observer Unit) true 3 10
          (freshLink (World.start (fun _ => false) (fun _ => true) (fun _ => 0)))) = (false, c2) ∧
      c2.link.connection_state_ = ConnectionState.RECONNECTING ∧
      c2.link.current_reconnect_attempts_ = 1) := by
  constructor
  · obtain ⟨c2, h1, h2, _, _, h5⟩ :=
      connect_failure "ws://host"
        (freshLink (World.start (fun _ => false) (fun _ => true) (fun _ => 0)))
        (by decide) (by decide) rfl rfl
    exact ⟨c2, h1, (h5 (by decide)).1, h2⟩
  · obtain ⟨c2, h1, _, _, h4, _⟩ :=
      connect_failure "ws://host"
        (DataLink.setAutoReconnect (LinkCallbacks.observer Unit) true 3 10
          (freshLink (World.start (fun _ => false) (fun _ => true) (fun _ => 0))))
        (by decide) (by decide) rfl rfl
    exact ⟨c2, h1, (h4 (by decide)).1, (h4 (by decide)).2.1⟩

/-- Claim C8 (no direct change from `DISCONNECTED` to `CONNECTED`).  For every
sequence of Link operations on a new Link with its state callback registered, whatever
the transport answers and wherever the steps of the reconnect thread fall: in the
sequence of states the Link goes through (the initial `DISCONNECTED` followed by the
states delivered to the callback, the last of which is the current state), no
`CONNECTED` comes right after a `DISCONNECTED`, and what comes right after a
`DISCONNECTED` is always `CONNECTING`. -/
theorem no_direct_disconnected_to_connected (cr sr : Nat → Bool) (ts : Nat → Nat)
    (ops : List LinkOp) :
    List.Chain' (fun a b => ¬ (a = ConnectionState.DISCONNECTED ∧ b = ConnectionState.CONNECTED))
      (ConnectionState.DISCONNECTED ::
        linkStates (runLinkOps (LinkCallbacks.observer Unit) ops
          (freshLink (World.start cr sr ts))).world.trace) ∧
    List.Chain' (fun a b => a = ConnectionState.DISCONNECTED → b = ConnectionState.CONNECTING)
      (ConnectionState.DISCONNECTED ::
        linkStates (runLinkOps (LinkCallbacks.observer Unit) ops
          (freshLink (World.start cr sr ts))).world.trace) ∧
    (ConnectionState.DISCONNECTED ::
        linkStates (runLinkOps (LinkCallbacks.observer Unit) ops
          (freshLink (World.start cr sr ts))).world.trace).getLast? =
      some (runLinkOps (LinkCallbacks.observer Unit) ops
          (freshLink (World.start cr sr ts))).link.connection_state_ := by
  have h := good_runLinkOps (good_fresh cr sr ts) ops
  refine ⟨h.chain.imp ?_, h.chain.imp ?_, h.last⟩
  · rintro a b ⟨_, hab⟩ ⟨ha, hb⟩
    have := hab ha
    rw [hb] at this
    cases this
  · rintro a b ⟨_, hab⟩
    exact hab

/-- Claim C10 (no reconnect attempt after disconnect).  Let `c` be the state of a Link
after any sequence of operations on a new Link, not `DISCONNECTED`.  When `disconnect`
returns, the state is `DISCONNECTED`, `websocketClose` has been called exactly once
more, the running flag is false, the thread handle has been joined and cleared and the
reconnect thread has ended; scheduling the reconnect thread any number of times
afterwards changes nothing: no wait, no connection attempt, no change of state; and
after any further operations other than `connect` the thread is still ended and the
trace holds no further wait and no further connection attempt. -/
theorem disconnect_stops_reconnect (cr sr : Nat → Bool) (ts : Nat → Nat) (ops : List LinkOp)
    (hs : (runLinkOps (LinkCallbacks.observer Unit) ops
      (freshLink (World.start cr sr ts))).link.connection_state_ ≠ ConnectionState.DISCONNECTED) :
    ∃ c d, c = runLinkOps (LinkCallbacks.observer Unit) ops (freshLink (World.start cr sr ts)) ∧
      d = DataLink.disconnect (LinkCallbacks.observer Unit) c ∧
      d.link.connection_state_ = ConnectionState.DISCONNECTED ∧
      closeCount d.world.trace = closeCount c.world.trace + 1 ∧
      d.link.reconnect_thread_running_ = false ∧
      d.link.reconnect_thread_ = false ∧
      d.world.reconnectPc = none ∧
      (∀ n, DataLink.attemptReconnect (LinkCallbacks.observer Unit) n d = d) ∧
      (∀ ops2 : List LinkOp, (∀ op ∈ ops2, op.isConnect = false) →
        IdleSince d (runLinkOps (LinkCallbacks.observer Unit) ops2 d)) := by
  refine ⟨_, _, rfl, rfl, ?_⟩
  have h := good_runLinkOps (good_fresh cr sr ts) ops
  generalize runLinkOps (LinkCallbacks.observer Unit) ops (freshLink (World.start cr sr ts)) = c
    at hs h
  obtain ⟨_, h2, h3, h4⟩ := stopReconnectTimer_frame c h
  have hpc : (DataLink.disconnect (LinkCallbacks.observer Unit) c).world.reconnectPc = none := by
    unfold DataLink.disconnect
    dsimp only
    rw [if_neg hs, (updateConnectionState_frame _ _).1]
    exact h2
  refine ⟨?_, ?_, ?_, ?_, hpc, fun n => attemptReconnect_ended _ n _ hpc,
    fun ops2 h2 => idleSince_runLinkOps _ _ ⟨hpc, rfl, rfl⟩ ops2 h2⟩
  · unfold DataLink.disconnect
    dsimp only
    rw [if_neg hs, updateConnectionState_state]
  · unfold DataLink.disconnect
    dsimp only
    rw [if_neg hs, closeCount_updateConnectionState]
    have := closeCount_stopReconnectTimer c
    simp only [World.websocketClose, World.emit, closeCount, List.count_append] at this ⊢
    rw [this]
    simp
  · unfold DataLink.disconnect
    dsimp only
    rw [if_neg hs, (updateConnectionState_frame _ _).2.2]
    exact h4
  · unfold DataLink.disconnect
    dsimp only
    rw [if_neg hs, (updateConnectionState_frame _ _).2.1]
    exact h3

/-- Witness for C10: a Link whose first connection was refused and whose reconnect
thread is waiting is disconnected; the thread has ended and one close was made. -/
theorem disconnect_stops_reconnect_witness :
    ∃ c d,
      c = runLinkOps (LinkCallbacks.observer Unit)
        [LinkOp.setAutoReconnect true 3 10, LinkOp.connect "ws://host",
         LinkOp.reconnectThreadStep]
        (freshLink (World.start (fun _ => false) (fun _ => true) (fun _ => 0))) ∧
      d = DataLink.disconnect (LinkCallbacks.observer Unit) c ∧
      c.world.reconnectPc = some ReconnectPc.slept ∧
      d.link.connection_state_ = ConnectionState.DISCONNECTED ∧
      closeCount d.world.trace = 1 ∧
      d.world.reconnectPc = none := by
  obtain ⟨c, d, hc, hd, h1, h2, _, _, h5, _, _⟩ :=
    disconnect_stops_reconnect (fun _ => false) (fun _ => true) (fun _ => 0)
      [LinkOp.setAutoReconnect true 3 10, LinkOp.connect "ws://host",
       LinkOp.reconnectThreadStep] (by decide)
  refine ⟨c, d, hc, hd, ?_, h1, ?_, h5⟩
  · rw [hc]; decide
  · rw [h2, hc]; decide

/-- Whatever the callbacks, `updateConnectionState` leaves the Link in the new state when
the state callback does not itself change the connection state. -/
theorem updateConnectionState_state_of (cb : LinkCallbacks M)
    (hcb : ∀ f, cb.connection_callback_ = some f →
      ∀ s c, (f s c).link.connection_state_ = c.link.connection_state_)
    (new_state : ConnectionState) (c : Ctx M) :
    (DataLink.updateConnectionState cb new_state c).link.connection_state_ = new_state := by
  unfold DataLink.updateConnectionState
  by_cases h : c.link.connection_state_ = new_state
  · simp [h]
  · rw [if_pos h]
    dsimp only
    cases hf : cb.connection_callback_ with
    | none => rfl
    | some f => exact hcb f hf _ _

/-- Claim C11 (disconnect is idempotent).  For every state of a Link, with callbacks
that do not themselves change the connection state (an observer, the lambdas of the
Manager, or none): `disconnect` leaves the Link in `DISCONNECTED`, and calling it a second
time returns the state the first call produced, unchanged.  A `disconnect` issued in
state `DISCONNECTED` returns the state it was given: no field changes, no
`websocketClose` is called and no state callback is delivered. -/
theorem disconnect_idempotent (cb : LinkCallbacks M)
    (hcb : ∀ f, cb.connection_callback_ = some f →
      ∀ s c, (f s c).link.connection_state_ = c.link.connection_state_)
    (c : Ctx M) :
    DataLink.disconnect cb (DataLink.disconnect cb c) = DataLink.disconnect cb c ∧
    (DataLink.disconnect cb c).link.connection_state_ = ConnectionState.DISCONNECTED ∧
    (c.link.connection_state_ = ConnectionState.DISCONNECTED →
      DataLink.disconnect cb c = c ∧
      closeCount (DataLink.disconnect cb c).world.trace = closeCount c.world.trace ∧
      linkStates (DataLink.disconnect cb c).world.trace = linkStates c.world.trace) := by
  have hst : (DataLink.disconnect cb c).link.connection_state_ = ConnectionState.DISCONNECTED := by
    unfold DataLink.disconnect
    dsimp only
    by_cases h : c.link.connection_state_ = ConnectionState.DISCONNECTED
    · rw [if_pos h]; exact h
    · rw [if_neg h]; exact updateConnectionState_state_of cb hcb _ _
  have hnoop : ∀ d : Ctx M, d.link.connection_state_ = ConnectionState.DISCONNECTED →
      DataLink.disconnect cb d = d := by
    intro d hd
    unfold DataLink.disconnect
    rw [if_pos hd]
  refine ⟨hnoop _ hst, hst, fun h => ?_⟩
  rw [hnoop c h]
  exact ⟨rfl, rfl, rfl⟩

/-- Witness for C11: a connected Link with an observer registered is disconnected twice;
the second call changes nothing, and one `websocketClose` was made in all. -/
theorem disconnect_idempotent_witness :
    DataLink.disconnect (LinkCallbacks.observer Unit)
      (DataLink.disconnect (LinkCallbacks.observer Unit) exampleConnectedLink) =
    DataLink.disconnect (LinkCallbacks.observer Unit) exampleConnectedLink ∧
    closeCount (DataLink.disconnect (LinkCallbacks.observer Unit)
      (DataLink.disconnect (LinkCallbacks.observer Unit) exampleConnectedLink)).world.trace = 1 ∧
    linkStates (DataLink.disconnect (LinkCallbacks.observer Unit)
      (DataLink.disconnect (LinkCallbacks.observer Unit) exampleConnectedLink)).world.trace =
      [ConnectionState.CONNECTING, ConnectionState.CONNECTED, ConnectionState.DISCONNECTED] :=
  ⟨(disconnect_idempotent (LinkCallbacks.observer Unit)
      (fun f hf s c => by
        simp only [LinkCallbacks.observer, Option.some.injEq] at hf
        subst hf
        rfl)
      exampleConnectedLink).1,
   by decide, by decide⟩

/-- Claim C12 (connect is a no-op when connected or connecting).  For every address and
whatever the callbacks, `connect` in state `CONNECTED` returns true and in state
`CONNECTING` returns false, and in both cases returns the state it was given: the
connection state, the stored address and the attempt counter are unchanged, and the
trace gains no `websocketConnect` and no callback invocation. -/
theorem connect_noop_when_connected_or_connecting (cb : LinkCallbacks M) (url : String)
    (c : Ctx M) :
    (c.link.connection_state_ = ConnectionState.CONNECTED →
      DataLink.connect cb url c = (true, c)) ∧
    (c.link.connection_state_ = ConnectionState.CONNECTING →
      DataLink.connect cb url c = (false, c)) := by
  constructor
  · intro h
    unfold DataLink.connect
    rw [if_pos h]
  · intro h
    have h1 : c.link.connection_state_ ≠ ConnectionState.CONNECTED := by rw [h]; decide
    unfold DataLink.connect
    rw [if_neg h1, if_pos h]

/-- Witness for C12: `connect` with another address on a connected Link and on a Link in
`CONNECTING`; the stored address stays "ws://host". -/
theorem connect_noop_when_connected_or_connecting_witness :
    DataLink.connect (LinkCallbacks.observer Unit) "ws://other" exampleConnectedLink =
      (true, exampleConnectedLink) ∧
    exampleConnectedLink.link.server_url_ = "ws://host" ∧
    DataLink.connect (LinkCallbacks.observer Unit) "ws://other" exampleConnectingLink =
      (false, exampleConnectingLink) :=
  ⟨(connect_noop_when_connected_or_connecting (LinkCallbacks.observer Unit) "ws://other"
      exampleConnectedLink).1 (by decide),
   by decide,
   (connect_noop_when_connected_or_connecting (LinkCallbacks.observer Unit) "ws://other"
      exampleConnectingLink).2 (by decide)⟩

/-- Claim C13 (send contract of the Link).  For every payload and every state,
`sendText` returns true exactly when the state is `CONNECTED` and the transport accepts
the payload; when the state is not `CONNECTED` it returns the state it was given (no
transport call); when it is `CONNECTED` exactly one `websocketSend` with the payload is
added to the trace; on success the counter of sent messages grows by 1 and the counter of
sent bytes by the length of the payload (in `uint64_t` arithmetic, so plainly by that
amount below the wrap-around) and no other field of the Link changes; on failure no field
of the Link changes; the connection state is never changed.  The same holds for
`sendBinary`, whose payload on the wire is the byte vector as a string and whose length
is the number of bytes. -/
theorem link_send_contract (message : String) (data : List Nat) (c : Ctx M) :
    (((DataLink.sendText message c).1 = true ↔
        c.link.connection_state_ = ConnectionState.CONNECTED ∧
          c.world.websocketSendResult = true) ∧
      (c.link.connection_state_ ≠ ConnectionState.CONNECTED →
        (DataLink.sendText message c).2 = c) ∧
      (c.link.connection_state_ = ConnectionState.CONNECTED →
        (DataLink.sendText message c).2.world.trace =
          c.world.trace ++ [Event.websocketSend message]) ∧
      ((DataLink.sendText message c).1 = true →
        (DataLink.sendText message c).2.link =
          { c.link with
            messages_sent_ := (c.link.messages_sent_ + 1) % UINT64_MOD,
            bytes_sent_ := (c.link.bytes_sent_ + message.length) % UINT64_MOD }) ∧
      ((DataLink.sendText message c).1 = false → (DataLink.sendText message c).2.link = c.link) ∧
      (DataLink.sendText message c).2.link.connection_state_ = c.link.connection_state_) ∧
    (((DataLink.sendBinary data c).1 = true ↔
        c.link.connection_state_ = ConnectionState.CONNECTED ∧
          c.world.websocketSendResult = true) ∧
      (c.link.connection_state_ ≠ ConnectionState.CONNECTED →
        (DataLink.sendBinary data c).2 = c) ∧
      (c.link.connection_state_ = ConnectionState.CONNECTED →
        (DataLink.sendBinary data c).2.world.trace =
          c.world.trace ++ [Event.websocketSend (stringOfBytes data)]) ∧
      ((DataLink.sendBinary data c).1 = true →
        (DataLink.sendBinary data c).2.link =
          { c.link with
            messages_sent_ := (c.link.messages_sent_ + 1) % UINT64_MOD,
            bytes_sent_ := (c.link.bytes_sent_ + data.length) % UINT64_MOD }) ∧
      ((DataLink.sendBinary data c).1 = false → (DataLink.sendBinary data c).2.link = c.link) ∧
      (DataLink.sendBinary data c).2.link.connection_state_ = c.link.connection_state_) ∧
    (∀ n k : Nat, n + k < UINT64_MOD → (n + k) % UINT64_MOD = n + k) := by
  refine ⟨?_, ?_, fun n k h => Nat.mod_eq_of_lt h⟩
  · by_cases hc : c.link.connection_state_ = ConnectionState.CONNECTED <;>
      by_cases hs : c.world.websocketSendResult = true <;>
      simp [DataLink.sendText, DataLink.isConnected, hc, hs, World.websocketSend]
  · by_cases hc : c.link.connection_state_ = ConnectionState.CONNECTED <;>
      by_cases hs : c.world.websocketSendResult = true <;>
      simp [DataLink.sendBinary, DataLink.isConnected, hc, hs, World.websocketSend]

/-- Witness for C13: an accepted text of 5 characters on a connected Link, and a binary
send the transport refuses. -/
theorem link_send_contract_witness :
    (DataLink.sendText "hello" exampleConnectedLink).1 = true ∧
    (DataLink.sendText "hello" exampleConnectedLink).2.link.messages_sent_ = 1 ∧
    (DataLink.sendText "hello" exampleConnectedLink).2.link.bytes_sent_ = 5 ∧
    (DataLink.sendBinary [1, 2, 3] exampleRefusingLink).1 = false ∧
    (DataLink.sendBinary [1, 2, 3] exampleRefusingLink).2.link = exampleRefusingLink.link ∧
    (DataLink.sendBinary [1, 2, 3] exampleRefusingLink).2.link.connection_state_ =
      ConnectionState.CONNECTED := by
  have h := link_send_contract "hello" [1, 2, 3] exampleConnectedLink
  have h2 := link_send_contract "hello" [1, 2, 3] exampleRefusingLink
  have ht : (DataLink.sendText "hello" exampleConnectedLink).1 = true :=
    h.1.1.2 ⟨by decide, by decide⟩
  have hf : (DataLink.sendBinary [1, 2, 3] exampleRefusingLink).1 = false := by
    have := h2.2.1.1
    by_contra hne
    have h3 := this.1 (by simpa using hne)
    exact absurd h3.2 (by decide)
  refine ⟨ht, ?_, ?_, hf, h2.2.1.2.2.2.2.1 hf, ?_⟩
  · rw [h.1.2.2.2.1 ht]; decide
  · rw [h.1.2.2.2.1 ht]; decide
  · rw [h2.2.1.2.2.2.2.2]; decide

/-- Claim C14 as amended (a ping is not counted as a send).  When the Link is
`CONNECTED` and the transport accepts the ping, `sendPing` returns true and hands the
payload "PING" to the transport once; the counter of sent messages, the counter of sent
bytes and every other field of the Link are unchanged. -/
theorem ping_not_counted (c : Ctx M)
    (hc : c.link.connection_state_ = ConnectionState.CONNECTED)
    (hok : c.world.websocketSendResult = true) :
    (DataLink.sendPing c).1 = true ∧
    (DataLink.sendPing c).2.world.trace = c.world.trace ++ [Event.websocketSend "PING"] ∧
    (DataLink.sendPing c).2.link.messages_sent_ = c.link.messages_sent_ ∧
    (DataLink.sendPing c).2.link.bytes_sent_ = c.link.bytes_sent_ ∧
    (DataLink.sendPing c).2.link = c.link := by
  simp [DataLink.sendPing, DataLink.isConnected, hc, hok, World.websocketSend]

/-- Witness for C14 as amended: a ping on a connected Link that has sent nothing. -/
theorem ping_not_counted_witness :
    (DataLink.sendPing exampleConnectedLink).1 = true ∧
    (DataLink.sendPing exampleConnectedLink).2.world.trace =
      exampleConnectedLink.world.trace ++ [Event.websocketSend "PING"] ∧
    (DataLink.sendPing exampleConnectedLink).2.link.messages_sent_ = 0 := by
  obtain ⟨h1, h2, h3, _⟩ := ping_not_counted exampleConnectedLink (by decide) (by decide)
  exact ⟨h1, h2, by rw [h3]; decide⟩

/-- Counterexample to C14 as stated: on a connected Link whose transport accepts every
send and whose counters are 0, `sendPing` returns true and both counters are still 0,
whereas `sendText` with the same payload makes them 1 and 4. -/
theorem ping_counts_as_send_counterexample :
    exampleConnectedLink.link.connection_state_ = ConnectionState.CONNECTED ∧
    exampleConnectedLink.world.websocketSendResult = true ∧
    (DataLink.sendPing exampleConnectedLink).1 = true ∧
    exampleConnectedLink.link.messages_sent_ = 0 ∧
    exampleConnectedLink.link.bytes_sent_ = 0 ∧
    (DataLink.sendPing exampleConnectedLink).2.link.messages_sent_ = 0 ∧
    (DataLink.sendPing exampleConnectedLink).2.link.bytes_sent_ = 0 ∧
    (DataLink.sendText "PING" exampleConnectedLink).2.link.messages_sent_ = 1 ∧
    (DataLink.sendText "PING" exampleConnectedLink).2.link.bytes_sent_ = 4 := by
  decide

/-- The events of one more round of the reconnect loop. -/
theorem retryEvents_succ (i : Int) (url : String) (n : Nat) :
    retryEvents i url (n + 1) =
      [Event.sleep i, Event.websocketConnect url] ++ retryEvents i url n := by
  simp [retryEvents, List.replicate_succ]

/-- One round of the reconnect loop in which the transport accepts: the thread ends with
the Link in `CONNECTED` and the counter at 0. -/
theorem attemptReconnect_round_success (c : Ctx M)
    (hpc : c.world.reconnectPc = some ReconnectPc.entry)
    (hrun : c.link.reconnect_thread_running_ = true)
    (hok : c.world.connectResult c.world.connectCalls = true) :
    ∃ tail, sleepCount tail = 0 ∧ connectCount tail = 0 ∧
      (DataLink.attemptReconnect (LinkCallbacks.observer M) 3 c).world.trace =
        c.world.trace ++
          [Event.sleep c.link.reconnect_interval_ms_, Event.websocketConnect c.link.server_url_] ++
          tail ∧
      (DataLink.attemptReconnect (LinkCallbacks.observer M) 3 c).world.reconnectPc = none ∧
      (DataLink.attemptReconnect (LinkCallbacks.observer M) 3 c).link.reconnect_thread_running_ =
        false ∧
      (DataLink.attemptReconnect (LinkCallbacks.observer M) 3 c).link.connection_state_ =
        ConnectionState.CONNECTED ∧
      (DataLink.attemptReconnect (LinkCallbacks.observer M) 3 c).link.current_reconnect_attempts_ =
        0 := by
  by_cases hs : c.link.connection_state_ = ConnectionState.CONNECTED
  · refine ⟨[Event.getCurrentTimestamp], rfl, rfl, ?_⟩
    simp [DataLink.attemptReconnect, DataLink.attemptReconnectStep, hpc, hrun, hok, hs,
      DataLink.handleConnectionSuccess, updateConnectionState_observer, World.sleep, World.emit,
      World.websocketConnectResult, World.websocketConnect, World.getCurrentTimestamp]
  · refine ⟨[Event.getCurrentTimestamp, Event.linkStateCallback ConnectionState.CONNECTED],
      rfl, rfl, ?_⟩
    simp [DataLink.attemptReconnect, DataLink.attemptReconnectStep, hpc, hrun, hok, hs,
      DataLink.handleConnectionSuccess, updateConnectionState_observer, World.sleep, World.emit,
      World.websocketConnectResult, World.websocketConnect, World.getCurrentTimestamp]

/-- One round of the reconnect loop in which the transport refuses and the counter has
reached the maximum: the thread ends with the Link in `ERROR` and the counter as it is. -/
theorem attemptReconnect_round_exhausted (c : Ctx M)
    (hpc : c.world.reconnectPc = some ReconnectPc.entry)
    (hrun : c.link.reconnect_thread_running_ = true)
    (hfail : c.world.connectResult c.world.connectCalls = false)
    (hmax : c.link.max_reconnect_attempts_ ≤ c.link.current_reconnect_attempts_) :
    ∃ tail, sleepCount tail = 0 ∧ connectCount tail = 0 ∧
      (DataLink.attemptReconnect (LinkCallbacks.observer M) 3 c).world.trace =
        c.world.trace ++
          [Event.sleep c.link.reconnect_interval_ms_, Event.websocketConnect c.link.server_url_] ++
          tail ∧
      (DataLink.attemptReconnect (LinkCallbacks.observer M) 3 c).world.reconnectPc = none ∧
      (DataLink.attemptReconnect (LinkCallbacks.observer M) 3 c).link.reconnect_thread_running_ =
        false ∧
      (DataLink.attemptReconnect (LinkCallbacks.observer M) 3 c).link.connection_state_ =
        ConnectionState.ERROR ∧
      (DataLink.attemptReconnect (LinkCallbacks.observer M) 3 c).link.current_reconnect_attempts_ =
        c.link.current_reconnect_attempts_ := by
  by_cases hs : c.link.connection_state_ = ConnectionState.ERROR
  · refine ⟨[], rfl, rfl, ?_⟩
    simp [DataLink.attemptReconnect, DataLink.attemptReconnectStep, hpc, hrun, hfail, hs, hmax,
      updateConnectionState_observer, World.sleep, World.emit,
      World.websocketConnectResult, World.websocketConnect]
  · refine ⟨[Event.linkStateCallback ConnectionState.ERROR], rfl, rfl, ?_⟩
    simp [DataLink.attemptReconnect, DataLink.attemptReconnectStep, hpc, hrun, hfail, hs, hmax,
      updateConnectionState_observer, World.sleep, World.emit,
      World.websocketConnectResult, World.websocketConnect]

/-- One round of the reconnect loop in which the transport refuses and the counter is
below the maximum: the counter grows by 1 and the thread is back at the entry. -/
theorem attemptReconnect_round_fail (cb : LinkCallbacks M) (c : Ctx M)
    (hpc : c.world.reconnectPc = some ReconnectPc.entry)
    (hrun : c.link.reconnect_thread_running_ = true)
    (hfail : c.world.connectResult c.world.connectCalls = false)
    (hlt : c.link.current_reconnect_attempts_ < c.link.max_reconnect_attempts_) :
    DataLink.attemptReconnect cb 3 c =
      { c with
        link := { c.link with
          current_reconnect_attempts_ := c.link.current_reconnect_attempts_ + 1 },
        world := { c.world with
          connectCalls := c.world.connectCalls + 1,
          reconnectPc := some ReconnectPc.entry,
          trace := c.world.trace ++
            [Event.sleep c.link.reconnect_interval_ms_,
             Event.websocketConnect c.link.server_url_] } } := by
  have hlt2 : ¬ (c.link.max_reconnect_attempts_ ≤ c.link.current_reconnect_attempts_) := by omega
  simp [DataLink.attemptReconnect, DataLink.attemptReconnectStep, hpc, hrun, hfail, hlt2,
    World.sleep, World.emit, World.websocketConnectResult, World.websocketConnect]

/-- The reconnect loop within its budget: started at the entry with the counter `d`
below the maximum, the thread ends within `d + 1` rounds, in `CONNECTED` with the counter
at 0 when one of the `d + 1` attempts is accepted and in `ERROR` with the counter at the
maximum when all are refused. -/
theorem attemptReconnect_budget (d : Nat) (c : Ctx M)
    (hpc : c.world.reconnectPc = some ReconnectPc.entry)
    (hrun : c.link.reconnect_thread_running_ = true)
    (hmax : c.link.max_reconnect_attempts_ = c.link.current_reconnect_attempts_ + d) :
    ∃ r tail, r ≤ d + 1 ∧ 1 ≤ r ∧ sleepCount tail = 0 ∧ connectCount tail = 0 ∧
      (DataLink.attemptReconnect (LinkCallbacks.observer M) (3 * (d + 1)) c).world.trace =
        c.world.trace ++
          retryEvents c.link.reconnect_interval_ms_ c.link.server_url_ r ++ tail ∧
      (DataLink.attemptReconnect (LinkCallbacks.observer M) (3 * (d + 1)) c).world.reconnectPc =
        none ∧
      (DataLink.attemptReconnect (LinkCallbacks.observer M)
        (3 * (d + 1)) c).link.reconnect_thread_running_ = false ∧
      ((∃ j, j < d + 1 ∧ c.world.connectResult (c.world.connectCalls + j) = true) →
        (DataLink.attemptReconnect (LinkCallbacks.observer M)
          (3 * (d + 1)) c).link.connection_state_ = ConnectionState.CONNECTED ∧
        (DataLink.attemptReconnect (LinkCallbacks.observer M)
          (3 * (d + 1)) c).link.current_reconnect_attempts_ = 0) ∧
      ((∀ j, j < d + 1 → c.world.connectResult (c.world.connectCalls + j) = false) →
        (DataLink.attemptReconnect (LinkCallbacks.observer M)
          (3 * (d + 1)) c).link.connection_state_ = ConnectionState.ERROR ∧
        (DataLink.attemptReconnect (LinkCallbacks.observer M)
          (3 * (d + 1)) c).link.current_reconnect_attempts_ = c.link.max_reconnect_attempts_ ∧
        r = d + 1) := by
  induction d generalizing c with
  | zero =>
    by_cases hok : c.world.connectResult c.world.connectCalls = true
    · obtain ⟨tail, h1, h2, h3, h4, h5, h6, h7⟩ := attemptReconnect_round_success c hpc hrun hok
      refine ⟨1, tail, le_refl _, le_refl _, h1, h2, ?_, h4, h5, fun _ => ⟨h6, h7⟩, fun hall => ?_⟩
      · simpa [retryEvents] using h3
      · have := hall 0 (by omega)
        simp [hok] at this
    · have hfail : c.world.connectResult c.world.connectCalls = false := by simpa using hok
      obtain ⟨tail, h1, h2, h3, h4, h5, h6, h7⟩ :=
        attemptReconnect_round_exhausted c hpc hrun hfail (by rw [hmax]; simp)
      refine ⟨1, tail, le_refl _, le_refl _, h1, h2, ?_, h4, h5, fun hex => ?_,
        fun _ => ⟨h6, ?_, rfl⟩⟩
      · simpa [retryEvents] using h3
      · obtain ⟨j, hj, hjt⟩ := hex
        have hj0 : j = 0 := by omega
        subst hj0
        simp [hfail] at hjt
      · rw [h7, hmax]; simp
  | succ d ih =>
    by_cases hok : c.world.connectResult c.world.connectCalls = true
    · obtain ⟨tail, h1, h2, h3, h4, h5, h6, h7⟩ := attemptReconnect_round_success c hpc hrun hok
      have hfuel : 3 * (d + 1 + 1) = 3 + 3 * (d + 1) := by ring
      have hend : DataLink.attemptReconnect (LinkCallbacks.observer M) (3 * (d + 1 + 1)) c =
          DataLink.attemptReconnect (LinkCallbacks.observer M) 3 c := by
        rw [hfuel, attemptReconnect_add, attemptReconnect_ended _ _ _ h4]
      rw [hend]
      refine ⟨1, tail, by omega, le_refl _, h1, h2, ?_, h4, h5, fun _ => ⟨h6, h7⟩, fun hall => ?_⟩
      · simpa [retryEvents] using h3
      · have := hall 0 (by omega)
        simp [hok] at this
    · have hfail : c.world.connectResult c.world.connectCalls = false := by simpa using hok
      have hlt : c.link.current_reconnect_attempts_ < c.link.max_reconnect_attempts_ := by
        rw [hmax]; push_cast; omega
      have hfuel : 3 * (d + 1 + 1) = 3 + 3 * (d + 1) := by ring
      have hround := attemptReconnect_round_fail (LinkCallbacks.observer M) c hpc hrun hfail hlt
      rw [hfuel, attemptReconnect_add, hround]
      obtain ⟨r, tail, hr, hr1, h1, h2, h3, h4, h5, h6, h7⟩ :=
        ih ({ c with
          link := { c.link with
            current_reconnect_attempts_ := c.link.current_reconnect_attempts_ + 1 },
          world := { c.world with
            connectCalls := c.world.connectCalls + 1,
            reconnectPc := some ReconnectPc.entry,
            trace := c.world.trace ++
              [Event.sleep c.link.reconnect_interval_ms_,
               Event.websocketConnect c.link.server_url_] } } : Ctx M)
          rfl hrun (by simp only [hmax]; push_cast; ring)
      refine ⟨r + 1, tail, by omega, by omega, h1, h2, ?_, h4, h5, fun hex => ?_, fun hall => ?_⟩
      · rw [h3, retryEvents_succ]
        simp
      · apply h6
        obtain ⟨j, hj, hjt⟩ := hex
        rcases j with _ | j
        · simp [hfail] at hjt
        · exact ⟨j, by omega, by
            have : c.world.connectCalls + 1 + j = c.world.connectCalls + (j + 1) := by ring
            simpa [this] using hjt⟩
      · have h := h7 (fun j hj => by
          have := hall (j + 1) (by omega)
          have e : c.world.connectCalls + 1 + j = c.world.connectCalls + (j + 1) := by ring
          simpa [e] using this)
        exact ⟨h.1, h.2.1, by omega⟩

/-- Claim C26 (the reconnect loop terminates within its budget).  The reconnect thread
stands at the entry of its loop with the running flag set, the maximum is `m` and the
counter is `k` with `1 ≤ k ≤ m`; the interval and the answers of the transport are
arbitrary, and the thread runs without interference.  Then after `3 * (m - k + 1)` of its
steps, and after any larger number, the thread has ended with the running flag false,
having made `r` rounds "wait one interval, call `websocketConnect`" with
`1 ≤ r ≤ m - k + 1 ≤ m` and no other wait or connection attempt.  When one of the first
`m - k + 1` answers of the transport is an acceptance the Link ends in `CONNECTED` with
the counter at 0; when all are refusals it ends in `ERROR` with the counter at `m`, after
exactly `m - k + 1` rounds. -/
theorem reconnect_terminates_within_budget (c : Ctx M) (m k fuel : Nat)
    (hpc : c.world.reconnectPc = some ReconnectPc.entry)
    (hrun : c.link.reconnect_thread_running_ = true)
    (hmax : c.link.max_reconnect_attempts_ = m)
    (hcur : c.link.current_reconnect_attempts_ = k)
    (hk : 1 ≤ k) (hkm : k ≤ m)
    (hfuel : 3 * (m - k + 1) ≤ fuel) :
    ∃ r tail, 1 ≤ r ∧ r ≤ m - k + 1 ∧ r ≤ m ∧ sleepCount tail = 0 ∧ connectCount tail = 0 ∧
      (DataLink.attemptReconnect (LinkCallbacks.observer M) fuel c).world.trace =
        c.world.trace ++
          retryEvents c.link.reconnect_interval_ms_ c.link.server_url_ r ++ tail ∧
      (DataLink.attemptReconnect (LinkCallbacks.observer M) fuel c).world.reconnectPc = none ∧
      (DataLink.attemptReconnect (LinkCallbacks.observer M) fuel c).link.reconnect_thread_running_ =
        false ∧
      ((∃ j, j < m - k + 1 ∧ c.world.connectResult (c.world.connectCalls + j) = true) →
        (DataLink.attemptReconnect (LinkCallbacks.observer M) fuel c).link.connection_state_ =
          ConnectionState.CONNECTED ∧
        (DataLink.attemptReconnect (LinkCallbacks.observer M)
          fuel c).link.current_reconnect_attempts_ = 0) ∧
      ((∀ j, j < m - k + 1 → c.world.connectResult (c.world.connectCalls + j) = false) →
        (DataLink.attemptReconnect (LinkCallbacks.observer M) fuel c).link.connection_state_ =
          ConnectionState.ERROR ∧
        (DataLink.attemptReconnect (LinkCallbacks.observer M)
          fuel c).link.current_reconnect_attempts_ = m ∧
        r = m - k + 1) := by
  obtain ⟨e, rfl⟩ : ∃ e, fuel = 3 * (m - k + 1) + e := ⟨fuel - 3 * (m - k + 1), by omega⟩
  obtain ⟨r, tail, hr, hr1, h1, h2, h3, h4, h5, h6, h7⟩ :=
    attemptReconnect_budget (m - k) c hpc hrun (by rw [hmax, hcur]; omega)
  rw [attemptReconnect_add, attemptReconnect_ended _ _ _ h4]
  refine ⟨r, tail, hr1, hr, by omega, h1, h2, h3, h4, h5, h6, fun hall => ?_⟩
  have h := h7 hall
  exact ⟨h.1, by rw [h.2.1, hmax], h.2.2⟩

/-- Witness for C26: with a maximum of 3 and the counter at 1 the transport refuses
the first automatic attempt and accepts the second; the loop ends after 2 waits in
`CONNECTED` with the counter at 0. -/
theorem reconnect_terminates_within_budget_witness :
    exampleLoopEntry.world.reconnectPc = some ReconnectPc.entry ∧
    exampleLoopEntry.link.current_reconnect_attempts_ = 1 ∧
    (DataLink.attemptReconnect (LinkCallbacks.observer Unit) 9 exampleLoopEntry).world.reconnectPc =
      none ∧
    (DataLink.attemptReconnect (LinkCallbacks.observer Unit)
      9 exampleLoopEntry).link.connection_state_ = ConnectionState.CONNECTED ∧
    (DataLink.attemptReconnect (LinkCallbacks.observer Unit)
      9 exampleLoopEntry).link.current_reconnect_attempts_ = 0 ∧
    sleepCount (DataLink.attemptReconnect (LinkCallbacks.observer Unit)
      9 exampleLoopEntry).world.trace = 2 := by
  obtain ⟨r, tail, _, _, _, _, _, _, h7, _, h9, _⟩ :=
    reconnect_terminates_within_budget exampleLoopEntry 3 1 9 (by decide) (by decide)
      (by decide) (by decide) (by decide) (by decide) (by decide)
  have hs := h9 ⟨1, by decide, by decide⟩
  exact ⟨by decide, by decide, h7, hs.1, hs.2, by decide⟩

/-- When the reconnect thread is not past its second test of the running flag,
`stopReconnectTimer` clears the flag and the handle and the joined thread ends without
doing anything. -/
theorem stopReconnectTimer_idle (cb : LinkCallbacks M) (c : Ctx M)
    (hpc : c.world.reconnectPc ≠ some ReconnectPc.checked) :
    DataLink.stopReconnectTimer cb c =
      if c.link.reconnect_thread_ = true then
        { c with
          link := { c.link with reconnect_thread_running_ := false, reconnect_thread_ := false },
          world := { c.world with
            trace := c.world.trace ++ [Event.joinThread ThreadFn.reconnectThread],
            reconnectPc := none } }
      else { c with link := { c.link with reconnect_thread_running_ := false } } := by
  unfold DataLink.stopReconnectTimer
  dsimp only
  by_cases hh : c.link.reconnect_thread_ = true
  · rw [if_pos hh, if_pos hh]
    rcases hp : c.world.reconnectPc with _ | pc
    · simp [DataLink.attemptReconnect, DataLink.attemptReconnectStep, hp, World.emit]
    · cases pc
      · simp [DataLink.attemptReconnect, DataLink.attemptReconnectStep, hp, World.emit]
      · simp [DataLink.attemptReconnect, DataLink.attemptReconnectStep, hp, World.emit]
      · exact absurd hp hpc
  · rw [if_neg hh, if_neg hh]

/-- With an observer, a step of the reconnect thread leaves the retry policy as it is. -/
theorem attemptReconnectStep_policy (c : Ctx M) :
    (DataLink.attemptReconnectStep (LinkCallbacks.observer M) c).link.auto_reconnect_enabled_ =
      c.link.auto_reconnect_enabled_ ∧
    (DataLink.attemptReconnectStep (LinkCallbacks.observer M) c).link.max_reconnect_attempts_ =
      c.link.max_reconnect_attempts_ ∧
    (DataLink.attemptReconnectStep (LinkCallbacks.observer M) c).link.reconnect_interval_ms_ =
      c.link.reconnect_interval_ms_ := by
  unfold DataLink.attemptReconnectStep
  dsimp only
  split
  · exact ⟨rfl, rfl, rfl⟩
  · split_ifs <;> exact ⟨rfl, rfl, rfl⟩
  · split_ifs <;> exact ⟨rfl, rfl, rfl⟩
  · split_ifs
    · simp only [DataLink.handleConnectionSuccess, updateConnectionState_observer]
      split_ifs <;> exact ⟨rfl, rfl, rfl⟩
    · simp only [updateConnectionState_observer]
      split_ifs <;> exact ⟨rfl, rfl, rfl⟩
    · exact ⟨rfl, rfl, rfl⟩

/-- With an observer, the reconnect thread leaves the retry policy as it is. -/
theorem attemptReconnect_policy (n : Nat) (c : Ctx M) :
    (DataLink.attemptReconnect (LinkCallbacks.observer M) n c).link.auto_reconnect_enabled_ =
      c.link.auto_reconnect_enabled_ ∧
    (DataLink.attemptReconnect (LinkCallbacks.observer M) n c).link.max_reconnect_attempts_ =
      c.link.max_reconnect_attempts_ ∧
    (DataLink.attemptReconnect (LinkCallbacks.observer M) n c).link.reconnect_interval_ms_ =
      c.link.reconnect_interval_ms_ := by
  induction n generalizing c with
  | zero => exact ⟨rfl, rfl, rfl⟩
  | succ n ih =>
    simp only [DataLink.attemptReconnect]
    have h1 := attemptReconnectStep_policy c
    have h2 := ih (DataLink.attemptReconnectStep (LinkCallbacks.observer M) c)
    exact ⟨h2.1.trans h1.1, h2.2.1.trans h1.2.1, h2.2.2.trans h1.2.2⟩

/-- With an observer, `stopReconnectTimer` leaves the retry policy as it is. -/
theorem stopReconnectTimer_policy (c : Ctx M) :
    (DataLink.stopReconnectTimer (LinkCallbacks.observer M) c).link.auto_reconnect_enabled_ =
      c.link.auto_reconnect_enabled_ ∧
    (DataLink.stopReconnectTimer (LinkCallbacks.observer M) c).link.max_reconnect_attempts_ =
      c.link.max_reconnect_attempts_ ∧
    (DataLink.stopReconnectTimer (LinkCallbacks.observer M) c).link.reconnect_interval_ms_ =
      c.link.reconnect_interval_ms_ := by
  unfold DataLink.stopReconnectTimer
  dsimp only
  split_ifs
  · exact attemptReconnect_policy 2 _
  · exact ⟨rfl, rfl, rfl⟩

/-- Claim C23 as amended (disabling auto-reconnect stops the retry loop).  Let `c` be
the state of a Link after any sequence of operations on a new Link.  When
`setAutoReconnect(false, maxAttempts, intervalMs)` returns, the running flag is false,
the thread has been joined and has ended (further scheduling changes nothing) and the
policy fields hold the given values.  Unless the reconnect thread had already passed its
second test of the running flag, the connection state and the attempt counter are
unchanged and no state callback is delivered: the only event added is the `joinThread`;
so a Link in `RECONNECTING` whose thread was waiting stays in `RECONNECTING` with no loop
running.  An attempt that was already under way is completed by the join. -/
theorem disabling_auto_reconnect_stops_loop (cr sr : Nat → Bool) (ts : Nat → Nat)
    (ops : List LinkOp) (max_attempts interval_ms : Int) :
    ∃ c d, c = runLinkOps (LinkCallbacks.observer Unit) ops (freshLink (World.start cr sr ts)) ∧
      d = DataLink.setAutoReconnect (LinkCallbacks.observer Unit) false max_attempts interval_ms c ∧
      d.link.reconnect_thread_running_ = false ∧
      d.link.reconnect_thread_ = false ∧
      d.world.reconnectPc = none ∧
      (∀ n, DataLink.attemptReconnect (LinkCallbacks.observer Unit) n d = d) ∧
      d.link.auto_reconnect_enabled_ = false ∧
      d.link.max_reconnect_attempts_ = max_attempts ∧
      d.link.reconnect_interval_ms_ = interval_ms ∧
      (c.world.reconnectPc ≠ some ReconnectPc.checked →
        d.link.connection_state_ = c.link.connection_state_ ∧
        d.link.current_reconnect_attempts_ = c.link.current_reconnect_attempts_ ∧
        linkStates d.world.trace = linkStates c.world.trace ∧
        d.world.trace =
          c.world.trace ++
            (if c.link.reconnect_thread_ = true then [Event.joinThread ThreadFn.reconnectThread]
             else [])) := by
  refine ⟨_, _, rfl, rfl, ?_⟩
  have h := good_runLinkOps (good_fresh cr sr ts) ops
  generalize runLinkOps (LinkCallbacks.observer Unit) ops (freshLink (World.start cr sr ts)) = c
    at h
  have hg : Good ({ c with link := { c.link with
      auto_reconnect_enabled_ := false,
      max_reconnect_attempts_ := max_attempts,
      reconnect_interval_ms_ := interval_ms } } : Ctx Unit) :=
    good_frame h rfl rfl rfl rfl
  obtain ⟨_, h2, h3, h4⟩ := stopReconnectTimer_frame _ hg
  have hp := stopReconnectTimer_policy ({ c with link := { c.link with
      auto_reconnect_enabled_ := false,
      max_reconnect_attempts_ := max_attempts,
      reconnect_interval_ms_ := interval_ms } } : Ctx Unit)
  have heq : DataLink.setAutoReconnect (LinkCallbacks.observer Unit) false max_attempts
      interval_ms c =
      DataLink.stopReconnectTimer (LinkCallbacks.observer Unit) ({ c with link := { c.link with
        auto_reconnect_enabled_ := false,
        max_reconnect_attempts_ := max_attempts,
        reconnect_interval_ms_ := interval_ms } } : Ctx Unit) := by
    unfold DataLink.setAutoReconnect
    dsimp only
    rw [if_neg (by decide)]
  rw [heq]
  refine ⟨h4, h3, h2, fun n => attemptReconnect_ended _ n _ h2, hp.1, hp.2.1, hp.2.2, fun hpc => ?_⟩
  have hidle := stopReconnectTimer_idle (LinkCallbacks.observer Unit) ({ c with link := { c.link with
      auto_reconnect_enabled_ := false,
      max_reconnect_attempts_ := max_attempts,
      reconnect_interval_ms_ := interval_ms } } : Ctx Unit) hpc
  rw [hidle]
  by_cases hh : c.link.reconnect_thread_ = true
  · simp [hh, linkStates, List.filterMap_append]
  · simp [hh]

/-- Witness for C23 as amended: a Link in `RECONNECTING` whose thread is waiting gets
the policy (disabled, 7, 20); it stays in `RECONNECTING` and the thread has ended. -/
theorem disabling_auto_reconnect_stops_loop_witness :
    ∃ c d,
      c = runLinkOps (LinkCallbacks.observer Unit)
        [LinkOp.setAutoReconnect true 3 10, LinkOp.connect "ws://host",
         LinkOp.reconnectThreadStep]
        (freshLink (World.start (fun _ => false) (fun _ => true) (fun _ => 0))) ∧
      d = DataLink.setAutoReconnect (LinkCallbacks.observer Unit) false 7 20 c ∧
      c.link.connection_state_ = ConnectionState.RECONNECTING ∧
      c.world.reconnectPc = some ReconnectPc.slept ∧
      d.link.connection_state_ = ConnectionState.RECONNECTING ∧
      d.world.reconnectPc = none ∧
      d.link.reconnect_thread_running_ = false ∧
      d.link.max_reconnect_attempts_ = 7 := by
  obtain ⟨c, d, hc, hd, h1, _, h3, _, _, h6, _, h8⟩ :=
    disabling_auto_reconnect_stops_loop (fun _ => false) (fun _ => true) (fun _ => 0)
      [LinkOp.setAutoReconnect true 3 10, LinkOp.connect "ws://host",
       LinkOp.reconnectThreadStep] 7 20
  have hcs : c.link.connection_state_ = ConnectionState.RECONNECTING := by rw [hc]; decide
  have hcp : c.world.reconnectPc = some ReconnectPc.slept := by rw [hc]; decide
  refine ⟨c, d, hc, hd, hcs, hcp, ?_, h3, h1, h6⟩
  rw [(h8 (by rw [hcp]; decide)).1, hcs]

/-- Counterexample to C23 as stated: the reconnect thread of a Link in `RECONNECTING`
with the counter at 1 has passed its second test of the running flag and the transport
accepts the next connection; `setAutoReconnect(false, 3, 10)` joins the thread, which
completes its attempt: the Link is in `CONNECTED`, the counter is 0 and the state
callback has received `CONNECTED`. -/
theorem disabling_auto_reconnect_changes_nothing_counterexample :
    exampleAttemptUnderWay.link.connection_state_ = ConnectionState.RECONNECTING ∧
    exampleAttemptUnderWay.link.current_reconnect_attempts_ = 1 ∧
    exampleAttemptUnderWay.world.reconnectPc = some ReconnectPc.checked ∧
    (DataLink.setAutoReconnect (LinkCallbacks.observer Unit) false 3 10
      exampleAttemptUnderWay).link.connection_state_ = ConnectionState.CONNECTED ∧
    (DataLink.setAutoReconnect (LinkCallbacks.observer Unit) false 3 10
      exampleAttemptUnderWay).link.current_reconnect_attempts_ = 0 ∧
    linkStates (DataLink.setAutoReconnect (LinkCallbacks.observer Unit) false 3 10
      exampleAttemptUnderWay).world.trace =
      linkStates exampleAttemptUnderWay.world.trace ++ [ConnectionState.CONNECTED] := by
  decide

/-- With an observer, `updateConnectionState` leaves the attempt counter as it is. -/
theorem updateConnectionState_attempts (new_state : ConnectionState) (c : Ctx M) :
    (DataLink.updateConnectionState (LinkCallbacks.observer M) new_state
      c).link.current_reconnect_attempts_ = c.link.current_reconnect_attempts_ := by
  rw [updateConnectionState_observer]
  split_ifs <;> rfl

/-- Claim C28 as amended (the attempt counter is reset only by a successful
connection).  In every state in which the reconnect thread has not passed its second test
of the running flag, `disconnect` and `setAutoReconnect` leave the attempt counter as it
is (an attempt already under way is completed by their join and resets the counter when
the transport accepts it).  A `connect` that the transport refuses never decreases the
counter.  Consequently a `connect` that is refused while the counter is at or above the
maximum returns false and leaves the Link in `ERROR` with the counter, the running flag,
the thread handle and the reconnect thread as they were: no reconnect loop is started,
whatever the auto-reconnect flag. -/
theorem attempt_counter_not_decreased (url : String) (enabled : Bool)
    (max_attempts interval_ms : Int) (c : Ctx M) :
    (c.world.reconnectPc ≠ some ReconnectPc.checked →
      (DataLink.disconnect (LinkCallbacks.observer M) c).link.current_reconnect_attempts_ =
        c.link.current_reconnect_attempts_) ∧
    (c.world.reconnectPc ≠ some ReconnectPc.checked →
      (DataLink.setAutoReconnect (LinkCallbacks.observer M) enabled max_attempts interval_ms
        c).link.current_reconnect_attempts_ = c.link.current_reconnect_attempts_) ∧
    (c.world.websocketConnectResult = false →
      c.link.current_reconnect_attempts_ ≤
        (DataLink.connect (LinkCallbacks.observer M) url c).2.link.current_reconnect_attempts_) ∧
    (c.link.connection_state_ ≠ ConnectionState.CONNECTED →
      c.link.connection_state_ ≠ ConnectionState.CONNECTING →
      c.world.websocketConnectResult = false →
      c.link.max_reconnect_attempts_ ≤ c.link.current_reconnect_attempts_ →
      (DataLink.connect (LinkCallbacks.observer M) url c).1 = false ∧
      (DataLink.connect (LinkCallbacks.observer M) url c).2.link.connection_state_ =
        ConnectionState.ERROR ∧
      (DataLink.connect (LinkCallbacks.observer M) url c).2.link.current_reconnect_attempts_ =
        c.link.current_reconnect_attempts_ ∧
      (DataLink.connect (LinkCallbacks.observer M) url c).2.link.reconnect_thread_running_ =
        c.link.reconnect_thread_running_ ∧
      (DataLink.connect (LinkCallbacks.observer M) url c).2.link.reconnect_thread_ =
        c.link.reconnect_thread_ ∧
      (DataLink.connect (LinkCallbacks.observer M) url c).2.world.reconnectPc =
        c.world.reconnectPc ∧
      (DataLink.connect (LinkCallbacks.observer M) url c).2.world.trace =
        c.world.trace ++
          [Event.linkStateCallback ConnectionState.CONNECTING, Event.websocketConnect url,
           Event.linkStateCallback ConnectionState.ERROR, Event.linkErrorCallback "连接失败"]) := by
  refine ⟨fun hpc => ?_, fun hpc => ?_, fun hf => ?_, fun h1 h2 hf hmax => ?_⟩
  · unfold DataLink.disconnect
    dsimp only
    split_ifs
    · rfl
    · rw [updateConnectionState_attempts, stopReconnectTimer_idle _ _ hpc]
      split_ifs <;> rfl
  · unfold DataLink.setAutoReconnect
    dsimp only
    split_ifs
    · rfl
    · have hidle := stopReconnectTimer_idle (LinkCallbacks.observer M) ({ c with link := { c.link with
          auto_reconnect_enabled_ := enabled,
          max_reconnect_attempts_ := max_attempts,
          reconnect_interval_ms_ := interval_ms } } : Ctx M) hpc
      rw [hidle]
      split_ifs <;> rfl
  · simp only [World.websocketConnectResult] at hf
    by_cases h1 : c.link.connection_state_ = ConnectionState.CONNECTED
    · simp [DataLink.connect, h1]
    · by_cases h2 : c.link.connection_state_ = ConnectionState.CONNECTING
      · simp [DataLink.connect, h1, h2]
      · by_cases hre : c.link.auto_reconnect_enabled_ = true ∧
            c.link.current_reconnect_attempts_ < c.link.max_reconnect_attempts_
        · by_cases hrun : c.link.reconnect_thread_running_ = true
          · simp [DataLink.connect, DataLink.handleConnectionError, DataLink.startReconnectTimer,
              updateConnectionState_observer, observer_error_callback, h1, h2, hrun, hre,
              World.websocketConnectResult, World.websocketConnect, World.emit, hf]
          · simp [DataLink.connect, DataLink.handleConnectionError, DataLink.startReconnectTimer,
              updateConnectionState_observer, observer_error_callback, h1, h2, hrun, hre,
              World.websocketConnectResult, World.websocketConnect, World.emit, hf]
        · simp [DataLink.connect, DataLink.handleConnectionError, DataLink.startReconnectTimer,
            updateConnectionState_observer, observer_error_callback, h1, h2, hre,
            World.websocketConnectResult, World.websocketConnect, World.emit, hf]
  · simp only [World.websocketConnectResult] at hf
    have hre : ¬ (c.link.auto_reconnect_enabled_ = true ∧
        c.link.current_reconnect_attempts_ < c.link.max_reconnect_attempts_) := by
      intro h; omega
    simp [DataLink.connect, DataLink.handleConnectionError, DataLink.startReconnectTimer,
      updateConnectionState_observer, observer_error_callback, h1, h2, hre,
      World.websocketConnectResult, World.websocketConnect, World.emit, hf]

/-- Witness for C28 as amended: after the exhaustion of a maximum of 2 attempts and a
`disconnect`, auto-reconnect is still enabled and the counter is still 2; the next
refused `connect` ends in `ERROR` and starts no reconnect loop. -/
theorem attempt_counter_not_decreased_witness :
    exampleExhaustedDisconnected.link.connection_state_ = ConnectionState.DISCONNECTED ∧
    exampleExhaustedDisconnected.link.auto_reconnect_enabled_ = true ∧
    exampleExhaustedDisconnected.link.current_reconnect_attempts_ = 2 ∧
    (DataLink.connect (LinkCallbacks.observer Unit) "ws://host"
      exampleExhaustedDisconnected).2.link.connection_state_ = ConnectionState.ERROR ∧
    (DataLink.connect (LinkCallbacks.observer Unit) "ws://host"
      exampleExhaustedDisconnected).2.world.reconnectPc = none ∧
    (DataLink.connect (LinkCallbacks.observer Unit) "ws://host"
      exampleExhaustedDisconnected).2.link.reconnect_thread_running_ = false := by
  obtain ⟨_, h2, _, h4, _, h6, _⟩ :=
    (attempt_counter_not_decreased "ws://host" true 2 10 exampleExhaustedDisconnected).2.2.2
      (by decide) (by decide) (by decide) (by decide)
  exact ⟨by decide, by decide, by decide, h2, by rw [h6]; decide, by rw [h4]; decide⟩

/-- Counterexample to C28 as stated: the reconnect thread has passed its second test of
the running flag with the counter at 1 and the transport accepts the next connection;
`disconnect`, and likewise `setAutoReconnect(false, 3, 10)`, joins the thread, whose
attempt succeeds, and returns with the counter at 0. -/
theorem attempt_counter_decreased_counterexample :
    exampleAttemptUnderWay.link.current_reconnect_attempts_ = 1 ∧
    exampleAttemptUnderWay.world.reconnectPc = some ReconnectPc.checked ∧
    (DataLink.disconnect (LinkCallbacks.observer Unit)
      exampleAttemptUnderWay).link.current_reconnect_attempts_ = 0 ∧
    (DataLink.setAutoReconnect (LinkCallbacks.observer Unit) false 3 10
      exampleAttemptUnderWay).link.current_reconnect_attempts_ = 0 ∧
    connectCount (DataLink.disconnect (LinkCallbacks.observer Unit)
      exampleAttemptUnderWay).world.trace =
      connectCount exampleAttemptUnderWay.world.trace + 1 := by
  decide

end LinkTheorems

/-! ## Relations that hold across the operations of the Link -/

section LinkClosure
variable {M : Type} {cb : LinkCallbacks M} {R : Ctx M → Ctx M → Prop}

/-- A closed relation holds across `updateConnectionState`. -/
theorem linkClosed_updateConnectionState (h : LinkClosed cb R) (new_state : ConnectionState)
    (c : Ctx M) : R c (DataLink.updateConnectionState cb new_state c) := by
  unfold DataLink.updateConnectionState
  split_ifs
  · dsimp only
    have h1 : R c ({ c with link := { c.link with connection_state_ := new_state } } : Ctx M) :=
      h.step _ _ (by constructor <;> rfl)
    cases hf : cb.connection_callback_ with
    | none => exact h1
    | some f => exact h.trans _ _ _ h1 (h.connection f hf _ _)
  · exact h.refl c

/-- A closed relation holds across `handleConnectionSuccess`. -/
theorem linkClosed_handleConnectionSuccess (h : LinkClosed cb R) (c : Ctx M) :
    R c (DataLink.handleConnectionSuccess cb c) := by
  unfold DataLink.handleConnectionSuccess
  dsimp only
  refine h.trans _ _ _ (h.step _ _ ?_) (linkClosed_updateConnectionState h _ _)
  constructor <;> rfl

/-- A closed relation holds across a step of the reconnect thread. -/
theorem linkClosed_attemptReconnectStep (h : LinkClosed cb R) (c : Ctx M) :
    R c (DataLink.attemptReconnectStep cb c) := by
  unfold DataLink.attemptReconnectStep
  dsimp only
  split
  · exact h.refl c
  · split_ifs <;> exact h.step _ _ (by constructor <;> rfl)
  · split_ifs <;> exact h.step _ _ (by constructor <;> rfl)
  · split_ifs
    · refine h.trans _ _ _ (h.trans _ _ _ (h.step _ _ ?_)
        (linkClosed_handleConnectionSuccess h
          ({ c with world := c.world.websocketConnect c.link.server_url_ } : Ctx M)))
        (h.step _ _ ?_)
      · constructor <;> rfl
      · constructor <;> rfl
    · refine h.trans _ _ _ (h.trans _ _ _ (h.step _ _ ?_)
        (linkClosed_updateConnectionState h ConnectionState.ERROR
          ({ c with
            world := c.world.websocketConnect c.link.server_url_,
            link := { c.link with reconnect_thread_running_ := false } } : Ctx M)))
        (h.step _ _ ?_)
      · constructor <;> rfl
      · constructor <;> rfl
    · exact h.step _ _ (by constructor <;> rfl)

/-- A closed relation holds across any number of steps of the reconnect thread. -/
theorem linkClosed_attemptReconnect (h : LinkClosed cb R) (n : Nat) (c : Ctx M) :
    R c (DataLink.attemptReconnect cb n c) := by
  induction n generalizing c with
  | zero => exact h.refl c
  | succ n ih => exact h.trans _ _ _ (linkClosed_attemptReconnectStep h c) (ih _)

/-- A closed relation holds across `stopReconnectTimer`. -/
theorem linkClosed_stopReconnectTimer (h : LinkClosed cb R) (c : Ctx M) :
    R c (DataLink.stopReconnectTimer cb c) := by
  unfold DataLink.stopReconnectTimer
  dsimp only
  split_ifs
  · refine h.trans _ _ _ (h.trans _ _ _ (h.step _ _ ?_)
      (linkClosed_attemptReconnect h 2
        ({ c with
          link := { c.link with reconnect_thread_running_ := false },
          world := c.world.emit (Event.joinThread ThreadFn.reconnectThread) } : Ctx M)))
      (h.step _ _ ?_)
    · constructor <;> rfl
    · constructor <;> rfl
  · exact h.step _ _ (by constructor <;> rfl)

/-- A closed relation holds across `startReconnectTimer`. -/
theorem linkClosed_startReconnectTimer (h : LinkClosed cb R) (c : Ctx M) :
    R c (DataLink.startReconnectTimer cb c) := by
  unfold DataLink.startReconnectTimer
  dsimp only
  split_ifs
  · exact h.refl c
  · refine h.trans _ _ _ (h.trans _ _ _ (h.step _ _ ?_)
      (linkClosed_updateConnectionState h ConnectionState.RECONNECTING
        ({ c with link := { c.link with
            current_reconnect_attempts_ := c.link.current_reconnect_attempts_ + 1 } } : Ctx M)))
      (h.step _ _ ?_)
    · constructor <;> rfl
    · constructor <;> rfl

/-- A closed relation holds across `handleConnectionError`. -/
theorem linkClosed_handleConnectionError (h : LinkClosed cb R) (error : String) (c : Ctx M) :
    R c (DataLink.handleConnectionError cb error c) := by
  unfold DataLink.handleConnectionError
  dsimp only
  have h1 := linkClosed_updateConnectionState h ConnectionState.ERROR c
  have h2 : R c (match cb.error_callback_ with
      | some f => f error (DataLink.updateConnectionState cb ConnectionState.ERROR c)
      | none => DataLink.updateConnectionState cb ConnectionState.ERROR c) := by
    cases hf : cb.error_callback_ with
    | none => exact h1
    | some f => exact h.trans _ _ _ h1 (h.error f hf _ _)
  split_ifs
  · exact h.trans _ _ _ h2 (linkClosed_startReconnectTimer h _)
  · exact h2

/-- A closed relation holds across `DataLink::connect`. -/
theorem linkClosed_connect (h : LinkClosed cb R) (url : String) (c : Ctx M) :
    R c (DataLink.connect cb url c).2 := by
  unfold DataLink.connect
  dsimp only
  have h1 : R c (DataLink.updateConnectionState cb ConnectionState.CONNECTING
      ({ c with link := { c.link with server_url_ := url } } : Ctx M)) :=
    h.trans _ _ _ (h.step _ _ (by constructor <;> rfl)) (linkClosed_updateConnectionState h _ _)
  split_ifs
  · exact h.refl c
  · exact h.refl c
  · exact h.trans _ _ _ (h.trans _ _ _ h1 (h.step _ _ (by constructor <;> rfl)))
      (linkClosed_handleConnectionSuccess h _)
  · exact h.trans _ _ _ (h.trans _ _ _ h1 (h.step _ _ (by constructor <;> rfl)))
      (linkClosed_handleConnectionError h _ _)

/-- A closed relation holds across `DataLink::disconnect`. -/
theorem linkClosed_disconnect (h : LinkClosed cb R) (c : Ctx M) :
    R c (DataLink.disconnect cb c) := by
  unfold DataLink.disconnect
  dsimp only
  split_ifs
  · exact h.refl c
  · exact h.trans _ _ _ (h.trans _ _ _ (linkClosed_stopReconnectTimer h c)
      (h.step _ _ (by constructor <;> rfl))) (linkClosed_updateConnectionState h _ _)

end LinkClosure

/-! ## The priority queue: consequences of the contract -/

section QueueLemmas
variable (P : PriorityQueue)

/-- A `pop` of a queue that is not empty removes one entry. -/
theorem PriorityQueue.size_pop {q : P.Q} {m : QueuedMessage} (h : P.top q = some m) :
    P.size (P.pop q) + 1 = P.size q := by
  unfold PriorityQueue.size
  rw [P.items_pop q m h, Multiset.card_erase_of_mem (P.top_mem q m h)]
  have : 0 < Multiset.card (P.items q) := Multiset.card_pos_iff_exists_mem.2 ⟨m, P.top_mem q m h⟩
  rw [Nat.pred_eq_sub_one]
  omega

/-- The size is 0 exactly when `top` finds the queue empty. -/
theorem PriorityQueue.size_eq_zero {q : P.Q} : P.size q = 0 ↔ P.top q = none := by
  unfold PriorityQueue.size
  rw [P.top_eq_none, Multiset.card_eq_zero]

/-- With enough fuel the drain order holds exactly the entries of the queue. -/
theorem PriorityQueue.drainOrder_coe (fuel : Nat) (q : P.Q) (h : P.size q ≤ fuel) :
    ((P.drainOrder fuel q : List QueuedMessage) : Multiset QueuedMessage) = P.items q := by
  induction fuel generalizing q with
  | zero =>
    have h0 : P.size q = 0 := by omega
    have := (P.top_eq_none q).1 ((P.size_eq_zero).1 h0)
    simp [PriorityQueue.drainOrder, this]
  | succ n ih =>
    simp only [PriorityQueue.drainOrder]
    cases ht : P.top q with
    | none => simp [(P.top_eq_none q).1 ht]
    | some m =>
      have hs := P.size_pop ht
      have := ih (P.pop q) (by omega)
      simp only
      rw [← Multiset.cons_coe, this, P.items_pop q m ht, Multiset.cons_erase (P.top_mem q m ht)]

/-- Every entry of the drain order is an entry of the queue. -/
theorem PriorityQueue.drainOrder_mem (fuel : Nat) (q : P.Q) :
    ∀ x ∈ P.drainOrder fuel q, x ∈ P.items q := by
  induction fuel generalizing q with
  | zero => simp [PriorityQueue.drainOrder]
  | succ n ih =>
    simp only [PriorityQueue.drainOrder]
    cases ht : P.top q with
    | none => simp
    | some m =>
      intro x hx
      simp only [List.mem_cons] at hx
      rcases hx with rfl | hx
      · exact P.top_mem q _ ht
      · have := ih (P.pop q) x hx
        rw [P.items_pop q m ht] at this
        exact Multiset.mem_of_mem_erase this

/-- The drain order is sorted by priority, the greatest first. -/
theorem PriorityQueue.drainOrder_sorted (fuel : Nat) (q : P.Q) :
    (P.drainOrder fuel q).Sorted (fun a b => b.priority.toInt ≤ a.priority.toInt) := by
  induction fuel generalizing q with
  | zero => simp [PriorityQueue.drainOrder]
  | succ n ih =>
    simp only [PriorityQueue.drainOrder]
    cases ht : P.top q with
    | none => simp
    | some m =>
      simp only
      refine List.sorted_cons.2 ⟨?_, ih (P.pop q)⟩
      intro x hx
      have hx1 := P.drainOrder_mem n (P.pop q) x hx
      rw [P.items_pop q m ht] at hx1
      have := P.top_max q m ht x (Multiset.mem_of_mem_erase hx1)
      simpa [QueuedMessage.lt] using this

/-- The drain order splits: the first `a` entries, then the drain order of the queue after
`a` calls of `pop`. -/
theorem PriorityQueue.drainOrder_add (a b : Nat) (q : P.Q) (h : a ≤ P.size q) :
    P.drainOrder (a + b) q = P.drainOrder a q ++ P.drainOrder b (P.popN a q) := by
  induction a generalizing q with
  | zero => simp [PriorityQueue.drainOrder, PriorityQueue.popN]
  | succ n ih =>
    rw [Nat.succ_add]
    simp only [PriorityQueue.drainOrder, PriorityQueue.popN]
    cases ht : P.top q with
    | none =>
      have := (P.size_eq_zero).2 ht
      omega
    | some m =>
      have hs := P.size_pop ht
      simp only
      rw [ih (P.pop q) (by omega)]
      rfl

/-- After `a` calls of `pop` the queue holds `a` entries less. -/
theorem PriorityQueue.size_popN (a : Nat) (q : P.Q) (h : a ≤ P.size q) :
    P.size (P.popN a q) + a = P.size q := by
  induction a generalizing q with
  | zero => simp [PriorityQueue.popN]
  | succ n ih =>
    simp only [PriorityQueue.popN]
    cases ht : P.top q with
    | none =>
      have := (P.size_eq_zero).2 ht
      omega
    | some m =>
      have hs := P.size_pop ht
      have := ih (P.pop q) (by omega)
      omega

/-- The first `a` entries of the drain order are `a` entries. -/
theorem PriorityQueue.drainOrder_length (a : Nat) (q : P.Q) (h : a ≤ P.size q) :
    (P.drainOrder a q).length = a := by
  induction a generalizing q with
  | zero => simp [PriorityQueue.drainOrder]
  | succ n ih =>
    simp only [PriorityQueue.drainOrder]
    cases ht : P.top q with
    | none =>
      have := (P.size_eq_zero).2 ht
      omega
    | some m =>
      have hs := P.size_pop ht
      simp [ih (P.pop q) (by omega)]

end QueueLemmas

/-! ## The drain loop -/

section Drain
variable {P : PriorityQueue}

/-- The payloads sent in a concatenated trace. -/
theorem sentMessages_append (a b : List Event) :
    sentMessages (a ++ b) = sentMessages a ++ sentMessages b := by
  simp [sentMessages, List.filterMap_append]

/-- The delivery attempt of one queue entry through a connected Link. -/
theorem deliver_connected (c : MCtx P) (m : QueuedMessage)
    (hc : c.link.connection_state_ = ConnectionState.CONNECTED)
    (hty : m.type = MessageType.TEXT ∨ m.type = MessageType.BINARY) :
    ∃ r : Bool × MCtx P,
      (if m.type = MessageType.TEXT then DataLink.sendText m.data c
        else if m.type = MessageType.BINARY then
          DataLink.sendBinary (bytesOfString m.data) c
        else (false, c)) = r ∧
      r.1 = c.world.websocketSendResult ∧
      r.2.world = c.world.websocketSend (wirePayload m) ∧
      r.2.owner = c.owner ∧
      r.2.link.connection_state_ = ConnectionState.CONNECTED ∧
      (r.1 = false → r.2.link = c.link) := by
  refine ⟨_, rfl, ?_⟩
  rcases hty with hty | hty
  · by_cases hr : c.world.websocketSendResult = true
    · simp [hty, DataLink.sendText, DataLink.isConnected, hc, hr, wirePayload]
    · simp [hty, DataLink.sendText, DataLink.isConnected, hc, hr, wirePayload]
  · by_cases hr : c.world.websocketSendResult = true
    · simp [hty, DataLink.sendBinary, DataLink.isConnected, hc, hr, wirePayload]
    · simp [hty, DataLink.sendBinary, DataLink.isConnected, hc, hr, wirePayload]

/-- One iteration of the drain loop on a connected Link whose transport accepts. -/
theorem drainLoop_sent (fuel : Nat) (c : MCtx P) (m : QueuedMessage)
    (ht : P.top c.owner.message_queue_ = some m)
    (hc : c.link.connection_state_ = ConnectionState.CONNECTED)
    (hty : m.type = MessageType.TEXT ∨ m.type = MessageType.BINARY)
    (hr : c.world.websocketSendResult = true) :
    ∃ c2 : MCtx P, WebSocketManager.drainLoop (fuel + 1) c = WebSocketManager.drainLoop fuel c2 ∧
      c2.owner.message_queue_ = P.pop c.owner.message_queue_ ∧
      c2.link.connection_state_ = ConnectionState.CONNECTED ∧
      c2.world = c.world.websocketSend (wirePayload m) ∧
      c2.owner.max_queue_size_ = c.owner.max_queue_size_ := by
  obtain ⟨r, hreq, h1, h2, h3, h4, _⟩ := deliver_connected c m hc hty
  refine ⟨{ r.2 with owner := { r.2.owner with
      messages_sent_success_ := (r.2.owner.messages_sent_success_ + 1) % UINT64_MOD,
      message_queue_ := P.pop r.2.owner.message_queue_ } }, ?_, ?_, h4, h2, ?_⟩
  · simp only [WebSocketManager.drainLoop, ht]
    rw [hreq, if_pos (h1.trans hr)]
  · simp [h3]
  · simp [h3]

/-- One iteration of the drain loop on a connected Link whose transport refuses. -/
theorem drainLoop_failed (fuel : Nat) (c : MCtx P) (m : QueuedMessage)
    (ht : P.top c.owner.message_queue_ = some m)
    (hc : c.link.connection_state_ = ConnectionState.CONNECTED)
    (hty : m.type = MessageType.TEXT ∨ m.type = MessageType.BINARY)
    (hr : c.world.websocketSendResult = false) :
    (WebSocketManager.drainLoop (fuel + 1) c).owner.message_queue_ = c.owner.message_queue_ ∧
    (WebSocketManager.drainLoop (fuel + 1) c).owner.max_queue_size_ = c.owner.max_queue_size_ ∧
    (WebSocketManager.drainLoop (fuel + 1) c).link = c.link ∧
    (WebSocketManager.drainLoop (fuel + 1) c).world = c.world.websocketSend (wirePayload m) := by
  obtain ⟨r, hreq, h1, h2, h3, h4, h5⟩ := deliver_connected c m hc hty
  have hr1 : r.1 = false := h1.trans hr
  simp only [WebSocketManager.drainLoop, ht]
  rw [hreq]
  simp only [hr1]
  simp [h2, h3, h5 hr1]

/-- With a transport that accepts every send the loop empties the queue, handing the
entries to the transport in drain order. -/
theorem drainLoop_all (fuel : Nat) (c : MCtx P)
    (hc : c.link.connection_state_ = ConnectionState.CONNECTED)
    (hty : ∀ m ∈ P.items c.owner.message_queue_,
      m.type = MessageType.TEXT ∨ m.type = MessageType.BINARY)
    (hsend : ∀ n, c.world.sendResult n = true)
    (hfuel : P.size c.owner.message_queue_ ≤ fuel) :
    P.items (WebSocketManager.drainLoop fuel c).owner.message_queue_ = 0 ∧
    sentMessages (WebSocketManager.drainLoop fuel c).world.trace =
      sentMessages c.world.trace ++
        (P.drainOrder fuel c.owner.message_queue_).map wirePayload ∧
    (WebSocketManager.drainLoop fuel c).link.connection_state_ = ConnectionState.CONNECTED := by
  induction fuel generalizing c with
  | zero =>
    have h0 : P.size c.owner.message_queue_ = 0 := by omega
    have := (P.top_eq_none _).1 ((P.size_eq_zero).1 h0)
    simp [WebSocketManager.drainLoop, PriorityQueue.drainOrder, this, hc]
  | succ n ih =>
    cases ht : P.top c.owner.message_queue_ with
    | none =>
      simp [WebSocketManager.drainLoop, PriorityQueue.drainOrder, ht, hc, (P.top_eq_none _).1 ht]
    | some m =>
      obtain ⟨c2, heq, hq, hc2, hw, _⟩ := drainLoop_sent n c m ht hc
        (hty m (P.top_mem _ m ht)) (hsend _)
      have hs := P.size_pop ht
      have hty2 : ∀ x ∈ P.items c2.owner.message_queue_,
          x.type = MessageType.TEXT ∨ x.type = MessageType.BINARY := by
        intro x hx
        rw [hq, P.items_pop _ m ht] at hx
        exact hty x (Multiset.mem_of_mem_erase hx)
      have hsend2 : ∀ k, c2.world.sendResult k = true := by
        intro k; rw [hw]; exact hsend k
      have := ih c2 hc2 hty2 hsend2 (by rw [hq]; omega)
      rw [heq]
      refine ⟨this.1, ?_, this.2.2⟩
      rw [this.2.1, hw, hq]
      simp [PriorityQueue.drainOrder, ht, World.websocketSend, sentMessages_append, sentMessages]

/-- With a transport that accepts `j` sends and refuses the next one, the loop stops at
the refused entry. -/
theorem drainLoop_stops (j : Nat) (fuel : Nat) (c : MCtx P)
    (hc : c.link.connection_state_ = ConnectionState.CONNECTED)
    (hty : ∀ m ∈ P.items c.owner.message_queue_,
      m.type = MessageType.TEXT ∨ m.type = MessageType.BINARY)
    (hj : j < P.size c.owner.message_queue_)
    (hfuel : P.size c.owner.message_queue_ ≤ fuel)
    (hok : ∀ i, i < j → c.world.sendResult (c.world.sendCalls + i) = true)
    (hfail : c.world.sendResult (c.world.sendCalls + j) = false) :
    (WebSocketManager.drainLoop fuel c).owner.message_queue_ = P.popN j c.owner.message_queue_ ∧
    sentMessages (WebSocketManager.drainLoop fuel c).world.trace =
      sentMessages c.world.trace ++
        (P.drainOrder (j + 1) c.owner.message_queue_).map wirePayload ∧
    (WebSocketManager.drainLoop fuel c).world.sendCalls = c.world.sendCalls + (j + 1) ∧
    (WebSocketManager.drainLoop fuel c).link.connection_state_ = ConnectionState.CONNECTED := by
  induction j generalizing fuel c with
  | zero =>
    obtain ⟨n, rfl⟩ : ∃ n, fuel = n + 1 := ⟨fuel - 1, by omega⟩
    cases ht : P.top c.owner.message_queue_ with
    | none =>
      have := (P.size_eq_zero).2 ht
      omega
    | some m =>
      obtain ⟨h1, _, h3, h4⟩ := drainLoop_failed n c m ht hc (hty m (P.top_mem _ m ht))
        (by simpa [World.websocketSendResult] using hfail)
      refine ⟨h1, ?_, ?_, ?_⟩
      · rw [h4]
        simp [PriorityQueue.drainOrder, ht, World.websocketSend, sentMessages_append, sentMessages]
      · rw [h4]; rfl
      · rw [h3]; exact hc
  | succ j ih =>
    obtain ⟨n, rfl⟩ : ∃ n, fuel = n + 1 := ⟨fuel - 1, by omega⟩
    cases ht : P.top c.owner.message_queue_ with
    | none =>
      have := (P.size_eq_zero).2 ht
      omega
    | some m =>
      obtain ⟨c2, heq, hq, hc2, hw, _⟩ := drainLoop_sent n c m ht hc
        (hty m (P.top_mem _ m ht))
        (by simpa [World.websocketSendResult] using hok 0 (Nat.succ_pos j))
      have hs := P.size_pop ht
      have hty2 : ∀ x ∈ P.items c2.owner.message_queue_,
          x.type = MessageType.TEXT ∨ x.type = MessageType.BINARY := by
        intro x hx
        rw [hq, P.items_pop _ m ht] at hx
        exact hty x (Multiset.mem_of_mem_erase hx)
      have hcalls : c2.world.sendCalls = c.world.sendCalls + 1 := by rw [hw]; rfl
      have hres : c2.world.sendResult = c.world.sendResult := by rw [hw]; rfl
      have := ih n c2 hc2 hty2 (by rw [hq]; omega) (by rw [hq]; omega)
        (by
          intro i hi
          rw [hres, hcalls, Nat.add_assoc, Nat.add_comm 1 i]
          exact hok (i + 1) (by omega))
        (by
          rw [hres, hcalls, Nat.add_assoc, Nat.add_comm 1 j]
          exact hfail)
      rw [heq]
      refine ⟨?_, ?_, ?_, this.2.2.2⟩
      · rw [this.1, hq]; rfl
      · rw [this.2.1, hw, hq]
        simp [PriorityQueue.drainOrder, ht, World.websocketSend, sentMessages_append,
          sentMessages]
      · rw [this.2.2.1, hcalls]; omega

end Drain

/-! ## Operations that do not grow the queue -/

section ShrinkLemmas
variable {P : PriorityQueue}

/-- The relation `Shrinks` is reflexive. -/
theorem shrinks_refl (c : MCtx P) : Shrinks c c :=
  ⟨le_refl _, rfl, rfl, rfl⟩

/-- The relation `Shrinks` is transitive. -/
theorem shrinks_trans {a b c : MCtx P} (h1 : Shrinks a b) (h2 : Shrinks b c) : Shrinks a c :=
  ⟨le_trans h2.1 h1.1, h2.2.1.trans h1.2.1, h2.2.2.1.trans h1.2.2.1, h2.2.2.2.trans h1.2.2.2⟩

/-- A context with the same owner. -/
theorem shrinks_of_owner {c c2 : MCtx P} (h : c2.owner = c.owner) : Shrinks c c2 := by
  unfold Shrinks
  rw [h]
  exact ⟨le_refl _, rfl, rfl, rfl⟩

/-- A queue with fewer entries has a smaller size. -/
theorem PriorityQueue.size_le_of_items_le (P : PriorityQueue) {q1 q2 : P.Q}
    (h : P.items q1 ≤ P.items q2) : P.size q1 ≤ P.size q2 :=
  Multiset.card_le_card h

/-- The method `DataLink::sendText` does not touch the owner of the Link. -/
theorem sendText_owner (message : String) (c : MCtx P) :
    (DataLink.sendText message c).2.owner = c.owner := by
  unfold DataLink.sendText
  split_ifs <;> rfl

/-- The method `DataLink::sendBinary` does not touch the owner of the Link. -/
theorem sendBinary_owner (data : List Nat) (c : MCtx P) :
    (DataLink.sendBinary data c).2.owner = c.owner := by
  unfold DataLink.sendBinary
  split_ifs <;> rfl

/-- The method `DataLink::sendPing` does not touch the owner of the Link. -/
theorem sendPing_owner (c : MCtx P) :
    (DataLink.sendPing c).2.owner = c.owner := by
  unfold DataLink.sendPing
  split_ifs <;> rfl

/-- The drain loop only removes entries. -/
theorem shrinks_drainLoop (fuel : Nat) (c : MCtx P) :
    Shrinks c (WebSocketManager.drainLoop fuel c) := by
  induction fuel generalizing c with
  | zero => exact shrinks_refl c
  | succ n ih =>
    simp only [WebSocketManager.drainLoop]
    cases ht : P.top c.owner.message_queue_ with
    | none => exact shrinks_refl c
    | some m =>
      simp only
      obtain ⟨r, hreq, ho⟩ : ∃ r : Bool × MCtx P,
          (if m.type = MessageType.TEXT then DataLink.sendText m.data c
            else if m.type = MessageType.BINARY then
              DataLink.sendBinary (bytesOfString m.data) c
            else (false, c)) = r ∧ r.2.owner = c.owner := by
        refine ⟨_, rfl, ?_⟩
        split_ifs
        · exact sendText_owner _ _
        · exact sendBinary_owner _ _
        · rfl
      rw [hreq]
      split_ifs
      · refine shrinks_trans ?_ (ih _)
        refine ⟨?_, ?_, ?_, ?_⟩
        · show P.items (P.pop _) ≤ _
          rw [ho, P.items_pop _ m ht]
          exact Multiset.erase_le _ _
        · show WebSocketManager.max_queue_size_ r.2.owner = _
          rw [ho]
        · show WebSocketManager.queue_enabled_ r.2.owner = _
          rw [ho]
        · show WebSocketManager.datalink_ r.2.owner = _
          rw [ho]
      · refine ⟨?_, ?_, ?_, ?_⟩
        · show P.items (WebSocketManager.message_queue_ r.2.owner) ≤ _
          rw [ho]
        · show WebSocketManager.max_queue_size_ r.2.owner = _
          rw [ho]
        · show WebSocketManager.queue_enabled_ r.2.owner = _
          rw [ho]
        · show WebSocketManager.datalink_ r.2.owner = _
          rw [ho]

/-- The method `processMessageQueue` only removes entries. -/
theorem shrinks_processMessageQueue (c : MCtx P) :
    Shrinks c (WebSocketManager.processMessageQueue c) := by
  unfold WebSocketManager.processMessageQueue
  split_ifs
  · exact shrinks_refl c
  · exact shrinks_drainLoop _ c

/-- The state callback of the Manager only removes entries. -/
theorem shrinks_onConnectionStateChanged (state : ConnectionState) (c : MCtx P) :
    Shrinks c (WebSocketManager.onConnectionStateChanged state c) := by
  unfold WebSocketManager.onConnectionStateChanged
  dsimp only
  by_cases hs : state = ConnectionState.CONNECTED
  · rw [if_pos hs]
    split_ifs
    · exact (shrinks_processMessageQueue c)
    · exact shrinks_processMessageQueue c
  · rw [if_neg hs]
    split_ifs
    · exact (shrinks_refl c)
    · exact shrinks_refl c

/-- Inside a Manager, `updateConnectionState` only removes entries. -/
theorem shrinks_updateConnectionState (new_state : ConnectionState) (c : MCtx P) :
    Shrinks c (DataLink.updateConnectionState (WebSocketManager.linkCallbacks P) new_state c) := by
  unfold DataLink.updateConnectionState
  split_ifs
  · exact (shrinks_onConnectionStateChanged _ _)
  · exact shrinks_refl c

/-- Inside a Manager, `handleConnectionSuccess` only removes entries. -/
theorem shrinks_handleConnectionSuccess (c : MCtx P) :
    Shrinks c (DataLink.handleConnectionSuccess (WebSocketManager.linkCallbacks P) c) := by
  unfold DataLink.handleConnectionSuccess
  exact (shrinks_updateConnectionState _ _)

/-- Inside a Manager, a step of the reconnect thread only removes entries. -/
theorem shrinks_attemptReconnectStep (c : MCtx P) :
    Shrinks c (DataLink.attemptReconnectStep (WebSocketManager.linkCallbacks P) c) := by
  unfold DataLink.attemptReconnectStep
  dsimp only
  split
  · exact shrinks_refl c
  · split_ifs <;> exact (shrinks_refl c)
  · split_ifs <;> exact (shrinks_refl c)
  · split_ifs
    · exact ((shrinks_handleConnectionSuccess _))
    · exact ((shrinks_updateConnectionState _ _))
    · exact (shrinks_refl c)

/-- Inside a Manager, the reconnect thread only removes entries. -/
theorem shrinks_attemptReconnect (n : Nat) (c : MCtx P) :
    Shrinks c (DataLink.attemptReconnect (WebSocketManager.linkCallbacks P) n c) := by
  induction n generalizing c with
  | zero => exact shrinks_refl c
  | succ n ih => exact shrinks_trans (shrinks_attemptReconnectStep c) (ih _)

/-- Inside a Manager, `stopReconnectTimer` only removes entries. -/
theorem shrinks_stopReconnectTimer (c : MCtx P) :
    Shrinks c (DataLink.stopReconnectTimer (WebSocketManager.linkCallbacks P) c) := by
  unfold DataLink.stopReconnectTimer
  dsimp only
  split_ifs
  · exact ((shrinks_attemptReconnect 2 _))
  · exact (shrinks_refl c)

/-- Inside a Manager, `startReconnectTimer` only removes entries. -/
theorem shrinks_startReconnectTimer (c : MCtx P) :
    Shrinks c (DataLink.startReconnectTimer (WebSocketManager.linkCallbacks P) c) := by
  unfold DataLink.startReconnectTimer
  dsimp only
  split_ifs
  · exact shrinks_refl c
  · exact ((shrinks_updateConnectionState _ _))

/-- The error callback of the Manager leaves the queue as it is. -/
theorem shrinks_onError (error : String) (c : MCtx P) :
    Shrinks c (WebSocketManager.onError error c) := by
  unfold WebSocketManager.onError
  split_ifs
  · exact (shrinks_refl c)
  · exact shrinks_refl c

/-- Inside a Manager, `handleConnectionError` only removes entries. -/
theorem shrinks_handleConnectionError (error : String) (c : MCtx P) :
    Shrinks c (DataLink.handleConnectionError (WebSocketManager.linkCallbacks P) error c) := by
  unfold DataLink.handleConnectionError
  dsimp only [WebSocketManager.linkCallbacks]
  have h2 := shrinks_trans (shrinks_updateConnectionState ConnectionState.ERROR c)
    (shrinks_onError error _)
  split_ifs
  · exact shrinks_trans h2 (shrinks_startReconnectTimer _)
  · exact h2

/-- Inside a Manager, `DataLink::connect` only removes entries. -/
theorem shrinks_linkConnect (url : String) (c : MCtx P) :
    Shrinks c (DataLink.connect (WebSocketManager.linkCallbacks P) url c).2 := by
  unfold DataLink.connect
  dsimp only
  have h1 : Shrinks c (DataLink.updateConnectionState (WebSocketManager.linkCallbacks P)
      ConnectionState.CONNECTING ({ c with link := { c.link with server_url_ := url } })) :=
    (shrinks_updateConnectionState _ _)
  split_ifs
  · exact shrinks_refl c
  · exact shrinks_refl c
  · exact shrinks_trans h1 ((shrinks_handleConnectionSuccess _))
  · exact shrinks_trans h1 ((shrinks_handleConnectionError _ _))

/-- Inside a Manager, `DataLink::disconnect` only removes entries. -/
theorem shrinks_linkDisconnect (c : MCtx P) :
    Shrinks c (DataLink.disconnect (WebSocketManager.linkCallbacks P) c) := by
  unfold DataLink.disconnect
  dsimp only
  split_ifs
  · exact shrinks_refl c
  · exact shrinks_trans (shrinks_stopReconnectTimer c)
      ((shrinks_updateConnectionState _ _))

/-- Inside a Manager, `setAutoReconnect` only removes entries. -/
theorem shrinks_setAutoReconnect (enabled : Bool) (m i : Int) (c : MCtx P) :
    Shrinks c (DataLink.setAutoReconnect (WebSocketManager.linkCallbacks P) enabled m i c) := by
  unfold DataLink.setAutoReconnect
  dsimp only
  split_ifs
  · exact (shrinks_refl c)
  · exact (shrinks_stopReconnectTimer _)

/-- The method `WebSocketManager::sendPing` leaves the queue as it is. -/
theorem shrinks_sendPing (c : MCtx P) :
    Shrinks c (WebSocketManager.sendPing c).2 := by
  unfold WebSocketManager.sendPing
  split_ifs
  · exact shrinks_refl c
  · exact shrinks_of_owner (sendPing_owner c)

/-- A step of the heartbeat thread leaves the queue as it is. -/
theorem shrinks_performHeartbeatStep (c : MCtx P) :
    Shrinks c (WebSocketManager.performHeartbeatStep c) := by
  unfold WebSocketManager.performHeartbeatStep
  dsimp only
  split
  · exact shrinks_refl c
  · split_ifs <;> exact (shrinks_refl c)
  · split_ifs <;> exact (shrinks_refl c)
  · split_ifs
    · exact (shrinks_sendPing c)
    · exact (shrinks_refl c)

/-- The heartbeat thread leaves the queue as it is. -/
theorem shrinks_performHeartbeat (n : Nat) (c : MCtx P) :
    Shrinks c (WebSocketManager.performHeartbeat n c) := by
  induction n generalizing c with
  | zero => exact shrinks_refl c
  | succ n ih => exact shrinks_trans (shrinks_performHeartbeatStep c) (ih _)

/-- The method `stopHeartbeat` leaves the queue as it is. -/
theorem shrinks_stopHeartbeat (c : MCtx P) :
    Shrinks c (WebSocketManager.stopHeartbeat c) := by
  unfold WebSocketManager.stopHeartbeat
  dsimp only
  split_ifs
  · exact ((shrinks_performHeartbeat 2 _))
  · exact (shrinks_refl c)

/-- The method `startHeartbeat` leaves the queue as it is. -/
theorem shrinks_startHeartbeat (c : MCtx P) :
    Shrinks c (WebSocketManager.startHeartbeat c) := by
  unfold WebSocketManager.startHeartbeat
  split_ifs
  · exact shrinks_refl c
  · exact (shrinks_refl c)

/-- The method `enableHeartbeat` leaves the queue as it is. -/
theorem shrinks_enableHeartbeat (enabled : Bool) (c : MCtx P) :
    Shrinks c (WebSocketManager.enableHeartbeat enabled c) := by
  unfold WebSocketManager.enableHeartbeat
  dsimp only
  split_ifs
  · exact (shrinks_startHeartbeat _)
  · exact (shrinks_stopHeartbeat _)

/-- The method `WebSocketManager::connect` only removes entries. -/
theorem shrinks_connect (url : String) (auto_reconnect : Bool) (c : MCtx P) :
    Shrinks c (WebSocketManager.connect url auto_reconnect c).2 := by
  unfold WebSocketManager.connect
  split_ifs
  · exact shrinks_refl c
  · exact shrinks_trans (shrinks_setAutoReconnect _ _ _ c) (shrinks_linkConnect url _)

/-- The method `WebSocketManager::disconnect` only removes entries. -/
theorem shrinks_disconnect (c : MCtx P) :
    Shrinks c (WebSocketManager.disconnect c) := by
  unfold WebSocketManager.disconnect
  dsimp only
  by_cases hd : c.owner.datalink_ = true
  · rw [if_pos hd]
    exact shrinks_trans (shrinks_linkDisconnect c) (shrinks_stopHeartbeat _)
  · rw [if_neg hd]
    exact shrinks_stopHeartbeat c

/-- Calls of `pop`, no more than the queue has entries, only remove entries. -/
theorem PriorityQueue.items_popN_le (P : PriorityQueue) (a : Nat) (q : P.Q) (h : a ≤ P.size q) :
    P.items (P.popN a q) ≤ P.items q := by
  induction a generalizing q with
  | zero => exact le_refl _
  | succ n ih =>
    simp only [PriorityQueue.popN]
    cases ht : P.top q with
    | none =>
      have := (P.size_eq_zero).2 ht
      omega
    | some m =>
      have hs := P.size_pop ht
      refine le_trans (ih (P.pop q) (by omega)) ?_
      rw [P.items_pop q m ht]
      exact Multiset.erase_le _ _

/-- After `clearMessageQueue` the queue is empty. -/
theorem clearMessageQueue_size (c : MCtx P) :
    WebSocketManager.getQueuedMessageCount (WebSocketManager.clearMessageQueue c) = 0 := by
  unfold WebSocketManager.getQueuedMessageCount WebSocketManager.clearMessageQueue
  have := P.size_popN (P.size c.owner.message_queue_) c.owner.message_queue_ (le_refl _)
  show P.size (P.popN _ _) = 0
  omega

/-- The method `clearMessageQueue` only removes entries. -/
theorem shrinks_clearMessageQueue (c : MCtx P) :
    Shrinks c (WebSocketManager.clearMessageQueue c) := by
  unfold WebSocketManager.clearMessageQueue
  exact ⟨P.items_popN_le _ _ (le_refl _), rfl, rfl, rfl⟩


/-- The invariant of the queue: its size is within the capacity. -/
theorem shrinks_bound {c c2 : MCtx P} (h : Shrinks c c2)
    (hb : WebSocketManager.getQueuedMessageCount c ≤ c.owner.max_queue_size_) :
    WebSocketManager.getQueuedMessageCount c2 ≤ c2.owner.max_queue_size_ := by
  unfold WebSocketManager.getQueuedMessageCount at hb ⊢
  have := P.size_le_of_items_le h.1
  rw [h.2.1]
  omega

/-- The method `WebSocketManager::sendText` keeps the queue within the capacity. -/
theorem sendText_bound (message : String) (priority : MessagePriority) (c : MCtx P)
    (hb : WebSocketManager.getQueuedMessageCount c ≤ c.owner.max_queue_size_) :
    WebSocketManager.getQueuedMessageCount (WebSocketManager.sendText message priority c).2 ≤
      (WebSocketManager.sendText message priority c).2.owner.max_queue_size_ := by
  unfold WebSocketManager.getQueuedMessageCount at hb ⊢
  unfold WebSocketManager.sendText
  dsimp only
  split_ifs with h1 h2 h3 h4 h5 h6 h7 h8
  all_goals first
    | exact hb
    | (simp only [PriorityQueue.size, P.items_push, Multiset.card_cons] at h4 ⊢; omega)
    | (show P.size (DataLink.sendText message c).2.owner.message_queue_ ≤
        (DataLink.sendText message c).2.owner.max_queue_size_
       rw [sendText_owner]; exact hb)

/-- The method `WebSocketManager::sendBinary` keeps the queue within the capacity. -/
theorem sendBinary_bound (data : List Nat) (priority : MessagePriority) (c : MCtx P)
    (hb : WebSocketManager.getQueuedMessageCount c ≤ c.owner.max_queue_size_) :
    WebSocketManager.getQueuedMessageCount (WebSocketManager.sendBinary data priority c).2 ≤
      (WebSocketManager.sendBinary data priority c).2.owner.max_queue_size_ := by
  unfold WebSocketManager.getQueuedMessageCount at hb ⊢
  unfold WebSocketManager.sendBinary
  dsimp only
  split_ifs with h1 h2 h3 h4 h5
  all_goals first
    | exact hb
    | (simp only [PriorityQueue.size, P.items_push, Multiset.card_cons] at h4 ⊢; omega)
    | (show P.size (DataLink.sendBinary data c).2.owner.message_queue_ ≤
        (DataLink.sendBinary data c).2.owner.max_queue_size_
       rw [sendBinary_owner]; exact hb)

/-- A sequence of operations that respects the capacity keeps the queue within the
capacity. -/
theorem runManagerOps_bound (ops : List ManagerOp) (c : MCtx P)
    (hb : WebSocketManager.getQueuedMessageCount c ≤ c.owner.max_queue_size_)
    (hcap : capacityRespected ops c = true) :
    WebSocketManager.getQueuedMessageCount (runManagerOps ops c) ≤
      (runManagerOps ops c).owner.max_queue_size_ := by
  induction ops generalizing c with
  | nil => exact hb
  | cons op ops ih =>
    show WebSocketManager.getQueuedMessageCount (runManagerOps ops (op.run c)) ≤ _
    cases op with
    | connect url ar =>
      exact ih _ (shrinks_bound (shrinks_connect url ar c) hb) (by simpa [capacityRespected] using hcap)
    | disconnect =>
      exact ih _ (shrinks_bound (shrinks_disconnect c) hb) (by simpa [capacityRespected] using hcap)
    | sendText m p =>
      exact ih _ (sendText_bound m p c hb) (by simpa [capacityRespected] using hcap)
    | sendBinary d p =>
      exact ih _ (sendBinary_bound d p c hb) (by simpa [capacityRespected] using hcap)
    | sendPing =>
      exact ih _ (shrinks_bound (shrinks_sendPing c) hb) (by simpa [capacityRespected] using hcap)
    | enableMessageQueue e n =>
      cases e with
      | true =>
        simp only [capacityRespected, Bool.and_eq_true, decide_eq_true_eq] at hcap
        exact ih _ hcap.1 hcap.2
      | false =>
        refine ih _ ?_ (by simpa [capacityRespected] using hcap)
        show WebSocketManager.getQueuedMessageCount (WebSocketManager.clearMessageQueue _) ≤ _
        rw [clearMessageQueue_size]
        exact Nat.zero_le _
    | processMessageQueue =>
      exact ih _ (shrinks_bound (shrinks_processMessageQueue c) hb)
        (by simpa [capacityRespected] using hcap)
    | clearMessageQueue =>
      exact ih _ (shrinks_bound (shrinks_clearMessageQueue c) hb)
        (by simpa [capacityRespected] using hcap)
    | setHeartbeatInterval i =>
      exact ih _ hb (by simpa [capacityRespected] using hcap)
    | enableHeartbeat e =>
      exact ih _ (shrinks_bound (shrinks_enableHeartbeat e c) hb)
        (by simpa [capacityRespected] using hcap)
    | reconnectThreadStep =>
      exact ih _ (shrinks_bound (shrinks_attemptReconnectStep c) hb)
        (by simpa [capacityRespected] using hcap)
    | heartbeatThreadStep =>
      exact ih _ (shrinks_bound (shrinks_performHeartbeatStep c) hb)
        (by simpa [capacityRespected] using hcap)

end ShrinkLemmas

/-! ## The Manager: enqueueing and draining -/

section ManagerTheorems

variable {P : PriorityQueue}

/-- A byte value survives the conversion to a character and back. -/
theorem toNat_ofNat_byte (n : Nat) (h : n < 256) : (Char.ofNat n).toNat = n := by
  have hv : n.isValidChar := Or.inl (by omega)
  simp only [Char.ofNat, dif_pos hv, Char.toNat, Char.ofNatAux]
  show (UInt32.ofNat' n _).toNat = n
  rfl

/-- The string made of bytes is unchanged by the conversion to bytes and back. -/
theorem stringOfBytes_roundtrip (data : List Nat) :
    stringOfBytes (bytesOfString (stringOfBytes data)) = stringOfBytes data := by
  simp only [stringOfBytes, bytesOfString, List.map_map]
  congr 1
  apply List.map_congr_left
  intro b _
  simp only [Function.comp]
  rw [toNat_ofNat_byte _ (Nat.mod_lt _ (by decide))]
  simp

/-- The queue entry made for a message carries its payload, its priority and the type text
or binary. -/
theorem wirePayload_queued (o : Outgoing) (ts : Nat) :
    wirePayload (o.queued ts) = o.payload ∧ (o.queued ts).priority = o.priority ∧
    ((o.queued ts).type = MessageType.TEXT ∨ (o.queued ts).type = MessageType.BINARY) := by
  cases o with
  | text m p => simp [Outgoing.queued, wirePayload, QueuedMessage.new, Outgoing.payload,
      Outgoing.priority]
  | binary d p => simp [Outgoing.queued, wirePayload, QueuedMessage.new, Outgoing.payload,
      Outgoing.priority, stringOfBytes_roundtrip]

/-- A send on a Manager that is not connected, with queueing enabled and room in the queue,
reads the clock and enqueues the message. -/
theorem send_queued (o : Outgoing) (c : MCtx P)
    (hinit : c.owner.datalink_ = true)
    (hen : c.owner.queue_enabled_ = true)
    (hnc : c.link.connection_state_ ≠ ConnectionState.CONNECTED)
    (hcap : P.size c.owner.message_queue_ < c.owner.max_queue_size_) :
    o.send c = (true,
      { c with
        world := c.world.getCurrentTimestamp,
        owner := { c.owner with
          message_queue_ := P.push (o.queued c.world.currentTimestamp) c.owner.message_queue_ } }) := by
  have hconn : WebSocketManager.isConnected c = false := by
    simp [WebSocketManager.isConnected, DataLink.isConnected, hnc]
  cases o with
  | text m p =>
    simp [Outgoing.send, WebSocketManager.sendText, hinit, hconn, hen, hcap, Outgoing.queued]
  | binary d p =>
    simp [Outgoing.send, WebSocketManager.sendBinary, hinit, hconn, hen, hcap, Outgoing.queued]

/-- Sends on a Manager that is not connected, with queueing enabled and room for all the
messages: every call returns true, the clock is read once per message, and the queue
gains one entry per message. -/
theorem sendAll_queued (msgs : List Outgoing) (c : MCtx P)
    (hinit : c.owner.datalink_ = true)
    (hen : c.owner.queue_enabled_ = true)
    (hnc : c.link.connection_state_ ≠ ConnectionState.CONNECTED)
    (hcap : P.size c.owner.message_queue_ + msgs.length ≤ c.owner.max_queue_size_) :
    ∃ (q2 : P.Q) (L : List QueuedMessage),
      sendAll msgs c = (List.replicate msgs.length true,
        { c with
          world := { c.world with
            clockCalls := c.world.clockCalls + msgs.length,
            trace := c.world.trace ++ List.replicate msgs.length Event.getCurrentTimestamp },
          owner := { c.owner with message_queue_ := q2 } }) ∧
      P.items q2 = (L : Multiset QueuedMessage) + P.items c.owner.message_queue_ ∧
      L.map (fun m => (wirePayload m, m.priority)) =
        msgs.map (fun o => (o.payload, o.priority)) ∧
      ∀ m ∈ L, m.type = MessageType.TEXT ∨ m.type = MessageType.BINARY := by
  induction msgs generalizing c with
  | nil =>
    refine ⟨c.owner.message_queue_, [], ?_, by simp, rfl, by simp⟩
    simp [sendAll]
  | cons o os ih =>
    simp only [List.length_cons] at hcap
    have h1 := send_queued o c hinit hen hnc (by omega)
    have hs : P.size (P.push (o.queued c.world.currentTimestamp) c.owner.message_queue_) =
        P.size c.owner.message_queue_ + 1 := by
      simp [PriorityQueue.size, P.items_push]
    obtain ⟨q2, L, h2, h3, h4, h5⟩ := ih
      ({ c with
        world := c.world.getCurrentTimestamp,
        owner := { c.owner with
          message_queue_ := P.push (o.queued c.world.currentTimestamp) c.owner.message_queue_ } })
      hinit hen hnc (by show P.size (P.push _ _) + _ ≤ c.owner.max_queue_size_; rw [hs]; omega)
    obtain ⟨hw1, hw2, hw3⟩ := wirePayload_queued o c.world.currentTimestamp
    refine ⟨q2, o.queued c.world.currentTimestamp :: L, ?_, ?_, ?_, ?_⟩
    · simp only [sendAll, h1, h2]
      simp [World.getCurrentTimestamp, List.replicate_succ, Nat.add_assoc, Nat.add_comm 1]
    · rw [h3]
      show _ + P.items (P.push _ _) = _
      rw [P.items_push, ← Multiset.cons_coe, Multiset.add_cons, Multiset.cons_add]
    · simp [h4, hw1, hw2]
    · intro m hm
      rcases List.mem_cons.1 hm with rfl | hm
      · exact hw3
      · exact h5 m hm

/-- An event other than a `websocketSend` call adds nothing to the payloads sent. -/
theorem sentMessages_emit_other (tr : List Event) (e : Event)
    (he : ∀ m, e ≠ Event.websocketSend m) :
    sentMessages (tr ++ [e]) = sentMessages tr := by
  rw [sentMessages_append]
  cases e <;> simp [sentMessages] at he ⊢

/-- Inside a Manager with queueing enabled, `handleConnectionSuccess` on a Link that is not
`CONNECTED` drains the whole queue when the transport accepts every send. -/
theorem handleConnectionSuccess_drains (c : MCtx P)
    (hinit : c.owner.datalink_ = true)
    (hen : c.owner.queue_enabled_ = true)
    (hnc : c.link.connection_state_ ≠ ConnectionState.CONNECTED)
    (hty : ∀ m ∈ P.items c.owner.message_queue_,
      m.type = MessageType.TEXT ∨ m.type = MessageType.BINARY)
    (hsend : ∀ n, c.world.sendResult n = true) :
    P.items (DataLink.handleConnectionSuccess (WebSocketManager.linkCallbacks P)
      c).owner.message_queue_ = 0 ∧
    sentMessages (DataLink.handleConnectionSuccess (WebSocketManager.linkCallbacks P)
      c).world.trace = sentMessages c.world.trace ++
        (P.drainOrder (P.size c.owner.message_queue_) c.owner.message_queue_).map wirePayload ∧
    (DataLink.handleConnectionSuccess (WebSocketManager.linkCallbacks P)
      c).link.connection_state_ = ConnectionState.CONNECTED := by
  have hd := drainLoop_all (P.size c.owner.message_queue_)
    ({ c with
      world := c.world.getCurrentTimestamp,
      link := { c.link with
        connection_start_time_ := c.world.currentTimestamp,
        current_reconnect_attempts_ := 0,
        connection_state_ := ConnectionState.CONNECTED } } : MCtx P)
    rfl hty hsend (le_refl _)
  have hst : sentMessages (c.world.getCurrentTimestamp).trace = sentMessages c.world.trace :=
    sentMessages_emit_other _ _ (by simp)
  simp only [hst] at hd
  unfold DataLink.handleConnectionSuccess DataLink.updateConnectionState
  simp only [hnc, ne_eq, not_false_eq_true, if_true, WebSocketManager.linkCallbacks,
    WebSocketManager.onConnectionStateChanged, WebSocketManager.processMessageQueue,
    WebSocketManager.isConnected, DataLink.isConnected, hinit, hen, decide_True, Bool.and_self,
    Bool.true_eq_false, or_self, if_false]
  split_ifs
  · refine ⟨hd.1, ?_, hd.2.2⟩
    show sentMessages (_ ++ [_]) = _
    rw [sentMessages_emit_other _ _ (by simp)]
    exact hd.2.1
  · exact hd

/-- With no reconnect thread, `setAutoReconnect` leaves the Manager, the state, the oracle
and the payloads sent as they are. -/
theorem setAutoReconnect_idle (enabled : Bool) (m i : Int) (c : MCtx P)
    (hpc : c.world.reconnectPc = none) :
    (DataLink.setAutoReconnect (WebSocketManager.linkCallbacks P) enabled m i c).owner = c.owner ∧
    (DataLink.setAutoReconnect (WebSocketManager.linkCallbacks P) enabled m i
      c).link.connection_state_ = c.link.connection_state_ ∧
    (DataLink.setAutoReconnect (WebSocketManager.linkCallbacks P) enabled m i
      c).world.sendResult = c.world.sendResult ∧
    (DataLink.setAutoReconnect (WebSocketManager.linkCallbacks P) enabled m i
      c).world.websocketConnectResult = c.world.websocketConnectResult ∧
    sentMessages (DataLink.setAutoReconnect (WebSocketManager.linkCallbacks P) enabled m i
      c).world.trace = sentMessages c.world.trace := by
  unfold DataLink.setAutoReconnect DataLink.stopReconnectTimer
  dsimp only
  by_cases he : enabled = true
  · simp [he]
  · by_cases hh : c.link.reconnect_thread_ = true
    · simp only [he, hh, if_true, if_false]
      rw [attemptReconnect_ended _ _ _ (by simpa [World.emit] using hpc)]
      refine ⟨rfl, rfl, rfl, rfl, ?_⟩
      exact sentMessages_emit_other _ _ (by simp)
    · simp [he, hh]

/-- The state callback of the Manager for a state other than `CONNECTED` only invokes the
user callback. -/
theorem onConnectionStateChanged_other (state : ConnectionState) (c : MCtx P)
    (hs : state ≠ ConnectionState.CONNECTED) :
    WebSocketManager.onConnectionStateChanged state c =
      if c.owner.connection_callback_ = true then
        { c with world := c.world.emit (Event.connectionCallback state) }
      else c := by
  simp [WebSocketManager.onConnectionStateChanged, hs]

/-- Inside a Manager, the change to `CONNECTING` leaves the Manager, the oracle and the
payloads sent as they are. -/
theorem updateConnectionState_connecting (c : MCtx P)
    (hncg : c.link.connection_state_ ≠ ConnectionState.CONNECTING) :
    (DataLink.updateConnectionState (WebSocketManager.linkCallbacks P)
      ConnectionState.CONNECTING c).owner = c.owner ∧
    (DataLink.updateConnectionState (WebSocketManager.linkCallbacks P)
      ConnectionState.CONNECTING c).link.connection_state_ = ConnectionState.CONNECTING ∧
    (DataLink.updateConnectionState (WebSocketManager.linkCallbacks P)
      ConnectionState.CONNECTING c).world.sendResult = c.world.sendResult ∧
    (DataLink.updateConnectionState (WebSocketManager.linkCallbacks P)
      ConnectionState.CONNECTING c).world.websocketConnectResult =
        c.world.websocketConnectResult ∧
    sentMessages (DataLink.updateConnectionState (WebSocketManager.linkCallbacks P)
      ConnectionState.CONNECTING c).world.trace = sentMessages c.world.trace := by
  unfold DataLink.updateConnectionState
  simp only [hncg, ne_eq, not_false_eq_true, if_true, WebSocketManager.linkCallbacks]
  rw [onConnectionStateChanged_other _ _ (by decide)]
  by_cases hcb : c.owner.connection_callback_ = true
  · rw [if_pos hcb]
    refine ⟨rfl, rfl, rfl, rfl, ?_⟩
    exact sentMessages_emit_other _ _ (by simp)
  · rw [if_neg hcb]
    exact ⟨rfl, rfl, rfl, rfl, rfl⟩

/-- The method `WebSocketManager::connect`, when the transport accepts the connection and
every send, drains the whole queue. -/
theorem connect_drains (url : String) (auto_reconnect : Bool) (c : MCtx P)
    (hinit : c.owner.datalink_ = true)
    (hen : c.owner.queue_enabled_ = true)
    (hnc : c.link.connection_state_ ≠ ConnectionState.CONNECTED)
    (hncg : c.link.connection_state_ ≠ ConnectionState.CONNECTING)
    (hpc : c.world.reconnectPc = none)
    (hty : ∀ m ∈ P.items c.owner.message_queue_,
      m.type = MessageType.TEXT ∨ m.type = MessageType.BINARY)
    (hsend : ∀ n, c.world.sendResult n = true)
    (hconn : c.world.websocketConnectResult = true) :
    (WebSocketManager.connect url auto_reconnect c).1 = true ∧
    P.items (WebSocketManager.connect url auto_reconnect c).2.owner.message_queue_ = 0 ∧
    sentMessages (WebSocketManager.connect url auto_reconnect c).2.world.trace =
      sentMessages c.world.trace ++
        (P.drainOrder (P.size c.owner.message_queue_) c.owner.message_queue_).map wirePayload ∧
    (WebSocketManager.connect url auto_reconnect c).2.link.connection_state_ =
      ConnectionState.CONNECTED := by
  have hmc : WebSocketManager.connect url auto_reconnect c =
      DataLink.connect (WebSocketManager.linkCallbacks P) url
        (DataLink.setAutoReconnect (WebSocketManager.linkCallbacks P) auto_reconnect 5 1000 c) := by
    simp [WebSocketManager.connect, hinit]
  rw [hmc]
  obtain ⟨ho, hs, hsr, hcr, htr⟩ := setAutoReconnect_idle auto_reconnect 5 1000 c hpc
  generalize DataLink.setAutoReconnect (WebSocketManager.linkCallbacks P) auto_reconnect 5 1000 c
    = c2 at ho hs hsr hcr htr
  obtain ⟨ho3, hs3, hsr3, hcr3, htr3⟩ := updateConnectionState_connecting
    ({ c2 with link := { c2.link with server_url_ := url } } : MCtx P)
    (by show c2.link.connection_state_ ≠ _; rw [hs]; exact hncg)
  unfold DataLink.connect
  dsimp only
  rw [if_neg (by rw [hs]; exact hnc), if_neg (by rw [hs]; exact hncg)]
  generalize DataLink.updateConnectionState (WebSocketManager.linkCallbacks P)
    ConnectionState.CONNECTING ({ c2 with link := { c2.link with server_url_ := url } } : MCtx P)
    = c3 at ho3 hs3 hsr3 hcr3 htr3
  have hres : c3.world.websocketConnectResult = true := by
    rw [hcr3]; show c2.world.websocketConnectResult = true; rw [hcr]; exact hconn
  rw [if_pos hres]
  have ho4 : c3.owner = c.owner := ho3.trans ho
  have hd := handleConnectionSuccess_drains
    ({ c3 with world := c3.world.websocketConnect url } : MCtx P)
    (by show c3.owner.datalink_ = true; rw [ho4]; exact hinit)
    (by show c3.owner.queue_enabled_ = true; rw [ho4]; exact hen)
    (by show c3.link.connection_state_ ≠ _; rw [hs3]; decide)
    (by show ∀ m ∈ P.items c3.owner.message_queue_, _; rw [ho4]; exact hty)
    (by show ∀ n, c3.world.sendResult n = true; rw [hsr3];
        show ∀ n, c2.world.sendResult n = true; rw [hsr]; exact hsend)
  have htr4 : sentMessages (c3.world.websocketConnect url).trace = sentMessages c.world.trace := by
    show sentMessages (_ ++ [_]) = _
    rw [sentMessages_emit_other _ _ (by simp), htr3]
    exact htr
  refine ⟨rfl, hd.1, ?_, hd.2.2⟩
  rw [hd.2.1]
  show sentMessages (c3.world.websocketConnect url).trace ++
    List.map wirePayload (P.drainOrder (P.size c3.owner.message_queue_) c3.owner.message_queue_) = _
  rw [htr4, ho4]

/-- The attempt of the reconnect thread, when the transport accepts the connection and
every send, drains the whole queue. -/
theorem reconnect_drains (c : MCtx P)
    (hinit : c.owner.datalink_ = true)
    (hen : c.owner.queue_enabled_ = true)
    (hnc : c.link.connection_state_ ≠ ConnectionState.CONNECTED)
    (hpc : c.world.reconnectPc = some ReconnectPc.checked)
    (hty : ∀ m ∈ P.items c.owner.message_queue_,
      m.type = MessageType.TEXT ∨ m.type = MessageType.BINARY)
    (hsend : ∀ n, c.world.sendResult n = true)
    (hconn : c.world.websocketConnectResult = true) :
    P.items (DataLink.attemptReconnectStep (WebSocketManager.linkCallbacks P)
      c).owner.message_queue_ = 0 ∧
    sentMessages (DataLink.attemptReconnectStep (WebSocketManager.linkCallbacks P)
      c).world.trace = sentMessages c.world.trace ++
        (P.drainOrder (P.size c.owner.message_queue_) c.owner.message_queue_).map wirePayload ∧
    (DataLink.attemptReconnectStep (WebSocketManager.linkCallbacks P)
      c).link.connection_state_ = ConnectionState.CONNECTED := by
  have hd := handleConnectionSuccess_drains
    ({ c with world := c.world.websocketConnect c.link.server_url_ } : MCtx P)
    hinit hen hnc hty hsend
  have htr : sentMessages (c.world.websocketConnect c.link.server_url_).trace =
      sentMessages c.world.trace := sentMessages_emit_other _ _ (by simp)
  simp only [DataLink.attemptReconnectStep, hpc, hconn, if_true]
  refine ⟨hd.1, ?_, hd.2.2⟩
  show sentMessages (DataLink.handleConnectionSuccess _ _).world.trace = _
  rw [hd.2.1]
  show sentMessages (c.world.websocketConnect c.link.server_url_).trace ++ _ = _
  rw [htr]

/-- Reading the clock sends nothing. -/
theorem sentMessages_replicate_clock (n : Nat) :
    sentMessages (List.replicate n Event.getCurrentTimestamp) = [] := by
  induction n with
  | zero => rfl
  | succ n ih =>
    rw [List.replicate_succ]
    show sentMessages ([Event.getCurrentTimestamp] ++ _) = []
    rw [sentMessages_append, ih]
    rfl


/-- Removing entries keeps the queue typed. -/
theorem shrinks_typed {c c2 : MCtx P} (h : Shrinks c c2) (ht : QueueTyped c) : QueueTyped c2 :=
  fun m hm => ht m (Multiset.mem_of_le h.1 hm)

/-- The method `WebSocketManager::sendText` keeps the queue typed. -/
theorem sendText_typed (message : String) (priority : MessagePriority) (c : MCtx P)
    (ht : QueueTyped c) : QueueTyped (WebSocketManager.sendText message priority c).2 := by
  unfold QueueTyped at ht ⊢
  unfold WebSocketManager.sendText
  dsimp only
  split_ifs
  all_goals first
    | exact ht
    | (intro m hm
       rw [P.items_push] at hm
       rcases Multiset.mem_cons.1 hm with rfl | hm
       · exact Or.inl rfl
       · exact ht m hm)
    | (show ∀ m ∈ P.items (DataLink.sendText message c).2.owner.message_queue_, _
       rw [sendText_owner]; exact ht)

/-- The method `WebSocketManager::sendBinary` keeps the queue typed. -/
theorem sendBinary_typed (data : List Nat) (priority : MessagePriority) (c : MCtx P)
    (ht : QueueTyped c) : QueueTyped (WebSocketManager.sendBinary data priority c).2 := by
  unfold QueueTyped at ht ⊢
  unfold WebSocketManager.sendBinary
  dsimp only
  split_ifs
  all_goals first
    | exact ht
    | (intro m hm
       rw [P.items_push] at hm
       rcases Multiset.mem_cons.1 hm with rfl | hm
       · exact Or.inr rfl
       · exact ht m hm)
    | (show ∀ m ∈ P.items (DataLink.sendBinary data c).2.owner.message_queue_, _
       rw [sendBinary_owner]; exact ht)

/-- The method `enableMessageQueue` keeps the queue typed. -/
theorem enableMessageQueue_typed (enabled : Bool) (n : Nat) (c : MCtx P)
    (ht : QueueTyped c) : QueueTyped (WebSocketManager.enableMessageQueue enabled n c) := by
  unfold WebSocketManager.enableMessageQueue
  dsimp only
  split_ifs
  · exact ht
  · exact shrinks_typed (shrinks_clearMessageQueue _) ht

/-- In every state a new Manager reaches, the queue holds text and binary messages
only. -/
theorem runManagerOps_typed (ops : List ManagerOp) (c : MCtx P) (ht : QueueTyped c) :
    QueueTyped (runManagerOps ops c) := by
  induction ops generalizing c with
  | nil => exact ht
  | cons op ops ih =>
    show QueueTyped (runManagerOps ops (op.run c))
    cases op with
    | connect url ar => exact ih _ (shrinks_typed (shrinks_connect url ar c) ht)
    | disconnect => exact ih _ (shrinks_typed (shrinks_disconnect c) ht)
    | sendText m p => exact ih _ (sendText_typed m p c ht)
    | sendBinary d p => exact ih _ (sendBinary_typed d p c ht)
    | sendPing => exact ih _ (shrinks_typed (shrinks_sendPing c) ht)
    | enableMessageQueue e n => exact ih _ (enableMessageQueue_typed e n c ht)
    | processMessageQueue => exact ih _ (shrinks_typed (shrinks_processMessageQueue c) ht)
    | clearMessageQueue => exact ih _ (shrinks_typed (shrinks_clearMessageQueue c) ht)
    | setHeartbeatInterval i => exact ih _ ht
    | enableHeartbeat e => exact ih _ (shrinks_typed (shrinks_enableHeartbeat e c) ht)
    | reconnectThreadStep => exact ih _ (shrinks_typed (shrinks_attemptReconnectStep c) ht)
    | heartbeatThreadStep => exact ih _ (shrinks_typed (shrinks_performHeartbeatStep c) ht)

/-- The queue of a freshly initialised Manager is typed. -/
theorem freshManager_typed (w : World) : QueueTyped (freshManager P w) := by
  intro m hm
  simp [freshManager, WebSocketManager.initializeManager, WebSocketManager.new,
    P.items_empty] at hm


/-! ## The Manager: the claims -/

/-- Claim C1 (priority drain).  A Manager with queueing enabled, an empty queue and a
Link that is not `CONNECTED` is handed the messages `msgs` (no more than the capacity):
every call returns true, all of them are queued and the transport receives nothing.
When the Link then becomes `CONNECTED`, by `connect` on a Link that is not `CONNECTING`
and has no reconnect thread, or by the attempt the reconnect thread is about to make,
and the transport accepts every send, the transport receives exactly the payloads of
`msgs` (`ds` is a permutation of the payloads with their priorities), in non-increasing
order of priority, and the queue is empty afterwards. -/
theorem priority_drain (msgs : List Outgoing) (url : String) (auto_reconnect : Bool) (c : MCtx P)
    (hinit : c.owner.datalink_ = true)
    (hen : c.owner.queue_enabled_ = true)
    (hnc : c.link.connection_state_ ≠ ConnectionState.CONNECTED)
    (hempty : P.items c.owner.message_queue_ = 0)
    (hcap : msgs.length ≤ c.owner.max_queue_size_)
    (hsend : ∀ n, c.world.sendResult n = true)
    (hconn : c.world.websocketConnectResult = true) :
    (sendAll msgs c).1 = List.replicate msgs.length true ∧
    WebSocketManager.getQueuedMessageCount (sendAll msgs c).2 = msgs.length ∧
    sentMessages (sendAll msgs c).2.world.trace = sentMessages c.world.trace ∧
    ∃ ds : List (String × MessagePriority),
      ds.Perm (msgs.map fun o => (o.payload, o.priority)) ∧
      (ds.map Prod.snd).Sorted (fun a b => b.toInt ≤ a.toInt) ∧
      (c.link.connection_state_ ≠ ConnectionState.CONNECTING → c.world.reconnectPc = none →
        (WebSocketManager.connect url auto_reconnect (sendAll msgs c).2).1 = true ∧
        (WebSocketManager.connect url auto_reconnect
          (sendAll msgs c).2).2.link.connection_state_ = ConnectionState.CONNECTED ∧
        sentMessages (WebSocketManager.connect url auto_reconnect
          (sendAll msgs c).2).2.world.trace = sentMessages c.world.trace ++ ds.map Prod.fst ∧
        WebSocketManager.getQueuedMessageCount
          (WebSocketManager.connect url auto_reconnect (sendAll msgs c).2).2 = 0) ∧
      (c.world.reconnectPc = some ReconnectPc.checked →
        (DataLink.attemptReconnectStep (WebSocketManager.linkCallbacks P)
          (sendAll msgs c).2).link.connection_state_ = ConnectionState.CONNECTED ∧
        sentMessages (DataLink.attemptReconnectStep (WebSocketManager.linkCallbacks P)
          (sendAll msgs c).2).world.trace = sentMessages c.world.trace ++ ds.map Prod.fst ∧
        WebSocketManager.getQueuedMessageCount
          (DataLink.attemptReconnectStep (WebSocketManager.linkCallbacks P)
            (sendAll msgs c).2) = 0) := by
  have hsz : P.size c.owner.message_queue_ = 0 := by simp [PriorityQueue.size, hempty]
  obtain ⟨q2, L, h2, h3, h4, h5⟩ := sendAll_queued msgs c hinit hen hnc (by omega)
  rw [hempty, add_zero] at h3
  have hty : ∀ m ∈ P.items q2, m.type = MessageType.TEXT ∨ m.type = MessageType.BINARY := by
    intro m hm
    rw [h3] at hm
    exact h5 m (by simpa using hm)
  have hlen : P.size q2 = msgs.length := by
    have := congrArg List.length h4
    simp only [List.length_map] at this
    simp [PriorityQueue.size, h3, this]
  have hperm : (P.drainOrder (P.size q2) q2).Perm L := by
    rw [← Multiset.coe_eq_coe, P.drainOrder_coe _ _ (le_refl _), h3]
  have htr : sentMessages (c.world.trace ++
      List.replicate msgs.length Event.getCurrentTimestamp) = sentMessages c.world.trace := by
    rw [sentMessages_append, sentMessages_replicate_clock, List.append_nil]
  rw [h2]
  refine ⟨rfl, hlen, htr, (P.drainOrder (P.size q2) q2).map (fun m => (wirePayload m, m.priority)),
    ?_, ?_, ?_, ?_⟩
  · rw [← h4]
    exact hperm.map _
  · rw [List.map_map]
    have := P.drainOrder_sorted (P.size q2) q2
    exact (List.pairwise_map.2 this)
  · intro hncg hpc
    obtain ⟨r1, r2, r3, r4⟩ := connect_drains url auto_reconnect
      ({ c with
        world := { c.world with
          clockCalls := c.world.clockCalls + msgs.length,
          trace := c.world.trace ++ List.replicate msgs.length Event.getCurrentTimestamp },
        owner := { c.owner with message_queue_ := q2 } } : MCtx P)
      hinit hen hnc hncg hpc hty hsend hconn
    refine ⟨r1, r4, ?_, ?_⟩
    · rw [r3, List.map_map]
      show sentMessages (c.world.trace ++ _) ++ _ = _
      rw [htr]
      rfl
    · simp [WebSocketManager.getQueuedMessageCount, PriorityQueue.size, r2]
  · intro hpc
    obtain ⟨r2, r3, r4⟩ := reconnect_drains
      ({ c with
        world := { c.world with
          clockCalls := c.world.clockCalls + msgs.length,
          trace := c.world.trace ++ List.replicate msgs.length Event.getCurrentTimestamp },
        owner := { c.owner with message_queue_ := q2 } } : MCtx P)
      hinit hen hnc hpc hty hsend hconn
    refine ⟨r4, ?_, ?_⟩
    · rw [r3, List.map_map]
      show sentMessages (c.world.trace ++ _) ++ _ = _
      rw [htr]
      rfl
    · simp [WebSocketManager.getQueuedMessageCount, PriorityQueue.size, r2]

/-- Witness for C1, the example of the specification: messages of priorities Low,
Urgent, Normal queued while disconnected reach the transport in the order Urgent,
Normal, Low. -/
theorem priority_drain_witness :
    (sendAll exampleMessages exampleManager).1 = [true, true, true] ∧
    sentMessages (WebSocketManager.connect "ws://host" true
      (sendAll exampleMessages exampleManager).2).2.world.trace = ["urgent", "normal", "low"] ∧
    WebSocketManager.getQueuedMessageCount (WebSocketManager.connect "ws://host" true
      (sendAll exampleMessages exampleManager).2).2 = 0 := by
  obtain ⟨h1, _, _, ds, _, _, hconnect, _⟩ :=
    priority_drain exampleMessages "ws://host" true exampleManager
      (by decide) (by decide) (by decide) (by decide) (by decide) (fun _ => rfl) rfl
  exact ⟨h1, by decide, (hconnect (by decide) (by decide)).2.2.2⟩

/-- Claim C2 (the drain stops at the first failure).  On a connected Manager whose
queue holds `n` text or binary messages, let the transport accept the next `k - 1`
sends and refuse the one after, `1 ≤ k ≤ n`.  Then `processMessageQueue` makes exactly
`k` calls of `websocketSend`, for the first `k` entries in drain order, and no further
one; the queue is the old queue after `k - 1` calls of `pop`: the `k - 1` delivered
entries are removed, and the drain order of the old queue is the delivered entries
followed by the drain order of the new queue, which starts with the refused entry and
is sorted by priority.  For `k = 1` the queue is unchanged. -/
theorem drain_stops_at_first_failure (c : MCtx P) (k : Nat)
    (hinit : c.owner.datalink_ = true)
    (hen : c.owner.queue_enabled_ = true)
    (hc : c.link.connection_state_ = ConnectionState.CONNECTED)
    (hty : QueueTyped c)
    (hk1 : 1 ≤ k) (hkn : k ≤ WebSocketManager.getQueuedMessageCount c)
    (hok : ∀ i, i < k - 1 → c.world.sendResult (c.world.sendCalls + i) = true)
    (hfail : c.world.sendResult (c.world.sendCalls + (k - 1)) = false) :
    ∃ d, d = WebSocketManager.processMessageQueue c ∧
      d.world.sendCalls = c.world.sendCalls + k ∧
      sentMessages d.world.trace = sentMessages c.world.trace ++
        (P.drainOrder k c.owner.message_queue_).map wirePayload ∧
      d.owner.message_queue_ = P.popN (k - 1) c.owner.message_queue_ ∧
      WebSocketManager.getQueuedMessageCount d + (k - 1) =
        WebSocketManager.getQueuedMessageCount c ∧
      P.items c.owner.message_queue_ =
        (P.drainOrder (k - 1) c.owner.message_queue_ : Multiset QueuedMessage) +
          P.items d.owner.message_queue_ ∧
      P.drainOrder (WebSocketManager.getQueuedMessageCount c) c.owner.message_queue_ =
        P.drainOrder (k - 1) c.owner.message_queue_ ++
          P.drainOrder (WebSocketManager.getQueuedMessageCount d) d.owner.message_queue_ ∧
      (P.drainOrder (WebSocketManager.getQueuedMessageCount c) c.owner.message_queue_).Sorted
        (fun a b => b.priority.toInt ≤ a.priority.toInt) ∧
      P.top d.owner.message_queue_ = (P.drainOrder k c.owner.message_queue_).getLast? ∧
      (k = 1 → d.owner.message_queue_ = c.owner.message_queue_) := by
  obtain ⟨j, rfl⟩ : ∃ j, k = j + 1 := ⟨k - 1, by omega⟩
  simp only [Nat.add_sub_cancel] at hok hfail ⊢
  unfold WebSocketManager.getQueuedMessageCount at hkn ⊢
  have hconn : WebSocketManager.isConnected c = true := by
    simp [WebSocketManager.isConnected, DataLink.isConnected, hinit, hc]
  have hproc : WebSocketManager.processMessageQueue c =
      WebSocketManager.drainLoop (P.size c.owner.message_queue_) c := by
    simp [WebSocketManager.processMessageQueue, hen, hconn]
  obtain ⟨h1, h2, h3, _⟩ := drainLoop_stops j (P.size c.owner.message_queue_) c hc hty
    (by omega) (le_refl _) hok hfail
  rw [← hproc] at h1 h2 h3
  have hsz := P.size_popN j c.owner.message_queue_ (by omega)
  have hsplit := P.drainOrder_add j (P.size (P.popN j c.owner.message_queue_))
    c.owner.message_queue_ (by omega)
  rw [show j + P.size (P.popN j c.owner.message_queue_) = P.size c.owner.message_queue_ by omega]
    at hsplit
  refine ⟨_, rfl, h3, h2, h1, ?_, ?_, ?_, P.drainOrder_sorted _ _, ?_, ?_⟩
  · rw [h1]; exact hsz
  · rw [h1, ← P.drainOrder_coe _ c.owner.message_queue_ (le_refl _), hsplit,
      ← P.drainOrder_coe _ (P.popN j c.owner.message_queue_) (le_refl _)]
    rfl
  · rw [h1]; exact hsplit
  · rw [h1, P.drainOrder_add j 1 c.owner.message_queue_ (by omega)]
    cases ht : P.top (P.popN j c.owner.message_queue_) with
    | none =>
      have := (P.size_eq_zero).2 ht
      omega
    | some m => simp [PriorityQueue.drainOrder, ht]
  · intro hj
    have : j = 0 := by omega
    subst this
    rw [h1]; rfl

/-- Witness for C2: three messages are queued, the transport accepts one send and
refuses the next (`k = 2`): two sends are made, two messages stay queued. -/
theorem drain_stops_at_first_failure_witness :
    ∃ d, d = WebSocketManager.processMessageQueue exampleFlapping ∧
      WebSocketManager.getQueuedMessageCount exampleFlapping = 3 ∧
      d.world.sendCalls = exampleFlapping.world.sendCalls + 2 ∧
      WebSocketManager.getQueuedMessageCount d + (2 - 1) =
        WebSocketManager.getQueuedMessageCount exampleFlapping ∧
      sentMessages d.world.trace = sentMessages exampleFlapping.world.trace ++
        ["urgent", "normal"] := by
  obtain ⟨d, hd, h1, h2, _, h4, _⟩ :=
    drain_stops_at_first_failure exampleFlapping 2 (by decide) (by decide) (by decide)
      (by unfold QueueTyped; decide) (by decide) (by decide)
      (fun i hi => by
        have h0 : i = 0 := by omega
        subst h0
        decide)
      (by decide)
  refine ⟨d, hd, by decide, h1, h4, ?_⟩
  rw [h2]
  decide

/-- Claim C3 (enqueue beyond capacity).  On an initialised Manager with queueing
enabled, a Link that is not `CONNECTED` and a queue that holds `max_queue_size_`
messages, `sendText` and `sendBinary` return false, leave the queue as it is (its size
stays at the capacity) and add 1 to the counter of failed sends (in `uint64_t`
arithmetic, so plainly 1 below the wrap-around); `sendText` invokes the registered
send-failure callback with the message and the reason "队列已满" and `sendBinary` adds
nothing to the trace. -/
theorem enqueue_beyond_capacity (message : String) (data : List Nat) (priority : MessagePriority)
    (c : MCtx P)
    (hinit : c.owner.datalink_ = true)
    (hnc : c.link.connection_state_ ≠ ConnectionState.CONNECTED)
    (hen : c.owner.queue_enabled_ = true)
    (hfull : WebSocketManager.getQueuedMessageCount c = c.owner.max_queue_size_) :
    (WebSocketManager.sendText message priority c).1 = false ∧
    (WebSocketManager.sendText message priority c).2.owner.message_queue_ =
      c.owner.message_queue_ ∧
    WebSocketManager.getQueuedMessageCount (WebSocketManager.sendText message priority c).2 =
      c.owner.max_queue_size_ ∧
    (WebSocketManager.sendText message priority c).2.owner.messages_sent_failed_ =
      (c.owner.messages_sent_failed_ + 1) % UINT64_MOD ∧
    (WebSocketManager.sendText message priority c).2.world.trace =
      (if c.owner.send_failure_callback_ = true then
        c.world.trace ++ [Event.sendFailureCallback message "队列已满"]
       else c.world.trace) ∧
    (WebSocketManager.sendBinary data priority c).1 = false ∧
    (WebSocketManager.sendBinary data priority c).2.owner.message_queue_ =
      c.owner.message_queue_ ∧
    WebSocketManager.getQueuedMessageCount (WebSocketManager.sendBinary data priority c).2 =
      c.owner.max_queue_size_ ∧
    (WebSocketManager.sendBinary data priority c).2.owner.messages_sent_failed_ =
      (c.owner.messages_sent_failed_ + 1) % UINT64_MOD ∧
    (WebSocketManager.sendBinary data priority c).2.world.trace = c.world.trace ∧
    (c.owner.messages_sent_failed_ + 1 < UINT64_MOD →
      (c.owner.messages_sent_failed_ + 1) % UINT64_MOD = c.owner.messages_sent_failed_ + 1) := by
  have hconn : WebSocketManager.isConnected c = false := by
    simp [WebSocketManager.isConnected, DataLink.isConnected, hnc]
  unfold WebSocketManager.getQueuedMessageCount at hfull ⊢
  have hnlt : ¬ (P.size c.owner.message_queue_ < c.owner.max_queue_size_) := by omega
  refine ⟨?_, ?_, ?_, ?_, ?_, ?_, ?_, ?_, ?_, ?_, fun h => Nat.mod_eq_of_lt h⟩
  all_goals
    by_cases hcb : c.owner.send_failure_callback_ = true <;>
    simp [WebSocketManager.sendText, WebSocketManager.sendBinary, hinit, hconn, hen, hnlt, hcb,
      World.emit, hfull]

/-- Witness for C3: the third message for a queue of capacity 2 is refused. -/
theorem enqueue_beyond_capacity_witness :
    WebSocketManager.getQueuedMessageCount exampleFull = 2 ∧
    (WebSocketManager.sendText "c" MessagePriority.URGENT exampleFull).1 = false ∧
    WebSocketManager.getQueuedMessageCount
      (WebSocketManager.sendText "c" MessagePriority.URGENT exampleFull).2 = 2 ∧
    (WebSocketManager.sendText "c" MessagePriority.URGENT
      exampleFull).2.owner.messages_sent_failed_ = 1 := by
  obtain ⟨h1, _, h3, h4, _⟩ :=
    enqueue_beyond_capacity "c" [99] MessagePriority.URGENT exampleFull
      (by decide) (by decide) (by decide) (by decide)
  exact ⟨by decide, h1, h3, h4⟩

/-- Claim C4 as amended (queue bound).  After every sequence of Manager operations on a
freshly initialised Manager in which no `enableMessageQueue(true, n)` is called while
more than `n` messages are queued, the number of queued messages is at most the
configured capacity. -/
theorem queue_bound (cr sr : Nat → Bool) (ts : Nat → Nat) (ops : List ManagerOp)
    (hcap : capacityRespected ops (freshManager P (World.start cr sr ts)) = true) :
    WebSocketManager.getQueuedMessageCount
        (runManagerOps ops (freshManager P (World.start cr sr ts))) ≤
      (runManagerOps ops (freshManager P (World.start cr sr ts))).owner.max_queue_size_ := by
  refine runManagerOps_bound ops _ ?_ hcap
  simp [freshManager, WebSocketManager.initializeManager, WebSocketManager.new,
    WebSocketManager.getQueuedMessageCount, PriorityQueue.size, P.items_empty]

/-- Witness for C4 as amended: three messages are queued under capacity 100 and the
capacity is then set to 5. -/
theorem queue_bound_witness :
    WebSocketManager.getQueuedMessageCount
        (runManagerOps
          [ManagerOp.enableMessageQueue true 100,
           ManagerOp.sendText "a" MessagePriority.NORMAL,
           ManagerOp.sendText "b" MessagePriority.NORMAL,
           ManagerOp.sendText "c" MessagePriority.NORMAL,
           ManagerOp.enableMessageQueue true 5]
          (freshManager listQueue (World.start (fun _ => true) (fun _ => true) (fun _ => 0)))) ≤
      (runManagerOps
          [ManagerOp.enableMessageQueue true 100,
           ManagerOp.sendText "a" MessagePriority.NORMAL,
           ManagerOp.sendText "b" MessagePriority.NORMAL,
           ManagerOp.sendText "c" MessagePriority.NORMAL,
           ManagerOp.enableMessageQueue true 5]
          (freshManager listQueue
            (World.start (fun _ => true) (fun _ => true) (fun _ => 0)))).owner.max_queue_size_ :=
  queue_bound (fun _ => true) (fun _ => true) (fun _ => 0) _ (by decide)

/-- Counterexample to C4 as stated: on a freshly initialised Manager, two messages are
queued under capacity 2 while the Link is disconnected, then `enableMessageQueue(true,
1)` sets the capacity to 1 and leaves both messages queued: 2 queued messages exceed
the configured capacity 1. -/
theorem queue_bound_counterexample :
    ¬ (WebSocketManager.getQueuedMessageCount
        (runManagerOps
          [ManagerOp.enableMessageQueue true 2,
           ManagerOp.sendText "a" MessagePriority.NORMAL,
           ManagerOp.sendText "b" MessagePriority.NORMAL,
           ManagerOp.enableMessageQueue true 1]
          (freshManager listQueue (World.start (fun _ => true) (fun _ => true) (fun _ => 0)))) ≤
      (runManagerOps
          [ManagerOp.enableMessageQueue true 2,
           ManagerOp.sendText "a" MessagePriority.NORMAL,
           ManagerOp.sendText "b" MessagePriority.NORMAL,
           ManagerOp.enableMessageQueue true 1]
          (freshManager listQueue
            (World.start (fun _ => true) (fun _ => true) (fun _ => 0)))).owner.max_queue_size_) := by
  decide

end ManagerTheorems

/-! ## The Manager: sending while disconnected and the send-outcome callbacks -/

section ManagerSendTheorems
variable {P : PriorityQueue}

/-- Claim C15 (accepted for delivery).  On an initialised Manager whose Link is not
`CONNECTED`, with queueing enabled and fewer than `max_queue_size_` messages queued,
`sendText` and `sendBinary` return true; the queue gains exactly one entry, which carries
the payload (for `sendBinary` the bytes as a string), the kind `TEXT` or `BINARY`, the
given priority and the value of the platform clock; the only platform call is the one
`getCurrentTimestamp` (nothing is handed to the transport); the counters of successful
and failed sends and the Link are unchanged. -/
theorem accepted_for_delivery (message : String) (data : List Nat) (priority : MessagePriority)
    (c : MCtx P)
    (hinit : c.owner.datalink_ = true)
    (hnc : c.link.connection_state_ ≠ ConnectionState.CONNECTED)
    (hen : c.owner.queue_enabled_ = true)
    (hroom : WebSocketManager.getQueuedMessageCount c < c.owner.max_queue_size_) :
    ((WebSocketManager.sendText message priority c).1 = true ∧
      P.items (WebSocketManager.sendText message priority c).2.owner.message_queue_ =
        { data := message, type := MessageType.TEXT, priority := priority,
          timestamp := c.world.currentTimestamp } ::ₘ P.items c.owner.message_queue_ ∧
      WebSocketManager.getQueuedMessageCount (WebSocketManager.sendText message priority c).2 =
        WebSocketManager.getQueuedMessageCount c + 1 ∧
      (WebSocketManager.sendText message priority c).2.world.trace =
        c.world.trace ++ [Event.getCurrentTimestamp] ∧
      (WebSocketManager.sendText message priority c).2.world.sendCalls = c.world.sendCalls ∧
      (WebSocketManager.sendText message priority c).2.owner.messages_sent_success_ =
        c.owner.messages_sent_success_ ∧
      (WebSocketManager.sendText message priority c).2.owner.messages_sent_failed_ =
        c.owner.messages_sent_failed_ ∧
      (WebSocketManager.sendText message priority c).2.link = c.link) ∧
    ((WebSocketManager.sendBinary data priority c).1 = true ∧
      P.items (WebSocketManager.sendBinary data priority c).2.owner.message_queue_ =
        { data := stringOfBytes data, type := MessageType.BINARY, priority := priority,
          timestamp := c.world.currentTimestamp } ::ₘ P.items c.owner.message_queue_ ∧
      WebSocketManager.getQueuedMessageCount (WebSocketManager.sendBinary data priority c).2 =
        WebSocketManager.getQueuedMessageCount c + 1 ∧
      (WebSocketManager.sendBinary data priority c).2.world.trace =
        c.world.trace ++ [Event.getCurrentTimestamp] ∧
      (WebSocketManager.sendBinary data priority c).2.world.sendCalls = c.world.sendCalls ∧
      (WebSocketManager.sendBinary data priority c).2.owner.messages_sent_success_ =
        c.owner.messages_sent_success_ ∧
      (WebSocketManager.sendBinary data priority c).2.owner.messages_sent_failed_ =
        c.owner.messages_sent_failed_ ∧
      (WebSocketManager.sendBinary data priority c).2.link = c.link) := by
  unfold WebSocketManager.getQueuedMessageCount at hroom ⊢
  have ht := send_queued (Outgoing.text message priority) c hinit hen hnc hroom
  have hb := send_queued (Outgoing.binary data priority) c hinit hen hnc hroom
  simp only [Outgoing.send, Outgoing.queued, QueuedMessage.new] at ht hb
  rw [ht, hb]
  refine ⟨⟨rfl, P.items_push _ _, ?_, rfl, rfl, rfl, rfl, rfl⟩,
    ⟨rfl, P.items_push _ _, ?_, rfl, rfl, rfl, rfl, rfl⟩⟩
  · simp only [PriorityQueue.size, P.items_push, Multiset.card_cons]
  · simp only [PriorityQueue.size, P.items_push, Multiset.card_cons]

/-- Witness for C15: on a disconnected Manager with an empty queue of capacity 100 and a
clock that shows 7, a text and a binary message are accepted; the entry on top of the
queue carries the payload, the kind, the priority and the time 7. -/
theorem accepted_for_delivery_witness :
    (WebSocketManager.sendText "hi" MessagePriority.HIGH exampleManager).1 = true ∧
    WebSocketManager.getQueuedMessageCount
      (WebSocketManager.sendText "hi" MessagePriority.HIGH exampleManager).2 = 1 ∧
    listQueue.top (WebSocketManager.sendText "hi" MessagePriority.HIGH
        exampleManager).2.owner.message_queue_ =
      some { data := "hi", type := MessageType.TEXT, priority := MessagePriority.HIGH,
             timestamp := 7 } ∧
    (WebSocketManager.sendBinary [72, 105] MessagePriority.LOW exampleManager).1 = true ∧
    listQueue.top (WebSocketManager.sendBinary [72, 105] MessagePriority.LOW
        exampleManager).2.owner.message_queue_ =
      some { data := "Hi", type := MessageType.BINARY, priority := MessagePriority.LOW,
             timestamp := 7 } := by
  obtain ⟨⟨h1, _, h3, _⟩, ⟨_, _⟩⟩ :=
    accepted_for_delivery "hi" [72, 105] MessagePriority.HIGH exampleManager
      (by decide) (by decide) (by decide) (by decide)
  obtain ⟨_, ⟨h5, _⟩⟩ :=
    accepted_for_delivery "hi" [72, 105] MessagePriority.LOW exampleManager
      (by decide) (by decide) (by decide) (by decide)
  exact ⟨h1, by rw [h3]; decide, by decide, h5, by decide⟩

/-- Claim C16 (send while disconnected, queueing disabled).  On an initialised Manager
whose Link is not `CONNECTED` and whose queue is disabled, `sendText` returns false for
every message; nothing is handed to the transport and nothing is enqueued; the counter
of failed sends grows by 1 (in `uint64_t` arithmetic, so plainly by 1 below the
wrap-around) and the counter of successful sends and the Link are unchanged; the
registered send-failure callback is invoked exactly once, with the message and the
reason "未连接", and that invocation is the only event added to the trace. -/
theorem send_while_disconnected_queue_disabled (message : String) (priority : MessagePriority)
    (c : MCtx P)
    (hinit : c.owner.datalink_ = true)
    (hnc : c.link.connection_state_ ≠ ConnectionState.CONNECTED)
    (hdis : c.owner.queue_enabled_ = false) :
    (WebSocketManager.sendText message priority c).1 = false ∧
    (WebSocketManager.sendText message priority c).2.world.trace =
      (if c.owner.send_failure_callback_ = true then
        c.world.trace ++ [Event.sendFailureCallback message "未连接"]
       else c.world.trace) ∧
    sentMessages (WebSocketManager.sendText message priority c).2.world.trace =
      sentMessages c.world.trace ∧
    (WebSocketManager.sendText message priority c).2.world.sendCalls = c.world.sendCalls ∧
    (WebSocketManager.sendText message priority c).2.owner.message_queue_ =
      c.owner.message_queue_ ∧
    (WebSocketManager.sendText message priority c).2.owner.messages_sent_failed_ =
      (c.owner.messages_sent_failed_ + 1) % UINT64_MOD ∧
    (WebSocketManager.sendText message priority c).2.owner.messages_sent_success_ =
      c.owner.messages_sent_success_ ∧
    (WebSocketManager.sendText message priority c).2.link = c.link ∧
    (c.owner.messages_sent_failed_ + 1 < UINT64_MOD →
      (c.owner.messages_sent_failed_ + 1) % UINT64_MOD = c.owner.messages_sent_failed_ + 1) := by
  have hconn : WebSocketManager.isConnected c = false := by
    simp [WebSocketManager.isConnected, DataLink.isConnected, hnc]
  refine ⟨?_, ?_, ?_, ?_, ?_, ?_, ?_, ?_, fun h => Nat.mod_eq_of_lt h⟩
  all_goals
    by_cases hcb : c.owner.send_failure_callback_ = true <;>
    simp [WebSocketManager.sendText, hinit, hconn, hdis, hcb, World.emit, sentMessages,
      List.filterMap_append]

/-- Witness for C16: a new Manager with the send-failure callback registered; the
callback is invoked once and the failure counter is 1. -/
theorem send_while_disconnected_queue_disabled_witness :
    (WebSocketManager.sendText "m" MessagePriority.NORMAL exampleObserved).1 = false ∧
    (WebSocketManager.sendText "m" MessagePriority.NORMAL exampleObserved).2.world.trace =
      [Event.sendFailureCallback "m" "未连接"] ∧
    (WebSocketManager.sendText "m" MessagePriority.NORMAL
      exampleObserved).2.owner.messages_sent_failed_ = 1 ∧
    WebSocketManager.getQueuedMessageCount
      (WebSocketManager.sendText "m" MessagePriority.NORMAL exampleObserved).2 = 0 := by
  obtain ⟨h1, h2, _, _, h5, h6, _⟩ :=
    send_while_disconnected_queue_disabled "m" MessagePriority.NORMAL exampleObserved
      (by decide) (by decide) (by decide)
  refine ⟨h1, ?_, ?_, ?_⟩
  · rw [h2]; decide
  · rw [h6]; decide
  · unfold WebSocketManager.getQueuedMessageCount; rw [h5]; decide

/-- The send-outcome callbacks in a concatenated trace. -/
theorem sendOutcomeCallbacks_append (a b : List Event) :
    sendOutcomeCallbacks (a ++ b) = sendOutcomeCallbacks a ++ sendOutcomeCallbacks b := by
  simp [sendOutcomeCallbacks]

/-- Claim C17 as amended (`sendBinary` invokes no send-outcome callback).  No call of
`sendBinary` invokes the send-success or the send-failure callback, whatever it returns.
On an initialised Manager its outcome shows in the returned value and in the counters:
the counter of failed sends grows by 1 when it returns false, the counter of successful
sends grows by 1 when it delivers directly and returns true.  `sendText` does report
through the callbacks: with both callbacks registered, every call on an initialised
Manager that is not enqueued invokes exactly one of them, the send-success callback when
it returns true and the send-failure callback with one of the three reasons of the
source when it returns false. -/
theorem sendBinary_invokes_no_callback (data : List Nat) (message : String)
    (priority : MessagePriority) (c : MCtx P) :
    sendOutcomeCallbacks (WebSocketManager.sendBinary data priority c).2.world.trace =
      sendOutcomeCallbacks c.world.trace ∧
    (c.owner.datalink_ = true → (WebSocketManager.sendBinary data priority c).1 = false →
      (WebSocketManager.sendBinary data priority c).2.owner.messages_sent_failed_ =
        (c.owner.messages_sent_failed_ + 1) % UINT64_MOD ∧
      (WebSocketManager.sendBinary data priority c).2.owner.messages_sent_success_ =
        c.owner.messages_sent_success_) ∧
    (c.owner.datalink_ = true → c.link.connection_state_ = ConnectionState.CONNECTED →
      (WebSocketManager.sendBinary data priority c).1 = true →
      (WebSocketManager.sendBinary data priority c).2.owner.messages_sent_success_ =
        (c.owner.messages_sent_success_ + 1) % UINT64_MOD ∧
      (WebSocketManager.sendBinary data priority c).2.owner.messages_sent_failed_ =
        c.owner.messages_sent_failed_) ∧
    (c.owner.datalink_ = true → c.owner.send_success_callback_ = true →
      c.owner.send_failure_callback_ = true →
      ¬ (c.link.connection_state_ ≠ ConnectionState.CONNECTED ∧ c.owner.queue_enabled_ = true ∧
          WebSocketManager.getQueuedMessageCount c < c.owner.max_queue_size_) →
      ∃ reason, (reason = "未连接" ∨ reason = "队列已满" ∨ reason = "发送失败") ∧
        sendOutcomeCallbacks (WebSocketManager.sendText message priority c).2.world.trace =
          sendOutcomeCallbacks c.world.trace ++
            [if (WebSocketManager.sendText message priority c).1 = true then
               Event.sendSuccessCallback message
             else Event.sendFailureCallback message reason]) := by
  refine ⟨?_, ?_, ?_, ?_⟩
  · unfold WebSocketManager.sendBinary DataLink.sendBinary
    dsimp only
    split_ifs <;>
      simp [sendOutcomeCallbacks, World.websocketSend, World.getCurrentTimestamp,
        List.filter_append]
  · intro hinit
    unfold WebSocketManager.sendBinary DataLink.sendBinary
    dsimp only
    split_ifs <;> simp_all
  · intro hinit hc
    have hconn : WebSocketManager.isConnected c = true := by
      simp [WebSocketManager.isConnected, DataLink.isConnected, hc, hinit]
    have hl : DataLink.isConnected c = true := by simp [DataLink.isConnected, hc]
    unfold WebSocketManager.sendBinary DataLink.sendBinary
    dsimp only
    split_ifs <;> simp_all
  · intro hinit hs hf hne
    unfold WebSocketManager.getQueuedMessageCount at hne
    by_cases hc : c.link.connection_state_ = ConnectionState.CONNECTED
    · have hconn : WebSocketManager.isConnected c = true := by
        simp [WebSocketManager.isConnected, DataLink.isConnected, hc, hinit]
      have hl : DataLink.isConnected c = true := by simp [DataLink.isConnected, hc]
      refine ⟨"发送失败", Or.inr (Or.inr rfl), ?_⟩
      by_cases hr : c.world.websocketSendResult = true <;>
        simp [WebSocketManager.sendText, DataLink.sendText, hinit, hconn, hl, hs, hf, hr,
          sendOutcomeCallbacks, World.websocketSend, World.emit, List.filter_append]
    · have hconn : WebSocketManager.isConnected c = false := by
        simp [WebSocketManager.isConnected, DataLink.isConnected, hc]
      by_cases hen : c.owner.queue_enabled_ = true
      · have hroom : ¬ (P.size c.owner.message_queue_ < c.owner.max_queue_size_) :=
          fun h => hne ⟨hc, hen, h⟩
        refine ⟨"队列已满", Or.inr (Or.inl rfl), ?_⟩
        simp [WebSocketManager.sendText, hinit, hconn, hs, hf, hen, hroom,
          sendOutcomeCallbacks, World.emit, List.filter_append]
      · refine ⟨"未连接", Or.inl rfl, ?_⟩
        simp [WebSocketManager.sendText, hinit, hconn, hs, hf, hen,
          sendOutcomeCallbacks, World.emit, List.filter_append]

/-- Witness for C17 as amended: a binary message delivered directly on a connected
Manager with both callbacks registered; no callback is invoked and the counter of
successful sends is 1. -/
theorem sendBinary_invokes_no_callback_witness :
    sendOutcomeCallbacks
      (WebSocketManager.sendBinary [72, 105] MessagePriority.NORMAL
        exampleObservedConnected).2.world.trace = [] ∧
    (WebSocketManager.sendBinary [72, 105] MessagePriority.NORMAL
        exampleObservedConnected).2.owner.messages_sent_success_ = 1 := by
  obtain ⟨h1, _, h3, _⟩ :=
    sendBinary_invokes_no_callback [72, 105] "Hi" MessagePriority.NORMAL exampleObservedConnected
  exact ⟨by rw [h1]; decide, by rw [(h3 (by decide) (by decide) (by decide)).1]; decide⟩

/-- Counterexample to C17 as stated: with both send-outcome callbacks registered, a
`sendBinary` that is delivered directly returns true and one that is refused for want of
a connection (queueing disabled) returns false, and neither invokes a callback; the
same calls of `sendText` invoke the send-success and the send-failure callback. -/
theorem sendBinary_reports_like_sendText_counterexample :
    exampleObservedConnected.owner.send_success_callback_ = true ∧
    exampleObservedConnected.owner.send_failure_callback_ = true ∧
    (WebSocketManager.sendBinary [72, 105] MessagePriority.NORMAL exampleObservedConnected).1 = true ∧
    (WebSocketManager.sendBinary [72, 105] MessagePriority.NORMAL
      exampleObservedConnected).2.world.trace =
        exampleObservedConnected.world.trace ++ [Event.websocketSend "Hi"] ∧
    sendOutcomeCallbacks (WebSocketManager.sendBinary [72, 105] MessagePriority.NORMAL
      exampleObservedConnected).2.world.trace = [] ∧
    (WebSocketManager.sendBinary [72, 105] MessagePriority.NORMAL exampleObserved).1 = false ∧
    WebSocketManager.getQueuedMessageCount
      (WebSocketManager.sendBinary [72, 105] MessagePriority.NORMAL exampleObserved).2 = 0 ∧
    sendOutcomeCallbacks (WebSocketManager.sendBinary [72, 105] MessagePriority.NORMAL
      exampleObserved).2.world.trace = [] ∧
    sendOutcomeCallbacks (WebSocketManager.sendText "Hi" MessagePriority.NORMAL
      exampleObservedConnected).2.world.trace = [Event.sendSuccessCallback "Hi"] ∧
    sendOutcomeCallbacks (WebSocketManager.sendText "Hi" MessagePriority.NORMAL
      exampleObserved).2.world.trace = [Event.sendFailureCallback "Hi" "未连接"] := by
  decide

/-- Claim C18 (disabling the queue clears it).  For every queue content and every
`maxSize`, after `enableMessageQueue(false, maxSize)` no message is queued;
`enableMessageQueue(true, maxSize)` leaves the queue as it is. -/
theorem disabling_queue_clears_it (max_queue_size : Nat) (c : MCtx P) :
    WebSocketManager.getQueuedMessageCount
      (WebSocketManager.enableMessageQueue false max_queue_size c) = 0 ∧
    P.items (WebSocketManager.enableMessageQueue false max_queue_size c).owner.message_queue_ = 0 ∧
    (WebSocketManager.enableMessageQueue true max_queue_size c).owner.message_queue_ =
      c.owner.message_queue_ ∧
    WebSocketManager.getQueuedMessageCount
      (WebSocketManager.enableMessageQueue true max_queue_size c) =
      WebSocketManager.getQueuedMessageCount c := by
  have h : WebSocketManager.getQueuedMessageCount
      (WebSocketManager.enableMessageQueue false max_queue_size c) = 0 := by
    unfold WebSocketManager.enableMessageQueue
    dsimp only
    rw [if_neg (by decide)]
    exact clearMessageQueue_size _
  refine ⟨h, ?_, rfl, rfl⟩
  unfold WebSocketManager.getQueuedMessageCount PriorityQueue.size at h
  exact Multiset.card_eq_zero.1 h

/-- Witness for C18: a Manager with 2 queued messages has none after
`enableMessageQueue(false, 5)` and still 2 after `enableMessageQueue(true, 5)`. -/
theorem disabling_queue_clears_it_witness :
    WebSocketManager.getQueuedMessageCount exampleFull = 2 ∧
    WebSocketManager.getQueuedMessageCount
      (WebSocketManager.enableMessageQueue false 5 exampleFull) = 0 ∧
    WebSocketManager.getQueuedMessageCount
      (WebSocketManager.enableMessageQueue true 5 exampleFull) = 2 :=
  ⟨by decide, (disabling_queue_clears_it 5 exampleFull).1,
   by rw [(disabling_queue_clears_it 5 exampleFull).2.2.2]; decide⟩

end ManagerSendTheorems

/-! ## The heartbeat -/

section HeartbeatLemmas
variable {P : PriorityQueue}

/-- The relation `HeartbeatKept` is reflexive. -/
theorem heartbeatKept_refl (c : MCtx P) : HeartbeatKept c c :=
  ⟨rfl, rfl, rfl, rfl⟩

/-- The relation `HeartbeatKept` is transitive. -/
theorem heartbeatKept_trans {a b c : MCtx P} (h1 : HeartbeatKept a b) (h2 : HeartbeatKept b c) :
    HeartbeatKept a c :=
  ⟨h2.1.trans h1.1, h2.2.1.trans h1.2.1, h2.2.2.1.trans h1.2.2.1, h2.2.2.2.trans h1.2.2.2⟩

/-- A context with the same owner and the same heartbeat thread. -/
theorem heartbeatKept_of_owner {c c2 : MCtx P} (h : c2.owner = c.owner)
    (hp : c2.world.heartbeatPc = c.world.heartbeatPc) : HeartbeatKept c c2 := by
  unfold HeartbeatKept
  rw [h, hp]
  exact ⟨rfl, rfl, rfl, rfl⟩

/-- The method `DataLink::sendText` does not touch the heartbeat thread. -/
theorem sendText_heartbeatPc (message : String) (c : MCtx P) :
    (DataLink.sendText message c).2.world.heartbeatPc = c.world.heartbeatPc := by
  unfold DataLink.sendText
  split_ifs <;> rfl

/-- The method `DataLink::sendBinary` does not touch the heartbeat thread. -/
theorem sendBinary_heartbeatPc (data : List Nat) (c : MCtx P) :
    (DataLink.sendBinary data c).2.world.heartbeatPc = c.world.heartbeatPc := by
  unfold DataLink.sendBinary
  split_ifs <;> rfl

/-- The method `DataLink::sendPing` does not touch the heartbeat thread. -/
theorem sendPing_heartbeatPc (c : MCtx P) :
    (DataLink.sendPing c).2.world.heartbeatPc = c.world.heartbeatPc := by
  unfold DataLink.sendPing
  split_ifs <;> rfl

/-- The drain loop leaves the heartbeat as it is. -/
theorem heartbeatKept_drainLoop (fuel : Nat) (c : MCtx P) :
    HeartbeatKept c (WebSocketManager.drainLoop fuel c) := by
  induction fuel generalizing c with
  | zero => exact heartbeatKept_refl c
  | succ n ih =>
    simp only [WebSocketManager.drainLoop]
    cases ht : P.top c.owner.message_queue_ with
    | none => exact heartbeatKept_refl c
    | some m =>
      simp only
      obtain ⟨r, hreq, ho, hp⟩ : ∃ r : Bool × MCtx P,
          (if m.type = MessageType.TEXT then DataLink.sendText m.data c
            else if m.type = MessageType.BINARY then
              DataLink.sendBinary (bytesOfString m.data) c
            else (false, c)) = r ∧ r.2.owner = c.owner ∧
            r.2.world.heartbeatPc = c.world.heartbeatPc := by
        refine ⟨_, rfl, ?_, ?_⟩
        · split_ifs
          · exact sendText_owner _ _
          · exact sendBinary_owner _ _
          · rfl
        · split_ifs
          · exact sendText_heartbeatPc _ _
          · exact sendBinary_heartbeatPc _ _
          · rfl
      rw [hreq]
      have hk : HeartbeatKept c r.2 := heartbeatKept_of_owner ho hp
      split_ifs
      · exact heartbeatKept_trans (heartbeatKept_trans hk ⟨rfl, rfl, rfl, rfl⟩) (ih _)
      · exact heartbeatKept_trans hk ⟨rfl, rfl, rfl, rfl⟩

/-- The method `processMessageQueue` leaves the heartbeat as it is. -/
theorem heartbeatKept_processMessageQueue (c : MCtx P) :
    HeartbeatKept c (WebSocketManager.processMessageQueue c) := by
  unfold WebSocketManager.processMessageQueue
  split_ifs
  · exact heartbeatKept_refl c
  · exact heartbeatKept_drainLoop _ c

/-- The state callback of the Manager leaves the heartbeat as it is. -/
theorem heartbeatKept_onConnectionStateChanged (state : ConnectionState) (c : MCtx P) :
    HeartbeatKept c (WebSocketManager.onConnectionStateChanged state c) := by
  unfold WebSocketManager.onConnectionStateChanged
  dsimp only
  by_cases hs : state = ConnectionState.CONNECTED
  · rw [if_pos hs]
    split_ifs
    · exact (heartbeatKept_processMessageQueue c)
    · exact heartbeatKept_processMessageQueue c
  · rw [if_neg hs]
    split_ifs
    · exact (heartbeatKept_refl c)
    · exact heartbeatKept_refl c

/-- Inside a Manager, `updateConnectionState` leaves the heartbeat as it is. -/
theorem heartbeatKept_updateConnectionState (new_state : ConnectionState) (c : MCtx P) :
    HeartbeatKept c
      (DataLink.updateConnectionState (WebSocketManager.linkCallbacks P) new_state c) := by
  unfold DataLink.updateConnectionState
  split_ifs
  · exact (heartbeatKept_onConnectionStateChanged _ _)
  · exact heartbeatKept_refl c

/-- Inside a Manager, `handleConnectionSuccess` leaves the heartbeat as it is. -/
theorem heartbeatKept_handleConnectionSuccess (c : MCtx P) :
    HeartbeatKept c (DataLink.handleConnectionSuccess (WebSocketManager.linkCallbacks P) c) := by
  unfold DataLink.handleConnectionSuccess
  exact (heartbeatKept_updateConnectionState _ _)

/-- Inside a Manager, a step of the reconnect thread leaves the heartbeat as it is. -/
theorem heartbeatKept_attemptReconnectStep (c : MCtx P) :
    HeartbeatKept c (DataLink.attemptReconnectStep (WebSocketManager.linkCallbacks P) c) := by
  unfold DataLink.attemptReconnectStep
  dsimp only
  split
  · exact heartbeatKept_refl c
  · split_ifs <;> exact (heartbeatKept_refl c)
  · split_ifs <;> exact (heartbeatKept_refl c)
  · split_ifs
    · exact ((heartbeatKept_handleConnectionSuccess _))
    · exact ((heartbeatKept_updateConnectionState _ _))
    · exact (heartbeatKept_refl c)

/-- Inside a Manager, the reconnect thread leaves the heartbeat as it is. -/
theorem heartbeatKept_attemptReconnect (n : Nat) (c : MCtx P) :
    HeartbeatKept c (DataLink.attemptReconnect (WebSocketManager.linkCallbacks P) n c) := by
  induction n generalizing c with
  | zero => exact heartbeatKept_refl c
  | succ n ih => exact heartbeatKept_trans (heartbeatKept_attemptReconnectStep c) (ih _)

/-- Inside a Manager, `stopReconnectTimer` leaves the heartbeat as it is. -/
theorem heartbeatKept_stopReconnectTimer (c : MCtx P) :
    HeartbeatKept c (DataLink.stopReconnectTimer (WebSocketManager.linkCallbacks P) c) := by
  unfold DataLink.stopReconnectTimer
  dsimp only
  split_ifs
  · exact ((heartbeatKept_attemptReconnect 2 _))
  · exact (heartbeatKept_refl c)

/-- Inside a Manager, `startReconnectTimer` leaves the heartbeat as it is. -/
theorem heartbeatKept_startReconnectTimer (c : MCtx P) :
    HeartbeatKept c (DataLink.startReconnectTimer (WebSocketManager.linkCallbacks P) c) := by
  unfold DataLink.startReconnectTimer
  dsimp only
  split_ifs
  · exact heartbeatKept_refl c
  · exact ((heartbeatKept_updateConnectionState _ _))

/-- The error callback of the Manager leaves the heartbeat as it is. -/
theorem heartbeatKept_onError (error : String) (c : MCtx P) :
    HeartbeatKept c (WebSocketManager.onError error c) := by
  unfold WebSocketManager.onError
  split_ifs
  · exact (heartbeatKept_refl c)
  · exact heartbeatKept_refl c

/-- Inside a Manager, `handleConnectionError` leaves the heartbeat as it is. -/
theorem heartbeatKept_handleConnectionError (error : String) (c : MCtx P) :
    HeartbeatKept c
      (DataLink.handleConnectionError (WebSocketManager.linkCallbacks P) error c) := by
  unfold DataLink.handleConnectionError
  dsimp only [WebSocketManager.linkCallbacks]
  have h2 := heartbeatKept_trans (heartbeatKept_updateConnectionState ConnectionState.ERROR c)
    (heartbeatKept_onError error _)
  split_ifs
  · exact heartbeatKept_trans h2 (heartbeatKept_startReconnectTimer _)
  · exact h2

/-- Inside a Manager, `DataLink::connect` leaves the heartbeat as it is. -/
theorem heartbeatKept_linkConnect (url : String) (c : MCtx P) :
    HeartbeatKept c (DataLink.connect (WebSocketManager.linkCallbacks P) url c).2 := by
  unfold DataLink.connect
  dsimp only
  have h1 : HeartbeatKept c (DataLink.updateConnectionState (WebSocketManager.linkCallbacks P)
      ConnectionState.CONNECTING ({ c with link := { c.link with server_url_ := url } })) :=
    (heartbeatKept_updateConnectionState _ _)
  split_ifs
  · exact heartbeatKept_refl c
  · exact heartbeatKept_refl c
  · exact heartbeatKept_trans h1 ((heartbeatKept_handleConnectionSuccess _))
  · exact heartbeatKept_trans h1 ((heartbeatKept_handleConnectionError _ _))

/-- Inside a Manager, `DataLink::disconnect` leaves the heartbeat as it is. -/
theorem heartbeatKept_linkDisconnect (c : MCtx P) :
    HeartbeatKept c (DataLink.disconnect (WebSocketManager.linkCallbacks P) c) := by
  unfold DataLink.disconnect
  dsimp only
  split_ifs
  · exact heartbeatKept_refl c
  · exact heartbeatKept_trans (heartbeatKept_stopReconnectTimer c)
      ((heartbeatKept_updateConnectionState _ _))

/-- Inside a Manager, `setAutoReconnect` leaves the heartbeat as it is. -/
theorem heartbeatKept_setAutoReconnect (enabled : Bool) (m i : Int) (c : MCtx P) :
    HeartbeatKept c
      (DataLink.setAutoReconnect (WebSocketManager.linkCallbacks P) enabled m i c) := by
  unfold DataLink.setAutoReconnect
  dsimp only
  split_ifs
  · exact (heartbeatKept_refl c)
  · exact (heartbeatKept_stopReconnectTimer _)

/-- The method `WebSocketManager::sendPing` leaves the heartbeat as it is. -/
theorem heartbeatKept_sendPing (c : MCtx P) :
    HeartbeatKept c (WebSocketManager.sendPing c).2 := by
  unfold WebSocketManager.sendPing
  split_ifs
  · exact heartbeatKept_refl c
  · exact heartbeatKept_of_owner (sendPing_owner c) (sendPing_heartbeatPc c)

/-- The method `WebSocketManager::connect` leaves the heartbeat as it is. -/
theorem heartbeatKept_connect (url : String) (auto_reconnect : Bool) (c : MCtx P) :
    HeartbeatKept c (WebSocketManager.connect url auto_reconnect c).2 := by
  unfold WebSocketManager.connect
  split_ifs
  · exact heartbeatKept_refl c
  · exact heartbeatKept_trans (heartbeatKept_setAutoReconnect _ _ _ c)
      (heartbeatKept_linkConnect url _)

/-- The method `WebSocketManager::sendText` leaves the heartbeat as it is. -/
theorem heartbeatKept_sendText (message : String) (priority : MessagePriority) (c : MCtx P) :
    HeartbeatKept c (WebSocketManager.sendText message priority c).2 := by
  have h := heartbeatKept_of_owner (sendText_owner message c) (sendText_heartbeatPc message c)
  unfold WebSocketManager.sendText
  dsimp only
  split_ifs
  all_goals first
    | exact heartbeatKept_refl c
    | exact h

/-- The method `WebSocketManager::sendBinary` leaves the heartbeat as it is. -/
theorem heartbeatKept_sendBinary (data : List Nat) (priority : MessagePriority) (c : MCtx P) :
    HeartbeatKept c (WebSocketManager.sendBinary data priority c).2 := by
  have h := heartbeatKept_of_owner (sendBinary_owner data c) (sendBinary_heartbeatPc data c)
  unfold WebSocketManager.sendBinary
  dsimp only
  split_ifs
  all_goals first
    | exact heartbeatKept_refl c
    | exact h

/-- The method `enableMessageQueue` leaves the heartbeat as it is. -/
theorem heartbeatKept_enableMessageQueue (enabled : Bool) (n : Nat) (c : MCtx P) :
    HeartbeatKept c (WebSocketManager.enableMessageQueue enabled n c) := by
  unfold WebSocketManager.enableMessageQueue WebSocketManager.clearMessageQueue
  dsimp only
  split_ifs <;> exact heartbeatKept_refl c

/-- The method `WebSocketManager::sendPing` changes neither the Link nor the Manager. -/
theorem manager_sendPing_frame (c : MCtx P) :
    (WebSocketManager.sendPing c).2.link = c.link ∧
    (WebSocketManager.sendPing c).2.owner = c.owner ∧
    (WebSocketManager.sendPing c).2.world.heartbeatPc = c.world.heartbeatPc := by
  unfold WebSocketManager.sendPing DataLink.sendPing
  split_ifs <;> exact ⟨rfl, rfl, rfl⟩

/-- The trace after `WebSocketManager::sendPing` on a connected Manager. -/
theorem manager_sendPing_trace (c : MCtx P) (h : WebSocketManager.isConnected c = true) :
    (WebSocketManager.sendPing c).2.world.trace = c.world.trace ++ [Event.websocketSend "PING"] := by
  have h1 : c.owner.datalink_ = true := by
    simp [WebSocketManager.isConnected] at h; exact h.1
  have h2 : DataLink.isConnected c = true := by
    simp [WebSocketManager.isConnected] at h; exact h.2
  simp [WebSocketManager.sendPing, DataLink.sendPing, h1, h2, World.websocketSend]

/-- A step of the heartbeat thread changes neither the Link nor the Manager. -/
theorem performHeartbeatStep_frame (c : MCtx P) :
    (WebSocketManager.performHeartbeatStep c).link = c.link ∧
    (WebSocketManager.performHeartbeatStep c).owner = c.owner := by
  unfold WebSocketManager.performHeartbeatStep
  dsimp only
  split
  · exact ⟨rfl, rfl⟩
  · split_ifs <;> exact ⟨rfl, rfl⟩
  · split_ifs <;> exact ⟨rfl, rfl⟩
  · split_ifs
    · exact ⟨(manager_sendPing_frame c).1, (manager_sendPing_frame c).2.1⟩
    · exact ⟨rfl, rfl⟩

/-- The heartbeat thread changes neither the Link nor the Manager. -/
theorem performHeartbeat_frame (n : Nat) (c : MCtx P) :
    (WebSocketManager.performHeartbeat n c).link = c.link ∧
    (WebSocketManager.performHeartbeat n c).owner = c.owner := by
  induction n generalizing c with
  | zero => exact ⟨rfl, rfl⟩
  | succ n ih =>
    simp only [WebSocketManager.performHeartbeat]
    have h := performHeartbeatStep_frame c
    have h2 := ih (WebSocketManager.performHeartbeatStep c)
    exact ⟨h2.1.trans h.1, h2.2.trans h.2⟩

/-- Connectedness of the Manager depends on the Link and the Manager fields only. -/
theorem isConnected_congr {c c2 : MCtx P} (hl : c2.link = c.link) (ho : c2.owner = c.owner) :
    WebSocketManager.isConnected c2 = WebSocketManager.isConnected c := by
  unfold WebSocketManager.isConnected DataLink.isConnected
  rw [hl, ho]

/-- A step of the heartbeat thread on a Manager that is not connected hands nothing to
the transport. -/
theorem performHeartbeatStep_quiet (c : MCtx P) (h : WebSocketManager.isConnected c = false) :
    sentMessages (WebSocketManager.performHeartbeatStep c).world.trace =
      sentMessages c.world.trace := by
  unfold WebSocketManager.performHeartbeatStep
  dsimp only
  split
  · rfl
  · split_ifs
    · rfl
    · simp [World.sleep, World.emit, sentMessages, List.filterMap_append]
  · split_ifs <;> rfl
  · rw [h]
    rfl

/-- The heartbeat thread on a Manager that is not connected hands nothing to the
transport. -/
theorem performHeartbeat_quiet (n : Nat) (c : MCtx P)
    (h : WebSocketManager.isConnected c = false) :
    sentMessages (WebSocketManager.performHeartbeat n c).world.trace =
      sentMessages c.world.trace := by
  induction n generalizing c with
  | zero => rfl
  | succ n ih =>
    simp only [WebSocketManager.performHeartbeat]
    have hf := performHeartbeatStep_frame c
    rw [ih _ (by rw [isConnected_congr hf.1 hf.2]; exact h), performHeartbeatStep_quiet c h]

/-- The number of payloads a step of the heartbeat thread hands to the transport: one
at the tick of a connected Manager, none otherwise. -/
theorem performHeartbeatStep_sends (c : MCtx P) :
    (sentMessages (WebSocketManager.performHeartbeatStep c).world.trace).length -
        (sentMessages c.world.trace).length =
      (if c.world.heartbeatPc = some HeartbeatPc.tick ∧ WebSocketManager.isConnected c = true
        then 1 else 0) := by
  by_cases hpc : c.world.heartbeatPc = some HeartbeatPc.tick
  · by_cases hc : WebSocketManager.isConnected c = true
    · rw [if_pos ⟨hpc, hc⟩]
      have : (WebSocketManager.performHeartbeatStep c).world.trace =
          c.world.trace ++ [Event.websocketSend "PING"] := by
        unfold WebSocketManager.performHeartbeatStep
        rw [hpc]
        dsimp only
        rw [if_pos hc]
        exact manager_sendPing_trace c hc
      rw [this, sentMessages_append]
      simp [sentMessages]
    · rw [if_neg (fun h => hc h.2)]
      rw [performHeartbeatStep_quiet c (by simpa using hc)]
      simp
  · rw [if_neg (fun h => hpc h.1)]
    have : sentMessages (WebSocketManager.performHeartbeatStep c).world.trace =
        sentMessages c.world.trace := by
      unfold WebSocketManager.performHeartbeatStep
      dsimp only
      split
      · rfl
      · split_ifs
        · rfl
        · simp [World.sleep, World.emit, sentMessages, List.filterMap_append]
      · split_ifs <;> rfl
      · rename_i heq
        exact absurd heq hpc
    rw [this]
    simp

/-- In every run of operations, the heartbeat thread hands one payload to the transport
per tick at which the Manager is connected. -/
theorem heartbeatSends_eq_connectedTicks (ops : List ManagerOp) (c : MCtx P) :
    heartbeatSends ops c = connectedTicks ops c := by
  induction ops generalizing c with
  | nil => rfl
  | cons op ops ih =>
    cases op
    case heartbeatThreadStep =>
      simp only [heartbeatSends, connectedTicks]
      rw [ih, performHeartbeatStep_sends]
    all_goals
      simp only [heartbeatSends, connectedTicks]
      exact ih _

/-- Claim C19 (the heartbeat pings only when connected).  A step of the heartbeat
thread changes no field of the Link (so no connection state) and no field of the Manager.
The step at the tick, where the loop tests `isConnected()`, adds exactly one
`websocketSend` with the payload "PING" to the trace when the Manager is connected and
nothing when it is not; the other steps hand nothing to the transport.  Hence one
iteration of the running loop (three steps from the loop head) adds to the trace the wait
of one interval, followed by one ping when connected and by nothing otherwise; and when
the Manager is not connected, any number of steps of the heartbeat thread hands nothing to
the transport and leaves the Link as it is.  Wherever the steps of the heartbeat thread
fall among other operations of the Manager, the payloads they hand to the transport are
as many as the ticks at which the Manager is connected.  No step invokes a callback, so
no error is reported. -/
theorem heartbeat_pings_only_when_connected (c : MCtx P) :
    (WebSocketManager.performHeartbeatStep c).link = c.link ∧
    (WebSocketManager.performHeartbeatStep c).owner = c.owner ∧
    (c.world.heartbeatPc = some HeartbeatPc.tick → WebSocketManager.isConnected c = true →
      (WebSocketManager.performHeartbeatStep c).world.trace =
        c.world.trace ++ [Event.websocketSend "PING"]) ∧
    (c.world.heartbeatPc = some HeartbeatPc.tick → WebSocketManager.isConnected c = false →
      (WebSocketManager.performHeartbeatStep c).world.trace = c.world.trace) ∧
    (c.world.heartbeatPc ≠ some HeartbeatPc.tick →
      sentMessages (WebSocketManager.performHeartbeatStep c).world.trace =
        sentMessages c.world.trace) ∧
    (c.world.heartbeatPc = some HeartbeatPc.loopHead →
      c.owner.heartbeat_thread_running_ = true →
      (WebSocketManager.performHeartbeat 3 c).world.trace =
        c.world.trace ++ Event.sleep c.owner.heartbeat_interval_ms_ ::
          (if WebSocketManager.isConnected c = true then [Event.websocketSend "PING"] else []) ∧
      (WebSocketManager.performHeartbeat 3 c).world.heartbeatPc = some HeartbeatPc.loopHead ∧
      (WebSocketManager.performHeartbeat 3 c).link = c.link ∧
      (WebSocketManager.performHeartbeat 3 c).owner = c.owner) ∧
    (WebSocketManager.isConnected c = false →
      ∀ n, sentMessages (WebSocketManager.performHeartbeat n c).world.trace =
          sentMessages c.world.trace ∧
        (WebSocketManager.performHeartbeat n c).link = c.link) ∧
    (∀ ops : List ManagerOp, heartbeatSends ops c = connectedTicks ops c) := by
  refine ⟨(performHeartbeatStep_frame c).1, (performHeartbeatStep_frame c).2, ?_, ?_, ?_, ?_,
    fun h n => ⟨performHeartbeat_quiet n c h, (performHeartbeat_frame n c).1⟩,
    fun ops => heartbeatSends_eq_connectedTicks ops c⟩
  · intro hpc hc
    unfold WebSocketManager.performHeartbeatStep
    rw [hpc]
    dsimp only
    rw [if_pos hc]
    exact manager_sendPing_trace c hc
  · intro hpc hc
    unfold WebSocketManager.performHeartbeatStep
    rw [hpc]
    dsimp only
    rw [hc]
    rfl
  · intro hpc
    unfold WebSocketManager.performHeartbeatStep
    dsimp only
    split
    · rfl
    · split_ifs
      · rfl
      · simp [World.sleep, World.emit, sentMessages, List.filterMap_append]
    · split_ifs <;> rfl
    · rename_i heq
      exact absurd heq hpc
  · intro hpc hrun
    have hf := performHeartbeat_frame 3 c
    refine ⟨?_, ?_, hf.1, hf.2⟩
    · by_cases hc : WebSocketManager.isConnected c = true
      · have h1 : c.owner.datalink_ = true := by
          simp [WebSocketManager.isConnected] at hc; exact hc.1
        have h2 : DataLink.isConnected c = true := by
          simp [WebSocketManager.isConnected] at hc; exact hc.2
        simp [WebSocketManager.performHeartbeat, WebSocketManager.performHeartbeatStep, hpc, hrun,
          WebSocketManager.isConnected, WebSocketManager.sendPing, DataLink.sendPing, h1, h2,
          DataLink.isConnected, World.sleep, World.emit, World.websocketSend]
        simp [DataLink.isConnected] at h2
        simp [h2]
      · simp [WebSocketManager.isConnected, DataLink.isConnected] at hc
        by_cases h1 : c.owner.datalink_ = true
        · have h2 := hc h1
          simp [WebSocketManager.performHeartbeat, WebSocketManager.performHeartbeatStep, hpc, hrun,
            WebSocketManager.isConnected, DataLink.isConnected, h1, h2, World.sleep, World.emit]
        · simp [WebSocketManager.performHeartbeat, WebSocketManager.performHeartbeatStep, hpc, hrun,
            WebSocketManager.isConnected, DataLink.isConnected, h1, World.sleep, World.emit]
    · by_cases hc : WebSocketManager.isConnected c = true
      · have h1 : c.owner.datalink_ = true := by
          simp [WebSocketManager.isConnected] at hc; exact hc.1
        have h2 : DataLink.isConnected c = true := by
          simp [WebSocketManager.isConnected] at hc; exact hc.2
        simp [WebSocketManager.performHeartbeat, WebSocketManager.performHeartbeatStep, hpc, hrun,
          WebSocketManager.isConnected, WebSocketManager.sendPing, DataLink.sendPing, h1, h2,
          DataLink.isConnected, World.sleep, World.emit, World.websocketSend]
      · simp [WebSocketManager.isConnected, DataLink.isConnected] at hc
        by_cases h1 : c.owner.datalink_ = true
        · have h2 := hc h1
          simp [WebSocketManager.performHeartbeat, WebSocketManager.performHeartbeatStep, hpc, hrun,
            WebSocketManager.isConnected, DataLink.isConnected, h1, h2, World.sleep, World.emit]
        · simp [WebSocketManager.performHeartbeat, WebSocketManager.performHeartbeatStep, hpc, hrun,
            WebSocketManager.isConnected, DataLink.isConnected, h1, World.sleep, World.emit]

/-- Witness for C19: a connected Manager with the heartbeat enabled at 50 ms sends one
ping per iteration of the loop, four in four iterations; the same Manager never
connected sends none. -/
theorem heartbeat_pings_only_when_connected_witness :
    (WebSocketManager.performHeartbeat 3 exampleHeartbeat).world.trace =
      exampleHeartbeat.world.trace ++ [Event.sleep 50, Event.websocketSend "PING"] ∧
    sentMessages (WebSocketManager.performHeartbeat 12 exampleHeartbeat).world.trace =
      ["PING", "PING", "PING", "PING"] ∧
    sentMessages (WebSocketManager.performHeartbeat 12 exampleHeartbeatIdle).world.trace = [] := by
  refine ⟨?_, by decide, ?_⟩
  · rw [((heartbeat_pings_only_when_connected exampleHeartbeat).2.2.2.2.2.1
      (by decide) (by decide)).1]
    decide
  · rw [((heartbeat_pings_only_when_connected exampleHeartbeatIdle).2.2.2.2.2.2.1
      (by decide) 12).1]
    decide

/-- A heartbeat thread that has ended takes no step. -/
theorem performHeartbeatStep_ended (c : MCtx P) (h : c.world.heartbeatPc = none) :
    WebSocketManager.performHeartbeatStep c = c := by
  unfold WebSocketManager.performHeartbeatStep
  rw [h]

/-- A heartbeat thread that has ended stays ended. -/
theorem performHeartbeat_ended (n : Nat) (c : MCtx P) (h : c.world.heartbeatPc = none) :
    WebSocketManager.performHeartbeat n c = c := by
  induction n with
  | zero => rfl
  | succ n ih => rw [WebSocketManager.performHeartbeat, performHeartbeatStep_ended c h, ih]

/-- With the running flag cleared, the heartbeat thread ends within two of its steps. -/
theorem join_heartbeatPc (c : MCtx P) (hrun : c.owner.heartbeat_thread_running_ = false) :
    (WebSocketManager.performHeartbeat 2 c).world.heartbeatPc = none := by
  have hstep : ∀ d : MCtx P, d.owner.heartbeat_thread_running_ = false →
      d.world.heartbeatPc ≠ some HeartbeatPc.tick →
      (WebSocketManager.performHeartbeatStep d).world.heartbeatPc = none := by
    intro d hd hpc
    unfold WebSocketManager.performHeartbeatStep
    dsimp only
    split
    · assumption
    · rw [if_pos hd]
    · rw [if_pos hd]
    · rename_i heq
      exact absurd heq hpc
  simp only [WebSocketManager.performHeartbeat]
  by_cases hpc : c.world.heartbeatPc = some HeartbeatPc.tick
  · have h1 : (WebSocketManager.performHeartbeatStep c).world.heartbeatPc =
        some HeartbeatPc.loopHead := by
      unfold WebSocketManager.performHeartbeatStep
      rw [hpc]
    refine hstep _ ?_ ?_
    · rw [(performHeartbeatStep_frame c).2]; exact hrun
    · rw [h1]; decide
  · have h1 := hstep c hrun hpc
    rw [performHeartbeatStep_ended _ h1]
    exact h1

/-- The method `stopHeartbeat` stops the loop of a Manager whose heartbeat invariant
holds: the thread has ended, the flag and the handle are cleared, and the enabled flag is
as before. -/
theorem stopHeartbeat_stops (c : MCtx P) (hg : HeartbeatGood c) :
    HeartbeatStopped (WebSocketManager.stopHeartbeat c) ∧
    (WebSocketManager.stopHeartbeat c).owner.heartbeat_thread_ = false ∧
    (WebSocketManager.stopHeartbeat c).owner.heartbeat_enabled_ = c.owner.heartbeat_enabled_ := by
  unfold WebSocketManager.stopHeartbeat HeartbeatStopped
  dsimp only
  by_cases hh : c.owner.heartbeat_thread_ = true
  · rw [if_pos hh]
    let c2 : MCtx P :=
      { c with
        owner := { c.owner with heartbeat_thread_running_ := false },
        world := c.world.emit (Event.joinThread ThreadFn.heartbeatThread) }
    have hj := join_heartbeatPc c2 rfl
    have hf := (performHeartbeat_frame 2 c2).2
    refine ⟨⟨hj, ?_⟩, rfl, ?_⟩
    · show (WebSocketManager.performHeartbeat 2 c2).owner.heartbeat_thread_running_ = false
      rw [hf]
    · show (WebSocketManager.performHeartbeat 2 c2).owner.heartbeat_enabled_ = _
      rw [hf]
  · rw [if_neg hh]
    have hpc : c.world.heartbeatPc = none := by
      by_contra hne
      exact hh (hg hne)
    have hh2 : c.owner.heartbeat_thread_ = false := by simpa using hh
    exact ⟨⟨hpc, rfl⟩, hh2, rfl⟩

/-- The heartbeat invariant carries over when the heartbeat is kept. -/
theorem heartbeatGood_of_kept {c c2 : MCtx P} (h : HeartbeatGood c) (k : HeartbeatKept c c2) :
    HeartbeatGood c2 := by
  unfold HeartbeatGood
  rw [k.1, k.2.1]
  exact h

/-- A stopped heartbeat stays stopped when the heartbeat is kept. -/
theorem heartbeatStopped_of_kept {c c2 : MCtx P} (h : HeartbeatStopped c)
    (k : HeartbeatKept c c2) : HeartbeatStopped c2 := by
  unfold HeartbeatStopped
  rw [k.1, k.2.2.1]
  exact h

/-- A stopped heartbeat satisfies the heartbeat invariant. -/
theorem heartbeatGood_of_stopped {c : MCtx P} (h : HeartbeatStopped c) : HeartbeatGood c :=
  fun hne => absurd h.1 hne

/-- Every operation of the Manager preserves the heartbeat invariant. -/
theorem heartbeatGood_run {c : MCtx P} (h : HeartbeatGood c) (op : ManagerOp) :
    HeartbeatGood (op.run c) := by
  cases op with
  | disconnect =>
    show HeartbeatGood (WebSocketManager.disconnect c)
    unfold WebSocketManager.disconnect
    dsimp only
    refine heartbeatGood_of_stopped (stopHeartbeat_stops _ ?_).1
    split_ifs
    · exact heartbeatGood_of_kept h (heartbeatKept_linkDisconnect c)
    · exact h
  | enableHeartbeat e =>
    show HeartbeatGood (WebSocketManager.enableHeartbeat e c)
    unfold WebSocketManager.enableHeartbeat
    dsimp only
    have h1 : HeartbeatGood ({ c with owner := { c.owner with heartbeat_enabled_ := e } } : MCtx P) := h
    split_ifs
    · unfold WebSocketManager.startHeartbeat
      split_ifs
      · exact h1
      · exact fun _ => rfl
    · exact heartbeatGood_of_stopped (stopHeartbeat_stops _ h1).1
  | heartbeatThreadStep =>
    show HeartbeatGood (WebSocketManager.performHeartbeatStep c)
    intro hne
    rw [(performHeartbeatStep_frame c).2]
    refine h (fun hn => hne ?_)
    rw [performHeartbeatStep_ended c hn]
    exact hn
  | connect url a => exact heartbeatGood_of_kept h (heartbeatKept_connect url a c)
  | sendText m p => exact heartbeatGood_of_kept h (heartbeatKept_sendText m p c)
  | sendBinary d p => exact heartbeatGood_of_kept h (heartbeatKept_sendBinary d p c)
  | sendPing => exact heartbeatGood_of_kept h (heartbeatKept_sendPing c)
  | enableMessageQueue e n => exact heartbeatGood_of_kept h (heartbeatKept_enableMessageQueue e n c)
  | processMessageQueue => exact heartbeatGood_of_kept h (heartbeatKept_processMessageQueue c)
  | clearMessageQueue => exact h
  | setHeartbeatInterval i => exact h
  | reconnectThreadStep => exact heartbeatGood_of_kept h (heartbeatKept_attemptReconnectStep c)

/-- Every sequence of operations of the Manager preserves the heartbeat invariant. -/
theorem heartbeatGood_runManagerOps {c : MCtx P} (h : HeartbeatGood c) (ops : List ManagerOp) :
    HeartbeatGood (runManagerOps ops c) := by
  induction ops generalizing c with
  | nil => exact h
  | cons op ops ih => exact ih (heartbeatGood_run h op)

/-- A new Manager satisfies the heartbeat invariant. -/
theorem heartbeatGood_fresh (w : World) (hw : w.heartbeatPc = none) :
    HeartbeatGood (freshManager P w) :=
  fun hne => absurd hw hne

/-- A stopped heartbeat stays stopped under every operation other than
`enableHeartbeat(true)`. -/
theorem heartbeatStopped_run {c : MCtx P} (h : HeartbeatStopped c) (op : ManagerOp)
    (hop : op.isEnableHeartbeat = false) : HeartbeatStopped (op.run c) := by
  cases op with
  | disconnect =>
    show HeartbeatStopped (WebSocketManager.disconnect c)
    unfold WebSocketManager.disconnect
    dsimp only
    refine (stopHeartbeat_stops _ (heartbeatGood_of_stopped ?_)).1
    split_ifs
    · exact heartbeatStopped_of_kept h (heartbeatKept_linkDisconnect c)
    · exact h
  | enableHeartbeat e =>
    cases e with
    | true => exact absurd hop (by decide)
    | false =>
      show HeartbeatStopped (WebSocketManager.enableHeartbeat false c)
      unfold WebSocketManager.enableHeartbeat
      dsimp only
      rw [if_neg (by decide)]
      have h1 : HeartbeatStopped
          ({ c with owner := { c.owner with heartbeat_enabled_ := false } } : MCtx P) := h
      exact (stopHeartbeat_stops _ (heartbeatGood_of_stopped h1)).1
  | heartbeatThreadStep =>
    show HeartbeatStopped (WebSocketManager.performHeartbeatStep c)
    rw [performHeartbeatStep_ended c h.1]
    exact h
  | connect url a => exact heartbeatStopped_of_kept h (heartbeatKept_connect url a c)
  | sendText m p => exact heartbeatStopped_of_kept h (heartbeatKept_sendText m p c)
  | sendBinary d p => exact heartbeatStopped_of_kept h (heartbeatKept_sendBinary d p c)
  | sendPing => exact heartbeatStopped_of_kept h (heartbeatKept_sendPing c)
  | enableMessageQueue e n =>
    exact heartbeatStopped_of_kept h (heartbeatKept_enableMessageQueue e n c)
  | processMessageQueue => exact heartbeatStopped_of_kept h (heartbeatKept_processMessageQueue c)
  | clearMessageQueue => exact h
  | setHeartbeatInterval i => exact h
  | reconnectThreadStep => exact heartbeatStopped_of_kept h (heartbeatKept_attemptReconnectStep c)

/-- A stopped heartbeat stays stopped under every sequence of operations without
`enableHeartbeat(true)`. -/
theorem heartbeatStopped_runManagerOps {c : MCtx P} (h : HeartbeatStopped c)
    (ops : List ManagerOp) (hops : ∀ op ∈ ops, op.isEnableHeartbeat = false) :
    HeartbeatStopped (runManagerOps ops c) := by
  induction ops generalizing c with
  | nil => exact h
  | cons op ops ih =>
    exact ih (heartbeatStopped_run h op (hops op (List.mem_cons_self _ _)))
      (fun o ho => hops o (List.mem_cons_of_mem _ ho))

/-- Claim C20 as amended (`disconnect` stops the heartbeat).  Let `c` be the state of a
Manager after any sequence of operations on a freshly initialised Manager.  When
`disconnect` returns, the heartbeat thread has been joined and has ended, the running flag
and the handle are cleared, and the enabled flag is as before; scheduling the heartbeat
thread afterwards changes nothing.  After any further operations other than
`enableHeartbeat(true)`, a successful `connect` included, the thread is still ended and
the running flag still false, so no heartbeat ping is sent; `enableHeartbeat(true)` then
starts the loop again. -/
theorem disconnect_stops_heartbeat (cr sr : Nat → Bool) (ts : Nat → Nat) (ops : List ManagerOp) :
    ∃ c d : MCtx P, c = runManagerOps ops (freshManager P (World.start cr sr ts)) ∧
      d = WebSocketManager.disconnect c ∧
      d.world.heartbeatPc = none ∧
      d.owner.heartbeat_thread_running_ = false ∧
      d.owner.heartbeat_thread_ = false ∧
      d.owner.heartbeat_enabled_ = c.owner.heartbeat_enabled_ ∧
      (∀ n, WebSocketManager.performHeartbeat n d = d) ∧
      (∀ ops2 : List ManagerOp, (∀ op ∈ ops2, op.isEnableHeartbeat = false) →
        (runManagerOps ops2 d).world.heartbeatPc = none ∧
        (runManagerOps ops2 d).owner.heartbeat_thread_running_ = false ∧
        (∀ n, WebSocketManager.performHeartbeat n (runManagerOps ops2 d) =
          runManagerOps ops2 d) ∧
        (WebSocketManager.enableHeartbeat true (runManagerOps ops2 d)).world.heartbeatPc =
          some HeartbeatPc.loopHead ∧
        (WebSocketManager.enableHeartbeat true
          (runManagerOps ops2 d)).owner.heartbeat_thread_running_ = true) := by
  refine ⟨_, _, rfl, rfl, ?_⟩
  have hg : HeartbeatGood (runManagerOps ops (freshManager P (World.start cr sr ts))) :=
    heartbeatGood_runManagerOps (heartbeatGood_fresh _ rfl) ops
  generalize runManagerOps ops (freshManager P (World.start cr sr ts)) = c at hg
  have hl : HeartbeatGood (if c.owner.datalink_ = true then
      DataLink.disconnect (WebSocketManager.linkCallbacks P) c else c) := by
    split_ifs
    · exact heartbeatGood_of_kept hg (heartbeatKept_linkDisconnect c)
    · exact hg
  have hk : HeartbeatKept c (if c.owner.datalink_ = true then
      DataLink.disconnect (WebSocketManager.linkCallbacks P) c else c) := by
    split_ifs
    · exact heartbeatKept_linkDisconnect c
    · exact heartbeatKept_refl c
  have hs := stopHeartbeat_stops _ hl
  have hd : HeartbeatStopped (WebSocketManager.disconnect c) := hs.1
  refine ⟨hd.1, hd.2, hs.2.1, hs.2.2.trans hk.2.2.2, fun n => performHeartbeat_ended n _ hd.1,
    fun ops2 hops => ?_⟩
  have h2 := heartbeatStopped_runManagerOps hd ops2 hops
  refine ⟨h2.1, h2.2, fun n => performHeartbeat_ended n _ h2.1, ?_, ?_⟩
  · simp [WebSocketManager.enableHeartbeat, WebSocketManager.startHeartbeat, h2.2]
  · simp [WebSocketManager.enableHeartbeat, WebSocketManager.startHeartbeat, h2.2]

/-- Counterexample to C20 as stated: the heartbeat of a connected Manager is running;
after `disconnect` the thread has ended and the running flag is false although the
heartbeat is still enabled; after a second successful `connect` and six steps of the
heartbeat thread (two iterations of a running loop) the Manager is connected and no ping
has been sent, whereas three steps of the loop before the `disconnect` send one. -/
theorem heartbeat_survives_disconnect_counterexample :
    exampleHeartbeat.world.heartbeatPc = some HeartbeatPc.loopHead ∧
    exampleHeartbeat.owner.heartbeat_thread_running_ = true ∧
    sentMessages (WebSocketManager.performHeartbeat 3 exampleHeartbeat).world.trace = ["PING"] ∧
    (WebSocketManager.disconnect exampleHeartbeat).world.heartbeatPc = none ∧
    (WebSocketManager.disconnect exampleHeartbeat).owner.heartbeat_thread_running_ = false ∧
    (WebSocketManager.disconnect exampleHeartbeat).owner.heartbeat_enabled_ = true ∧
    WebSocketManager.isConnected exampleHeartbeatReconnected = true ∧
    exampleHeartbeatReconnected.owner.heartbeat_enabled_ = true ∧
    exampleHeartbeatReconnected.world.heartbeatPc = none ∧
    sentMessages exampleHeartbeatReconnected.world.trace = [] := by
  decide

end HeartbeatLemmas

/-! ## The Manager: statistics, misuse and binary payloads -/

section ManagerStatisticsTheorems
variable {P : PriorityQueue}

/-- Claim C24 (misuse before initialisation).  On a Manager on which `initialize()` has
not been called, `connect`, `sendText`, `sendBinary` and `sendPing` return false for every
argument, whether queueing is enabled or not, and return the state they were given: the
queue, the counters and every other field are unchanged and the trace gains no transport
call and no callback invocation; `isConnected` returns false and `getConnectionState`
returns `DISCONNECTED`. -/
theorem misuse_before_initialisation (url : String) (auto_reconnect : Bool) (message : String)
    (data : List Nat) (priority : MessagePriority) (c : MCtx P)
    (hinit : c.owner.datalink_ = false) :
    WebSocketManager.connect url auto_reconnect c = (false, c) ∧
    WebSocketManager.sendText message priority c = (false, c) ∧
    WebSocketManager.sendBinary data priority c = (false, c) ∧
    WebSocketManager.sendPing c = (false, c) ∧
    WebSocketManager.isConnected c = false ∧
    WebSocketManager.getConnectionState c = ConnectionState.DISCONNECTED := by
  simp [WebSocketManager.connect, WebSocketManager.sendText, WebSocketManager.sendBinary,
    WebSocketManager.sendPing, WebSocketManager.isConnected, WebSocketManager.getConnectionState,
    hinit]

/-- Witness for C24: an uninitialised Manager with queueing enabled refuses `connect`
and `sendText` and queues nothing. -/
theorem misuse_before_initialisation_witness :
    exampleUninitialised.owner.queue_enabled_ = true ∧
    WebSocketManager.connect "ws://host" true exampleUninitialised = (false, exampleUninitialised) ∧
    WebSocketManager.sendText "m" MessagePriority.URGENT exampleUninitialised =
      (false, exampleUninitialised) ∧
    WebSocketManager.getQueuedMessageCount exampleUninitialised = 0 := by
  obtain ⟨h1, h2, _⟩ := misuse_before_initialisation "ws://host" true "m" [1]
    MessagePriority.URGENT exampleUninitialised (by decide)
  exact ⟨by decide, h1, h2, by decide⟩

/-- Claim C21 (send statistics).  On an initialised Manager every call of `sendText`
and of `sendBinary` leaves the counter of received messages as it is and changes the
counters of successful and failed sends by (1, 0) when it delivers directly (the Link is
`CONNECTED` and the call returns true), by (0, 1) when it returns false, and by (0, 0)
when it enqueues (the Link is not `CONNECTED` and the call returns true; the queue then
holds one message more).  The additions are made in `uint64_t` arithmetic, so they are
plainly 1 below the wrap-around. -/
theorem send_statistics (message : String) (data : List Nat) (priority : MessagePriority)
    (c : MCtx P) (hinit : c.owner.datalink_ = true) :
    ((WebSocketManager.sendText message priority c).2.owner.messages_received_ =
        c.owner.messages_received_ ∧
      (c.link.connection_state_ = ConnectionState.CONNECTED →
        (WebSocketManager.sendText message priority c).1 = true →
        (WebSocketManager.sendText message priority c).2.owner.messages_sent_success_ =
          (c.owner.messages_sent_success_ + 1) % UINT64_MOD ∧
        (WebSocketManager.sendText message priority c).2.owner.messages_sent_failed_ =
          c.owner.messages_sent_failed_) ∧
      ((WebSocketManager.sendText message priority c).1 = false →
        (WebSocketManager.sendText message priority c).2.owner.messages_sent_success_ =
          c.owner.messages_sent_success_ ∧
        (WebSocketManager.sendText message priority c).2.owner.messages_sent_failed_ =
          (c.owner.messages_sent_failed_ + 1) % UINT64_MOD) ∧
      (c.link.connection_state_ ≠ ConnectionState.CONNECTED →
        (WebSocketManager.sendText message priority c).1 = true →
        (WebSocketManager.sendText message priority c).2.owner.messages_sent_success_ =
          c.owner.messages_sent_success_ ∧
        (WebSocketManager.sendText message priority c).2.owner.messages_sent_failed_ =
          c.owner.messages_sent_failed_ ∧
        WebSocketManager.getQueuedMessageCount (WebSocketManager.sendText message priority c).2 =
          WebSocketManager.getQueuedMessageCount c + 1)) ∧
    ((WebSocketManager.sendBinary data priority c).2.owner.messages_received_ =
        c.owner.messages_received_ ∧
      (c.link.connection_state_ = ConnectionState.CONNECTED →
        (WebSocketManager.sendBinary data priority c).1 = true →
        (WebSocketManager.sendBinary data priority c).2.owner.messages_sent_success_ =
          (c.owner.messages_sent_success_ + 1) % UINT64_MOD ∧
        (WebSocketManager.sendBinary data priority c).2.owner.messages_sent_failed_ =
          c.owner.messages_sent_failed_) ∧
      ((WebSocketManager.sendBinary data priority c).1 = false →
        (WebSocketManager.sendBinary data priority c).2.owner.messages_sent_success_ =
          c.owner.messages_sent_success_ ∧
        (WebSocketManager.sendBinary data priority c).2.owner.messages_sent_failed_ =
          (c.owner.messages_sent_failed_ + 1) % UINT64_MOD) ∧
      (c.link.connection_state_ ≠ ConnectionState.CONNECTED →
        (WebSocketManager.sendBinary data priority c).1 = true →
        (WebSocketManager.sendBinary data priority c).2.owner.messages_sent_success_ =
          c.owner.messages_sent_success_ ∧
        (WebSocketManager.sendBinary data priority c).2.owner.messages_sent_failed_ =
          c.owner.messages_sent_failed_ ∧
        WebSocketManager.getQueuedMessageCount (WebSocketManager.sendBinary data priority c).2 =
          WebSocketManager.getQueuedMessageCount c + 1)) ∧
    (∀ n : Nat, n + 1 < UINT64_MOD → (n + 1) % UINT64_MOD = n + 1) := by
  refine ⟨?_, ?_, fun n h => Nat.mod_eq_of_lt h⟩
  · by_cases hc : c.link.connection_state_ = ConnectionState.CONNECTED
    · by_cases hs : c.world.websocketSendResult = true <;>
      by_cases hcb1 : c.owner.send_success_callback_ = true <;>
      by_cases hcb2 : c.owner.send_failure_callback_ = true <;>
      simp [WebSocketManager.sendText, DataLink.sendText, WebSocketManager.isConnected,
        DataLink.isConnected, hinit, hc, hs, hcb1, hcb2]
    · by_cases hen : c.owner.queue_enabled_ = true <;>
      by_cases hroom : Multiset.card (P.items c.owner.message_queue_) < c.owner.max_queue_size_ <;>
      by_cases hcb2 : c.owner.send_failure_callback_ = true <;>
      simp [WebSocketManager.sendText, WebSocketManager.isConnected, DataLink.isConnected,
        WebSocketManager.getQueuedMessageCount, hinit, hc, hen, hroom, hcb2, PriorityQueue.size,
        P.items_push]
  · by_cases hc : c.link.connection_state_ = ConnectionState.CONNECTED
    · by_cases hs : c.world.websocketSendResult = true <;>
      simp [WebSocketManager.sendBinary, DataLink.sendBinary, WebSocketManager.isConnected,
        DataLink.isConnected, hinit, hc, hs]
    · by_cases hen : c.owner.queue_enabled_ = true <;>
      by_cases hroom : Multiset.card (P.items c.owner.message_queue_) < c.owner.max_queue_size_ <;>
      simp [WebSocketManager.sendBinary, WebSocketManager.isConnected, DataLink.isConnected,
        WebSocketManager.getQueuedMessageCount, hinit, hc, hen, hroom, PriorityQueue.size,
        P.items_push]

/-- Witness for C21, the example of the specification: on a freshly initialised and
connected Manager one `sendText` succeeds and one `sendBinary` is refused by the
transport; the counters of successful, failed and received messages are 1, 1 and 0. -/
theorem send_statistics_witness :
    (WebSocketManager.sendText "a" MessagePriority.NORMAL exampleOneSend).1 = true ∧
    (WebSocketManager.sendBinary [1, 2] MessagePriority.NORMAL exampleOneSendDone).1 = false ∧
    (WebSocketManager.sendBinary [1, 2] MessagePriority.NORMAL
      exampleOneSendDone).2.owner.messages_sent_success_ = 1 ∧
    (WebSocketManager.sendBinary [1, 2] MessagePriority.NORMAL
      exampleOneSendDone).2.owner.messages_sent_failed_ = 1 ∧
    (WebSocketManager.sendBinary [1, 2] MessagePriority.NORMAL
      exampleOneSendDone).2.owner.messages_received_ = 0 := by
  have ht : (WebSocketManager.sendText "a" MessagePriority.NORMAL exampleOneSend).1 = true := by
    decide
  have hf : (WebSocketManager.sendBinary [1, 2] MessagePriority.NORMAL
      exampleOneSendDone).1 = false := by decide
  obtain ⟨⟨_, h2, _⟩, _⟩ :=
    send_statistics "a" [1, 2] MessagePriority.NORMAL exampleOneSend (by decide)
  obtain ⟨_, ⟨h5, _, h7, _⟩, _⟩ :=
    send_statistics "a" [1, 2] MessagePriority.NORMAL exampleOneSendDone (by decide)
  have hs := h2 (by decide) ht
  refine ⟨ht, hf, ?_, ?_, ?_⟩
  · rw [(h7 hf).1]
    show (WebSocketManager.sendText "a" MessagePriority.NORMAL
      exampleOneSend).2.owner.messages_sent_success_ = 1
    rw [hs.1]; decide
  · rw [(h7 hf).2]
    show ((WebSocketManager.sendText "a" MessagePriority.NORMAL
      exampleOneSend).2.owner.messages_sent_failed_ + 1) % UINT64_MOD = 1
    rw [hs.2]; decide
  · rw [h5]; decide

/-- A vector of bytes is unchanged by the conversion to a string and back. -/
theorem bytesOfString_stringOfBytes (d : List Nat) (hd : ∀ b ∈ d, b < 256) :
    bytesOfString (stringOfBytes d) = d := by
  simp only [stringOfBytes, bytesOfString, List.map_map]
  conv_rhs => rw [← List.map_id d]
  apply List.map_congr_left
  intro b hb
  simp only [Function.comp, id]
  rw [Nat.mod_eq_of_lt (hd b hb), toNat_ofNat_byte _ (hd b hb), Nat.mod_eq_of_lt (hd b hb)]

/-- Claim C30 (binary payloads survive queueing).  For every vector `d` of bytes,
the conversion to the string that `sendBinary` enqueues and back to bytes, as
`processMessageQueue` does, yields `d` again.  Hence the iteration of the drain loop
that takes the queued entry of `d` from the top of the queue leaves the environment (the
payload handed to the transport) and the Link (the counter of sent bytes, which grows by
the number of bytes of `d`) exactly as a direct `DataLink::sendBinary(d)` does. -/
theorem binary_survives_queuing (d : List Nat) (hd : ∀ b ∈ d, b < 256)
    (priority : MessagePriority) (timestamp : Nat) (c : MCtx P)
    (ht : P.top c.owner.message_queue_ =
      some { data := stringOfBytes d, type := MessageType.BINARY, priority := priority,
             timestamp := timestamp }) :
    bytesOfString (stringOfBytes d) = d ∧
    (WebSocketManager.drainLoop 1 c).world = (DataLink.sendBinary d c).2.world ∧
    (WebSocketManager.drainLoop 1 c).link = (DataLink.sendBinary d c).2.link ∧
    (c.link.connection_state_ = ConnectionState.CONNECTED →
      (WebSocketManager.drainLoop 1 c).world.trace =
        c.world.trace ++ [Event.websocketSend (stringOfBytes d)]) ∧
    (c.link.connection_state_ = ConnectionState.CONNECTED →
      c.world.websocketSendResult = true →
      (WebSocketManager.drainLoop 1 c).link.bytes_sent_ =
        (c.link.bytes_sent_ + d.length) % UINT64_MOD) := by
  have hrt := bytesOfString_stringOfBytes d hd
  have hw : (WebSocketManager.drainLoop 1 c).world = (DataLink.sendBinary d c).2.world ∧
      (WebSocketManager.drainLoop 1 c).link = (DataLink.sendBinary d c).2.link := by
    have hne : ¬ (MessageType.BINARY = MessageType.TEXT) := by decide
    simp only [WebSocketManager.drainLoop, ht, hrt, if_neg hne, if_true]
    split_ifs <;> exact ⟨rfl, rfl⟩
  refine ⟨hrt, hw.1, hw.2, ?_, ?_⟩
  · intro hc
    rw [hw.1]
    by_cases hs : c.world.websocketSendResult = true <;>
      simp [DataLink.sendBinary, DataLink.isConnected, hc, hs, World.websocketSend]
  · intro hc hs
    rw [hw.2]
    simp [DataLink.sendBinary, DataLink.isConnected, hc, hs]

/-- Witness for C30: the bytes 0, 255, 72, 105 were queued and are drained; what the
transport and the counter of sent bytes see is what a direct `sendBinary` gives. -/
theorem binary_survives_queuing_witness :
    listQueue.top exampleBinaryQueued.owner.message_queue_ =
      some { data := stringOfBytes [0, 255, 72, 105], type := MessageType.BINARY,
             priority := MessagePriority.NORMAL, timestamp := 0 } ∧
    bytesOfString (stringOfBytes [0, 255, 72, 105]) = [0, 255, 72, 105] ∧
    (WebSocketManager.drainLoop 1 exampleBinaryQueued).world =
      (DataLink.sendBinary [0, 255, 72, 105] exampleBinaryQueued).2.world ∧
    (WebSocketManager.drainLoop 1 exampleBinaryQueued).link.bytes_sent_ = 4 := by
  obtain ⟨h1, h2, _, _, h5⟩ :=
    binary_survives_queuing [0, 255, 72, 105] (by decide) MessagePriority.NORMAL 0
      exampleBinaryQueued (by decide)
  exact ⟨by decide, h1, h2, by rw [h5 (by decide) (by decide)]; decide⟩

end ManagerStatisticsTheorems

/-! ## The Manager: the counters of the two layers and the retry policy -/

section ManagerLinkTheorems
variable {P : PriorityQueue}

/-- The delivery attempt of one queue entry: the Manager is untouched; when it succeeds
the Link has counted one more message, when it fails the Link is as before; the retry
policy is untouched. -/
theorem deliver_counts (c : MCtx P) (m : QueuedMessage) :
    ∃ r : Bool × MCtx P,
      (if m.type = MessageType.TEXT then DataLink.sendText m.data c
        else if m.type = MessageType.BINARY then
          DataLink.sendBinary (bytesOfString m.data) c
        else (false, c)) = r ∧
      r.2.owner = c.owner ∧
      (r.1 = true → r.2.link.messages_sent_ = (c.link.messages_sent_ + 1) % UINT64_MOD) ∧
      (r.1 = false → r.2.link = c.link) ∧
      PolicyKept c r.2 := by
  refine ⟨_, rfl, ?_⟩
  unfold PolicyKept DataLink.sendText DataLink.sendBinary
  split_ifs <;> simp

/-- The drain loop leaves the retry policy as it is. -/
theorem policyKept_drainLoop (fuel : Nat) (c : MCtx P) :
    PolicyKept c (WebSocketManager.drainLoop fuel c) := by
  induction fuel generalizing c with
  | zero => exact ⟨rfl, rfl, rfl⟩
  | succ n ih =>
    simp only [WebSocketManager.drainLoop]
    cases ht : P.top c.owner.message_queue_ with
    | none => exact ⟨rfl, rfl, rfl⟩
    | some m =>
      simp only
      obtain ⟨r, hreq, _, _, _, hp⟩ := deliver_counts c m
      rw [hreq]
      split_ifs
      · have h2 := ih ({ r.2 with owner := { r.2.owner with
          messages_sent_success_ := (r.2.owner.messages_sent_success_ + 1) % UINT64_MOD,
          message_queue_ := P.pop r.2.owner.message_queue_ } } : MCtx P)
        exact ⟨h2.1.trans hp.1, h2.2.1.trans hp.2.1, h2.2.2.trans hp.2.2⟩
      · exact hp

/-- The state callback of the Manager leaves the retry policy as it is. -/
theorem policyKept_onConnectionStateChanged (state : ConnectionState) (c : MCtx P) :
    PolicyKept c (WebSocketManager.onConnectionStateChanged state c) := by
  have hp : PolicyKept c (WebSocketManager.processMessageQueue c) := by
    unfold WebSocketManager.processMessageQueue
    split_ifs
    · exact ⟨rfl, rfl, rfl⟩
    · exact policyKept_drainLoop _ c
  unfold WebSocketManager.onConnectionStateChanged
  dsimp only
  by_cases hs : state = ConnectionState.CONNECTED
  · rw [if_pos hs]
    split_ifs
    · exact hp
    · exact hp
  · rw [if_neg hs]
    split_ifs <;> exact ⟨rfl, rfl, rfl⟩

/-- The retry policy is kept across the Link operations of a Manager. -/
theorem linkClosed_policyKept :
    LinkClosed (WebSocketManager.linkCallbacks P) (PolicyKept : MCtx P → MCtx P → Prop) where
  refl := fun _ => ⟨rfl, rfl, rfl⟩
  trans := fun _ _ _ h1 h2 => ⟨h2.1.trans h1.1, h2.2.1.trans h1.2.1, h2.2.2.trans h1.2.2⟩
  step := fun _ _ h => ⟨h.auto_reconnect_enabled_, h.max_reconnect_attempts_, h.reconnect_interval_ms_⟩
  connection := by
    intro f hf s c
    simp only [WebSocketManager.linkCallbacks, Option.some.injEq] at hf
    subst hf
    exact policyKept_onConnectionStateChanged s c
  error := by
    intro f hf e c
    simp only [WebSocketManager.linkCallbacks, Option.some.injEq] at hf
    subst hf
    unfold WebSocketManager.onError
    split_ifs <;> exact ⟨rfl, rfl, rfl⟩

/-- Inside a Manager, `setAutoReconnect` leaves the Link with the given policy. -/
theorem setAutoReconnect_policy (enabled : Bool) (m i : Int) (c : MCtx P) :
    (DataLink.setAutoReconnect (WebSocketManager.linkCallbacks P) enabled m i
      c).link.auto_reconnect_enabled_ = enabled ∧
    (DataLink.setAutoReconnect (WebSocketManager.linkCallbacks P) enabled m i
      c).link.max_reconnect_attempts_ = m ∧
    (DataLink.setAutoReconnect (WebSocketManager.linkCallbacks P) enabled m i
      c).link.reconnect_interval_ms_ = i := by
  unfold DataLink.setAutoReconnect
  dsimp only
  split_ifs with he
  · exact ⟨rfl, rfl, rfl⟩
  · have h := linkClosed_stopReconnectTimer linkClosed_policyKept
      ({ c with link := { c.link with
        auto_reconnect_enabled_ := enabled,
        max_reconnect_attempts_ := m,
        reconnect_interval_ms_ := i } } : MCtx P)
    exact ⟨h.1, h.2.1, h.2.2⟩

/-- Inside a Manager, `updateConnectionState` to a state other than `CONNECTED` stores
the state and invokes the user callback, if one is registered. -/
theorem updateConnectionState_manager_other (s : ConnectionState) (c : MCtx P)
    (hs : s ≠ ConnectionState.CONNECTED) :
    DataLink.updateConnectionState (WebSocketManager.linkCallbacks P) s c =
      if c.link.connection_state_ = s then c
      else if c.owner.connection_callback_ = true then
        { c with
          link := { c.link with connection_state_ := s },
          world := c.world.emit (Event.connectionCallback s) }
      else { c with link := { c.link with connection_state_ := s } } := by
  unfold DataLink.updateConnectionState
  by_cases h : c.link.connection_state_ = s
  · simp [h]
  · simp only [h, ne_eq, not_false_eq_true, if_true, if_false, WebSocketManager.linkCallbacks]
    rw [onConnectionStateChanged_other _ _ hs]

/-- Inside a Manager, the last round of the reconnect loop, refused with the counter at
the maximum, ends the thread with the Link in `ERROR`. -/
theorem attemptReconnect_round_exhausted_manager (c : MCtx P)
    (hpc : c.world.reconnectPc = some ReconnectPc.entry)
    (hrun : c.link.reconnect_thread_running_ = true)
    (hfail : c.world.connectResult c.world.connectCalls = false)
    (hmax : c.link.max_reconnect_attempts_ ≤ c.link.current_reconnect_attempts_) :
    (DataLink.attemptReconnect (WebSocketManager.linkCallbacks P) 3 c).world.reconnectPc = none ∧
    (DataLink.attemptReconnect (WebSocketManager.linkCallbacks P)
      3 c).link.reconnect_thread_running_ = false ∧
    (DataLink.attemptReconnect (WebSocketManager.linkCallbacks P) 3 c).link.connection_state_ =
      ConnectionState.ERROR ∧
    (DataLink.attemptReconnect (WebSocketManager.linkCallbacks P)
      3 c).link.current_reconnect_attempts_ = c.link.current_reconnect_attempts_ ∧
    connectCount (DataLink.attemptReconnect (WebSocketManager.linkCallbacks P) 3 c).world.trace =
      connectCount c.world.trace + 1 ∧
    sleepCount (DataLink.attemptReconnect (WebSocketManager.linkCallbacks P) 3 c).world.trace =
      sleepCount c.world.trace + 1 := by
  by_cases hs : c.link.connection_state_ = ConnectionState.ERROR <;>
    by_cases hcb : c.owner.connection_callback_ = true <;>
    simp [DataLink.attemptReconnect, DataLink.attemptReconnectStep, hpc, hrun, hfail, hs, hmax, hcb,
      updateConnectionState_manager_other, World.sleep, World.emit, World.websocketConnectResult,
      World.websocketConnect, connectCount, sleepCount, List.countP_append, List.countP_cons]

/-- Inside a Manager, the reconnect loop against a transport that refuses every
connection: started with the counter `d` below the maximum, the thread ends after
`d + 1` rounds in `ERROR` with the counter at the maximum. -/
theorem attemptReconnect_all_fail_manager (d : Nat) (c : MCtx P)
    (hpc : c.world.reconnectPc = some ReconnectPc.entry)
    (hrun : c.link.reconnect_thread_running_ = true)
    (hmax : c.link.max_reconnect_attempts_ = c.link.current_reconnect_attempts_ + d)
    (hfail : ∀ n, c.world.connectResult n = false) :
    (DataLink.attemptReconnect (WebSocketManager.linkCallbacks P)
      (3 * (d + 1)) c).world.reconnectPc = none ∧
    (DataLink.attemptReconnect (WebSocketManager.linkCallbacks P)
      (3 * (d + 1)) c).link.reconnect_thread_running_ = false ∧
    (DataLink.attemptReconnect (WebSocketManager.linkCallbacks P)
      (3 * (d + 1)) c).link.connection_state_ = ConnectionState.ERROR ∧
    (DataLink.attemptReconnect (WebSocketManager.linkCallbacks P)
      (3 * (d + 1)) c).link.current_reconnect_attempts_ = c.link.max_reconnect_attempts_ ∧
    connectCount (DataLink.attemptReconnect (WebSocketManager.linkCallbacks P)
      (3 * (d + 1)) c).world.trace = connectCount c.world.trace + (d + 1) ∧
    sleepCount (DataLink.attemptReconnect (WebSocketManager.linkCallbacks P)
      (3 * (d + 1)) c).world.trace = sleepCount c.world.trace + (d + 1) := by
  induction d generalizing c with
  | zero =>
    obtain ⟨h1, h2, h3, h4, h5, h6⟩ :=
      attemptReconnect_round_exhausted_manager c hpc hrun (hfail _) (by rw [hmax]; simp)
    exact ⟨h1, h2, h3, by rw [h4, hmax]; simp, h5, h6⟩
  | succ d ih =>
    have hlt : c.link.current_reconnect_attempts_ < c.link.max_reconnect_attempts_ := by
      rw [hmax]; push_cast; omega
    have hfuel : 3 * (d + 1 + 1) = 3 + 3 * (d + 1) := by ring
    rw [hfuel, attemptReconnect_add,
      attemptReconnect_round_fail (WebSocketManager.linkCallbacks P) c hpc hrun (hfail _) hlt]
    obtain ⟨h1, h2, h3, h4, h5, h6⟩ :=
      ih ({ c with
        link := { c.link with
          current_reconnect_attempts_ := c.link.current_reconnect_attempts_ + 1 },
        world := { c.world with
          connectCalls := c.world.connectCalls + 1,
          reconnectPc := some ReconnectPc.entry,
          trace := c.world.trace ++
            [Event.sleep c.link.reconnect_interval_ms_,
             Event.websocketConnect c.link.server_url_] } } : MCtx P)
        rfl hrun (by simp only [hmax]; push_cast; ring) hfail
    refine ⟨h1, h2, h3, h4, ?_, ?_⟩
    · rw [h5]
      simp [connectCount, List.countP_append, List.countP_cons]
      omega
    · rw [h6]
      simp [sleepCount, List.countP_append, List.countP_cons]
      omega

/-- The error callback the Manager registers on its Link. -/
theorem linkCallbacks_error_callback :
    (WebSocketManager.linkCallbacks P).error_callback_ = some WebSocketManager.onError := rfl

/-- A refused `connect` through the Manager with auto-reconnect requested, on a Link whose
counter is 0 and whose reconnect loop is not running, starts the reconnect loop with the
policy of the Manager. -/
theorem manager_connect_refused (url : String) (c : MCtx P)
    (hinit : c.owner.datalink_ = true)
    (h1 : c.link.connection_state_ ≠ ConnectionState.CONNECTED)
    (h2 : c.link.connection_state_ ≠ ConnectionState.CONNECTING)
    (hrun : c.link.reconnect_thread_running_ = false)
    (hcur : c.link.current_reconnect_attempts_ = 0)
    (hfail : c.world.connectResult c.world.connectCalls = false) :
    (WebSocketManager.connect url true c).1 = false ∧
    (WebSocketManager.connect url true c).2.world.reconnectPc = some ReconnectPc.entry ∧
    (WebSocketManager.connect url true c).2.link.reconnect_thread_running_ = true ∧
    (WebSocketManager.connect url true c).2.link.current_reconnect_attempts_ = 1 ∧
    (WebSocketManager.connect url true c).2.link.max_reconnect_attempts_ = 5 ∧
    (WebSocketManager.connect url true c).2.world.connectResult = c.world.connectResult ∧
    connectCount (WebSocketManager.connect url true c).2.world.trace =
      connectCount c.world.trace + 1 ∧
    sleepCount (WebSocketManager.connect url true c).2.world.trace =
      sleepCount c.world.trace := by
  by_cases hcb : c.owner.connection_callback_ = true <;>
    by_cases hecb : c.owner.error_callback_ = true <;>
    simp [WebSocketManager.connect, DataLink.setAutoReconnect, DataLink.connect,
      DataLink.handleConnectionError, DataLink.startReconnectTimer,
      updateConnectionState_manager_other, linkCallbacks_error_callback,
      WebSocketManager.onError, hinit, h1, h2, hrun, hcur, hfail, hcb, hecb,
      World.websocketConnectResult, World.websocketConnect, World.emit, connectCount, sleepCount,
      List.countP_append, List.countP_cons]

/-- Claim C29 (`connect` of the Manager fixes the retry policy).  On an initialised
Manager, `connect(url, autoReconnect)` is `DataLink::connect(url)` applied after
`setAutoReconnect(autoReconnect)` with the default arguments 5 and 1000: the Link then has
the policy (`autoReconnect`, 5, 1000) whatever it had before, it still has it when
`connect` returns, and the value returned is the one `DataLink::connect` returns.  Hence
with `autoReconnect = true`, the counter at 0, no reconnect loop running and a transport
that refuses every connection, `connect` returns false and the reconnect thread, run to
its end, makes exactly 5 further connection attempts, each after one wait, and leaves the
Link in `ERROR` with the counter at 5. -/
theorem manager_connect_fixes_policy (url : String) (auto_reconnect : Bool) (c : MCtx P)
    (hinit : c.owner.datalink_ = true) :
    WebSocketManager.connect url auto_reconnect c =
      DataLink.connect (WebSocketManager.linkCallbacks P) url
        (DataLink.setAutoReconnect (WebSocketManager.linkCallbacks P) auto_reconnect 5 1000 c) ∧
    ((DataLink.setAutoReconnect (WebSocketManager.linkCallbacks P) auto_reconnect 5 1000
        c).link.auto_reconnect_enabled_ = auto_reconnect ∧
      (DataLink.setAutoReconnect (WebSocketManager.linkCallbacks P) auto_reconnect 5 1000
        c).link.max_reconnect_attempts_ = 5 ∧
      (DataLink.setAutoReconnect (WebSocketManager.linkCallbacks P) auto_reconnect 5 1000
        c).link.reconnect_interval_ms_ = 1000) ∧
    ((WebSocketManager.connect url auto_reconnect c).2.link.auto_reconnect_enabled_ =
        auto_reconnect ∧
      (WebSocketManager.connect url auto_reconnect c).2.link.max_reconnect_attempts_ = 5 ∧
      (WebSocketManager.connect url auto_reconnect c).2.link.reconnect_interval_ms_ = 1000) ∧
    (c.link.connection_state_ ≠ ConnectionState.CONNECTED →
      c.link.connection_state_ ≠ ConnectionState.CONNECTING →
      c.link.reconnect_thread_running_ = false →
      c.link.current_reconnect_attempts_ = 0 →
      (∀ n, c.world.connectResult n = false) →
      ∀ fuel, 15 ≤ fuel →
      ∃ c1 c2, WebSocketManager.connect url true c = (false, c1) ∧
        DataLink.attemptReconnect (WebSocketManager.linkCallbacks P) fuel c1 = c2 ∧
        c2.link.connection_state_ = ConnectionState.ERROR ∧
        c2.world.reconnectPc = none ∧
        c2.link.reconnect_thread_running_ = false ∧
        c2.link.current_reconnect_attempts_ = 5 ∧
        connectCount c2.world.trace = connectCount c.world.trace + 1 + 5 ∧
        sleepCount c2.world.trace = sleepCount c.world.trace + 5) := by
  have heq : WebSocketManager.connect url auto_reconnect c =
      DataLink.connect (WebSocketManager.linkCallbacks P) url
        (DataLink.setAutoReconnect (WebSocketManager.linkCallbacks P) auto_reconnect 5 1000 c) := by
    unfold WebSocketManager.connect
    rw [if_neg (by simp [hinit])]
  have hp := setAutoReconnect_policy auto_reconnect 5 1000 c
  refine ⟨heq, hp, ?_, fun h1 h2 hrun hcur hfail fuel hfuel => ?_⟩
  · rw [heq]
    have hk := linkClosed_connect linkClosed_policyKept url
      (DataLink.setAutoReconnect (WebSocketManager.linkCallbacks P) auto_reconnect 5 1000 c)
    exact ⟨hk.1.trans hp.1, hk.2.1.trans hp.2.1, hk.2.2.trans hp.2.2⟩
  · obtain ⟨e, rfl⟩ : ∃ e, fuel = 3 * (4 + 1) + e := ⟨fuel - 15, by omega⟩
    obtain ⟨g1, g2, g3, g4, g5, g6, g7, g8⟩ :=
      manager_connect_refused url c hinit h1 h2 hrun hcur (hfail _)
    obtain ⟨k1, k2, k3, k4, k5, k6⟩ :=
      attemptReconnect_all_fail_manager 4 (WebSocketManager.connect url true c).2 g2 g3
        (by rw [g5, g4]; norm_num) (by rw [g6]; exact hfail)
    refine ⟨(WebSocketManager.connect url true c).2, _, Prod.ext g1 rfl, rfl, ?_⟩
    rw [attemptReconnect_add, attemptReconnect_ended _ _ _ k1]
    exact ⟨k3, k1, k2, by rw [k4, g5], by rw [k5, g7], by rw [k6, g8]⟩

/-- Witness for C29: a freshly initialised Manager against a transport that refuses
every connection makes 1 + 5 connection attempts and ends in `ERROR`. -/
theorem manager_connect_fixes_policy_witness :
    ∃ c1 c2,
      WebSocketManager.connect "ws://host" true
        (freshManager listQueue (World.start (fun _ => false) (fun _ => true) (fun _ => 0))) =
          (false, c1) ∧
      DataLink.attemptReconnect (WebSocketManager.linkCallbacks listQueue) 15 c1 = c2 ∧
      c2.link.connection_state_ = ConnectionState.ERROR ∧
      connectCount c2.world.trace = 6 := by
  obtain ⟨c1, c2, h1, h2, h3, _, _, _, h7, _⟩ :=
    (manager_connect_fixes_policy "ws://host" true
      (freshManager listQueue (World.start (fun _ => false) (fun _ => true) (fun _ => 0)))
      (by decide)).2.2.2 (by decide) (by decide) (by decide) (by decide) (fun _ => rfl) 15
      (le_refl _)
  exact ⟨c1, c2, h1, h2, h3, by rw [h7]; decide⟩

end ManagerLinkTheorems

/-! ## No operation decreases a counter -/

section CounterTheorems

variable {M : Type} {P : PriorityQueue} {cb : LinkCallbacks M} {ds dr bs br : Nat} {g : M → M}
  {k : CounterShift}

/-- Advancing a counter and adding to it can be done in either order. -/
theorem advance_add (x d k : Nat) :
    ((x + d) % UINT64_MOD + k) % UINT64_MOD = ((x + k) % UINT64_MOD + d) % UINT64_MOD := by
  unfold UINT64_MOD
  omega

/-- The method `DataLink::sendText` on an advanced state. -/
theorem sendText_advance (message : String) (c : Ctx M) :
    DataLink.sendText message (c.advance ds dr bs br g) =
      ((DataLink.sendText message c).1, (DataLink.sendText message c).2.advance ds dr bs br g) := by
  unfold DataLink.sendText DataLink.isConnected Ctx.advance DataLink.advance
  dsimp only
  split_ifs
  · rfl
  · simp only [advance_add]
  · rfl

/-- The method `DataLink::sendBinary` on an advanced state. -/
theorem sendBinary_advance (data : List Nat) (c : Ctx M) :
    DataLink.sendBinary data (c.advance ds dr bs br g) =
      ((DataLink.sendBinary data c).1, (DataLink.sendBinary data c).2.advance ds dr bs br g) := by
  unfold DataLink.sendBinary DataLink.isConnected Ctx.advance DataLink.advance
  dsimp only
  split_ifs
  · rfl
  · simp only [advance_add]
  · rfl

/-- The method `DataLink::sendPing` on an advanced state. -/
theorem sendPing_advance (c : Ctx M) :
    DataLink.sendPing (c.advance ds dr bs br g) =
      ((DataLink.sendPing c).1, (DataLink.sendPing c).2.advance ds dr bs br g) := by
  unfold DataLink.sendPing DataLink.isConnected Ctx.advance DataLink.advance
  dsimp only
  split_ifs <;> rfl

/-- The method `updateConnectionState` on an advanced state. -/
theorem updateConnectionState_advance (h : CallbacksCommute cb (Ctx.advance ds dr bs br g))
    (new_state : ConnectionState) (c : Ctx M) :
    DataLink.updateConnectionState cb new_state (c.advance ds dr bs br g) =
      (DataLink.updateConnectionState cb new_state c).advance ds dr bs br g := by
  unfold DataLink.updateConnectionState
  by_cases hs : c.link.connection_state_ = new_state
  · have hs2 : (c.advance ds dr bs br g).link.connection_state_ = new_state := hs
    simp only [hs, hs2, ne_eq, not_true_eq_false, if_false]
  · have hs2 : (c.advance ds dr bs br g).link.connection_state_ ≠ new_state := hs
    rw [if_pos hs, if_pos hs2]
    dsimp only
    cases hf : cb.connection_callback_ with
    | none => rfl
    | some f =>
      exact h.connection f hf new_state
        ({ c with link := { c.link with connection_state_ := new_state } } : Ctx M)

/-- The method `handleConnectionSuccess` on an advanced state. -/
theorem handleConnectionSuccess_advance (h : CallbacksCommute cb (Ctx.advance ds dr bs br g))
    (c : Ctx M) :
    DataLink.handleConnectionSuccess cb (c.advance ds dr bs br g) =
      (DataLink.handleConnectionSuccess cb c).advance ds dr bs br g := by
  unfold DataLink.handleConnectionSuccess
  exact updateConnectionState_advance h ConnectionState.CONNECTED
    ({ c with
      world := c.world.getCurrentTimestamp,
      link := { c.link with
        connection_start_time_ := c.world.currentTimestamp,
        current_reconnect_attempts_ := 0 } } : Ctx M)

/-- The method `handleMessageReceived` on an advanced state. -/
theorem handleMessageReceived_advance (h : CallbacksCommute cb (Ctx.advance ds dr bs br g))
    (message : WebSocketMessage) (c : Ctx M) :
    DataLink.handleMessageReceived cb message (c.advance ds dr bs br g) =
      (DataLink.handleMessageReceived cb message c).advance ds dr bs br g := by
  unfold DataLink.handleMessageReceived
  dsimp only
  have he : ({ c.advance ds dr bs br g with link := { (c.advance ds dr bs br g).link with
        messages_received_ :=
          ((c.advance ds dr bs br g).link.messages_received_ + 1) % UINT64_MOD,
        bytes_received_ :=
          ((c.advance ds dr bs br g).link.bytes_received_ + message.data.length) %
            UINT64_MOD } } : Ctx M) =
      ({ c with link := { c.link with
        messages_received_ := (c.link.messages_received_ + 1) % UINT64_MOD,
        bytes_received_ := (c.link.bytes_received_ + message.data.length) % UINT64_MOD } } :
          Ctx M).advance ds dr bs br g := by
    simp only [Ctx.advance, DataLink.advance, advance_add]
  rw [he]
  cases hf : cb.message_callback_ with
  | none => rfl
  | some f => exact h.message f hf message _

/-- A step of the reconnect thread on an advanced state. -/
theorem attemptReconnectStep_advance (h : CallbacksCommute cb (Ctx.advance ds dr bs br g))
    (c : Ctx M) :
    DataLink.attemptReconnectStep cb (c.advance ds dr bs br g) =
      (DataLink.attemptReconnectStep cb c).advance ds dr bs br g := by
  unfold DataLink.attemptReconnectStep
  have hpc : (c.advance ds dr bs br g).world.reconnectPc = c.world.reconnectPc := rfl
  rw [hpc]
  rcases hp : c.world.reconnectPc with _ | pc
  · rfl
  · cases pc
    · dsimp only
      by_cases hr : c.link.reconnect_thread_running_ = false
      · have hr2 : (c.advance ds dr bs br g).link.reconnect_thread_running_ = false := hr
        rw [if_pos hr, if_pos hr2]
        rfl
      · have hr2 : ¬ (c.advance ds dr bs br g).link.reconnect_thread_running_ = false := hr
        rw [if_neg hr, if_neg hr2]
        rfl
    · dsimp only
      by_cases hr : c.link.reconnect_thread_running_ = false
      · have hr2 : (c.advance ds dr bs br g).link.reconnect_thread_running_ = false := hr
        rw [if_pos hr, if_pos hr2]
        rfl
      · have hr2 : ¬ (c.advance ds dr bs br g).link.reconnect_thread_running_ = false := hr
        rw [if_neg hr, if_neg hr2]
        rfl
    · dsimp only
      by_cases hok : c.world.websocketConnectResult = true
      · have hok2 : (c.advance ds dr bs br g).world.websocketConnectResult = true := hok
        rw [if_pos hok, if_pos hok2]
        have hs := handleConnectionSuccess_advance h
          ({ c with world := c.world.websocketConnect c.link.server_url_ } : Ctx M)
        have hs2 : DataLink.handleConnectionSuccess cb
            ({ c.advance ds dr bs br g with
              world := (c.advance ds dr bs br g).world.websocketConnect
                (c.advance ds dr bs br g).link.server_url_ } : Ctx M) =
            (DataLink.handleConnectionSuccess cb
              ({ c with world := c.world.websocketConnect c.link.server_url_ } :
                Ctx M)).advance ds dr bs br g := hs
        rw [hs2]
        rfl
      · have hok2 : ¬ (c.advance ds dr bs br g).world.websocketConnectResult = true := hok
        rw [if_neg hok, if_neg hok2]
        by_cases hm : c.link.current_reconnect_attempts_ ≥ c.link.max_reconnect_attempts_
        · have hm2 : (c.advance ds dr bs br g).link.current_reconnect_attempts_ ≥
              (c.advance ds dr bs br g).link.max_reconnect_attempts_ := hm
          rw [if_pos hm, if_pos hm2]
          have hu := updateConnectionState_advance h ConnectionState.ERROR
            ({ c with
              world := c.world.websocketConnect c.link.server_url_,
              link := { c.link with reconnect_thread_running_ := false } } : Ctx M)
          have hu2 : DataLink.updateConnectionState cb ConnectionState.ERROR
              ({ c.advance ds dr bs br g with
                world := (c.advance ds dr bs br g).world.websocketConnect
                  (c.advance ds dr bs br g).link.server_url_,
                link := { (c.advance ds dr bs br g).link with
                  reconnect_thread_running_ := false } } : Ctx M) =
              (DataLink.updateConnectionState cb ConnectionState.ERROR
                ({ c with
                  world := c.world.websocketConnect c.link.server_url_,
                  link := { c.link with reconnect_thread_running_ := false } } :
                    Ctx M)).advance ds dr bs br g := hu
          rw [hu2]
          rfl
        · have hm2 : ¬ (c.advance ds dr bs br g).link.current_reconnect_attempts_ ≥
              (c.advance ds dr bs br g).link.max_reconnect_attempts_ := hm
          rw [if_neg hm, if_neg hm2]
          rfl

/-- The reconnect thread on an advanced state. -/
theorem attemptReconnect_advance (h : CallbacksCommute cb (Ctx.advance ds dr bs br g))
    (n : Nat) (c : Ctx M) :
    DataLink.attemptReconnect cb n (c.advance ds dr bs br g) =
      (DataLink.attemptReconnect cb n c).advance ds dr bs br g := by
  induction n generalizing c with
  | zero => rfl
  | succ n ih =>
    simp only [DataLink.attemptReconnect]
    rw [attemptReconnectStep_advance h, ih]

/-- The method `stopReconnectTimer` on an advanced state. -/
theorem stopReconnectTimer_advance (h : CallbacksCommute cb (Ctx.advance ds dr bs br g))
    (c : Ctx M) :
    DataLink.stopReconnectTimer cb (c.advance ds dr bs br g) =
      (DataLink.stopReconnectTimer cb c).advance ds dr bs br g := by
  unfold DataLink.stopReconnectTimer
  dsimp only
  by_cases hh : c.link.reconnect_thread_ = true
  · have hh2 : (c.advance ds dr bs br g).link.reconnect_thread_ = true := hh
    rw [if_pos hh, if_pos hh2]
    have ha := attemptReconnect_advance h 2
      ({ c with
        link := { c.link with reconnect_thread_running_ := false },
        world := c.world.emit (Event.joinThread ThreadFn.reconnectThread) } : Ctx M)
    have ha2 : DataLink.attemptReconnect cb 2
        ({ c.advance ds dr bs br g with
          link := { (c.advance ds dr bs br g).link with reconnect_thread_running_ := false },
          world := (c.advance ds dr bs br g).world.emit
            (Event.joinThread ThreadFn.reconnectThread) } : Ctx M) =
        (DataLink.attemptReconnect cb 2
          ({ c with
            link := { c.link with reconnect_thread_running_ := false },
            world := c.world.emit (Event.joinThread ThreadFn.reconnectThread) } :
              Ctx M)).advance ds dr bs br g := ha
    rw [ha2]
    rfl
  · have hh2 : ¬ (c.advance ds dr bs br g).link.reconnect_thread_ = true := hh
    rw [if_neg hh, if_neg hh2]
    rfl

/-- The method `startReconnectTimer` on an advanced state. -/
theorem startReconnectTimer_advance (h : CallbacksCommute cb (Ctx.advance ds dr bs br g))
    (c : Ctx M) :
    DataLink.startReconnectTimer cb (c.advance ds dr bs br g) =
      (DataLink.startReconnectTimer cb c).advance ds dr bs br g := by
  unfold DataLink.startReconnectTimer
  dsimp only
  by_cases hr : c.link.reconnect_thread_running_ = true
  · have hr2 : (c.advance ds dr bs br g).link.reconnect_thread_running_ = true := hr
    rw [if_pos hr, if_pos hr2]
  · have hr2 : ¬ (c.advance ds dr bs br g).link.reconnect_thread_running_ = true := hr
    rw [if_neg hr, if_neg hr2]
    have hu := updateConnectionState_advance h ConnectionState.RECONNECTING
      ({ c with link := { c.link with
          current_reconnect_attempts_ := c.link.current_reconnect_attempts_ + 1 } } : Ctx M)
    have hu2 : DataLink.updateConnectionState cb ConnectionState.RECONNECTING
        ({ c.advance ds dr bs br g with link := { (c.advance ds dr bs br g).link with
          current_reconnect_attempts_ :=
            (c.advance ds dr bs br g).link.current_reconnect_attempts_ + 1 } } : Ctx M) =
        (DataLink.updateConnectionState cb ConnectionState.RECONNECTING
          ({ c with link := { c.link with
            current_reconnect_attempts_ := c.link.current_reconnect_attempts_ + 1 } } :
              Ctx M)).advance ds dr bs br g := hu
    rw [hu2]
    rfl

/-- The tail of `handleConnectionError` on an advanced state. -/
theorem errorTail_advance (h : CallbacksCommute cb (Ctx.advance ds dr bs br g)) (c2 : Ctx M) :
    (if (c2.advance ds dr bs br g).link.auto_reconnect_enabled_ = true ∧
        (c2.advance ds dr bs br g).link.current_reconnect_attempts_ <
          (c2.advance ds dr bs br g).link.max_reconnect_attempts_ then
      DataLink.startReconnectTimer cb (c2.advance ds dr bs br g)
    else c2.advance ds dr bs br g) =
    (if c2.link.auto_reconnect_enabled_ = true ∧
        c2.link.current_reconnect_attempts_ < c2.link.max_reconnect_attempts_ then
      DataLink.startReconnectTimer cb c2
    else c2).advance ds dr bs br g := by
  by_cases hc : c2.link.auto_reconnect_enabled_ = true ∧
      c2.link.current_reconnect_attempts_ < c2.link.max_reconnect_attempts_
  · have hc2 : (c2.advance ds dr bs br g).link.auto_reconnect_enabled_ = true ∧
        (c2.advance ds dr bs br g).link.current_reconnect_attempts_ <
          (c2.advance ds dr bs br g).link.max_reconnect_attempts_ := hc
    rw [if_pos hc, if_pos hc2, startReconnectTimer_advance h]
  · have hc2 : ¬ ((c2.advance ds dr bs br g).link.auto_reconnect_enabled_ = true ∧
        (c2.advance ds dr bs br g).link.current_reconnect_attempts_ <
          (c2.advance ds dr bs br g).link.max_reconnect_attempts_) := hc
    rw [if_neg hc, if_neg hc2]

/-- The method `handleConnectionError` on an advanced state. -/
theorem handleConnectionError_advance (h : CallbacksCommute cb (Ctx.advance ds dr bs br g))
    (error : String) (c : Ctx M) :
    DataLink.handleConnectionError cb error (c.advance ds dr bs br g) =
      (DataLink.handleConnectionError cb error c).advance ds dr bs br g := by
  unfold DataLink.handleConnectionError
  dsimp only
  rw [updateConnectionState_advance h]
  cases hf : cb.error_callback_ with
  | none => exact errorTail_advance h _
  | some f =>
    dsimp only
    rw [h.error f hf]
    exact errorTail_advance h _

/-- The method `DataLink::connect` on an advanced state. -/
theorem connect_advance (h : CallbacksCommute cb (Ctx.advance ds dr bs br g))
    (url : String) (c : Ctx M) :
    DataLink.connect cb url (c.advance ds dr bs br g) =
      ((DataLink.connect cb url c).1, (DataLink.connect cb url c).2.advance ds dr bs br g) := by
  unfold DataLink.connect
  dsimp only
  by_cases h1 : c.link.connection_state_ = ConnectionState.CONNECTED
  · have h12 : (c.advance ds dr bs br g).link.connection_state_ = ConnectionState.CONNECTED := h1
    rw [if_pos h1, if_pos h12]
  · have h12 : ¬ (c.advance ds dr bs br g).link.connection_state_ = ConnectionState.CONNECTED := h1
    rw [if_neg h1, if_neg h12]
    by_cases h2 : c.link.connection_state_ = ConnectionState.CONNECTING
    · have h22 : (c.advance ds dr bs br g).link.connection_state_ = ConnectionState.CONNECTING := h2
      rw [if_pos h2, if_pos h22]
    · have h22 : ¬ (c.advance ds dr bs br g).link.connection_state_ = ConnectionState.CONNECTING :=
        h2
      rw [if_neg h2, if_neg h22]
      have hu := updateConnectionState_advance h ConnectionState.CONNECTING
        ({ c with link := { c.link with server_url_ := url } } : Ctx M)
      have hu2 : DataLink.updateConnectionState cb ConnectionState.CONNECTING
          ({ c.advance ds dr bs br g with link := { (c.advance ds dr bs br g).link with
            server_url_ := url } } : Ctx M) =
          (DataLink.updateConnectionState cb ConnectionState.CONNECTING
            ({ c with link := { c.link with server_url_ := url } } : Ctx M)).advance
              ds dr bs br g := hu
      rw [hu2]
      generalize DataLink.updateConnectionState cb ConnectionState.CONNECTING
        ({ c with link := { c.link with server_url_ := url } } : Ctx M) = c2
      by_cases hok : c2.world.websocketConnectResult = true
      · have hok2 : (c2.advance ds dr bs br g).world.websocketConnectResult = true := hok
        rw [if_pos hok, if_pos hok2]
        have hs := handleConnectionSuccess_advance h
          ({ c2 with world := c2.world.websocketConnect url } : Ctx M)
        exact Prod.ext rfl hs
      · have hok2 : ¬ (c2.advance ds dr bs br g).world.websocketConnectResult = true := hok
        rw [if_neg hok, if_neg hok2]
        have hs := handleConnectionError_advance h "连接失败"
          ({ c2 with world := c2.world.websocketConnect url } : Ctx M)
        exact Prod.ext rfl hs

/-- The method `DataLink::disconnect` on an advanced state. -/
theorem disconnect_advance (h : CallbacksCommute cb (Ctx.advance ds dr bs br g)) (c : Ctx M) :
    DataLink.disconnect cb (c.advance ds dr bs br g) =
      (DataLink.disconnect cb c).advance ds dr bs br g := by
  unfold DataLink.disconnect
  dsimp only
  by_cases h1 : c.link.connection_state_ = ConnectionState.DISCONNECTED
  · have h12 : (c.advance ds dr bs br g).link.connection_state_ =
        ConnectionState.DISCONNECTED := h1
    rw [if_pos h1, if_pos h12]
  · have h12 : ¬ (c.advance ds dr bs br g).link.connection_state_ =
        ConnectionState.DISCONNECTED := h1
    rw [if_neg h1, if_neg h12, stopReconnectTimer_advance h]
    exact updateConnectionState_advance h ConnectionState.DISCONNECTED
      ({ DataLink.stopReconnectTimer cb c with
        world := (DataLink.stopReconnectTimer cb c).world.websocketClose } : Ctx M)

/-- The method `setAutoReconnect` on an advanced state. -/
theorem setAutoReconnect_advance (h : CallbacksCommute cb (Ctx.advance ds dr bs br g))
    (enabled : Bool) (m i : Int) (c : Ctx M) :
    DataLink.setAutoReconnect cb enabled m i (c.advance ds dr bs br g) =
      (DataLink.setAutoReconnect cb enabled m i c).advance ds dr bs br g := by
  unfold DataLink.setAutoReconnect
  dsimp only
  split_ifs
  · rfl
  · exact stopReconnectTimer_advance h
      ({ c with link := { c.link with
        auto_reconnect_enabled_ := enabled,
        max_reconnect_attempts_ := m,
        reconnect_interval_ms_ := i } } : Ctx M)

/-- User callbacks on a Link do not look at the counters. -/
theorem observer_commutes :
    CallbacksCommute (LinkCallbacks.observer M) (Ctx.advance ds dr bs br g) := by
  constructor
  · intro f hf s c
    cases hf
    rfl
  · intro f hf s c
    cases hf
    rfl
  · intro f hf s c
    cases hf
    rfl

/-- The loop of `processMessageQueue` on an advanced state. -/
theorem drainLoop_advance (fuel : Nat) (c : MCtx P) :
    WebSocketManager.drainLoop fuel (k.apply c) = k.apply (WebSocketManager.drainLoop fuel c) := by
  induction fuel generalizing c with
  | zero => rfl
  | succ n ih =>
    have hq : (k.apply c).owner.message_queue_ = c.owner.message_queue_ := rfl
    cases ht : P.top c.owner.message_queue_ with
    | none => simp only [WebSocketManager.drainLoop, hq, ht]
    | some m =>
      simp only [WebSocketManager.drainLoop, hq, ht]
      have h1 : DataLink.sendText m.data (k.apply c) =
          ((DataLink.sendText m.data c).1, k.apply (DataLink.sendText m.data c).2) :=
        sendText_advance m.data c
      have h2 : DataLink.sendBinary (bytesOfString m.data) (k.apply c) =
          ((DataLink.sendBinary (bytesOfString m.data) c).1,
            k.apply (DataLink.sendBinary (bytesOfString m.data) c).2) :=
        sendBinary_advance (bytesOfString m.data) c
      have h3 : (if m.type = MessageType.TEXT then DataLink.sendText m.data (k.apply c)
          else if m.type = MessageType.BINARY then
            DataLink.sendBinary (bytesOfString m.data) (k.apply c)
          else (false, k.apply c)) =
          ((if m.type = MessageType.TEXT then DataLink.sendText m.data c
            else if m.type = MessageType.BINARY then
              DataLink.sendBinary (bytesOfString m.data) c
            else (false, c)).1,
           k.apply (if m.type = MessageType.TEXT then DataLink.sendText m.data c
            else if m.type = MessageType.BINARY then
              DataLink.sendBinary (bytesOfString m.data) c
            else (false, c)).2) := by
        split_ifs
        · exact h1
        · exact h2
        · rfl
      rw [h3]
      generalize (if m.type = MessageType.TEXT then DataLink.sendText m.data c
            else if m.type = MessageType.BINARY then
              DataLink.sendBinary (bytesOfString m.data) c
            else (false, c)) = r
      dsimp only
      by_cases hr : r.1 = true
      · rw [if_pos hr, if_pos hr, ← ih]
        congr 1
        simp only [CounterShift.apply, Ctx.advance, WebSocketManager.advance, advance_add]
      · rw [if_neg hr, if_neg hr]
        simp only [CounterShift.apply, Ctx.advance, WebSocketManager.advance, advance_add]

/-- The method `processMessageQueue` on an advanced state. -/
theorem processMessageQueue_advance (c : MCtx P) :
    WebSocketManager.processMessageQueue (k.apply c) =
      k.apply (WebSocketManager.processMessageQueue c) := by
  unfold WebSocketManager.processMessageQueue
  by_cases h : c.owner.queue_enabled_ = false ∨ WebSocketManager.isConnected c = false
  · have h2 : (k.apply c).owner.queue_enabled_ = false ∨
        WebSocketManager.isConnected (k.apply c) = false := h
    rw [if_pos h, if_pos h2]
  · have h2 : ¬ ((k.apply c).owner.queue_enabled_ = false ∨
        WebSocketManager.isConnected (k.apply c) = false) := h
    rw [if_neg h, if_neg h2]
    exact drainLoop_advance _ c

/-- The method `onConnectionStateChanged` on an advanced state. -/
theorem onConnectionStateChanged_advance (state : ConnectionState) (c : MCtx P) :
    WebSocketManager.onConnectionStateChanged state (k.apply c) =
      k.apply (WebSocketManager.onConnectionStateChanged state c) := by
  unfold WebSocketManager.onConnectionStateChanged
  dsimp only
  have h1 : (if state = ConnectionState.CONNECTED then
      WebSocketManager.processMessageQueue (k.apply c) else k.apply c) =
      k.apply (if state = ConnectionState.CONNECTED then
        WebSocketManager.processMessageQueue c else c) := by
    split_ifs
    · exact processMessageQueue_advance c
    · rfl
  rw [h1]
  generalize (if state = ConnectionState.CONNECTED then
        WebSocketManager.processMessageQueue c else c) = c1
  by_cases h : c1.owner.connection_callback_ = true
  · have h2 : (k.apply c1).owner.connection_callback_ = true := h
    rw [if_pos h, if_pos h2]
    rfl
  · have h2 : ¬ (k.apply c1).owner.connection_callback_ = true := h
    rw [if_neg h, if_neg h2]

/-- The method `onMessageReceived` on an advanced state. -/
theorem onMessageReceived_advance (message : WebSocketMessage) (c : MCtx P) :
    WebSocketManager.onMessageReceived message (k.apply c) =
      k.apply (WebSocketManager.onMessageReceived message c) := by
  unfold WebSocketManager.onMessageReceived
  dsimp only
  by_cases h : c.owner.message_callback_ = true
  · have h2 : (k.apply c).owner.message_callback_ = true := h
    rw [if_pos h, if_pos h2]
    simp only [CounterShift.apply, Ctx.advance, WebSocketManager.advance, advance_add]
  · have h2 : ¬ (k.apply c).owner.message_callback_ = true := h
    rw [if_neg h, if_neg h2]
    simp only [CounterShift.apply, Ctx.advance, WebSocketManager.advance, advance_add]

/-- The method `onError` on an advanced state. -/
theorem onError_advance (error : String) (c : MCtx P) :
    WebSocketManager.onError error (k.apply c) = k.apply (WebSocketManager.onError error c) := by
  unfold WebSocketManager.onError
  by_cases h : c.owner.error_callback_ = true
  · have h2 : (k.apply c).owner.error_callback_ = true := h
    rw [if_pos h, if_pos h2]
    rfl
  · have h2 : ¬ (k.apply c).owner.error_callback_ = true := h
    rw [if_neg h, if_neg h2]

/-- The callbacks the Manager registers on its Link commute with advancing the
counters. -/
theorem manager_commutes :
    CallbacksCommute (WebSocketManager.linkCallbacks P)
      (Ctx.advance k.messages_sent k.messages_received k.bytes_sent k.bytes_received
        (WebSocketManager.advance k.sent_success k.sent_failed k.received)) := by
  constructor
  · intro f hf s c
    cases hf
    exact onConnectionStateChanged_advance s c
  · intro f hf s c
    cases hf
    exact onMessageReceived_advance s c
  · intro f hf s c
    cases hf
    exact onError_advance s c

/-- The method `WebSocketManager::sendPing` on an advanced state. -/
theorem manager_sendPing_advance (c : MCtx P) :
    WebSocketManager.sendPing (k.apply c) =
      ((WebSocketManager.sendPing c).1, k.apply (WebSocketManager.sendPing c).2) := by
  unfold WebSocketManager.sendPing
  by_cases h : c.owner.datalink_ = false
  · have h2 : (k.apply c).owner.datalink_ = false := h
    rw [if_pos h, if_pos h2]
  · have h2 : ¬ (k.apply c).owner.datalink_ = false := h
    rw [if_neg h, if_neg h2]
    exact sendPing_advance c

/-- One step of the heartbeat thread on an advanced state. -/
theorem performHeartbeatStep_advance (c : MCtx P) :
    WebSocketManager.performHeartbeatStep (k.apply c) =
      k.apply (WebSocketManager.performHeartbeatStep c) := by
  unfold WebSocketManager.performHeartbeatStep
  have hw : (k.apply c).world = c.world := rfl
  rw [hw]
  cases hp : c.world.heartbeatPc with
  | none => rfl
  | some pc =>
    cases pc with
    | loopHead =>
      dsimp only
      by_cases h : c.owner.heartbeat_thread_running_ = false
      · have h2 : (k.apply c).owner.heartbeat_thread_running_ = false := h
        rw [if_pos h, if_pos h2]
        rfl
      · have h2 : ¬ (k.apply c).owner.heartbeat_thread_running_ = false := h
        rw [if_neg h, if_neg h2]
        rfl
    | slept =>
      dsimp only
      by_cases h : c.owner.heartbeat_thread_running_ = false
      · have h2 : (k.apply c).owner.heartbeat_thread_running_ = false := h
        rw [if_pos h, if_pos h2]
        rfl
      · have h2 : ¬ (k.apply c).owner.heartbeat_thread_running_ = false := h
        rw [if_neg h, if_neg h2]
        rfl
    | tick =>
      dsimp only
      have h1 : (if WebSocketManager.isConnected (k.apply c) = true then
          (WebSocketManager.sendPing (k.apply c)).2 else k.apply c) =
          k.apply (if WebSocketManager.isConnected c = true then
            (WebSocketManager.sendPing c).2 else c) := by
        have hi : WebSocketManager.isConnected (k.apply c) = WebSocketManager.isConnected c := rfl
        rw [hi, manager_sendPing_advance]
        split_ifs <;> rfl
      rw [h1]
      rfl

/-- The heartbeat thread on an advanced state. -/
theorem performHeartbeat_advance (fuel : Nat) (c : MCtx P) :
    WebSocketManager.performHeartbeat fuel (k.apply c) =
      k.apply (WebSocketManager.performHeartbeat fuel c) := by
  induction fuel generalizing c with
  | zero => rfl
  | succ n ih =>
    simp only [WebSocketManager.performHeartbeat]
    rw [performHeartbeatStep_advance, ih]

/-- The method `startHeartbeat` on an advanced state. -/
theorem startHeartbeat_advance (c : MCtx P) :
    WebSocketManager.startHeartbeat (k.apply c) = k.apply (WebSocketManager.startHeartbeat c) := by
  unfold WebSocketManager.startHeartbeat
  by_cases h : c.owner.heartbeat_thread_running_ = true
  · have h2 : (k.apply c).owner.heartbeat_thread_running_ = true := h
    rw [if_pos h, if_pos h2]
  · have h2 : ¬ (k.apply c).owner.heartbeat_thread_running_ = true := h
    rw [if_neg h, if_neg h2]
    rfl

/-- The method `stopHeartbeat` on an advanced state. -/
theorem stopHeartbeat_advance (c : MCtx P) :
    WebSocketManager.stopHeartbeat (k.apply c) = k.apply (WebSocketManager.stopHeartbeat c) := by
  unfold WebSocketManager.stopHeartbeat
  dsimp only
  by_cases h : c.owner.heartbeat_thread_ = true
  · have h2 : (k.apply c).owner.heartbeat_thread_ = true := h
    rw [if_pos h, if_pos h2]
    have hp2 : WebSocketManager.performHeartbeat 2
        ({ k.apply c with
          owner := { (k.apply c).owner with heartbeat_thread_running_ := false },
          world := (k.apply c).world.emit (Event.joinThread ThreadFn.heartbeatThread) } :
            MCtx P) =
        k.apply (WebSocketManager.performHeartbeat 2
          ({ c with
            owner := { c.owner with heartbeat_thread_running_ := false },
            world := c.world.emit (Event.joinThread ThreadFn.heartbeatThread) } : MCtx P)) :=
      performHeartbeat_advance 2
        ({ c with
          owner := { c.owner with heartbeat_thread_running_ := false },
          world := c.world.emit (Event.joinThread ThreadFn.heartbeatThread) } : MCtx P)
    rw [hp2]
    rfl
  · have h2 : ¬ (k.apply c).owner.heartbeat_thread_ = true := h
    rw [if_neg h, if_neg h2]
    rfl

/-- The method `enableHeartbeat` on an advanced state. -/
theorem enableHeartbeat_advance (enabled : Bool) (c : MCtx P) :
    WebSocketManager.enableHeartbeat enabled (k.apply c) =
      k.apply (WebSocketManager.enableHeartbeat enabled c) := by
  unfold WebSocketManager.enableHeartbeat
  dsimp only
  split_ifs
  · exact startHeartbeat_advance
      ({ c with owner := { c.owner with heartbeat_enabled_ := enabled } } : MCtx P)
  · exact stopHeartbeat_advance
      ({ c with owner := { c.owner with heartbeat_enabled_ := enabled } } : MCtx P)

/-- The method `enableMessageQueue` on an advanced state. -/
theorem enableMessageQueue_advance (enabled : Bool) (n : Nat) (c : MCtx P) :
    WebSocketManager.enableMessageQueue enabled n (k.apply c) =
      k.apply (WebSocketManager.enableMessageQueue enabled n c) := by
  unfold WebSocketManager.enableMessageQueue
  dsimp only
  split_ifs <;> rfl

/-- The method `WebSocketManager::connect` on an advanced state. -/
theorem manager_connect_advance (url : String) (auto_reconnect : Bool) (c : MCtx P) :
    WebSocketManager.connect url auto_reconnect (k.apply c) =
      ((WebSocketManager.connect url auto_reconnect c).1,
        k.apply (WebSocketManager.connect url auto_reconnect c).2) := by
  unfold WebSocketManager.connect
  by_cases h : c.owner.datalink_ = false
  · have h2 : (k.apply c).owner.datalink_ = false := h
    rw [if_pos h, if_pos h2]
  · have h2 : ¬ (k.apply c).owner.datalink_ = false := h
    rw [if_neg h, if_neg h2]
    have h3 : DataLink.setAutoReconnect (WebSocketManager.linkCallbacks P) auto_reconnect 5 1000
        (k.apply c) = k.apply (DataLink.setAutoReconnect (WebSocketManager.linkCallbacks P)
          auto_reconnect 5 1000 c) :=
      setAutoReconnect_advance manager_commutes auto_reconnect 5 1000 c
    rw [h3]
    exact connect_advance manager_commutes url _

/-- The method `WebSocketManager::disconnect` on an advanced state. -/
theorem manager_disconnect_advance (c : MCtx P) :
    WebSocketManager.disconnect (k.apply c) = k.apply (WebSocketManager.disconnect c) := by
  unfold WebSocketManager.disconnect
  dsimp only
  have h1 : (if (k.apply c).owner.datalink_ = true then
      DataLink.disconnect (WebSocketManager.linkCallbacks P) (k.apply c) else k.apply c) =
      k.apply (if c.owner.datalink_ = true then
        DataLink.disconnect (WebSocketManager.linkCallbacks P) c else c) := by
    have hd : (k.apply c).owner.datalink_ = c.owner.datalink_ := rfl
    rw [hd]
    split_ifs
    · exact disconnect_advance manager_commutes c
    · rfl
  rw [h1]
  exact stopHeartbeat_advance _

/-- The method `WebSocketManager::sendText` on an advanced state. -/
theorem manager_sendText_advance (message : String) (priority : MessagePriority) (c : MCtx P) :
    WebSocketManager.sendText message priority (k.apply c) =
      ((WebSocketManager.sendText message priority c).1,
        k.apply (WebSocketManager.sendText message priority c).2) := by
  unfold WebSocketManager.sendText
  dsimp only
  have hd : (k.apply c).owner.datalink_ = c.owner.datalink_ := rfl
  have hi : WebSocketManager.isConnected (k.apply c) = WebSocketManager.isConnected c := rfl
  have hq : (k.apply c).owner.queue_enabled_ = c.owner.queue_enabled_ := rfl
  have hm : (k.apply c).owner.message_queue_ = c.owner.message_queue_ := rfl
  have hx : (k.apply c).owner.max_queue_size_ = c.owner.max_queue_size_ := rfl
  have hf : (k.apply c).owner.send_failure_callback_ = c.owner.send_failure_callback_ := rfl
  have hs : (DataLink.sendText message c).2.owner.send_success_callback_ =
      c.owner.send_success_callback_ := by
    unfold DataLink.sendText; dsimp only; split_ifs <;> rfl
  have hf2 : (DataLink.sendText message c).2.owner.send_failure_callback_ =
      c.owner.send_failure_callback_ := by
    unfold DataLink.sendText; dsimp only; split_ifs <;> rfl
  have hl : DataLink.sendText message (k.apply c) =
      ((DataLink.sendText message c).1, k.apply (DataLink.sendText message c).2) :=
    sendText_advance message c
  rw [hd, hi, hq, hm, hx, hl]
  dsimp only
  by_cases h1 : c.owner.datalink_ = false
  · rw [if_pos h1, if_pos h1]
  · rw [if_neg h1, if_neg h1]
    by_cases h2 : WebSocketManager.isConnected c = false
    · rw [if_pos h2, if_pos h2]
      by_cases h3 : c.owner.queue_enabled_ = true
      · rw [if_pos h3, if_pos h3]
        by_cases h4 : P.size c.owner.message_queue_ < c.owner.max_queue_size_
        · rw [if_pos h4, if_pos h4]
          rfl
        · rw [if_neg h4, if_neg h4]
          by_cases h5 : c.owner.send_failure_callback_ = true
          · have h52 : (k.apply c).owner.send_failure_callback_ = true := h5
            rw [if_pos h5, if_pos h52]
            simp only [CounterShift.apply, Ctx.advance, WebSocketManager.advance, advance_add]
          · have h52 : ¬ (k.apply c).owner.send_failure_callback_ = true := h5
            rw [if_neg h5, if_neg h52]
            simp only [CounterShift.apply, Ctx.advance, WebSocketManager.advance, advance_add]
      · rw [if_neg h3, if_neg h3]
        by_cases h5 : c.owner.send_failure_callback_ = true
        · have h52 : (k.apply c).owner.send_failure_callback_ = true := h5
          rw [if_pos h5, if_pos h52]
          simp only [CounterShift.apply, Ctx.advance, WebSocketManager.advance, advance_add]
        · have h52 : ¬ (k.apply c).owner.send_failure_callback_ = true := h5
          rw [if_neg h5, if_neg h52]
          simp only [CounterShift.apply, Ctx.advance, WebSocketManager.advance, advance_add]
    · rw [if_neg h2, if_neg h2]
      by_cases h6 : (DataLink.sendText message c).1 = true
      · rw [if_pos h6, if_pos h6]
        by_cases h5 : c.owner.send_success_callback_ = true
        · have h51 : (DataLink.sendText message c).2.owner.send_success_callback_ = true :=
            hs.trans h5
          have h52 : (k.apply (DataLink.sendText message c).2).owner.send_success_callback_ =
              true := h51
          rw [if_pos h51, if_pos h52]
          simp only [CounterShift.apply, Ctx.advance, WebSocketManager.advance, advance_add]
        · have h51 : ¬ (DataLink.sendText message c).2.owner.send_success_callback_ = true :=
            fun hh => h5 (hs.symm.trans hh)
          have h52 : ¬ (k.apply (DataLink.sendText message c).2).owner.send_success_callback_ =
              true := h51
          rw [if_neg h51, if_neg h52]
          simp only [CounterShift.apply, Ctx.advance, WebSocketManager.advance, advance_add]
      · rw [if_neg h6, if_neg h6]
        by_cases h5 : c.owner.send_failure_callback_ = true
        · have h51 : (DataLink.sendText message c).2.owner.send_failure_callback_ = true :=
            hf2.trans h5
          have h52 : (k.apply (DataLink.sendText message c).2).owner.send_failure_callback_ =
              true := h51
          rw [if_pos h51, if_pos h52]
          simp only [CounterShift.apply, Ctx.advance, WebSocketManager.advance, advance_add]
        · have h51 : ¬ (DataLink.sendText message c).2.owner.send_failure_callback_ = true :=
            fun hh => h5 (hf2.symm.trans hh)
          have h52 : ¬ (k.apply (DataLink.sendText message c).2).owner.send_failure_callback_ =
              true := h51
          rw [if_neg h51, if_neg h52]
          simp only [CounterShift.apply, Ctx.advance, WebSocketManager.advance, advance_add]

/-- The method `WebSocketManager::sendBinary` on an advanced state. -/
theorem manager_sendBinary_advance (data : List Nat) (priority : MessagePriority) (c : MCtx P) :
    WebSocketManager.sendBinary data priority (k.apply c) =
      ((WebSocketManager.sendBinary data priority c).1,
        k.apply (WebSocketManager.sendBinary data priority c).2) := by
  unfold WebSocketManager.sendBinary
  dsimp only
  have hd : (k.apply c).owner.datalink_ = c.owner.datalink_ := rfl
  have hi : WebSocketManager.isConnected (k.apply c) = WebSocketManager.isConnected c := rfl
  have hq : (k.apply c).owner.queue_enabled_ = c.owner.queue_enabled_ := rfl
  have hm : (k.apply c).owner.message_queue_ = c.owner.message_queue_ := rfl
  have hx : (k.apply c).owner.max_queue_size_ = c.owner.max_queue_size_ := rfl
  have hl : DataLink.sendBinary data (k.apply c) =
      ((DataLink.sendBinary data c).1, k.apply (DataLink.sendBinary data c).2) :=
    sendBinary_advance data c
  rw [hd, hi, hq, hm, hx, hl]
  dsimp only
  by_cases h1 : c.owner.datalink_ = false
  · rw [if_pos h1, if_pos h1]
  · rw [if_neg h1, if_neg h1]
    by_cases h2 : WebSocketManager.isConnected c = false
    · rw [if_pos h2, if_pos h2]
      by_cases h3 : c.owner.queue_enabled_ = true
      · rw [if_pos h3, if_pos h3]
        by_cases h4 : P.size c.owner.message_queue_ < c.owner.max_queue_size_
        · rw [if_pos h4, if_pos h4]
          rfl
        · rw [if_neg h4, if_neg h4]
          simp only [CounterShift.apply, Ctx.advance, WebSocketManager.advance, advance_add]
      · rw [if_neg h3, if_neg h3]
        simp only [CounterShift.apply, Ctx.advance, WebSocketManager.advance, advance_add]
    · rw [if_neg h2, if_neg h2]
      by_cases h6 : (DataLink.sendBinary data c).1 = true
      · rw [if_pos h6, if_pos h6]
        simp only [CounterShift.apply, Ctx.advance, WebSocketManager.advance, advance_add]
      · rw [if_neg h6, if_neg h6]
        simp only [CounterShift.apply, Ctx.advance, WebSocketManager.advance, advance_add]

/-- Every Manager operation gives the same result, advanced, on an advanced state. -/
theorem managerOp_advance (op : ManagerOp) (c : MCtx P) :
    op.run (k.apply c) = k.apply (op.run c) := by
  cases op with
  | connect url auto_reconnect =>
    exact congrArg Prod.snd (manager_connect_advance url auto_reconnect c)
  | disconnect => exact manager_disconnect_advance c
  | sendText message priority =>
    exact congrArg Prod.snd (manager_sendText_advance message priority c)
  | sendBinary data priority =>
    exact congrArg Prod.snd (manager_sendBinary_advance data priority c)
  | sendPing => exact congrArg Prod.snd (manager_sendPing_advance c)
  | enableMessageQueue enabled n => exact enableMessageQueue_advance enabled n c
  | processMessageQueue => exact processMessageQueue_advance c
  | clearMessageQueue => rfl
  | setHeartbeatInterval interval_ms => rfl
  | enableHeartbeat enabled => exact enableHeartbeat_advance enabled c
  | reconnectThreadStep => exact attemptReconnectStep_advance manager_commutes c
  | heartbeatThreadStep => exact performHeartbeatStep_advance c

/-- Every Link operation gives the same result, advanced, on an advanced state. -/
theorem linkOp_advance (h : CallbacksCommute cb (Ctx.advance ds dr bs br g)) (op : LinkOp)
    (c : Ctx M) :
    op.run cb (c.advance ds dr bs br g) = (op.run cb c).advance ds dr bs br g := by
  cases op with
  | connect url => exact congrArg Prod.snd (connect_advance h url c)
  | disconnect => exact disconnect_advance h c
  | sendText message => exact congrArg Prod.snd (sendText_advance message c)
  | sendBinary data => exact congrArg Prod.snd (sendBinary_advance data c)
  | sendPing => exact congrArg Prod.snd (sendPing_advance c)
  | setAutoReconnect enabled m i => exact setAutoReconnect_advance h enabled m i c
  | reconnectThreadStep => exact attemptReconnectStep_advance h c

/-- The Link counters of an advanced state. -/
theorem linkCounters_advance (ds dr bs br : Nat) (g : M → M) (c : Ctx M) :
    linkCounters (c.advance ds dr bs br g) =
      List.zipWith (fun d x => (d + x) % UINT64_MOD) (linkCounters c) [ds, dr, bs, br] := rfl

/-- A state with valid Link counters is its zeroed state advanced by those counters. -/
theorem advance_zeroLinkCounters (c : Ctx M) (h : CountersValid (linkCounters c)) :
    (zeroLinkCounters c).advance c.link.messages_sent_ c.link.messages_received_
      c.link.bytes_sent_ c.link.bytes_received_ id = c := by
  have h1 : c.link.messages_sent_ < UINT64_MOD := h _ (by simp [linkCounters])
  have h2 : c.link.messages_received_ < UINT64_MOD := h _ (by simp [linkCounters])
  have h3 : c.link.bytes_sent_ < UINT64_MOD := h _ (by simp [linkCounters])
  have h4 : c.link.bytes_received_ < UINT64_MOD := h _ (by simp [linkCounters])
  simp only [Ctx.advance, DataLink.advance, zeroLinkCounters, Nat.zero_add,
    Nat.mod_eq_of_lt h1, Nat.mod_eq_of_lt h2, Nat.mod_eq_of_lt h3, Nat.mod_eq_of_lt h4, id]

/-- The counters of an advanced Manager state. -/
theorem managerCounters_apply (k : CounterShift) (c : MCtx P) :
    managerCounters (k.apply c) =
      List.zipWith (fun d x => (d + x) % UINT64_MOD) (managerCounters c)
        [k.messages_sent, k.messages_received, k.bytes_sent, k.bytes_received,
          k.sent_success, k.sent_failed, k.received] := rfl

/-- A Manager state with valid counters is its zeroed state advanced by those
counters. -/
theorem apply_zeroManagerCounters (c : MCtx P) (h : CountersValid (managerCounters c)) :
    (CounterShift.of c).apply (zeroManagerCounters c) = c := by
  have h1 : c.link.messages_sent_ < UINT64_MOD := h _ (by simp [managerCounters, linkCounters])
  have h2 : c.link.messages_received_ < UINT64_MOD :=
    h _ (by simp [managerCounters, linkCounters])
  have h3 : c.link.bytes_sent_ < UINT64_MOD := h _ (by simp [managerCounters, linkCounters])
  have h4 : c.link.bytes_received_ < UINT64_MOD := h _ (by simp [managerCounters, linkCounters])
  have h5 : c.owner.messages_sent_success_ < UINT64_MOD :=
    h _ (by simp [managerCounters, linkCounters])
  have h6 : c.owner.messages_sent_failed_ < UINT64_MOD :=
    h _ (by simp [managerCounters, linkCounters])
  have h7 : c.owner.messages_received_ < UINT64_MOD :=
    h _ (by simp [managerCounters, linkCounters])
  simp only [CounterShift.apply, CounterShift.of, Ctx.advance, DataLink.advance,
    WebSocketManager.advance, zeroManagerCounters, zeroLinkCounters, Nat.zero_add,
    Nat.mod_eq_of_lt h1, Nat.mod_eq_of_lt h2, Nat.mod_eq_of_lt h3, Nat.mod_eq_of_lt h4,
    Nat.mod_eq_of_lt h5, Nat.mod_eq_of_lt h6, Nat.mod_eq_of_lt h7]

end CounterTheorems

/-! ## No operation decreases a counter: the bounds -/

section CounterBoundTheorems

variable {M : Type} {P : PriorityQueue}

/-- A counter kept in 64 bits after an addition is not above the sum. -/
theorem mod_add_le (x k : Nat) : (x + k) % UINT64_MOD ≤ x + k :=
  Nat.mod_le _ _

/-- The bytes in the queue after `pop` and the bytes of the entry popped make the bytes
in the queue before. -/
theorem queuedBytes_pop (q : P.Q) (m : QueuedMessage) (ht : P.top q = some m) :
    ((P.items (P.pop q)).map fun x => x.data.length).sum + m.data.length =
      ((P.items q).map fun x => x.data.length).sum := by
  have h : (fun x : QueuedMessage => x.data.length) m +
      (((P.items q).erase m).map fun x : QueuedMessage => x.data.length).sum =
      ((P.items q).map fun x : QueuedMessage => x.data.length).sum :=
    Multiset.sum_map_erase (f := fun x : QueuedMessage => x.data.length) (P.top_mem q m ht)
  rw [P.items_pop q m ht, Nat.add_comm]
  exact h

/-- A part of the queue holds no more bytes than the queue. -/
theorem queuedBytes_le_of_le {s t : Multiset QueuedMessage} (h : s ≤ t) :
    (s.map fun x => x.data.length).sum ≤ (t.map fun x => x.data.length).sum := by
  obtain ⟨u, rfl⟩ := Multiset.le_iff_exists_add.mp h
  rw [Multiset.map_add, Multiset.sum_add]
  exact Nat.le_add_right _ _

/-- The relation `CountersBounded` is reflexive. -/
theorem countersBounded_refl (c : MCtx P) : CountersBounded c c :=
  ⟨le_refl _, le_refl _, le_refl _, le_refl _, le_refl _, fun _ => le_refl _, fun h => h,
    le_refl _, le_refl _⟩

/-- The relation `CountersBounded` is transitive. -/
theorem countersBounded_trans {a b c : MCtx P} (h1 : CountersBounded a b)
    (h2 : CountersBounded b c) : CountersBounded a c where
  messages_sent_ := by have := h1.messages_sent_; have := h2.messages_sent_; omega
  bytes_sent_ := by have := h1.bytes_sent_; have := h2.bytes_sent_; omega
  messages_received_ := le_trans h2.messages_received_ h1.messages_received_
  bytes_received_ := le_trans h2.bytes_received_ h1.bytes_received_
  sent_success := by have := h1.sent_success; have := h2.sent_success; omega
  sent_failed := by
    intro ht
    have := h1.sent_failed ht
    have := h2.sent_failed (h1.typed ht)
    omega
  typed := fun ht => h2.typed (h1.typed ht)
  received := le_trans h2.received h1.received
  sendCalls := le_trans h1.sendCalls h2.sendCalls

/-- A state whose counters are those of `c`, whose queue holds no entry that the queue
of `c` does not hold, and in which no fewer sends have been made, is within the
bounds. -/
theorem countersBounded_of_same {c c2 : MCtx P}
    (hl1 : c2.link.messages_sent_ = c.link.messages_sent_)
    (hl2 : c2.link.messages_received_ = c.link.messages_received_)
    (hl3 : c2.link.bytes_sent_ = c.link.bytes_sent_)
    (hl4 : c2.link.bytes_received_ = c.link.bytes_received_)
    (hq : P.items c2.owner.message_queue_ ≤ P.items c.owner.message_queue_)
    (ho1 : c2.owner.messages_sent_success_ = c.owner.messages_sent_success_)
    (ho2 : c2.owner.messages_sent_failed_ = c.owner.messages_sent_failed_)
    (ho3 : c2.owner.messages_received_ = c.owner.messages_received_)
    (hs : c.world.sendCalls ≤ c2.world.sendCalls) :
    CountersBounded c c2 where
  messages_sent_ := by rw [hl1]; omega
  bytes_sent_ := by
    have := queuedBytes_le_of_le hq
    unfold queuedBytes
    rw [hl3]
    omega
  messages_received_ := le_of_eq hl2
  bytes_received_ := le_of_eq hl4
  sent_success := by rw [ho1]; omega
  sent_failed := by intro _; rw [ho2]; omega
  typed := fun ht x hx => ht x (Multiset.mem_of_le hq hx)
  received := le_of_eq ho3
  sendCalls := hs

/-- The delivery attempt of one queue entry on a connected Link. -/
theorem deliver_bound (c : MCtx P) (m : QueuedMessage)
    (hconn : DataLink.isConnected c = true) :
    ∃ r : Bool × MCtx P,
      (if m.type = MessageType.TEXT then DataLink.sendText m.data c
        else if m.type = MessageType.BINARY then
          DataLink.sendBinary (bytesOfString m.data) c
        else (false, c)) = r ∧
      r.2.owner = c.owner ∧
      DataLink.isConnected r.2 = true ∧
      r.2.link.messages_received_ = c.link.messages_received_ ∧
      r.2.link.bytes_received_ = c.link.bytes_received_ ∧
      c.world.sendCalls ≤ r.2.world.sendCalls ∧
      (r.1 = true → r.2.link.messages_sent_ ≤ c.link.messages_sent_ + 1 ∧
        r.2.link.bytes_sent_ ≤ c.link.bytes_sent_ + m.data.length ∧
        r.2.world.sendCalls = c.world.sendCalls + 1) ∧
      (r.1 = false → r.2.link = c.link ∧
        (m.type = MessageType.TEXT ∨ m.type = MessageType.BINARY →
          r.2.world.sendCalls = c.world.sendCalls + 1)) := by
  refine ⟨_, rfl, ?_⟩
  have hlen : (bytesOfString m.data).length = m.data.length := by
    unfold bytesOfString
    rw [List.length_map]
    rfl
  have hne : ¬ DataLink.isConnected c = false := by rw [hconn]; decide
  unfold DataLink.sendText DataLink.sendBinary
  rw [if_neg hne, if_neg hne]
  by_cases h1 : m.type = MessageType.TEXT
  · rw [if_pos h1]
    by_cases hr : c.world.websocketSendResult = true
    · rw [if_pos hr]
      exact ⟨rfl, hconn, rfl, rfl, Nat.le_succ _,
        fun _ => ⟨mod_add_le _ _, mod_add_le _ _, rfl⟩, fun h => Bool.noConfusion h⟩
    · rw [if_neg hr]
      exact ⟨rfl, hconn, rfl, rfl, Nat.le_succ _, fun h => Bool.noConfusion h,
        fun _ => ⟨rfl, fun _ => rfl⟩⟩
  · rw [if_neg h1]
    by_cases h2 : m.type = MessageType.BINARY
    · rw [if_pos h2]
      by_cases hr : c.world.websocketSendResult = true
      · rw [if_pos hr]
        exact ⟨rfl, hconn, rfl, rfl, Nat.le_succ _,
          fun _ => ⟨mod_add_le _ _, by rw [← hlen]; exact mod_add_le _ _, rfl⟩,
          fun h => Bool.noConfusion h⟩
      · rw [if_neg hr]
        exact ⟨rfl, hconn, rfl, rfl, Nat.le_succ _, fun h => Bool.noConfusion h,
          fun _ => ⟨rfl, fun _ => rfl⟩⟩
    · rw [if_neg h2]
      exact ⟨rfl, hconn, rfl, rfl, le_refl _, fun h => Bool.noConfusion h,
        fun _ => ⟨rfl, fun h => by rcases h with h | h <;> contradiction⟩⟩

/-- The drain loop on a connected Link stays within the bounds. -/
theorem countersBounded_drainLoop (fuel : Nat) (c : MCtx P)
    (hconn : DataLink.isConnected c = true) :
    CountersBounded c (WebSocketManager.drainLoop fuel c) := by
  induction fuel generalizing c with
  | zero => exact countersBounded_refl c
  | succ n ih =>
    simp only [WebSocketManager.drainLoop]
    cases ht : P.top c.owner.message_queue_ with
    | none => exact countersBounded_refl c
    | some m =>
      simp only
      obtain ⟨r, hreq, ho, hc, hmr, hbr, hs, hT, hF⟩ := deliver_bound c m hconn
      rw [hreq]
      have hpop := queuedBytes_pop c.owner.message_queue_ m ht
      by_cases hr : r.1 = true
      · rw [if_pos hr]
        obtain ⟨h1, h2, h3⟩ := hT hr
        refine countersBounded_trans ?_ (ih _ hc)
        constructor
        · show r.2.link.messages_sent_ + c.world.sendCalls ≤
            c.link.messages_sent_ + r.2.world.sendCalls
          omega
        · show r.2.link.bytes_sent_ +
            ((P.items (P.pop r.2.owner.message_queue_)).map fun x => x.data.length).sum ≤
            c.link.bytes_sent_ + ((P.items c.owner.message_queue_).map fun x => x.data.length).sum
          rw [ho]
          omega
        · exact le_of_eq hmr
        · exact le_of_eq hbr
        · show (r.2.owner.messages_sent_success_ + 1) % UINT64_MOD + c.world.sendCalls ≤
            c.owner.messages_sent_success_ + r.2.world.sendCalls
          have := mod_add_le r.2.owner.messages_sent_success_ 1
          rw [ho] at this ⊢
          omega
        · intro _
          show r.2.owner.messages_sent_failed_ + c.world.sendCalls ≤
            c.owner.messages_sent_failed_ + r.2.world.sendCalls
          rw [ho]
          omega
        · intro htyped x hx
          have hx2 : x ∈ P.items (P.pop r.2.owner.message_queue_) := hx
          rw [ho, P.items_pop _ m ht] at hx2
          exact htyped x (Multiset.mem_of_mem_erase hx2)
        · show r.2.owner.messages_received_ ≤ c.owner.messages_received_
          rw [ho]
        · exact hs
      · rw [if_neg hr]
        obtain ⟨hl, hcall⟩ := hF (by simpa using hr)
        constructor
        · show r.2.link.messages_sent_ + c.world.sendCalls ≤
            c.link.messages_sent_ + r.2.world.sendCalls
          rw [hl]
          omega
        · show r.2.link.bytes_sent_ +
            ((P.items r.2.owner.message_queue_).map fun x => x.data.length).sum ≤
            c.link.bytes_sent_ + ((P.items c.owner.message_queue_).map fun x => x.data.length).sum
          rw [hl, ho]
        · exact le_of_eq hmr
        · exact le_of_eq hbr
        · show r.2.owner.messages_sent_success_ + c.world.sendCalls ≤
            c.owner.messages_sent_success_ + r.2.world.sendCalls
          rw [ho]
          omega
        · intro htyped
          show (r.2.owner.messages_sent_failed_ + 1) % UINT64_MOD + c.world.sendCalls ≤
            c.owner.messages_sent_failed_ + r.2.world.sendCalls
          have := mod_add_le r.2.owner.messages_sent_failed_ 1
          have := hcall (htyped m (P.top_mem _ m ht))
          rw [ho] at *
          omega
        · intro htyped x hx
          have hx2 : x ∈ P.items r.2.owner.message_queue_ := hx
          rw [ho] at hx2
          exact htyped x hx2
        · show r.2.owner.messages_received_ ≤ c.owner.messages_received_
          rw [ho]
        · exact hs

/-- The method `processMessageQueue` stays within the bounds. -/
theorem countersBounded_processMessageQueue (c : MCtx P) :
    CountersBounded c (WebSocketManager.processMessageQueue c) := by
  unfold WebSocketManager.processMessageQueue
  split_ifs with h
  · exact countersBounded_refl c
  · refine countersBounded_drainLoop _ c ?_
    have h2 : WebSocketManager.isConnected c = true := by
      cases hh : WebSocketManager.isConnected c with
      | true => rfl
      | false => exact absurd (Or.inr hh) h
    unfold WebSocketManager.isConnected at h2
    simp only [Bool.and_eq_true] at h2
    exact h2.2

/-- The state callback of the Manager stays within the bounds. -/
theorem countersBounded_onConnectionStateChanged (state : ConnectionState) (c : MCtx P) :
    CountersBounded c (WebSocketManager.onConnectionStateChanged state c) := by
  unfold WebSocketManager.onConnectionStateChanged
  dsimp only
  have hemit : ∀ (d : MCtx P) (e : Event),
      CountersBounded d ({ d with world := d.world.emit e } : MCtx P) :=
    fun d e => countersBounded_of_same rfl rfl rfl rfl (le_refl _) rfl rfl rfl (le_refl _)
  by_cases hs : state = ConnectionState.CONNECTED
  · rw [if_pos hs]
    split_ifs
    · exact countersBounded_trans (countersBounded_processMessageQueue c) (hemit _ _)
    · exact countersBounded_processMessageQueue c
  · rw [if_neg hs]
    split_ifs
    · exact hemit _ _
    · exact countersBounded_refl c

/-- The bounds hold across the Link operations of a Manager. -/
theorem linkClosed_countersBounded :
    LinkClosed (WebSocketManager.linkCallbacks P)
      (CountersBounded : MCtx P → MCtx P → Prop) where
  refl := countersBounded_refl
  trans := fun _ _ _ h1 h2 => countersBounded_trans h1 h2
  step := fun _ _ h =>
    countersBounded_of_same h.messages_sent_ h.messages_received_ h.bytes_sent_
      h.bytes_received_ (by rw [h.owner]) (by rw [h.owner]) (by rw [h.owner]) (by rw [h.owner])
      (le_of_eq h.sendCalls.symm)
  connection := by
    intro f hf s c
    simp only [WebSocketManager.linkCallbacks, Option.some.injEq] at hf
    subst hf
    exact countersBounded_onConnectionStateChanged s c
  error := by
    intro f hf e c
    simp only [WebSocketManager.linkCallbacks, Option.some.injEq] at hf
    subst hf
    unfold WebSocketManager.onError
    split_ifs
    · exact countersBounded_of_same rfl rfl rfl rfl (le_refl _) rfl rfl rfl (le_refl _)
    · exact countersBounded_refl c

/-- A step of the heartbeat thread undoes no send. -/
theorem performHeartbeatStep_sendCalls (c : MCtx P) :
    c.world.sendCalls ≤ (WebSocketManager.performHeartbeatStep c).world.sendCalls := by
  unfold WebSocketManager.performHeartbeatStep WebSocketManager.sendPing DataLink.sendPing
  dsimp only
  split
  · exact le_refl _
  · split_ifs <;> exact le_refl _
  · split_ifs <;> exact le_refl _
  · split_ifs <;> first | exact le_refl _ | exact Nat.le_succ _

/-- The heartbeat thread undoes no send. -/
theorem performHeartbeat_sendCalls (n : Nat) (c : MCtx P) :
    c.world.sendCalls ≤ (WebSocketManager.performHeartbeat n c).world.sendCalls := by
  induction n generalizing c with
  | zero => exact le_refl _
  | succ n ih =>
    simp only [WebSocketManager.performHeartbeat]
    exact le_trans (performHeartbeatStep_sendCalls c) (ih _)

/-- The heartbeat thread stays within the bounds. -/
theorem countersBounded_performHeartbeat (n : Nat) (c : MCtx P) :
    CountersBounded c (WebSocketManager.performHeartbeat n c) := by
  have hf := performHeartbeat_frame n c
  exact countersBounded_of_same (by rw [hf.1]) (by rw [hf.1]) (by rw [hf.1]) (by rw [hf.1])
    (by rw [hf.2]) (by rw [hf.2]) (by rw [hf.2]) (by rw [hf.2])
    (performHeartbeat_sendCalls n c)

/-- The method `stopHeartbeat` stays within the bounds. -/
theorem countersBounded_stopHeartbeat (c : MCtx P) :
    CountersBounded c (WebSocketManager.stopHeartbeat c) := by
  unfold WebSocketManager.stopHeartbeat
  dsimp only
  split_ifs
  · have h1 : CountersBounded c ({ c with
        owner := { c.owner with heartbeat_thread_running_ := false },
        world := c.world.emit (Event.joinThread ThreadFn.heartbeatThread) } : MCtx P) :=
      countersBounded_of_same rfl rfl rfl rfl (le_refl _) rfl rfl rfl (le_refl _)
    have h2 := countersBounded_performHeartbeat 2 ({ c with
        owner := { c.owner with heartbeat_thread_running_ := false },
        world := c.world.emit (Event.joinThread ThreadFn.heartbeatThread) } : MCtx P)
    refine countersBounded_trans (countersBounded_trans h1 h2) ?_
    exact countersBounded_of_same rfl rfl rfl rfl (le_refl _) rfl rfl rfl (le_refl _)
  · exact countersBounded_of_same rfl rfl rfl rfl (le_refl _) rfl rfl rfl (le_refl _)

/-- The method `clearMessageQueue` stays within the bounds. -/
theorem countersBounded_clearMessageQueue (c : MCtx P) :
    CountersBounded c (WebSocketManager.clearMessageQueue c) :=
  countersBounded_of_same rfl rfl rfl rfl
    (P.items_popN_le _ c.owner.message_queue_ (le_refl _)) rfl rfl rfl (le_refl _)

/-- Every operation of the Manager other than `sendText` and `sendBinary` stays within
the bounds. -/
theorem countersBounded_run (op : ManagerOp) (c : MCtx P)
    (hsend : ∀ m p, op ≠ ManagerOp.sendText m p) (hbin : ∀ d p, op ≠ ManagerOp.sendBinary d p) :
    CountersBounded c (op.run c) := by
  cases op with
  | connect url a =>
    show CountersBounded c (WebSocketManager.connect url a c).2
    unfold WebSocketManager.connect
    split_ifs
    · exact countersBounded_refl c
    · refine countersBounded_trans ?_ (linkClosed_connect linkClosed_countersBounded url _)
      unfold DataLink.setAutoReconnect
      dsimp only
      split_ifs
      · exact countersBounded_of_same rfl rfl rfl rfl (le_refl _) rfl rfl rfl (le_refl _)
      · refine countersBounded_trans ?_
          (linkClosed_stopReconnectTimer linkClosed_countersBounded _)
        exact countersBounded_of_same rfl rfl rfl rfl (le_refl _) rfl rfl rfl (le_refl _)
  | disconnect =>
    show CountersBounded c (WebSocketManager.disconnect c)
    unfold WebSocketManager.disconnect
    dsimp only
    split_ifs
    · exact countersBounded_trans (linkClosed_disconnect linkClosed_countersBounded c)
        (countersBounded_stopHeartbeat _)
    · exact countersBounded_stopHeartbeat c
  | sendText m p => exact absurd rfl (hsend m p)
  | sendBinary d p => exact absurd rfl (hbin d p)
  | sendPing =>
    show CountersBounded c (WebSocketManager.sendPing c).2
    unfold WebSocketManager.sendPing DataLink.sendPing
    split_ifs
    · exact countersBounded_refl c
    · exact countersBounded_refl c
    · exact countersBounded_of_same rfl rfl rfl rfl (le_refl _) rfl rfl rfl (Nat.le_succ _)
  | enableMessageQueue e n =>
    show CountersBounded c (WebSocketManager.enableMessageQueue e n c)
    unfold WebSocketManager.enableMessageQueue
    dsimp only
    split_ifs
    · exact countersBounded_of_same rfl rfl rfl rfl (le_refl _) rfl rfl rfl (le_refl _)
    · refine countersBounded_trans ?_ (countersBounded_clearMessageQueue _)
      exact countersBounded_of_same rfl rfl rfl rfl (le_refl _) rfl rfl rfl (le_refl _)
  | processMessageQueue => exact countersBounded_processMessageQueue c
  | clearMessageQueue => exact countersBounded_clearMessageQueue c
  | setHeartbeatInterval i =>
    exact countersBounded_of_same rfl rfl rfl rfl (le_refl _) rfl rfl rfl (le_refl _)
  | enableHeartbeat e =>
    show CountersBounded c (WebSocketManager.enableHeartbeat e c)
    unfold WebSocketManager.enableHeartbeat
    dsimp only
    split_ifs
    · unfold WebSocketManager.startHeartbeat
      split_ifs <;>
        exact countersBounded_of_same rfl rfl rfl rfl (le_refl _) rfl rfl rfl (le_refl _)
    · refine countersBounded_trans ?_ (countersBounded_stopHeartbeat _)
      exact countersBounded_of_same rfl rfl rfl rfl (le_refl _) rfl rfl rfl (le_refl _)
  | reconnectThreadStep =>
    exact linkClosed_attemptReconnectStep linkClosed_countersBounded c
  | heartbeatThreadStep => exact countersBounded_performHeartbeat 1 c

/-- What an operation of the Manager can add to the counters: to the sent messages and
the successes no more than the sends it makes, to the failures (the queue holding text
and binary entries only) one more than that, to the sent bytes no more than the bytes
queued and the bytes of its own message, to the received traffic nothing. -/
theorem managerOp_bound (op : ManagerOp) (c : MCtx P) (ht : QueueTyped c) :
    (op.run c).link.messages_sent_ + c.world.sendCalls ≤
      c.link.messages_sent_ + (op.run c).world.sendCalls ∧
    (op.run c).link.messages_received_ ≤ c.link.messages_received_ ∧
    (op.run c).link.bytes_sent_ ≤ c.link.bytes_sent_ + (queuedBytes c + op.payload) ∧
    (op.run c).link.bytes_received_ ≤ c.link.bytes_received_ ∧
    (op.run c).owner.messages_sent_success_ + c.world.sendCalls ≤
      c.owner.messages_sent_success_ + (op.run c).world.sendCalls ∧
    (op.run c).owner.messages_sent_failed_ + c.world.sendCalls ≤
      c.owner.messages_sent_failed_ + (op.run c).world.sendCalls + 1 ∧
    (op.run c).owner.messages_received_ ≤ c.owner.messages_received_ ∧
    c.world.sendCalls ≤ (op.run c).world.sendCalls := by
  have hclosed : CountersBounded c (op.run c) →
      (op.run c).link.messages_sent_ + c.world.sendCalls ≤
        c.link.messages_sent_ + (op.run c).world.sendCalls ∧
      (op.run c).link.messages_received_ ≤ c.link.messages_received_ ∧
      (op.run c).link.bytes_sent_ ≤ c.link.bytes_sent_ + (queuedBytes c + op.payload) ∧
      (op.run c).link.bytes_received_ ≤ c.link.bytes_received_ ∧
      (op.run c).owner.messages_sent_success_ + c.world.sendCalls ≤
        c.owner.messages_sent_success_ + (op.run c).world.sendCalls ∧
      (op.run c).owner.messages_sent_failed_ + c.world.sendCalls ≤
        c.owner.messages_sent_failed_ + (op.run c).world.sendCalls + 1 ∧
      (op.run c).owner.messages_received_ ≤ c.owner.messages_received_ ∧
      c.world.sendCalls ≤ (op.run c).world.sendCalls := by
    intro h
    have h1 := h.bytes_sent_
    have h2 := h.sent_failed ht
    exact ⟨h.messages_sent_, h.messages_received_, by omega, h.bytes_received_, h.sent_success,
      by omega, h.received, h.sendCalls⟩
  by_cases hsend : ∃ m p, op = ManagerOp.sendText m p
  · obtain ⟨m, p, rfl⟩ := hsend
    show (WebSocketManager.sendText m p c).2.link.messages_sent_ + c.world.sendCalls ≤
        c.link.messages_sent_ + (WebSocketManager.sendText m p c).2.world.sendCalls ∧
      (WebSocketManager.sendText m p c).2.link.messages_received_ ≤ c.link.messages_received_ ∧
      (WebSocketManager.sendText m p c).2.link.bytes_sent_ ≤
        c.link.bytes_sent_ + (queuedBytes c + m.length) ∧
      (WebSocketManager.sendText m p c).2.link.bytes_received_ ≤ c.link.bytes_received_ ∧
      (WebSocketManager.sendText m p c).2.owner.messages_sent_success_ + c.world.sendCalls ≤
        c.owner.messages_sent_success_ + (WebSocketManager.sendText m p c).2.world.sendCalls ∧
      (WebSocketManager.sendText m p c).2.owner.messages_sent_failed_ + c.world.sendCalls ≤
        c.owner.messages_sent_failed_ + (WebSocketManager.sendText m p c).2.world.sendCalls + 1 ∧
      (WebSocketManager.sendText m p c).2.owner.messages_received_ ≤
        c.owner.messages_received_ ∧
      c.world.sendCalls ≤ (WebSocketManager.sendText m p c).2.world.sendCalls
    have e1 := mod_add_le c.link.messages_sent_ 1
    have e2 := mod_add_le c.link.bytes_sent_ m.length
    have e3 := mod_add_le c.owner.messages_sent_success_ 1
    have e4 := mod_add_le c.owner.messages_sent_failed_ 1
    unfold WebSocketManager.sendText DataLink.sendText
    dsimp only
    split_ifs <;>
      first
        | contradiction
        | (simp only [World.websocketSend, World.emit, World.getCurrentTimestamp]
           refine ⟨?_, ?_, ?_, ?_, ?_, ?_, ?_, ?_⟩ <;> omega)
  · by_cases hbin : ∃ d p, op = ManagerOp.sendBinary d p
    · obtain ⟨d, p, rfl⟩ := hbin
      show (WebSocketManager.sendBinary d p c).2.link.messages_sent_ + c.world.sendCalls ≤
          c.link.messages_sent_ + (WebSocketManager.sendBinary d p c).2.world.sendCalls ∧
        (WebSocketManager.sendBinary d p c).2.link.messages_received_ ≤
          c.link.messages_received_ ∧
        (WebSocketManager.sendBinary d p c).2.link.bytes_sent_ ≤
          c.link.bytes_sent_ + (queuedBytes c + d.length) ∧
        (WebSocketManager.sendBinary d p c).2.link.bytes_received_ ≤ c.link.bytes_received_ ∧
        (WebSocketManager.sendBinary d p c).2.owner.messages_sent_success_ + c.world.sendCalls ≤
          c.owner.messages_sent_success_ +
            (WebSocketManager.sendBinary d p c).2.world.sendCalls ∧
        (WebSocketManager.sendBinary d p c).2.owner.messages_sent_failed_ + c.world.sendCalls ≤
          c.owner.messages_sent_failed_ +
            (WebSocketManager.sendBinary d p c).2.world.sendCalls + 1 ∧
        (WebSocketManager.sendBinary d p c).2.owner.messages_received_ ≤
          c.owner.messages_received_ ∧
        c.world.sendCalls ≤ (WebSocketManager.sendBinary d p c).2.world.sendCalls
      have e1 := mod_add_le c.link.messages_sent_ 1
      have e2 := mod_add_le c.link.bytes_sent_ d.length
      have e3 := mod_add_le c.owner.messages_sent_success_ 1
      have e4 := mod_add_le c.owner.messages_sent_failed_ 1
      unfold WebSocketManager.sendBinary DataLink.sendBinary
      dsimp only
      split_ifs <;>
        first
          | contradiction
          | (simp only [World.websocketSend, World.emit, World.getCurrentTimestamp]
             refine ⟨?_, ?_, ?_, ?_, ?_, ?_, ?_, ?_⟩ <;> omega)
    · exact hclosed (countersBounded_run op c (fun m p h => hsend ⟨m, p, h⟩)
        (fun d p h => hbin ⟨d, p, h⟩))

/-- What the receipt of a message adds to the counters of a Manager and its Link: one
to the received messages of both, the length of the message to the received bytes. -/
theorem managerReceipt_bound (message : WebSocketMessage) (c : MCtx P) :
    (DataLink.handleMessageReceived (WebSocketManager.linkCallbacks P) message
      c).link.messages_sent_ ≤ c.link.messages_sent_ + 0 ∧
    (DataLink.handleMessageReceived (WebSocketManager.linkCallbacks P) message
      c).link.messages_received_ ≤ c.link.messages_received_ + 1 ∧
    (DataLink.handleMessageReceived (WebSocketManager.linkCallbacks P) message
      c).link.bytes_sent_ ≤ c.link.bytes_sent_ + 0 ∧
    (DataLink.handleMessageReceived (WebSocketManager.linkCallbacks P) message
      c).link.bytes_received_ ≤ c.link.bytes_received_ + message.data.length ∧
    (DataLink.handleMessageReceived (WebSocketManager.linkCallbacks P) message
      c).owner.messages_sent_success_ ≤ c.owner.messages_sent_success_ + 0 ∧
    (DataLink.handleMessageReceived (WebSocketManager.linkCallbacks P) message
      c).owner.messages_sent_failed_ ≤ c.owner.messages_sent_failed_ + 0 ∧
    (DataLink.handleMessageReceived (WebSocketManager.linkCallbacks P) message
      c).owner.messages_received_ ≤ c.owner.messages_received_ + 1 := by
  have e1 := mod_add_le c.link.messages_received_ 1
  have e2 := mod_add_le c.link.bytes_received_ message.data.length
  have e3 := mod_add_le c.owner.messages_received_ 1
  unfold DataLink.handleMessageReceived WebSocketManager.linkCallbacks
    WebSocketManager.onMessageReceived
  dsimp only
  split_ifs <;> exact ⟨le_refl _, e1, le_refl _, e2, le_refl _, le_refl _, e3⟩

/-- With user callbacks on the Link, the Link's own changes and the callbacks leave the
counters not above what they were. -/
theorem linkClosed_notAbove :
    LinkClosed (LinkCallbacks.observer M) (NotAbove : Ctx M → Ctx M → Prop) where
  refl := fun _ => ⟨le_refl _, le_refl _, le_refl _, le_refl _⟩
  trans := fun _ _ _ h1 h2 =>
    ⟨le_trans h2.1 h1.1, le_trans h2.2 h1.2, le_trans h2.3 h1.3, le_trans h2.4 h1.4⟩
  step := fun _ _ h =>
    ⟨le_of_eq h.messages_sent_, le_of_eq h.messages_received_, le_of_eq h.bytes_sent_,
      le_of_eq h.bytes_received_⟩
  connection := by
    intro f hf s c
    cases hf
    exact ⟨le_refl _, le_refl _, le_refl _, le_refl _⟩
  error := by
    intro f hf e c
    cases hf
    exact ⟨le_refl _, le_refl _, le_refl _, le_refl _⟩

/-- With user callbacks on the Link, an operation adds to the counters of sent traffic
no more than its own message and nothing to the counters of received traffic. -/
theorem linkOp_bound (op : LinkOp) (c : Ctx M) :
    (op.run (LinkCallbacks.observer M) c).link.messages_sent_ ≤
      c.link.messages_sent_ + op.sends ∧
    (op.run (LinkCallbacks.observer M) c).link.messages_received_ ≤
      c.link.messages_received_ ∧
    (op.run (LinkCallbacks.observer M) c).link.bytes_sent_ ≤ c.link.bytes_sent_ + op.payload ∧
    (op.run (LinkCallbacks.observer M) c).link.bytes_received_ ≤ c.link.bytes_received_ := by
  have hclosed : ∀ c2 : Ctx M, NotAbove c c2 →
      c2.link.messages_sent_ ≤ c.link.messages_sent_ + 0 ∧
      c2.link.messages_received_ ≤ c.link.messages_received_ ∧
      c2.link.bytes_sent_ ≤ c.link.bytes_sent_ + 0 ∧
      c2.link.bytes_received_ ≤ c.link.bytes_received_ :=
    fun c2 h => ⟨h.1, h.2, h.3, h.4⟩
  cases op with
  | connect url => exact hclosed _ (linkClosed_connect linkClosed_notAbove url c)
  | disconnect => exact hclosed _ (linkClosed_disconnect linkClosed_notAbove c)
  | sendText message =>
    show (DataLink.sendText message c).2.link.messages_sent_ ≤ c.link.messages_sent_ + 1 ∧
      (DataLink.sendText message c).2.link.messages_received_ ≤ c.link.messages_received_ ∧
      (DataLink.sendText message c).2.link.bytes_sent_ ≤ c.link.bytes_sent_ + message.length ∧
      (DataLink.sendText message c).2.link.bytes_received_ ≤ c.link.bytes_received_
    unfold DataLink.sendText
    split_ifs
    · exact ⟨Nat.le_add_right _ _, le_refl _, Nat.le_add_right _ _, le_refl _⟩
    · exact ⟨mod_add_le _ _, le_refl _, mod_add_le _ _, le_refl _⟩
    · exact ⟨Nat.le_add_right _ _, le_refl _, Nat.le_add_right _ _, le_refl _⟩
  | sendBinary data =>
    show (DataLink.sendBinary data c).2.link.messages_sent_ ≤ c.link.messages_sent_ + 1 ∧
      (DataLink.sendBinary data c).2.link.messages_received_ ≤ c.link.messages_received_ ∧
      (DataLink.sendBinary data c).2.link.bytes_sent_ ≤ c.link.bytes_sent_ + data.length ∧
      (DataLink.sendBinary data c).2.link.bytes_received_ ≤ c.link.bytes_received_
    unfold DataLink.sendBinary
    split_ifs
    · exact ⟨Nat.le_add_right _ _, le_refl _, Nat.le_add_right _ _, le_refl _⟩
    · exact ⟨mod_add_le _ _, le_refl _, mod_add_le _ _, le_refl _⟩
    · exact ⟨Nat.le_add_right _ _, le_refl _, Nat.le_add_right _ _, le_refl _⟩
  | sendPing =>
    show (DataLink.sendPing c).2.link.messages_sent_ ≤ c.link.messages_sent_ + 0 ∧
      (DataLink.sendPing c).2.link.messages_received_ ≤ c.link.messages_received_ ∧
      (DataLink.sendPing c).2.link.bytes_sent_ ≤ c.link.bytes_sent_ + 0 ∧
      (DataLink.sendPing c).2.link.bytes_received_ ≤ c.link.bytes_received_
    unfold DataLink.sendPing
    split_ifs <;> exact ⟨le_refl _, le_refl _, le_refl _, le_refl _⟩
  | setAutoReconnect enabled m i =>
    refine hclosed _ ?_
    show NotAbove c (DataLink.setAutoReconnect (LinkCallbacks.observer M) enabled m i c)
    unfold DataLink.setAutoReconnect
    dsimp only
    split_ifs
    · exact ⟨le_refl _, le_refl _, le_refl _, le_refl _⟩
    · have h := linkClosed_stopReconnectTimer linkClosed_notAbove
        ({ c with link := { c.link with
          auto_reconnect_enabled_ := enabled,
          max_reconnect_attempts_ := m,
          reconnect_interval_ms_ := i } } : Ctx M)
      exact ⟨h.1, h.2, h.3, h.4⟩
  | reconnectThreadStep =>
    exact hclosed _ (linkClosed_attemptReconnectStep linkClosed_notAbove c)

/-- With user callbacks on the Link, the receipt of a message adds at most one to the
received messages and at most its length to the received bytes. -/
theorem receipt_bound (message : WebSocketMessage) (c : Ctx M) :
    (DataLink.handleMessageReceived (LinkCallbacks.observer M) message c).link.messages_sent_ ≤
      c.link.messages_sent_ + 0 ∧
    (DataLink.handleMessageReceived (LinkCallbacks.observer M) message
      c).link.messages_received_ ≤ c.link.messages_received_ + 1 ∧
    (DataLink.handleMessageReceived (LinkCallbacks.observer M) message c).link.bytes_sent_ ≤
      c.link.bytes_sent_ + 0 ∧
    (DataLink.handleMessageReceived (LinkCallbacks.observer M) message c).link.bytes_received_ ≤
      c.link.bytes_received_ + message.data.length :=
  ⟨le_refl _, mod_add_le _ _, le_refl _, mod_add_le _ _⟩

/-- Adding to counters, in 64 bits, amounts that are within their bounds does not
decrease a counter that the bound cannot take past the largest `uint64_t`. -/
theorem notDecreased_zipWith (xs ds bs : List Nat) (h : List.Forall₂ (fun d b => d ≤ b) ds bs)
    (hlen : xs.length = ds.length) :
    NotDecreased xs ds bs (List.zipWith (fun d x => (d + x) % UINT64_MOD) ds xs) := by
  induction h generalizing xs with
  | nil =>
    cases xs with
    | nil => trivial
    | cons x xs => cases hlen
  | @cons d b ds bs hdb _ ih =>
    cases xs with
    | nil => cases hlen
    | cons x xs =>
      refine ⟨hdb, ?_, ?_, ih xs (by simpa using hlen)⟩
      · show (d + x) % UINT64_MOD = (x + d) % UINT64_MOD
        rw [Nat.add_comm]
      · intro hlt
        show (d + x) % UINT64_MOD = x + d ∧ x ≤ (d + x) % UINT64_MOD
        have hlt2 : x + d < UINT64_MOD := by omega
        rw [Nat.add_comm d x, Nat.mod_eq_of_lt hlt2]
        exact ⟨rfl, Nat.le_add_right x d⟩

/-- A step of a Link that commutes with advancing the counters and, from counters at
zero, stays within the bounds, does not decrease the counters. -/
theorem link_step_notDecreased (f : Ctx M → Ctx M) (bs : List Nat)
    (hf : ∀ ds dr bs br c, f (Ctx.advance ds dr bs br id c) = Ctx.advance ds dr bs br id (f c))
    (c : Ctx M) (h : CountersValid (linkCounters c))
    (hb : List.Forall₂ (fun d b => d ≤ b) (linkCounters (f (zeroLinkCounters c))) bs) :
    NotDecreased (linkCounters c) (linkCounters (f (zeroLinkCounters c))) bs
      (linkCounters (f c)) := by
  have h1 : linkCounters (f c) = List.zipWith (fun d x => (d + x) % UINT64_MOD)
      (linkCounters (f (zeroLinkCounters c))) (linkCounters c) := by
    conv_lhs => rw [← advance_zeroLinkCounters c h, hf]
    rfl
  rw [h1]
  exact notDecreased_zipWith _ _ _ hb rfl

/-- A step of a Manager that commutes with advancing the counters and, from counters at
zero, stays within the bounds, does not decrease the counters. -/
theorem manager_step_notDecreased (f : MCtx P → MCtx P) (bs : List Nat)
    (hf : ∀ (k : CounterShift) c, f (k.apply c) = k.apply (f c))
    (c : MCtx P) (h : CountersValid (managerCounters c))
    (hb : List.Forall₂ (fun d b => d ≤ b) (managerCounters (f (zeroManagerCounters c))) bs) :
    NotDecreased (managerCounters c) (managerCounters (f (zeroManagerCounters c))) bs
      (managerCounters (f c)) := by
  have h1 : managerCounters (f c) = List.zipWith (fun d x => (d + x) % UINT64_MOD)
      (managerCounters (f (zeroManagerCounters c))) (managerCounters c) := by
    conv_lhs => rw [← apply_zeroManagerCounters c h, hf]
    rfl
  rw [h1]
  exact notDecreased_zipWith _ _ _ hb rfl

/-- The environment after an operation does not depend on the counters. -/
theorem run_zeroManagerCounters_world (op : ManagerOp) (c : MCtx P)
    (h : CountersValid (managerCounters c)) :
    (op.run (zeroManagerCounters c)).world = (op.run c).world := by
  conv_rhs => rw [← apply_zeroManagerCounters c h, managerOp_advance]
  rfl

/-- C22: no operation decreases a counter, wrap-around apart.  For a Link used alone
(every `LinkOp`, and the receipt of a message) and for a Manager whose queue holds text
and binary entries, as `sendText` and `sendBinary` leave it (every `ManagerOp`, and the
receipt of a message by its Link), each of the Link's four traffic counters and of the
Manager's three message counters is afterwards its earlier value plus an amount `d`,
kept in 64 bits.  The amount is what the operation leaves in a counter that starts at
zero, and it is bounded by what the operation does: a Link operation adds at most one
sent message and the bytes of its own message; a receipt adds one received message and
the bytes received; a Manager operation adds to the sent messages and to the successes
at most the number of `websocketSend` calls it makes, to the failures at most one more,
to the sent bytes at most the bytes queued plus the bytes of its own message, and
nothing to the received traffic.  So a counter that its bound cannot take past the
largest `uint64_t` is afterwards exactly the earlier value plus `d`, and not below the
earlier value. -/
theorem counters_monotone (l : Ctx Unit) (c : MCtx P)
    (hl : CountersValid (linkCounters l)) (hc : CountersValid (managerCounters c))
    (ht : QueueTyped c) :
    (∀ op : LinkOp,
      NotDecreased (linkCounters l)
        (linkCounters (op.run (LinkCallbacks.observer Unit) (zeroLinkCounters l)))
        (linkBound op)
        (linkCounters (op.run (LinkCallbacks.observer Unit) l))) ∧
    (∀ message : WebSocketMessage,
      NotDecreased (linkCounters l)
        (linkCounters (DataLink.handleMessageReceived (LinkCallbacks.observer Unit) message
          (zeroLinkCounters l)))
        (receiptBound message)
        (linkCounters (DataLink.handleMessageReceived (LinkCallbacks.observer Unit) message
          l))) ∧
    (∀ op : ManagerOp,
      NotDecreased (managerCounters c) (managerCounters (op.run (zeroManagerCounters c)))
        (managerBound op c) (managerCounters (op.run c))) ∧
    (∀ message : WebSocketMessage,
      NotDecreased (managerCounters c)
        (managerCounters (DataLink.handleMessageReceived (WebSocketManager.linkCallbacks P)
          message (zeroManagerCounters c)))
        (managerReceiptBound message)
        (managerCounters (DataLink.handleMessageReceived (WebSocketManager.linkCallbacks P)
          message c))) := by
  have z1 : (zeroLinkCounters l).link.messages_sent_ = 0 := rfl
  have z2 : (zeroLinkCounters l).link.messages_received_ = 0 := rfl
  have z3 : (zeroLinkCounters l).link.bytes_sent_ = 0 := rfl
  have z4 : (zeroLinkCounters l).link.bytes_received_ = 0 := rfl
  have y1 : (zeroManagerCounters c).link.messages_sent_ = 0 := rfl
  have y2 : (zeroManagerCounters c).link.messages_received_ = 0 := rfl
  have y3 : (zeroManagerCounters c).link.bytes_sent_ = 0 := rfl
  have y4 : (zeroManagerCounters c).link.bytes_received_ = 0 := rfl
  have y5 : (zeroManagerCounters c).owner.messages_sent_success_ = 0 := rfl
  have y6 : (zeroManagerCounters c).owner.messages_sent_failed_ = 0 := rfl
  have y7 : (zeroManagerCounters c).owner.messages_received_ = 0 := rfl
  refine ⟨fun op => ?_, fun message => ?_, fun op => ?_, fun message => ?_⟩
  · refine link_step_notDecreased _ _
      (fun ds dr bs br c => linkOp_advance observer_commutes op c) l hl ?_
    obtain ⟨h1, h2, h3, h4⟩ := linkOp_bound op (zeroLinkCounters l)
    exact .cons (by omega) (.cons (by omega) (.cons (by omega) (.cons (by omega) .nil)))
  · refine link_step_notDecreased _ _
      (fun ds dr bs br c => handleMessageReceived_advance observer_commutes message c) l hl ?_
    obtain ⟨h1, h2, h3, h4⟩ := receipt_bound message (zeroLinkCounters l)
    exact .cons (by omega) (.cons (by omega) (.cons (by omega) (.cons (by omega) .nil)))
  · refine manager_step_notDecreased _ _ (fun k c => managerOp_advance op c) c hc ?_
    have hw := run_zeroManagerCounters_world op c hc
    have hs : (zeroManagerCounters c).world.sendCalls = c.world.sendCalls := rfl
    have hq : queuedBytes (zeroManagerCounters c) = queuedBytes c := rfl
    obtain ⟨h1, h2, h3, h4, h5, h6, h7, h8⟩ := managerOp_bound op (zeroManagerCounters c) ht
    rw [hw, hs] at h1 h5 h6 h8
    rw [hq] at h3
    exact .cons (by omega) (.cons (by omega) (.cons (by omega) (.cons (by omega)
      (.cons (by omega) (.cons (by omega) (.cons (by omega) .nil))))))
  · refine manager_step_notDecreased _ _
      (fun k c => handleMessageReceived_advance manager_commutes message c) c hc ?_
    obtain ⟨h1, h2, h3, h4, h5, h6, h7⟩ := managerReceipt_bound message (zeroManagerCounters c)
    exact .cons (by omega) (.cons (by omega) (.cons (by omega) (.cons (by omega)
      (.cons (by omega) (.cons (by omega) (.cons (by omega) .nil))))))

/-- Witness for C22: on a Link that has sent two messages of two and three bytes, one
more text message of three bytes takes the counters from 2, 0, 5, 0 to 3, 0, 8, 0,
within the bound 1, 0, 3, 0; on a connected Manager whose queue holds one binary message
of four bytes after a refused send, `processMessageQueue` makes one send and takes the
seven counters from 0, 0, 0, 0, 0, 1, 0 to 1, 0, 4, 0, 1, 1, 0, within the bound
1, 0, 4, 0, 1, 2, 0. -/
theorem counters_monotone_witness :
    CountersValid (linkCounters exampleTraffic) ∧
    CountersValid (managerCounters exampleBinaryQueued) ∧
    QueueTyped exampleBinaryQueued ∧
    linkCounters exampleTraffic = [2, 0, 5, 0] ∧
    linkBound (LinkOp.sendText "abc") = [1, 0, 3, 0] ∧
    linkCounters ((LinkOp.sendText "abc").run (LinkCallbacks.observer Unit) exampleTraffic) =
      [3, 0, 8, 0] ∧
    NotDecreased (linkCounters exampleTraffic)
      (linkCounters ((LinkOp.sendText "abc").run (LinkCallbacks.observer Unit)
        (zeroLinkCounters exampleTraffic)))
      (linkBound (LinkOp.sendText "abc"))
      (linkCounters ((LinkOp.sendText "abc").run (LinkCallbacks.observer Unit) exampleTraffic)) ∧
    managerCounters exampleBinaryQueued = [0, 0, 0, 0, 0, 1, 0] ∧
    managerBound ManagerOp.processMessageQueue exampleBinaryQueued = [1, 0, 4, 0, 1, 2, 0] ∧
    managerCounters (ManagerOp.processMessageQueue.run exampleBinaryQueued) =
      [1, 0, 4, 0, 1, 1, 0] ∧
    NotDecreased (managerCounters exampleBinaryQueued)
      (managerCounters (ManagerOp.processMessageQueue.run
        (zeroManagerCounters exampleBinaryQueued)))
      (managerBound ManagerOp.processMessageQueue exampleBinaryQueued)
      (managerCounters (ManagerOp.processMessageQueue.run exampleBinaryQueued)) :=
  have hl : CountersValid (linkCounters exampleTraffic) := by unfold CountersValid; decide
  have hc : CountersValid (managerCounters exampleBinaryQueued) := by
    unfold CountersValid; decide
  have ht : QueueTyped exampleBinaryQueued := runManagerOps_typed _ _ (freshManager_typed _)
  ⟨hl, hc, ht, by decide, by decide,  by decide,
    (counters_monotone exampleTraffic exampleBinaryQueued hl hc ht).1 (LinkOp.sendText "abc"),
    by decide, by decide, by decide,
    (counters_monotone exampleTraffic exampleBinaryQueued hl hc ht).2.2.1
      ManagerOp.processMessageQueue⟩

end CounterBoundTheorems


/-! ## The C interface: string outputs stay inside the buffer -/

section CApiTheorems

variable {P : PriorityQueue}

/-- A decimal digit character is not NUL. -/
theorem digitChar_toNat_ne_zero : ∀ d, d < 10 → (Nat.digitChar d).toNat ≠ 0 := by
  decide

/-- The digits `toDigitsCore` produces are not NUL. -/
theorem toDigitsCore_nulFree (fuel n : Nat) (ds : List Char) (h : ∀ c ∈ ds, c.toNat ≠ 0) :
    ∀ c ∈ Nat.toDigitsCore 10 fuel n ds, c.toNat ≠ 0 := by
  induction fuel generalizing n ds with
  | zero => simpa [Nat.toDigitsCore] using h
  | succ fuel ih =>
    have hd : ∀ c ∈ Nat.digitChar (n % 10) :: ds, c.toNat ≠ 0 := by
      intro c hc
      rcases List.mem_cons.mp hc with hc | hc
      · rw [hc]; exact digitChar_toNat_ne_zero _ (Nat.mod_lt _ (by decide))
      · exact h c hc
    unfold Nat.toDigitsCore
    dsimp only
    split_ifs
    · exact hd
    · exact ih _ _ hd

/-- The decimal text of a number has no NUL byte. -/
theorem decimal_nulFree (n : Nat) : NulFree (decimal n) := by
  intro b hb
  unfold decimal at hb
  obtain ⟨c, hc, rfl⟩ := List.mem_map.mp hb
  exact toDigitsCore_nulFree _ _ [] (by simp) c hc

/-- A concatenation of NUL-free strings is NUL-free. -/
theorem nulFree_append {s t : List Nat} (hs : NulFree s) (ht : NulFree t) : NulFree (s ++ t) := by
  intro b hb
  rcases List.mem_append.mp hb with hb | hb
  · exact hs b hb
  · exact ht b hb

/-- The text of a connection state has no NUL byte. -/
theorem stateText_nulFree (s : ConnectionState) : NulFree (stateText s) := by
  cases s <;> unfold NulFree stateText <;> decide

/-- The text of `DataLink::getStatistics` has no NUL byte. -/
theorem link_getStatistics_nulFree {M : Type} (c : Ctx M) :
    NulFree (DataLink.getStatistics c).1 := by
  unfold DataLink.getStatistics
  dsimp only
  split_ifs
  all_goals
    dsimp only
    repeat apply nulFree_append
  all_goals
    first
      | exact decimal_nulFree _
      | exact stateText_nulFree _
      | (unfold NulFree; decide)

/-- The text of `WebSocketManager::getStatistics` has no NUL byte. -/
theorem manager_getStatistics_nulFree (c : MCtx P) :
    NulFree (WebSocketManager.getStatistics c).1 := by
  unfold WebSocketManager.getStatistics
  dsimp only
  split_ifs
  all_goals
    dsimp only
    repeat apply nulFree_append
  all_goals
    first
      | exact decimal_nulFree _
      | exact stateText_nulFree _
      | exact link_getStatistics_nulFree _
      | (unfold NulFree; decide)

/-- The text of `WebSocketAPI::getStatistics` has no NUL byte. -/
theorem api_getStatistics_nulFree (api : WebSocketAPI P) : NulFree api.getStatistics.1 := by
  unfold WebSocketAPI.getStatistics
  cases api.manager_ with
  | none => dsimp only; unfold NulFree; decide
  | some manager => exact manager_getStatistics_nulFree manager

/-- A `std::string` made from a `const char*` has no NUL byte. -/
theorem stdString_nulFree (p : List Nat) : NulFree (stdString p) := by
  intro b hb
  have h := List.mem_takeWhile_imp hb
  simpa using h

/-- A value found in the map is the value of one of its entries. -/
theorem lookup_mem (key value : List Nat) (m : ConfigMap) (h : m.lookup key = some value) :
    (key, value) ∈ m := by
  induction m with
  | nil => simp at h
  | cons e m ih =>
    obtain ⟨k, v⟩ := e
    by_cases hk : key = k
    · subst hk
      simp only [List.lookup, beq_self_eq_true] at h
      cases h
      exact List.mem_cons_self _ _
    · have hb : (key == k) = false := by simpa using hk
      simp only [List.lookup, hb] at h
      exact List.mem_cons_of_mem _ (ih h)

/-- With clean values in the map, `NativePlatform::getConfig` returns no NUL byte. -/
theorem getConfig_nulFree (key : List Nat) (m : ConfigMap)
    (h : ∀ entry ∈ m, NulFree entry.2) : NulFree (NativePlatform.getConfig key m) := by
  unfold NativePlatform.getConfig
  cases hl : m.lookup key with
  | none => intro b hb; cases hb
  | some value => exact h _ (lookup_mem key value m hl)

/-- With clean values in the map, `WebSocketAPI::getConfig` returns no NUL byte. -/
theorem api_getConfig_nulFree (api : WebSocketAPI P) (key : List Nat) (m : ConfigMap)
    (h : ∀ entry ∈ m, NulFree entry.2) : NulFree (api.getConfig key m) := by
  unfold WebSocketAPI.getConfig
  cases api.manager_ with
  | none => intro b hb; cases hb
  | some manager => exact getConfig_nulFree key m h

/-- The function `ws_set_config` keeps the values of the map free of NUL bytes. -/
theorem ws_set_config_clean (handle : Option (websocket_handle P)) (key value : Option (List Nat))
    (h : ConfigClean handle) : ConfigClean (ws_set_config handle key value) := by
  unfold ws_set_config
  cases handle with
  | none => cases key <;> cases value <;> exact h
  | some hd =>
    cases key with
    | none => exact h
    | some key =>
      cases value with
      | none => exact h
      | some value =>
        dsimp only
        cases hapi : hd.api with
        | none => exact h
        | some api =>
          dsimp only
          intro h2 heq entry hentry
          cases heq
          dsimp only at hentry
          unfold WebSocketAPI.setConfig at hentry
          cases hm : api.manager_ with
          | none =>
            rw [hm] at hentry
            exact h hd rfl entry hentry
          | some manager =>
            rw [hm] at hentry
            dsimp only [NativePlatform.setConfig] at hentry
            rcases List.mem_cons.mp hentry with he | he
            · rw [he]
              exact stdString_nulFree value
            · exact h hd rfl entry (List.mem_filter.mp he).1

/-- For a string without NUL, `strncpy` of at most its length copies a prefix. -/
theorem strncpyBytes_c_str (s : List Nat) (hs : NulFree s) (k : Nat) (hk : k ≤ s.length) :
    strncpyBytes k (c_str s) = s.take k := by
  induction k generalizing s with
  | zero => simp [strncpyBytes]
  | succ k ih =>
    cases s with
    | nil => simp at hk
    | cons b s =>
      have hb : b ≠ 0 := hs b (List.mem_cons_self _ _)
      have hs2 : NulFree s := fun x hx => hs x (List.mem_cons_of_mem _ hx)
      have hk2 : k ≤ s.length := by simpa using hk
      have ih2 := ih s hs2 hk2
      unfold c_str at ih2
      show strncpyBytes (k + 1) (b :: (s ++ [0])) = b :: s.take k
      rw [← ih2]
      simp only [strncpyBytes, if_neg hb]

/-- Storing a byte right after a prefix of known length. -/
theorem set_after_prefix (pre mem : List Nat) (k : Nat) (hpre : pre.length = k)
    (hk : k < mem.length) (a : Nat) :
    (pre ++ mem.drop k).set k a = pre ++ a :: mem.drop (k + 1) := by
  subst hpre
  induction pre with
  | nil =>
    cases mem with
    | nil => simp at hk
    | cons m mem => simp
  | cons p pre ih =>
    simp only [List.cons_append, List.length_cons, List.set_cons_succ, List.cons.injEq,
      true_and]
    rw [List.set_append_right _ _ (Nat.le_refl _)]
    simp only [Nat.sub_self]
    have h2 : pre.length + 1 < mem.length := hk
    obtain ⟨x, xs, hx⟩ : ∃ x xs, mem.drop (pre.length + 1) = x :: xs := by
      cases hd : mem.drop (pre.length + 1) with
      | nil =>
        have := List.drop_eq_nil_iff.mp hd
        omega
      | cons x xs => exact ⟨x, xs, rfl⟩
    rw [hx, List.set_cons_zero]
    have h3 : mem.drop (pre.length + 1 + 1) = xs := by
      rw [← List.drop_drop, hx]
      rfl
    rw [h3]

/-- The two statements `strncpy(buffer, s.c_str(), copy_size); buffer[copy_size] = 0`
for a string without NUL and a buffer of `n` bytes at the start of `mem`. -/
theorem copy_out (s mem : List Nat) (n : Nat) (hs : NulFree s) (hn : 1 ≤ n)
    (hmem : n ≤ mem.length) :
    (strncpy mem (c_str s) (min s.length (n - 1))).set (min s.length (n - 1)) 0 =
      s.take (min s.length (n - 1)) ++ 0 :: mem.drop (min s.length (n - 1) + 1) := by
  have hk : min s.length (n - 1) ≤ s.length := Nat.min_le_left _ _
  have hk2 : min s.length (n - 1) < mem.length := by
    have := Nat.min_le_right s.length (n - 1)
    omega
  unfold strncpy
  rw [strncpyBytes_c_str s hs _ hk]
  exact set_after_prefix _ _ _ (by simp) hk2 0

/-- Behind a prefix and one more byte, the memory is the old one. -/
theorem drop_behind_prefix (pre mem : List Nat) (a k n : Nat) (hpre : pre.length = k)
    (hkn : k + 1 ≤ n) : (pre ++ a :: mem.drop (k + 1)).drop n = mem.drop n := by
  obtain ⟨j, rfl⟩ : ∃ j, n = pre.length + (j + 1) := ⟨n - (k + 1), by omega⟩
  rw [List.drop_append, List.drop_succ_cons, List.drop_drop]
  congr 1
  omega

/-- The result of the two copying statements is what `WroteString` describes. -/
theorem wroteString_of_copy (r : CallResult P) (s mem : List Nat) (n : Nat) (hs : NulFree s)
    (hn : 1 ≤ n) (hmem : n ≤ mem.length)
    (hret : r.ret = min s.length (n - 1))
    (hbuf : r.buffer = some ((strncpy mem (c_str s) (min s.length (n - 1))).set
      (min s.length (n - 1)) 0)) :
    WroteString r s mem n := by
  have hk : min s.length (n - 1) ≤ s.length := Nat.min_le_left _ _
  have hk2 : min s.length (n - 1) ≤ n - 1 := Nat.min_le_right _ _
  rw [copy_out s mem n hs hn hmem] at hbuf
  refine ⟨hret, ?_, by omega, ?_⟩
  · rw [hbuf, hret]
  · intro out hout
    rw [hbuf] at hout
    cases hout
    constructor
    · simp only [List.length_append, List.length_take, List.length_cons, List.length_drop]
      omega
    · have hlen : (s.take (min s.length (n - 1))).length = min s.length (n - 1) := by
        simp only [List.length_take]
        omega
      exact drop_behind_prefix _ mem 0 _ n hlen (by omega)

/-- C25: the C functions that return a string keep inside the caller's buffer.  For a
handle with its `api` (the values of its configuration map being C strings, as
`ws_create` leaves the map and `ws_set_config` keeps it), a buffer of `n >= 1` bytes at
the start of the memory `mem`, and `s` the statistics text or the configuration value
of the key: `ws_get_statistics` and `ws_get_config` return `min |s| (n - 1)`, write that
many first bytes of `s` and one NUL byte, and change nothing at index `n` or beyond;
with a null handle, a null `api`, a null key, a null buffer or `n = 0` they return 0 and
write nothing. -/
theorem c_api_strings_stay_in_buffer (h : websocket_handle P) (api : WebSocketAPI P)
    (hapi : h.api = some api) (hclean : ConfigClean (some h)) :
    (∀ mem n, 1 ≤ n → n ≤ mem.length →
      WroteString (ws_get_statistics (some h) (some mem) n) api.getStatistics.1 mem n) ∧
    (∀ key mem n, 1 ≤ n → n ≤ mem.length →
      WroteString (ws_get_config (some h) (some key) (some mem) n)
        (api.getConfig (stdString key) h.config_map_) mem n) ∧
    (∀ buffer n,
      WroteNothing (ws_get_statistics (none : Option (websocket_handle P)) buffer n) buffer ∧
      WroteNothing (ws_get_statistics (some ({ h with api := none } : websocket_handle P)) buffer n) buffer ∧
      WroteNothing (ws_get_statistics (some h) none n) none ∧
      WroteNothing (ws_get_statistics (some h) buffer 0) buffer) ∧
    (∀ key buffer n,
      WroteNothing (ws_get_config (none : Option (websocket_handle P)) key buffer n) buffer ∧
      WroteNothing (ws_get_config (some ({ h with api := none } : websocket_handle P)) key buffer n) buffer ∧
      WroteNothing (ws_get_config (some h) none buffer n) buffer ∧
      WroteNothing (ws_get_config (some h) key none n) none ∧
      WroteNothing (ws_get_config (some h) key buffer 0) buffer) ∧
    ConfigClean (some (ws_create P)) ∧
    (∀ key value, ConfigClean (ws_set_config (some h) key value)) := by
  refine ⟨?_, ?_, ?_, ?_, ?_, ?_⟩
  · intro mem n hn hmem
    have hn0 : ¬ n = 0 := by omega
    refine wroteString_of_copy _ _ mem n (api_getStatistics_nulFree api) hn hmem ?_ ?_
    · simp only [ws_get_statistics, hapi, if_neg hn0]
    · simp only [ws_get_statistics, hapi, if_neg hn0]
  · intro key mem n hn hmem
    have hn0 : ¬ n = 0 := by omega
    refine wroteString_of_copy _ _ mem n
      (api_getConfig_nulFree api _ _ (hclean h rfl)) hn hmem ?_ ?_
    · simp only [ws_get_config, hapi, if_neg hn0]
    · simp only [ws_get_config, hapi, if_neg hn0]
  · intro buffer n
    refine ⟨?_, ?_, ?_, ?_⟩
    · cases buffer <;> exact ⟨rfl, rfl⟩
    · cases buffer <;> exact ⟨rfl, rfl⟩
    · exact ⟨rfl, rfl⟩
    · cases buffer with
      | none => exact ⟨rfl, rfl⟩
      | some mem => simp only [ws_get_statistics, hapi, WroteNothing, if_true, and_self]
  · intro key buffer n
    refine ⟨?_, ?_, ?_, ?_, ?_⟩
    · cases key <;> cases buffer <;> exact ⟨rfl, rfl⟩
    · cases key <;> cases buffer <;> exact ⟨rfl, rfl⟩
    · cases buffer <;> exact ⟨rfl, rfl⟩
    · cases key <;> exact ⟨rfl, rfl⟩
    · cases key with
      | none => cases buffer <;> exact ⟨rfl, rfl⟩
      | some key =>
        cases buffer with
        | none => exact ⟨rfl, rfl⟩
        | some mem => simp only [ws_get_config, hapi, WroteNothing, if_true, and_self]
  · intro h2 heq entry hentry
    cases heq
    cases hentry
  · intro key value
    exact ws_set_config_clean (some h) key value hclean

/-- Witness for C25: on the example handle, whose configuration holds `fast` under
`mode`, `ws_get_config` with a buffer of three bytes at the start of six bytes of
memory returns 2 and writes `f`, `a` and NUL, the three bytes behind the buffer being
left as they were; `ws_get_statistics` with the same buffer writes the first two bytes
of the statistics text and NUL. -/
theorem c_api_strings_stay_in_buffer_witness :
    exampleHandle.api = some { manager_ := some exampleOneSendDone } ∧
    ConfigClean (some exampleHandle) ∧
    WroteString (ws_get_config (some exampleHandle) (some (c_str (utf8 "mode")))
      (some [9, 9, 9, 9, 9, 9]) 3) (utf8 "fast") [9, 9, 9, 9, 9, 9] 3 ∧
    (ws_get_config (some exampleHandle) (some (c_str (utf8 "mode")))
      (some [9, 9, 9, 9, 9, 9]) 3).ret = 2 ∧
    (ws_get_config (some exampleHandle) (some (c_str (utf8 "mode")))
      (some [9, 9, 9, 9, 9, 9]) 3).buffer = some [102, 97, 0, 9, 9, 9] ∧
    WroteString (ws_get_statistics (some exampleHandle) (some [9, 9, 9, 9, 9, 9]) 3)
      (WebSocketManager.getStatistics exampleOneSendDone).1 [9, 9, 9, 9, 9, 9] 3 :=
  have hclean : ConfigClean (some exampleHandle) := by
    intro h heq
    cases heq
    unfold NulFree
    decide
  ⟨rfl, hclean,
    (c_api_strings_stay_in_buffer exampleHandle { manager_ := some exampleOneSendDone } rfl
      hclean).2.1 (c_str (utf8 "mode")) [9, 9, 9, 9, 9, 9] 3 (by decide) (by decide),
    by decide, by decide,
    (c_api_strings_stay_in_buffer exampleHandle { manager_ := some exampleOneSendDone } rfl
      hclean).1 [9, 9, 9, 9, 9, 9] 3 (by decide) (by decide)⟩

end CApiTheorems

end cross_platform_websocket
